import Mathlib

/-!
# Frame orchestration of the cw2 renderer

A shallow embedding of `src/cw2/main.cpp` and `src/labutils/vkutil.cpp`.

Every Vulkan / GLFW entry point the program calls is an *event*; a run of a
piece of the program is the list of events it performs together with either
the value it returns or the fault that ended it.  What the driver answers
(the `VkResult` of each fallible call, the acquired image index, the outcome
of a swapchain rebuild) is supplied by a `World`, so every theorem below
quantifies over all answers the driver can give.
-/

set_option linter.unusedVariables false
set_option autoImplicit false

namespace Cw2

/-! ## Vulkan base types -/

/-- Every Vulkan handle (`VkBuffer`, `VkFence`, `VkImageView`, ...) is a number;
`0` is `VK_NULL_HANDLE`. -/
abbrev Handle := Nat

/-- The `VkResult` enumeration, by its integer value. -/
abbrev VkResult := Int

def VK_SUCCESS : VkResult := 0
def VK_SUBOPTIMAL_KHR : VkResult := 1000001003
def VK_ERROR_OUT_OF_DATE_KHR : VkResult := -1000001004
def VK_ERROR_DEVICE_LOST : VkResult := -4

/-- `VkAccessFlags` and `VkPipelineStageFlags` are both `VkFlags`, a 32-bit mask. -/
abbrev VkFlags := Nat

def VK_ACCESS_VERTEX_ATTRIBUTE_READ_BIT : VkFlags := 0x00000004
def VK_ACCESS_UNIFORM_READ_BIT : VkFlags := 0x00000008
def VK_ACCESS_SHADER_READ_BIT : VkFlags := 0x00000020
def VK_ACCESS_COLOR_ATTACHMENT_WRITE_BIT : VkFlags := 0x00000100
def VK_ACCESS_TRANSFER_WRITE_BIT : VkFlags := 0x00001000

def VK_PIPELINE_STAGE_VERTEX_INPUT_BIT : VkFlags := 0x00000004
def VK_PIPELINE_STAGE_VERTEX_SHADER_BIT : VkFlags := 0x00000008
def VK_PIPELINE_STAGE_FRAGMENT_SHADER_BIT : VkFlags := 0x00000080
def VK_PIPELINE_STAGE_COLOR_ATTACHMENT_OUTPUT_BIT : VkFlags := 0x00000400
def VK_PIPELINE_STAGE_TRANSFER_BIT : VkFlags := 0x00001000

def VK_COMMAND_BUFFER_USAGE_ONE_TIME_SUBMIT_BIT : VkFlags := 0x00000001
def VK_FENCE_CREATE_SIGNALED_BIT : VkFlags := 0x00000001
def VK_COMMAND_POOL_CREATE_TRANSIENT_BIT : VkFlags := 0x00000001
def VK_COMMAND_POOL_CREATE_RESET_COMMAND_BUFFER_BIT : VkFlags := 0x00000002

structure VkExtent2D where
  width : Nat
  height : Nat
deriving DecidableEq, Repr, Inhabited

/-- The float literals that occur in the clear values of `record_commands`. -/
inductive FloatLit
  | f0_0
  | f0_1
  | f1_0
deriving DecidableEq, Repr

/-- A `float` value, as its IEEE-754 binary32 bit pattern. -/
abbrev Float32 : Type := Nat

/-- The literals `0` and `0.0f`. -/
def f32_0 : Float32 := 0x00000000
/-- The literals `1` and `1.0f`. -/
def f32_1 : Float32 := 0x3F800000
/-- The literal `0.8f`. -/
def f32_0_8 : Float32 := 0x3F4CCCCD
/-- The literal `9.3f`. -/
def f32_9_3 : Float32 := 0x4114CCCD
/-- The literal `-3.0f`. -/
def f32_neg3 : Float32 := 0xC0400000
/-- The literal `-5.0f`. -/
def f32_neg5 : Float32 := 0xC0A00000

/-- The type `glm::vec3`. -/
structure Vec3 where
  x : Float32
  y : Float32
  z : Float32
deriving DecidableEq, Repr

/-- The type `glm::vec2`. -/
structure Vec2 where
  x : Float32
  y : Float32
deriving DecidableEq, Repr

/-- The type `glm::vec4`. -/
structure Vec4 where
  x : Float32
  y : Float32
  z : Float32
  w : Float32
deriving DecidableEq, Repr

/-- The conversion `glm::vec4(v, w)`. -/
def Vec4.ofVec3 (v : Vec3) (w : Float32) : Vec4 := { x := v.x, y := v.y, z := v.z, w := w }

/-- The global `glm::vec3 position(0.0f, 0.0f, -5.0f)` as initialised. -/
def initialPosition : Vec3 := { x := f32_0, y := f32_0, z := f32_neg5 }

/-- The global `glm::vec3 rotation(0)` as initialised. -/
def initialRotation : Vec3 := { x := f32_0, y := f32_0, z := f32_0 }

/-- The array `clearValues[2]`: the colour of element 0 and the depth of element 1. -/
structure ClearValues where
  color : List FloatLit
  depth : FloatLit
deriving DecidableEq, Repr

structure VkBufferMemoryBarrier where
  srcAccessMask : VkFlags
  dstAccessMask : VkFlags
  srcQueueFamilyIndex : Nat
  dstQueueFamilyIndex : Nat
  buffer : Handle
  offset : Nat
  size : Nat
deriving DecidableEq, Repr

structure VkRenderPassBeginInfo where
  renderPass : Handle
  framebuffer : Handle
  renderArea : VkExtent2D
  clearValueCount : Nat
  pClearValues : ClearValues
deriving DecidableEq, Repr

/-- Which host object the `pData` pointer of a `vkCmdUpdateBuffer` points at. -/
inductive UniformSource
  | aSceneUniform
  | aMaterialUniforms (i : Nat)
  | aMaterialPBRUniforms (i : Nat)
deriving DecidableEq, Repr

/-- The commands `record_commands` records into a command buffer, with the
arguments the source passes. -/
inductive Cmd
  | vkCmdPipelineBarrier (srcStageMask dstStageMask dependencyFlags : VkFlags)
      (memoryBarrierCount : Nat) (bufferMemoryBarriers : List VkBufferMemoryBarrier)
      (imageMemoryBarrierCount : Nat)
  | vkCmdUpdateBuffer (dstBuffer : Handle) (dstOffset dataSize : Nat) (pData : UniformSource)
  | vkCmdBeginRenderPass (info : VkRenderPassBeginInfo)
  | vkCmdBindDescriptorSets (layout : Handle) (firstSet : Nat) (sets : List Handle)
  | vkCmdBindPipeline (pipeline : Handle)
  | vkCmdBindVertexBuffers (firstBinding : Nat) (buffers : List Handle) (offsets : List Nat)
  | vkCmdDraw (vertexCount instanceCount firstVertex firstInstance : Nat)
  | vkCmdEndRenderPass
  | vkCmdCopyBuffer (srcBuffer dstBuffer : Handle) (size : Nat)
deriving DecidableEq, Repr

/-! ## Objects the program creates -/

inductive VkImageLayout
  | VK_IMAGE_LAYOUT_UNDEFINED
  | VK_IMAGE_LAYOUT_COLOR_ATTACHMENT_OPTIMAL
  | VK_IMAGE_LAYOUT_DEPTH_STENCIL_ATTACHMENT_OPTIMAL
  | VK_IMAGE_LAYOUT_SHADER_READ_ONLY_OPTIMAL
  | VK_IMAGE_LAYOUT_PRESENT_SRC_KHR
deriving DecidableEq, Repr

/-- The `VkFormat` enumeration, by its integer value. -/
abbrev VkFormat := Nat

def VK_FORMAT_D32_SFLOAT : VkFormat := 126
def kDepthFormat : VkFormat := VK_FORMAT_D32_SFLOAT

def VK_SUBPASS_EXTERNAL : Nat := 4294967295
def VK_DEPENDENCY_BY_REGION_BIT : VkFlags := 0x00000001
def VK_ATTACHMENT_LOAD_OP_CLEAR : Nat := 1
def VK_ATTACHMENT_STORE_OP_STORE : Nat := 0
def VK_SHADER_STAGE_VERTEX_BIT : VkFlags := 0x00000001
def VK_SHADER_STAGE_FRAGMENT_BIT : VkFlags := 0x00000010
def VK_DESCRIPTOR_TYPE_COMBINED_IMAGE_SAMPLER : Nat := 1
def VK_DESCRIPTOR_TYPE_UNIFORM_BUFFER : Nat := 6
def VK_IMAGE_USAGE_SAMPLED_BIT : VkFlags := 0x00000004
def VK_IMAGE_USAGE_COLOR_ATTACHMENT_BIT : VkFlags := 0x00000010
def VK_IMAGE_USAGE_DEPTH_STENCIL_ATTACHMENT_BIT : VkFlags := 0x00000020
def VK_IMAGE_ASPECT_COLOR_BIT : VkFlags := 0x00000001
def VK_IMAGE_ASPECT_DEPTH_BIT : VkFlags := 0x00000002
def VK_BUFFER_USAGE_TRANSFER_DST_BIT : VkFlags := 0x00000002
def VK_BUFFER_USAGE_UNIFORM_BUFFER_BIT : VkFlags := 0x00000010
def VK_CULL_MODE_FRONT_BIT : VkFlags := 0x00000001
def VK_CULL_MODE_BACK_BIT : VkFlags := 0x00000002

structure VkAttachmentDescription where
  format : VkFormat
  loadOp : Nat
  storeOp : Nat
  initialLayout : VkImageLayout
  finalLayout : VkImageLayout
deriving DecidableEq, Repr

structure VkAttachmentReference where
  attachment : Nat
  layout : VkImageLayout
deriving DecidableEq, Repr

structure VkSubpassDescription where
  colorAttachments : List VkAttachmentReference
  depthStencilAttachment : Option VkAttachmentReference
deriving DecidableEq, Repr

structure VkSubpassDependency where
  srcSubpass : Nat
  dstSubpass : Nat
  srcStageMask : VkFlags
  dstStageMask : VkFlags
  srcAccessMask : VkFlags
  dstAccessMask : VkFlags
  dependencyFlags : VkFlags
deriving DecidableEq, Repr

structure VkRenderPassCreateInfo where
  attachments : List VkAttachmentDescription
  subpasses : List VkSubpassDescription
  dependencies : List VkSubpassDependency
deriving DecidableEq, Repr

structure VkDescriptorSetLayoutBinding where
  binding : Nat
  descriptorType : Nat
  descriptorCount : Nat
  stageFlags : VkFlags
deriving DecidableEq, Repr

structure VkImageCreateInfo where
  format : VkFormat
  extent : VkExtent2D
  usage : VkFlags
deriving DecidableEq, Repr

structure VkImageViewCreateInfo where
  image : Handle
  format : VkFormat
  aspectMask : VkFlags
deriving DecidableEq, Repr

structure VkFramebufferCreateInfo where
  renderPass : Handle
  attachments : List Handle
  width : Nat
  height : Nat
  layers : Nat
deriving DecidableEq, Repr

/-- The fields of `VkGraphicsPipelineCreateInfo` in which the five pipeline
constructors of `main.cpp` differ from one another or depend on their arguments. -/
structure VkGraphicsPipelineCreateInfo where
  vert : Handle
  frag : Handle
  vertexBindingDescriptionCount : Nat
  vertexAttributeDescriptionCount : Nat
  viewport : VkExtent2D
  scissor : VkExtent2D
  cullMode : VkFlags
  layout : Handle
  renderPass : Handle
  subpass : Nat
deriving DecidableEq, Repr

/-- What a creation call was asked to create. -/
inductive Object
  | window
  | device
  | queue
  | swapchain (format : VkFormat) (extent : VkExtent2D)
  | swapView (swapchain : Handle) (index : Nat)
  | allocator
  | renderPass (info : VkRenderPassCreateInfo)
  | descriptorSetLayout (bindings : List VkDescriptorSetLayoutBinding)
  | pipelineLayout (setLayouts : List Handle)
  | shaderModule (path : String) (codeSize : Nat)
  | pipeline (info : VkGraphicsPipelineCreateInfo)
  | image (info : VkImageCreateInfo)
  | imageView (info : VkImageViewCreateInfo)
  | framebuffer (info : VkFramebufferCreateInfo)
  | commandPool (flags : VkFlags)
  | commandBuffer (pool : Handle)
  | fence (flags : VkFlags)
  | semaphore
  | descriptorPool
  | descriptorSet (pool layout : Handle)
  | buffer (size : Nat) (usage : VkFlags)
  | sampler (mipLevels : Nat)
deriving DecidableEq, Repr

/-- One element of the `VkWriteDescriptorSet` array of a `vkUpdateDescriptorSets`. -/
inductive DescriptorInfo
  | image (imageLayout : VkImageLayout) (imageView sampler : Handle)
  | buffer (buffer : Handle)
deriving DecidableEq, Repr

structure VkWriteDescriptorSet where
  dstSet : Handle
  dstBinding : Nat
  descriptorType : Nat
  descriptorCount : Nat
  info : DescriptorInfo
deriving DecidableEq, Repr

structure VkSubmitInfo where
  commandBuffers : List Handle
  waitSemaphores : List Handle
  waitDstStageMask : List VkFlags
  signalSemaphores : List Handle
deriving DecidableEq, Repr

structure VkPresentInfoKHR where
  waitSemaphores : List Handle
  swapchains : List Handle
  imageIndices : List Nat
deriving DecidableEq, Repr

/-! ## Events, faults and the driver state -/

/-- A call the program makes to Vulkan, VMA, GLFW or the C library, with the
arguments it passes and, for a fallible call, the status that came back. -/
inductive Event
  | glfwPollEvents
  | glfwSetKeyCallback
  | glfwSetMouseButtonCallback
  | glfwSetCursorPosCallback
  | vkDeviceWaitIdle
  | recreate_swapchain
  | create (o : Object) (res : VkResult) (h : Handle)
  | destroy (h : Handle)
  | vkUpdateDescriptorSets (writes : List VkWriteDescriptorSet)
  | fopen (path : String) (opened : Bool)
  | fread (path : String) (offset requested read : Nat)
  | fclose (path : String)
  | vkAcquireNextImageKHR (swapchain semaphore fence : Handle) (res : VkResult) (imageIndex : Nat)
  | vkWaitForFences (fences : List Handle) (res : VkResult)
  | vkResetFences (fences : List Handle) (res : VkResult)
  | vkBeginCommandBuffer (cb : Handle) (flags : VkFlags) (res : VkResult)
  | record (cb : Handle) (c : Cmd)
  | vkEndCommandBuffer (cb : Handle) (res : VkResult)
  | vkQueueSubmit (queue : Handle) (submit : VkSubmitInfo) (fence : Handle) (res : VkResult)
  | vkQueuePresentKHR (queue : Handle) (info : VkPresentInfoKHR) (res : VkResult)
  | vmaMapMemory (buffer : Handle) (res : VkResult)
  | memcpy (buffer : Handle) (bytes : Nat)
  | vmaUnmapMemory (buffer : Handle)
deriving DecidableEq, Repr

/-- How a run ends when it does not return: a thrown `lut::Error`, a failed
`assert`, or a `std::vector` element access outside the vector. -/
inductive Fault
  | error (what : String) (res : VkResult)
  | assertion (what : String)
  | outOfRange (what : String)
deriving DecidableEq, Repr

/-- The driver side: the next handle it hands out, the creation parameters of
every object created so far, the handles destroyed so far, and the descriptor
writes performed so far (most recent first). -/
structure Device where
  nextHandle : Handle
  objects : List (Handle × Object)
  destroyed : List Handle
  descriptorWrites : List VkWriteDescriptorSet
deriving DecidableEq, Repr, Inhabited

/-- A precompiled shader file: its length and what each `fread` at a given
word offset returns when asked for a given number of words. -/
structure ShaderFile where
  bytes : Nat
  fread : Nat → Nat → Nat

/-- The fallible calls of one main-loop iteration, and of the upload of a mesh,
that do not create an object. -/
inductive Site
  | vkAcquireNextImageKHR
  | vkWaitForFences
  | vkResetFences
  | vkBeginCommandBuffer
  | vkEndCommandBuffer
  | vkQueueSubmit
  | vkQueuePresentKHR
  | vmaMapMemory
deriving DecidableEq, Repr

/-- Everything the environment decides during one main-loop iteration (or
during start-up): whether the window was asked to close, the status of every
fallible call, the image index the acquire writes, the values the globals
`numLight`, `position` and `rotation` have when a frame reads them (the key and
cursor callbacks set them), the swapchain
the window system hands back on a rebuild, and the shader files on disk.  The status of a
creation call is looked up by the handle the call would return. -/
structure World where
  glfwWindowShouldClose : Bool
  result : Site → VkResult
  createResult : Handle → VkResult
  imageIndex : Nat
  numLight : Int
  position : Vec3
  rotation : Vec3
  swapImageCount : Nat
  swapchainFormat : VkFormat
  swapchainExtent : VkExtent2D
  files : String → Option ShaderFile

/-- How a run ended: with a value and the driver state, or with a fault. -/
inductive Outcome (α : Type)
  | done (a : α) (d : Device)
  | fault (f : Fault)
deriving Repr

/-- A piece of the program: from the driver state, the events performed and the outcome. -/
def Exec (α : Type) : Type := Device → List Event × Outcome α

namespace Exec

def pure {α : Type} (a : α) : Exec α := fun d => ([], .done a d)

def bind {α β : Type} (x : Exec α) (f : α → Exec β) : Exec β := fun d =>
  match x d with
  | (t, .fault e) => (t, .fault e)
  | (t, .done a d1) => (t ++ (f a d1).1, (f a d1).2)

instance : Monad Exec where
  pure := Exec.pure
  bind := Exec.bind

/-- Perform one call that cannot fail. -/
def emit (e : Event) : Exec Unit := fun d => ([e], .done () d)

/-- End the run: `throw lut::Error(...)`, a failed `assert`, or an access out of range. -/
def raise {α : Type} (f : Fault) : Exec α := fun _ => ([], .fault f)

/-- The statement `assert(c)`. -/
def assert (c : Bool) (what : String) : Exec Unit :=
  if c then Exec.pure () else raise (.assertion what)

/-- A fallible call that creates nothing: perform it, throw when the status is not `VK_SUCCESS`. -/
def call (res : VkResult) (e : Event) (what : String) : Exec Unit := fun d =>
  if res = VK_SUCCESS then ([e], .done () d) else ([e], .fault (.error what res))

/-- A fallible creation call: on `VK_SUCCESS` the driver hands out its next
handle and remembers the creation parameters, otherwise the caller throws. -/
def create (w : World) (o : Object) (what : String) : Exec Handle := fun d =>
  if w.createResult d.nextHandle = VK_SUCCESS then
    ([.create o VK_SUCCESS d.nextHandle],
      .done d.nextHandle { d with nextHandle := d.nextHandle + 1, objects := (d.nextHandle, o) :: d.objects })
  else
    ([.create o (w.createResult d.nextHandle) 0], .fault (.error what (w.createResult d.nextHandle)))

/-- Destruction of the object behind a handle; destroying `VK_NULL_HANDLE` does nothing. -/
def destroy (h : Handle) : Exec Unit := fun d =>
  if h = 0 then ([], .done () d) else ([.destroy h], .done () { d with destroyed := h :: d.destroyed })

/-- The call `vkUpdateDescriptorSets(device, n, desc, 0, nullptr)`. -/
def vkUpdateDescriptorSets (writes : List VkWriteDescriptorSet) : Exec Unit := fun d =>
  ([.vkUpdateDescriptorSets writes], .done () { d with descriptorWrites := writes.reverse ++ d.descriptorWrites })

/-- The element access `xs[i]` of a `std::vector`. -/
def index {α : Type} (xs : List α) (i : Nat) (what : String) : Exec α :=
  match xs.get? i with
  | some x => Exec.pure x
  | none => raise (.outOfRange what)

/-- The loop `for (i = start; i < start + count; ++i) body(i)`. -/
def forLoopFrom (body : Nat → Exec Unit) : Nat → Nat → Exec Unit
  | _, 0 => Exec.pure ()
  | i, k + 1 => Exec.bind (body i) (fun _ => forLoopFrom body (i + 1) k)

/-- The loop `for (size_t i = 0; i < n; i++) body(i)`. -/
def forLoop (n : Nat) (body : Nat → Exec Unit) : Exec Unit := forLoopFrom body 0 n

/-- A loop that appends one element per iteration to a vector (`emplace_back`),
or assigns the elements of a vector in index order. -/
def collectFrom {α : Type} (body : Nat → Exec α) : Nat → Nat → Exec (List α)
  | _, 0 => Exec.pure []
  | i, k + 1 =>
    Exec.bind (body i) (fun x => Exec.bind (collectFrom body (i + 1) k) (fun xs => Exec.pure (x :: xs)))

/-- The loop `for (size_t i = 0; i < n; i++) v.emplace_back(body(i))`. -/
def collect {α : Type} (n : Nat) (body : Nat → Exec α) : Exec (List α) := collectFrom body 0 n

/-- Destruction of every element of a vector, in order (`clear()`). -/
def destroyAll : List Handle → Exec Unit
  | [] => Exec.pure ()
  | h :: hs => Exec.bind (destroy h) (fun _ => destroyAll hs)

end Exec

/-! ## Program data -/

/-- The fields of `lut::VulkanWindow` that `main.cpp` reads (the type is declared
in `vulkan_window.hpp`). -/
structure VulkanWindow where
  window : Handle
  device : Handle
  graphicsQueue : Handle
  presentQueue : Handle
  swapchain : Handle
  swapViews : List Handle
  swapchainFormat : VkFormat
  swapchainExtent : VkExtent2D
deriving DecidableEq, Repr, Inhabited

/-- The struct `MaterialInfo` of `model.hpp`: its name and its field `color`;
the other colour and scalar fields are floats that no index depends on. -/
structure MaterialInfo where
  materialName : String
  color : Vec3 := { x := f32_0, y := f32_0, z := f32_0 }
deriving DecidableEq, Repr

/-- The struct `MeshInfo` of `model.hpp`. -/
structure MeshInfo where
  meshName : String
  materialIndex : Nat
  vertexStartIndex : Nat
  numberOfVertices : Nat
deriving DecidableEq, Repr

/-- The struct `LoadedMesh` of `model.hpp`: per submesh five vertex buffers, a
vertex count and a material index. -/
structure LoadedMesh where
  positions : List Handle
  normals : List Handle
  texCorods : List Handle
  colors : List Handle
  surfaceNormals : List Handle
  vertexCount : List Nat
  materialIndex : List Int
deriving DecidableEq, Repr, Inhabited

/-- The struct `glsl::SceneUniform` without its four matrices (`camera`,
`projection`, `projcam`, `rotation`), which are results of float arithmetic:
the camera position, the three light positions and colours, and the light
count `size`.  The defaults are those of `glsl::SceneUniform sceneUniforms{}`. -/
structure SceneUniform where
  cameraPos : Vec4 := { x := f32_0, y := f32_0, z := f32_0, w := f32_0 }
  lightPos : List Vec4 := List.replicate 3 { x := f32_0, y := f32_0, z := f32_0, w := f32_0 }
  lightColor : List Vec4 := List.replicate 3 { x := f32_0, y := f32_0, z := f32_0, w := f32_0 }
  size : Int := 3
deriving DecidableEq, Repr

/-- The struct `glsl::MaterialUniform`: four float fields, all copied from one
entry of `carModel.materials`, whose index is kept (`none`: value-initialised). -/
structure MaterialUniform where
  material : Option Nat
deriving DecidableEq, Repr

/-- The struct `glsl::MaterialPBRUniform`: float fields copied from one entry of
`carModel.materials`, and the light count `size`. -/
structure MaterialPBRUniform where
  material : Option Nat
  size : Int
deriving DecidableEq, Repr

def sizeof_float : Nat := 4
def sizeof_int : Nat := 4
def sizeof_vec4 : Nat := 4 * sizeof_float
def sizeof_mat4 : Nat := 4 * sizeof_vec4

/-- The value of `sizeof(glsl::SceneUniform)`: three `mat4`, `cameraPos`, `lightPos[3]`,
`lightColor[3]`, one `mat4`, one `int`. -/
def sizeof_SceneUniform : Nat :=
  3 * sizeof_mat4 + sizeof_vec4 + 3 * sizeof_vec4 + 3 * sizeof_vec4 + sizeof_mat4 + sizeof_int

/-- The value of `sizeof(glsl::MaterialUniform)`: three `vec4` and one `float`. -/
def sizeof_MaterialUniform : Nat := 3 * sizeof_vec4 + sizeof_float

/-- The value of `sizeof(glsl::MaterialPBRUniform)`: two `vec4`, two `float`, one `int`. -/
def sizeof_MaterialPBRUniform : Nat := 2 * sizeof_vec4 + 2 * sizeof_float + sizeof_int

/-- The default arguments of `buffer_barrier` (`aSize`, `aOffset` and the two
queue family indices), which are declared in `vkutil.hpp`. -/
structure BufferBarrierDefaults where
  aSize : Nat
  aOffset : Nat
  aSrcQueueFamilyIndex : Nat
  aDstQueueFamilyIndex : Nat
deriving DecidableEq, Repr

/-! ## `labutils/vkutil.cpp` -/

/-- Record one command into a command buffer (any `vkCmd*` call). -/
def vkCmd (aCmdBuff : Handle) (c : Cmd) : Exec Unit := Exec.emit (.record aCmdBuff c)

/-- The function `labutils::buffer_barrier`.  The two stage-mask arguments of
`vkCmdPipelineBarrier` are `aSrcAccessMask` and `aDstAccessMask`, as in the source. -/
def buffer_barrier (aCmdBuffer aBuffer : Handle) (aSrcAccessMask aDstAccessMask : VkFlags)
    (aSrcStageMask aDstStageMask : VkFlags) (aSize aOffset : Nat)
    (aSrcQueueFamilyIndex aDstQueueFamilyIndex : Nat) : Exec Unit :=
  let bbarrier : VkBufferMemoryBarrier :=
    { srcAccessMask := aSrcAccessMask
      dstAccessMask := aDstAccessMask
      buffer := aBuffer
      size := aSize
      offset := aOffset
      srcQueueFamilyIndex := aSrcQueueFamilyIndex
      dstQueueFamilyIndex := aDstQueueFamilyIndex }
  vkCmd aCmdBuffer (.vkCmdPipelineBarrier aSrcAccessMask aDstAccessMask 0 0 [bbarrier] 0)

/-- A call of `buffer_barrier` with six arguments: the last four take their defaults. -/
def buffer_barrier6 (bd : BufferBarrierDefaults) (aCmdBuffer aBuffer : Handle)
    (aSrcAccessMask aDstAccessMask aSrcStageMask aDstStageMask : VkFlags) : Exec Unit :=
  buffer_barrier aCmdBuffer aBuffer aSrcAccessMask aDstAccessMask aSrcStageMask aDstStageMask
    bd.aSize bd.aOffset bd.aSrcQueueFamilyIndex bd.aDstQueueFamilyIndex

/-! ## `cw2/main.cpp`: recording and submission -/

/-- The parameters of `record_commands`, under their names in the definition. -/
structure RecordArgs where
  aCmdBuff : Handle
  aBackRenderPass : Handle
  aRenderPass : Handle
  aFrameBackBuffer : Handle
  aBackbuffer : Handle
  aFilterHorizontalBuffer : Handle
  aFilterVerticalBuffer : Handle
  aFramebuffer : Handle
  aGraphicsPipe : Handle
  aFilterPipe : Handle
  aHorizontalPipe : Handle
  aVerticalPipe : Handle
  aPostPipe : Handle
  aImageExtent : VkExtent2D
  car : LoadedMesh
  aSceneUBO : Handle
  aSceneUniform : SceneUniform
  aGraphicsLayout : Handle
  aGraphicsLayoutTexture : Handle
  aSceneDesctipror : Handle
  aBackFrameBufferDescriptor : Handle
  aBackBufferDescriptor : Handle
  aFilterHorizontalDescriptor : Handle
  aFilterVerticalDescriptor : Handle
  aMaterialUBOs : List Handle
  aMaterialUniforms : List MaterialUniform
  aMaterialDescriptor : List Handle
  aMaterialPBRUBOs : List Handle
  aMaterialPBRUniforms : List MaterialPBRUniform
  aMaterialPBRDescriptor : List Handle
deriving DecidableEq, Repr

/-- The element access `xs[z]` of a `std::vector` with an `int` index: a negative
index converts to a `size_t` beyond every vector. -/
def indexInt {α : Type} (xs : List α) (z : Int) (what : String) : Exec α :=
  if z < 0 then Exec.raise (.outOfRange what) else Exec.index xs z.toNat what

/-- Body of the material upload loop of `record_commands` (iteration `i`). -/
def uploadMaterial (bd : BufferBarrierDefaults) (a : RecordArgs) (i : Nat) : Exec Unit := do
  -- Normal material
  let ubo ← Exec.index a.aMaterialUBOs i "aMaterialUBOs[i]"
  buffer_barrier6 bd a.aCmdBuff ubo
    VK_ACCESS_UNIFORM_READ_BIT VK_ACCESS_TRANSFER_WRITE_BIT
    VK_PIPELINE_STAGE_VERTEX_SHADER_BIT VK_PIPELINE_STAGE_TRANSFER_BIT
  let _ ← Exec.index a.aMaterialUniforms i "aMaterialUniforms[i]"
  vkCmd a.aCmdBuff (.vkCmdUpdateBuffer ubo 0 sizeof_MaterialUniform (.aMaterialUniforms i))
  buffer_barrier6 bd a.aCmdBuff ubo
    VK_ACCESS_TRANSFER_WRITE_BIT VK_ACCESS_UNIFORM_READ_BIT
    VK_PIPELINE_STAGE_TRANSFER_BIT VK_PIPELINE_STAGE_VERTEX_SHADER_BIT
  -- PBR material
  let pbr ← Exec.index a.aMaterialPBRUBOs i "aMaterialPBRUBOs[i]"
  buffer_barrier6 bd a.aCmdBuff pbr
    VK_ACCESS_UNIFORM_READ_BIT VK_ACCESS_TRANSFER_WRITE_BIT
    VK_PIPELINE_STAGE_VERTEX_SHADER_BIT VK_PIPELINE_STAGE_TRANSFER_BIT
  let _ ← Exec.index a.aMaterialPBRUniforms i "aMaterialPBRUniforms[i]"
  vkCmd a.aCmdBuff (.vkCmdUpdateBuffer pbr 0 sizeof_MaterialPBRUniform (.aMaterialPBRUniforms i))
  buffer_barrier6 bd a.aCmdBuff pbr
    VK_ACCESS_TRANSFER_WRITE_BIT VK_ACCESS_UNIFORM_READ_BIT
    VK_PIPELINE_STAGE_TRANSFER_BIT VK_PIPELINE_STAGE_VERTEX_SHADER_BIT

/-- Body of the two draw loops of `record_commands` (iteration `i`), which differ
only in the pipeline they bind. -/
def drawSubmesh (a : RecordArgs) (pipeline : Handle) (i : Nat) : Exec Unit := do
  let m ← Exec.index a.car.materialIndex i "car.materialIndex[i]"
  let matDesc ← indexInt a.aMaterialDescriptor m "aMaterialDescriptor[car.materialIndex[i]]"
  vkCmd a.aCmdBuff (.vkCmdBindDescriptorSets a.aGraphicsLayout 1 [matDesc])
  let m2 ← Exec.index a.car.materialIndex i "car.materialIndex[i]"
  let pbrDesc ← indexInt a.aMaterialPBRDescriptor m2 "aMaterialPBRDescriptor[car.materialIndex[i]]"
  vkCmd a.aCmdBuff (.vkCmdBindDescriptorSets a.aGraphicsLayout 2 [pbrDesc])
  vkCmd a.aCmdBuff (.vkCmdBindPipeline pipeline)
  let b0 ← Exec.index a.car.positions i "car.positions[i]"
  let b1 ← Exec.index a.car.normals i "car.normals[i]"
  let b2 ← Exec.index a.car.texCorods i "car.texCorods[i]"
  let b3 ← Exec.index a.car.colors i "car.colors[i]"
  let b4 ← Exec.index a.car.surfaceNormals i "car.surfaceNormals[i]"
  vkCmd a.aCmdBuff (.vkCmdBindVertexBuffers 0 [b0, b1, b2, b3, b4] [0, 0, 0, 0, 0])
  let n ← Exec.index a.car.vertexCount i "car.vertexCount[i]"
  vkCmd a.aCmdBuff (.vkCmdDraw n 1 0 0)

/-- The clear values at the first `vkCmdBeginRenderPass`. -/
def clearValuesBlack : ClearValues :=
  { color := [.f0_0, .f0_0, .f0_0, .f1_0], depth := .f1_0 }

/-- The clear values after the assignments that follow the horizontal blur pass. -/
def clearValuesGray : ClearValues :=
  { color := [.f0_1, .f0_1, .f0_1, .f1_0], depth := .f1_0 }

/-- The function `record_commands` of `main.cpp`. -/
def record_commands (w : World) (bd : BufferBarrierDefaults) (a : RecordArgs) : Exec Unit := do
  -- Begin recording commands
  Exec.call (w.result .vkBeginCommandBuffer)
    (.vkBeginCommandBuffer a.aCmdBuff VK_COMMAND_BUFFER_USAGE_ONE_TIME_SUBMIT_BIT
      (w.result .vkBeginCommandBuffer))
    "Unable to begin recording command buffer"
  -- Upload scene uniforms
  buffer_barrier6 bd a.aCmdBuff a.aSceneUBO
    VK_ACCESS_UNIFORM_READ_BIT VK_ACCESS_TRANSFER_WRITE_BIT
    VK_PIPELINE_STAGE_VERTEX_SHADER_BIT VK_PIPELINE_STAGE_TRANSFER_BIT
  vkCmd a.aCmdBuff (.vkCmdUpdateBuffer a.aSceneUBO 0 sizeof_SceneUniform .aSceneUniform)
  buffer_barrier6 bd a.aCmdBuff a.aSceneUBO
    VK_ACCESS_TRANSFER_WRITE_BIT VK_ACCESS_UNIFORM_READ_BIT
    VK_PIPELINE_STAGE_TRANSFER_BIT VK_PIPELINE_STAGE_VERTEX_SHADER_BIT
  -- Upload material uniforms
  Exec.forLoop a.aMaterialDescriptor.length (uploadMaterial bd a)
  -- Begin render pass
  let backPassInfo : VkRenderPassBeginInfo :=
    { renderPass := a.aBackRenderPass
      framebuffer := a.aBackbuffer
      renderArea := a.aImageExtent
      clearValueCount := 2
      pClearValues := clearValuesBlack }
  vkCmd a.aCmdBuff (.vkCmdBeginRenderPass backPassInfo)
  vkCmd a.aCmdBuff (.vkCmdBindDescriptorSets a.aGraphicsLayout 0 [a.aSceneDesctipror])
  Exec.forLoop a.car.positions.length (drawSubmesh a a.aFilterPipe)
  vkCmd a.aCmdBuff .vkCmdEndRenderPass
  -- Gaussian blur, horizontal first
  let backPassInfo := { backPassInfo with framebuffer := a.aFilterHorizontalBuffer }
  vkCmd a.aCmdBuff (.vkCmdBeginRenderPass backPassInfo)
  vkCmd a.aCmdBuff (.vkCmdBindPipeline a.aHorizontalPipe)
  vkCmd a.aCmdBuff (.vkCmdBindDescriptorSets a.aGraphicsLayoutTexture 0 [a.aBackBufferDescriptor])
  vkCmd a.aCmdBuff (.vkCmdDraw 3 1 0 0)
  vkCmd a.aCmdBuff .vkCmdEndRenderPass
  -- Now vertical
  let backPassInfo :=
    { backPassInfo with pClearValues := clearValuesGray, framebuffer := a.aFilterVerticalBuffer }
  vkCmd a.aCmdBuff (.vkCmdBeginRenderPass backPassInfo)
  vkCmd a.aCmdBuff (.vkCmdBindPipeline a.aVerticalPipe)
  vkCmd a.aCmdBuff (.vkCmdBindDescriptorSets a.aGraphicsLayoutTexture 0 [a.aFilterHorizontalDescriptor])
  vkCmd a.aCmdBuff (.vkCmdDraw 3 1 0 0)
  vkCmd a.aCmdBuff .vkCmdEndRenderPass
  -- Render the actual scene
  let backPassInfo := { backPassInfo with framebuffer := a.aFrameBackBuffer }
  vkCmd a.aCmdBuff (.vkCmdBeginRenderPass backPassInfo)
  vkCmd a.aCmdBuff (.vkCmdBindDescriptorSets a.aGraphicsLayout 0 [a.aSceneDesctipror])
  Exec.forLoop a.car.positions.length (drawSubmesh a a.aGraphicsPipe)
  vkCmd a.aCmdBuff .vkCmdEndRenderPass
  let passInfo : VkRenderPassBeginInfo :=
    { renderPass := a.aRenderPass
      framebuffer := a.aFramebuffer
      renderArea := a.aImageExtent
      clearValueCount := 2
      pClearValues := clearValuesGray }
  vkCmd a.aCmdBuff (.vkCmdBeginRenderPass passInfo)
  vkCmd a.aCmdBuff (.vkCmdBindPipeline a.aPostPipe)
  vkCmd a.aCmdBuff (.vkCmdBindDescriptorSets a.aGraphicsLayoutTexture 0 [a.aFilterVerticalDescriptor])
  vkCmd a.aCmdBuff (.vkCmdBindDescriptorSets a.aGraphicsLayoutTexture 1 [a.aBackFrameBufferDescriptor])
  vkCmd a.aCmdBuff (.vkCmdDraw 3 1 0 0)
  vkCmd a.aCmdBuff .vkCmdEndRenderPass
  -- End command recording
  Exec.call (w.result .vkEndCommandBuffer)
    (.vkEndCommandBuffer a.aCmdBuff (w.result .vkEndCommandBuffer))
    "Unable to end recording command buffer"

/-- The function `submit_commands` of `main.cpp`. -/
def submit_commands (w : World) (aContext : VulkanWindow)
    (aCmdBuff aFence aWaitSemaphore aSignalSemaphore : Handle) : Exec Unit :=
  let waitPipelineStages : VkFlags := VK_PIPELINE_STAGE_COLOR_ATTACHMENT_OUTPUT_BIT
  let submitInfo : VkSubmitInfo :=
    { commandBuffers := [aCmdBuff]
      waitSemaphores := [aWaitSemaphore]
      waitDstStageMask := [waitPipelineStages]
      signalSemaphores := [aSignalSemaphore] }
  Exec.call (w.result .vkQueueSubmit)
    (.vkQueueSubmit aContext.graphicsQueue submitInfo aFence (w.result .vkQueueSubmit))
    "Unable to submit command buffer to queue"

/-! ## `labutils/vkutil.cpp`: object construction -/

/-- The read loop of `load_shader_module`: `offset` words are read, `fuel` bounds
the iterations left (every iteration that continues reads at least one word, so
`words` iterations suffice).  `fread` never returns more than it was asked for. -/
def readWords (aSpirvPath : String) (f : ShaderFile) (words : Nat) : Nat → Nat → Exec Unit
  | 0, _ => Exec.pure ()
  | fuel + 1, offset =>
    if offset = words then Exec.pure ()
    else
      let read := min (f.fread offset (words - offset)) (words - offset)
      Exec.bind (Exec.emit (.fread aSpirvPath offset (words - offset) read)) (fun _ =>
        if read = 0 then
          Exec.bind (Exec.emit (.fclose aSpirvPath)) (fun _ =>
            Exec.raise (.error "Error reading" 0))
        else readWords aSpirvPath f words fuel (offset + read))

/-- The function `labutils::load_shader_module`. -/
def load_shader_module (w : World) (aSpirvPath : String) : Exec Handle :=
  match w.files aSpirvPath with
  | some f => do
    Exec.emit (.fopen aSpirvPath true)
    let bytes := f.bytes
    -- SPIR-V consists of a number of 32-bit = 4 byte words
    Exec.assert (decide (0 = bytes % 4)) "0 == bytes % 4"
    let words := bytes / 4
    readWords aSpirvPath f words words 0
    Exec.emit (.fclose aSpirvPath)
    Exec.create w (.shaderModule aSpirvPath bytes) "Unable to create shader module"
  | none => do
    Exec.emit (.fopen aSpirvPath false)
    Exec.raise (.error "Cannot open for reading" 0)

def create_command_pool (w : World) (aFlags : VkFlags) : Exec Handle :=
  Exec.create w (.commandPool aFlags) "Unable to create command pool"

def alloc_command_buffer (w : World) (aCmdPool : Handle) : Exec Handle :=
  Exec.create w (.commandBuffer aCmdPool) "Unable to allocate command buffer"

def create_fence (w : World) (aFlags : VkFlags) : Exec Handle :=
  Exec.create w (.fence aFlags) "Unable to create fence"

def create_semaphore (w : World) : Exec Handle :=
  Exec.create w .semaphore "Unable to create semaphore"

def create_descriptor_pool (w : World) : Exec Handle :=
  Exec.create w .descriptorPool "Unable to create descriptor pool"

def alloc_desc_set (w : World) (aPool aSetLayout : Handle) : Exec Handle :=
  Exec.create w (.descriptorSet aPool aSetLayout) "Unable to alocate descriptor set"

def create_anisotropic_filter_sampler (w : World) (mipLevels : Nat) : Exec Handle :=
  Exec.create w (.sampler mipLevels) "Unable to create sampler"

/-! ## Collaborators declared outside the given sources -/

/-- The result type `SwapChanges` of `recreate_swapchain`. -/
structure SwapChanges where
  changedSize : Bool
  changedFormat : Bool
deriving DecidableEq, Repr

/-- Modelled from the spec: move assignment to a `lut::` owning wrapper (declared
in `vkobject.hpp`).  A resource is "destroyed when replaced": the variable takes
the new handle and the object it held is destroyed. -/
def assign (old new : Handle) : Exec Handle :=
  Exec.bind (Exec.destroy old) (fun _ => Exec.pure new)

/-- Modelled from the spec: `lut::create_allocator` (`allocator.cpp`), a fallible construction. -/
def create_allocator (w : World) : Exec Handle :=
  Exec.create w .allocator "Unable to create allocator"

/-- Modelled from the spec: `lut::create_buffer` (`vkbuffer.cpp`), a fallible
construction of a device buffer of the given size and usage. -/
def create_buffer (w : World) (size : Nat) (usage : VkFlags) : Exec Handle :=
  Exec.create w (.buffer size usage) "Unable to allocate buffer"

/-- One image view per presentable image of a swapchain. -/
def createSwapViews (w : World) (swapchain : Handle) (n : Nat) : Exec (List Handle) :=
  Exec.collect n (fun i => Exec.create w (.swapView swapchain i) "Unable to create swapchain image view")

/-- Modelled from the spec: `lut::make_vulkan_window` (`vulkan_window.cpp`).  It
yields the window, device, queues and a swapchain whose image count, format
and extent the window system decides. -/
def make_vulkan_window (w : World) : Exec VulkanWindow := do
  let window ← Exec.create w .window "Unable to create window"
  let device ← Exec.create w .device "Unable to create device"
  let graphicsQueue ← Exec.create w .queue "Unable to get graphics queue"
  let presentQueue ← Exec.create w .queue "Unable to get present queue"
  let swapchain ← Exec.create w (.swapchain w.swapchainFormat w.swapchainExtent) "Unable to create swapchain"
  let swapViews ← createSwapViews w swapchain w.swapImageCount
  pure
    { window := window
      device := device
      graphicsQueue := graphicsQueue
      presentQueue := presentQueue
      swapchain := swapchain
      swapViews := swapViews
      swapchainFormat := w.swapchainFormat
      swapchainExtent := w.swapchainExtent }

/-- Modelled from the spec: `lut::recreate_swapchain` (`vulkan_window.cpp`).
"Rebuild the swapchain; the rebuild reports whether the presentation format
changed and/or the image extent changed, independently."  The window gets a new
swapchain and new image views, the ones it replaces are destroyed. -/
def recreate_swapchain (w : World) (aWindow : VulkanWindow) : Exec (VulkanWindow × SwapChanges) := do
  Exec.emit .recreate_swapchain
  let swapchain ← Exec.create w (.swapchain w.swapchainFormat w.swapchainExtent) "Unable to create swapchain"
  let swapViews ← createSwapViews w swapchain w.swapImageCount
  Exec.destroyAll aWindow.swapViews
  Exec.destroy aWindow.swapchain
  pure
    ({ aWindow with
        swapchain := swapchain
        swapViews := swapViews
        swapchainFormat := w.swapchainFormat
        swapchainExtent := w.swapchainExtent },
     { changedSize := decide (w.swapchainExtent ≠ aWindow.swapchainExtent)
       changedFormat := decide (w.swapchainFormat ≠ aWindow.swapchainFormat) })

/-- The struct `ModelData` of `model.hpp` without its two name strings; `main`
reads `materials` alone. -/
structure ModelData where
  materials : List MaterialInfo
  meshes : List MeshInfo := []
  vertexPositions : List Vec3 := []
  vertexNormals : List Vec3 := []
  vertexTextureCoords : List Vec2 := []
deriving DecidableEq, Repr, Inhabited

/-! ## `cw2/main.cpp`: object construction -/

namespace cfg
def kVertShaderPath : String := "assets/cw2/shaders/PBR.vert.spv"
def kFragShaderPath : String := "assets/cw2/shaders/PBR.frag.spv"
def kfilterBrightVertPath : String := "assets/cw2/shaders/filterBright.vert.spv"
def kfilterBrightFragPath : String := "assets/cw2/shaders/filterBright.frag.spv"
def kHorizontalFilterVertPath : String := "assets/cw2/shaders/horizontalFilter.vert.spv"
def kHorizontalFilterFragPath : String := "assets/cw2/shaders/horizontalFilter.frag.spv"
def kVerticalFilterVertPath : String := "assets/cw2/shaders/verticalFilter.vert.spv"
def kVerticalFilterFragPath : String := "assets/cw2/shaders/verticalFilter.frag.spv"
def kPostProcessinVertgPath : String := "assets/cw2/shaders/post.vert.spv"
def kPostProcessingFragPath : String := "assets/cw2/shaders/post.frag.spv"
end cfg

/-- The `VkRenderPassCreateInfo` that `create_render_pass` fills in. -/
def presentPassInfo (aWindow : VulkanWindow) : VkRenderPassCreateInfo :=
  { attachments :=
      [ { format := aWindow.swapchainFormat
          loadOp := VK_ATTACHMENT_LOAD_OP_CLEAR
          storeOp := VK_ATTACHMENT_STORE_OP_STORE
          initialLayout := .VK_IMAGE_LAYOUT_UNDEFINED
          finalLayout := .VK_IMAGE_LAYOUT_PRESENT_SRC_KHR },
        { format := kDepthFormat
          loadOp := VK_ATTACHMENT_LOAD_OP_CLEAR
          storeOp := VK_ATTACHMENT_STORE_OP_STORE
          initialLayout := .VK_IMAGE_LAYOUT_DEPTH_STENCIL_ATTACHMENT_OPTIMAL
          finalLayout := .VK_IMAGE_LAYOUT_DEPTH_STENCIL_ATTACHMENT_OPTIMAL } ]
    subpasses :=
      [ { colorAttachments := [ { attachment := 0, layout := .VK_IMAGE_LAYOUT_COLOR_ATTACHMENT_OPTIMAL } ]
          depthStencilAttachment :=
            some { attachment := 1, layout := .VK_IMAGE_LAYOUT_DEPTH_STENCIL_ATTACHMENT_OPTIMAL } } ]
    dependencies := [] }

/-- The `VkRenderPassCreateInfo` that `create_render_pass_texture` fills in. -/
def offlinePassInfo (aWindow : VulkanWindow) : VkRenderPassCreateInfo :=
  { attachments :=
      [ { format := aWindow.swapchainFormat
          loadOp := VK_ATTACHMENT_LOAD_OP_CLEAR
          storeOp := VK_ATTACHMENT_STORE_OP_STORE
          initialLayout := .VK_IMAGE_LAYOUT_UNDEFINED
          finalLayout := .VK_IMAGE_LAYOUT_SHADER_READ_ONLY_OPTIMAL },
        { format := kDepthFormat
          loadOp := VK_ATTACHMENT_LOAD_OP_CLEAR
          storeOp := VK_ATTACHMENT_STORE_OP_STORE
          initialLayout := .VK_IMAGE_LAYOUT_UNDEFINED
          finalLayout := .VK_IMAGE_LAYOUT_DEPTH_STENCIL_ATTACHMENT_OPTIMAL } ]
    subpasses :=
      [ { colorAttachments := [ { attachment := 0, layout := .VK_IMAGE_LAYOUT_COLOR_ATTACHMENT_OPTIMAL } ]
          depthStencilAttachment :=
            some { attachment := 1, layout := .VK_IMAGE_LAYOUT_DEPTH_STENCIL_ATTACHMENT_OPTIMAL } } ]
    dependencies :=
      [ { srcSubpass := VK_SUBPASS_EXTERNAL
          dstSubpass := 0
          srcStageMask := VK_PIPELINE_STAGE_FRAGMENT_SHADER_BIT
          dstStageMask := VK_PIPELINE_STAGE_COLOR_ATTACHMENT_OUTPUT_BIT
          srcAccessMask := VK_ACCESS_SHADER_READ_BIT
          dstAccessMask := VK_ACCESS_COLOR_ATTACHMENT_WRITE_BIT
          dependencyFlags := VK_DEPENDENCY_BY_REGION_BIT },
        { srcSubpass := 0
          dstSubpass := VK_SUBPASS_EXTERNAL
          srcStageMask := VK_PIPELINE_STAGE_COLOR_ATTACHMENT_OUTPUT_BIT
          dstStageMask := VK_PIPELINE_STAGE_FRAGMENT_SHADER_BIT
          srcAccessMask := VK_ACCESS_COLOR_ATTACHMENT_WRITE_BIT
          dstAccessMask := VK_ACCESS_SHADER_READ_BIT
          dependencyFlags := VK_DEPENDENCY_BY_REGION_BIT } ] }

def create_render_pass (w : World) (aWindow : VulkanWindow) : Exec Handle :=
  Exec.create w (.renderPass (presentPassInfo aWindow)) "Unable to create render pass"

def create_render_pass_texture (w : World) (aWindow : VulkanWindow) : Exec Handle :=
  Exec.create w (.renderPass (offlinePassInfo aWindow)) "Unable to create render pass for texture"

def create_scene_descriptor_layout (w : World) : Exec Handle :=
  Exec.create w
    (.descriptorSetLayout
      [ { binding := 0, descriptorType := VK_DESCRIPTOR_TYPE_UNIFORM_BUFFER, descriptorCount := 1
          stageFlags := VK_SHADER_STAGE_VERTEX_BIT } ])
    "Unable to create descriptor set layout"

def create_material_descriptor_layout (w : World) : Exec Handle :=
  Exec.create w
    (.descriptorSetLayout
      [ { binding := 0, descriptorType := VK_DESCRIPTOR_TYPE_UNIFORM_BUFFER, descriptorCount := 1
          stageFlags := VK_SHADER_STAGE_FRAGMENT_BIT } ])
    "Unable to create descriptor set layout"

def create_object_descriptor_layout (w : World) : Exec Handle :=
  Exec.create w
    (.descriptorSetLayout
      [ { binding := 0, descriptorType := VK_DESCRIPTOR_TYPE_COMBINED_IMAGE_SAMPLER, descriptorCount := 1
          stageFlags := VK_SHADER_STAGE_FRAGMENT_BIT } ])
    "Unable to create descriptor set layout"

def create_pipeline_layout (w : World) (aSceneLayout aMaterialLayout aObjectLayout : Handle) :
    Exec Handle :=
  Exec.create w (.pipelineLayout [aSceneLayout, aMaterialLayout, aMaterialLayout, aObjectLayout])
    "Unable to create pipeline layout"

def create_pipeline_with_texture_layout (w : World) (aSceneLayout aObjectLayout : Handle) :
    Exec Handle :=
  Exec.create w (.pipelineLayout [aSceneLayout, aObjectLayout]) "Unable to create pipeline layout"

def create_postprocess_pipeline_layout (w : World) (aSceneLayout aObjectLayout : Handle) :
    Exec Handle :=
  Exec.create w (.pipelineLayout [aObjectLayout, aObjectLayout]) "Unable to create pipeline layout"

/-- The common shape of the five pipeline constructors: load the two shader
modules, create the pipeline, and let the two `lut::ShaderModule` locals go out
of scope. -/
def createGraphicsPipeline (w : World) (aWindow : VulkanWindow) (vertPath fragPath : String)
    (bindings attributes : Nat) (cullMode : VkFlags) (aRenderPass aPipelineLayout : Handle) :
    Exec Handle := do
  let vert ← load_shader_module w vertPath
  let frag ← load_shader_module w fragPath
  let pipe ← Exec.create w
    (.pipeline
      { vert := vert
        frag := frag
        vertexBindingDescriptionCount := bindings
        vertexAttributeDescriptionCount := attributes
        viewport := aWindow.swapchainExtent
        scissor := aWindow.swapchainExtent
        cullMode := cullMode
        layout := aPipelineLayout
        renderPass := aRenderPass
        subpass := 0 })
    "Unable to create graphics pipeline"
  Exec.destroy frag
  Exec.destroy vert
  pure pipe

def create_pipeline (w : World) (aWindow : VulkanWindow) (aRenderPass aPipelineLayout : Handle) :
    Exec Handle :=
  createGraphicsPipeline w aWindow cfg.kVertShaderPath cfg.kFragShaderPath 5 5
    VK_CULL_MODE_BACK_BIT aRenderPass aPipelineLayout

def create_pipeline_filter_bright (w : World) (aWindow : VulkanWindow)
    (aRenderPass aPipelineLayout : Handle) : Exec Handle :=
  createGraphicsPipeline w aWindow cfg.kfilterBrightVertPath cfg.kfilterBrightFragPath 5 5
    VK_CULL_MODE_BACK_BIT aRenderPass aPipelineLayout

def create_postprocess_pipeline (w : World) (aWindow : VulkanWindow)
    (aRenderPass aPipelineLayout : Handle) : Exec Handle :=
  createGraphicsPipeline w aWindow cfg.kPostProcessinVertgPath cfg.kPostProcessingFragPath 0 0
    VK_CULL_MODE_FRONT_BIT aRenderPass aPipelineLayout

def create_pipeline_horizontal (w : World) (aWindow : VulkanWindow)
    (aRenderPass aPipelineLayout : Handle) : Exec Handle :=
  createGraphicsPipeline w aWindow cfg.kHorizontalFilterVertPath cfg.kHorizontalFilterFragPath 0 0
    VK_CULL_MODE_FRONT_BIT aRenderPass aPipelineLayout

def create_pipeline_vertical (w : World) (aWindow : VulkanWindow)
    (aRenderPass aPipelineLayout : Handle) : Exec Handle :=
  createGraphicsPipeline w aWindow cfg.kVerticalFilterVertPath cfg.kVerticalFilterFragPath 0 0
    VK_CULL_MODE_FRONT_BIT aRenderPass aPipelineLayout

/-- The function `create_swapchain_framebuffers`; the result is the vector
`aFramebuffers` after the call. -/
def create_swapchain_framebuffers (w : World) (aWindow : VulkanWindow) (aRenderPass : Handle)
    (aFramebuffers : List Handle) (aDepthView : Handle) : Exec (List Handle) := do
  Exec.assert aFramebuffers.isEmpty "aFramebuffers.empty()"
  let created ← Exec.collect aWindow.swapViews.length (fun i => do
    let view ← Exec.index aWindow.swapViews i "aWindow.swapViews[i]"
    Exec.create w
      (.framebuffer
        { renderPass := aRenderPass
          attachments := [view, aDepthView]
          width := aWindow.swapchainExtent.width
          height := aWindow.swapchainExtent.height
          layers := 1 })
      "Unable to create framebuffer for swap chain image")
  let aFramebuffers := aFramebuffers ++ created
  Exec.assert (decide (aWindow.swapViews.length = aFramebuffers.length))
    "aWindow.swapViews.size() == aFramebuffers.size()"
  pure aFramebuffers

/-- The function `create_offine_image_view`: the image and its view. -/
def create_offine_image_view (w : World) (aWindow : VulkanWindow) : Exec (Handle × Handle) := do
  let image ← Exec.create w
    (.image
      { format := aWindow.swapchainFormat
        extent := aWindow.swapchainExtent
        usage := VK_IMAGE_USAGE_COLOR_ATTACHMENT_BIT ||| VK_IMAGE_USAGE_SAMPLED_BIT })
    "Unable to create framebuffer for offline renderering"
  let imageView ← Exec.create w
    (.imageView { image := image, format := aWindow.swapchainFormat, aspectMask := VK_IMAGE_ASPECT_COLOR_BIT })
    "Unable to create image view for offline framebuffer"
  pure (image, imageView)

/-- The function `create_depth_buffer`: the image and its view. -/
def create_depth_buffer (w : World) (aWindow : VulkanWindow) : Exec (Handle × Handle) := do
  let image ← Exec.create w
    (.image
      { format := kDepthFormat
        extent := aWindow.swapchainExtent
        usage := VK_IMAGE_USAGE_DEPTH_STENCIL_ATTACHMENT_BIT })
    "Unable to allocate depth buffer image."
  let view ← Exec.create w
    (.imageView { image := image, format := kDepthFormat, aspectMask := VK_IMAGE_ASPECT_DEPTH_BIT })
    "Unable to create image view"
  pure (image, view)

/-- The function `create_framebuffer`; the result is the variable `aFramebuffers`
after the assignment that ends the function. -/
def create_framebuffer (w : World) (aWindow : VulkanWindow) (aRenderPass : Handle)
    (aFramebuffers : Handle) (aDepthView aBackView : Handle) : Exec Handle := do
  let fb ← Exec.create w
    (.framebuffer
      { renderPass := aRenderPass
        attachments := [aBackView, aDepthView]
        width := aWindow.swapchainExtent.width
        height := aWindow.swapchainExtent.height
        layers := 1 })
    "Unable to create framebuffer for swap chain"
  assign aFramebuffers fb

/-- The function `updateBackBufferDescriptorSet`. -/
def updateBackBufferDescriptorSet (backBufferDescriptor backBufferView filterSampler : Handle) :
    Exec Unit :=
  Exec.vkUpdateDescriptorSets
    [ { dstSet := backBufferDescriptor
        dstBinding := 0
        descriptorType := VK_DESCRIPTOR_TYPE_COMBINED_IMAGE_SAMPLER
        descriptorCount := 1
        info := .image .VK_IMAGE_LAYOUT_SHADER_READ_ONLY_OPTIMAL backBufferView filterSampler } ]

/-- The block of `main` that points a uniform-buffer descriptor set at a buffer. -/
def writeUniformBufferDescriptor (dstSet buffer : Handle) : Exec Unit :=
  Exec.vkUpdateDescriptorSets
    [ { dstSet := dstSet
        dstBinding := 0
        descriptorType := VK_DESCRIPTOR_TYPE_UNIFORM_BUFFER
        descriptorCount := 1
        info := .buffer buffer } ]

/-! ## `cw2/main.cpp`: `main` -/

/-- The local variables of `main` that are live in the main loop.  An owning
wrapper (`lut::RenderPass`, `lut::Image`, ...) is represented by the handle it owns. -/
structure MainVars where
  window : VulkanWindow
  allocator : Handle
  renderPass : Handle
  offlineRenderPass : Handle
  sceneLayout : Handle
  materialLayout : Handle
  objectLayout : Handle
  pipeLayout : Handle
  pipe : Handle
  pipe_filter_bright : Handle
  pipeLayoutTex : Handle
  postPipeLayout : Handle
  postPipe : Handle
  filterHorizontalPipe : Handle
  filterVerticalPipe : Handle
  depthBuffer : Handle
  depthBufferView : Handle
  backBuffer : Handle
  backBufferView : Handle
  backFrameBuffer : Handle
  backFrameBufferView : Handle
  backBufferHorizontal : Handle
  backBufferViewHorizontal : Handle
  backBufferVertical : Handle
  backBufferViewVertical : Handle
  framebuffers : List Handle
  cpool : Handle
  cbuffers : List Handle
  cbfences : List Handle
  imageAvailable : Handle
  renderFinished : Handle
  dpool : Handle
  carModel : ModelData
  loadedModel : LoadedMesh
  backFramebuffer : Handle
  temp_framebuffer : Handle
  temp_framebuffer_horizontal : Handle
  temp_framebuffer_vertical : Handle
  sceneUBO : Handle
  sceneDescriptor : Handle
  filterSampler : Handle
  backFrameBufferDescriptor : Handle
  backBufferDescriptor : Handle
  backBufferBrightHorizontal : Handle
  backBufferBrightVertical : Handle
  materialUBO : List Handle
  materialDescriptors : List Handle
  materialPBRUBO : List Handle
  materialPBRDescriptors : List Handle
  recreateSwapchain : Bool
deriving DecidableEq, Repr, Inhabited

/-- The function `update_scene_uniforms`, which also reads the globals
`position` and `rotation`; the four matrices it computes from them and from
the framebuffer size are left out of `SceneUniform`. -/
def update_scene_uniforms (position rotation : Vec3) (aFramebufferWidth aFramebufferHeight : Nat)
    (numLight : Int) : SceneUniform :=
  { cameraPos := { x := f32_0, y := f32_0, z := f32_0, w := f32_0 }
    size := numLight
    -- Default
    lightPos :=
      [ { x := f32_0, y := f32_9_3, z := f32_neg3, w := f32_1 },
        { x := f32_0, y := f32_9_3, z := f32_neg3, w := f32_1 },
        { x := f32_0, y := f32_9_3, z := f32_neg3, w := f32_1 } ]
    lightColor :=
      [ { x := f32_1, y := f32_1, z := f32_0_8, w := f32_1 },
        { x := f32_0, y := f32_1, z := f32_0, w := f32_1 },
        { x := f32_0, y := f32_0, z := f32_1, w := f32_1 } ] }

/-- The function `update_material_uniforms`, called with the fields of material `i`. -/
def update_material_uniforms (i : Nat) : MaterialUniform :=
  { material := some i }

/-- The function `update_material_PBR_uniforms`, called with the fields of material `i`. -/
def update_material_PBR_uniforms (i : Nat) (numLight : Int) : MaterialPBRUniform :=
  { material := some i, size := numLight }

/-- The loop of `main` that fills `materialUniforms` and `materialPBRUniforms`. -/
def updateUniformsFrom (materials : List MaterialInfo) (numLight : Int) :
    Nat → Nat → List MaterialUniform × List MaterialPBRUniform →
      Exec (List MaterialUniform × List MaterialPBRUniform)
  | _, 0, acc => Exec.pure acc
  | i, k + 1, (mu, pbr) =>
    Exec.bind (Exec.index mu i "materialUniforms[i]") (fun _ =>
    Exec.bind (Exec.index materials i "carModel.materials[i]") (fun _ =>
    Exec.bind (Exec.index pbr i "materialPBRUniforms[i]") (fun _ =>
      updateUniformsFrom materials numLight (i + 1) k
        (mu.set i (update_material_uniforms i),
         pbr.set i (update_material_PBR_uniforms i numLight)))))

/-- The statement `if (changes.changedFormat) renderPass = create_render_pass(window);` of the rebuild. -/
def rebuildRenderPass (w : World) (changes : SwapChanges) (v : MainVars) : Exec MainVars :=
  if changes.changedFormat then do
    let renderPass ← create_render_pass w v.window
    let renderPass ← assign v.renderPass renderPass
    pure { v with renderPass := renderPass }
  else pure v

/-- The first `if (changes.changedSize)` block of the rebuild: the depth buffer
and the four offscreen targets. -/
def rebuildTargets (w : World) (changes : SwapChanges) (v : MainVars) : Exec MainVars :=
  if changes.changedSize then do
    let (image, view) ← create_depth_buffer w v.window
    let depthBuffer ← assign v.depthBuffer image
    let depthBufferView ← assign v.depthBufferView view
    let (image, view) ← create_offine_image_view w v.window
    let backBuffer ← assign v.backBuffer image
    let backBufferView ← assign v.backBufferView view
    let (image, view) ← create_offine_image_view w v.window
    let backFrameBuffer ← assign v.backFrameBuffer image
    let backFrameBufferView ← assign v.backFrameBufferView view
    let (image, view) ← create_offine_image_view w v.window
    let backBufferHorizontal ← assign v.backBufferHorizontal image
    let backBufferViewHorizontal ← assign v.backBufferViewHorizontal view
    let (image, view) ← create_offine_image_view w v.window
    let backBufferVertical ← assign v.backBufferVertical image
    let backBufferViewVertical ← assign v.backBufferViewVertical view
    pure
      { v with
        depthBuffer := depthBuffer
        depthBufferView := depthBufferView
        backBuffer := backBuffer
        backBufferView := backBufferView
        backFrameBuffer := backFrameBuffer
        backFrameBufferView := backFrameBufferView
        backBufferHorizontal := backBufferHorizontal
        backBufferViewHorizontal := backBufferViewHorizontal
        backBufferVertical := backBufferVertical
        backBufferViewVertical := backBufferViewVertical }
  else pure v

/-- The unconditional middle of the rebuild: the four offscreen framebuffers,
the swapchain framebuffers, and the four texture descriptor sets. -/
def rebuildFramebuffers (w : World) (v : MainVars) : Exec MainVars := do
  let backFramebuffer ← create_framebuffer w v.window v.offlineRenderPass
    v.backFramebuffer v.depthBufferView v.backFrameBufferView
  let temp_framebuffer ← create_framebuffer w v.window v.offlineRenderPass
    v.temp_framebuffer v.depthBufferView v.backBufferView
  let temp_framebuffer_horizontal ← create_framebuffer w v.window v.offlineRenderPass
    v.temp_framebuffer_horizontal v.depthBufferView v.backBufferViewHorizontal
  let temp_framebuffer_vertical ← create_framebuffer w v.window v.offlineRenderPass
    v.temp_framebuffer_vertical v.depthBufferView v.backBufferViewVertical
  -- framebuffers.clear()
  Exec.destroyAll v.framebuffers
  let framebuffers ← create_swapchain_framebuffers w v.window v.renderPass [] v.depthBufferView
  updateBackBufferDescriptorSet v.backFrameBufferDescriptor v.backFrameBufferView v.filterSampler
  updateBackBufferDescriptorSet v.backBufferDescriptor v.backBufferView v.filterSampler
  updateBackBufferDescriptorSet v.backBufferBrightHorizontal v.backBufferViewHorizontal v.filterSampler
  updateBackBufferDescriptorSet v.backBufferBrightVertical v.backBufferViewVertical v.filterSampler
  pure
    { v with
      backFramebuffer := backFramebuffer
      temp_framebuffer := temp_framebuffer
      temp_framebuffer_horizontal := temp_framebuffer_horizontal
      temp_framebuffer_vertical := temp_framebuffer_vertical
      framebuffers := framebuffers }

/-- The second `if (changes.changedSize)` block of the rebuild: the five pipelines. -/
def rebuildPipelines (w : World) (changes : SwapChanges) (v : MainVars) : Exec MainVars :=
  if changes.changedSize then do
    let pipe ← create_pipeline w v.window v.offlineRenderPass v.pipeLayout
    let pipe ← assign v.pipe pipe
    let pipe_filter_bright ← create_pipeline_filter_bright w v.window v.offlineRenderPass v.pipeLayout
    let pipe_filter_bright ← assign v.pipe_filter_bright pipe_filter_bright
    let postPipe ← create_postprocess_pipeline w v.window v.renderPass v.postPipeLayout
    let postPipe ← assign v.postPipe postPipe
    let filterHorizontalPipe ← create_pipeline_horizontal w v.window v.renderPass v.postPipeLayout
    let filterHorizontalPipe ← assign v.filterHorizontalPipe filterHorizontalPipe
    let filterVerticalPipe ← create_pipeline_vertical w v.window v.renderPass v.postPipeLayout
    let filterVerticalPipe ← assign v.filterVerticalPipe filterVerticalPipe
    pure
      { v with
        pipe := pipe
        pipe_filter_bright := pipe_filter_bright
        postPipe := postPipe
        filterHorizontalPipe := filterHorizontalPipe
        filterVerticalPipe := filterVerticalPipe }
  else pure v

/-- The block of `main` under `if (recreateSwapchain)`, up to its `continue`. -/
def rebuild (w : World) (v : MainVars) : Exec MainVars := do
  -- We need to destroy several objects, which may still be in use by the GPU
  Exec.emit .vkDeviceWaitIdle
  -- Recreate them
  let (window, changes) ← recreate_swapchain w v.window
  let v ← rebuildRenderPass w changes { v with window := window }
  let v ← rebuildTargets w changes v
  let v ← rebuildFramebuffers w v
  let v ← rebuildPipelines w changes v
  pure { v with recreateSwapchain := false }

/-- The arguments of the call of `record_commands` in `main`, position by position. -/
def recordArgs (v : MainVars) (cbuffer framebuffer : Handle)
    (sceneUniforms : SceneUniform) (materialUniforms : List MaterialUniform)
    (materialPBRUniforms : List MaterialPBRUniform) : RecordArgs :=
  { aCmdBuff := cbuffer
    aBackRenderPass := v.offlineRenderPass
    aRenderPass := v.renderPass
    aFrameBackBuffer := v.backFramebuffer
    aBackbuffer := v.temp_framebuffer
    aFilterHorizontalBuffer := v.temp_framebuffer_horizontal
    aFilterVerticalBuffer := v.temp_framebuffer_vertical
    aFramebuffer := framebuffer
    aGraphicsPipe := v.pipe
    aFilterPipe := v.pipe_filter_bright
    aHorizontalPipe := v.filterHorizontalPipe
    aVerticalPipe := v.filterVerticalPipe
    aPostPipe := v.postPipe
    aImageExtent := v.window.swapchainExtent
    car := v.loadedModel
    aSceneUBO := v.sceneUBO
    aSceneUniform := sceneUniforms
    aGraphicsLayout := v.pipeLayout
    aGraphicsLayoutTexture := v.postPipeLayout
    aSceneDesctipror := v.sceneDescriptor
    aBackFrameBufferDescriptor := v.backFrameBufferDescriptor
    aBackBufferDescriptor := v.backBufferDescriptor
    aFilterHorizontalDescriptor := v.backBufferBrightHorizontal
    aFilterVerticalDescriptor := v.backBufferBrightVertical
    aMaterialUBOs := v.materialUBO
    aMaterialUniforms := materialUniforms
    aMaterialDescriptor := v.materialDescriptors
    aMaterialPBRUBOs := v.materialPBRUBO
    aMaterialPBRUniforms := materialPBRUniforms
    aMaterialPBRDescriptor := v.materialPBRDescriptors }

/-- The part of the loop body of `main` after the acquire has returned
`VK_SUCCESS` with `imageIndex`: fence wait and reset, recording, submission, present. -/
def frame (w : World) (bd : BufferBarrierDefaults) (v : MainVars) (imageIndex : Nat) :
    Exec MainVars := do
  -- Make sure command buffer is not in use
  Exec.assert (decide (imageIndex < v.cbfences.length)) "std::size_t(imageIndex) < cbfences.size()"
  let fence ← Exec.index v.cbfences imageIndex "cbfences[imageIndex]"
  Exec.call (w.result .vkWaitForFences) (.vkWaitForFences [fence] (w.result .vkWaitForFences))
    "Unable to wait for command buffer fence"
  let fence ← Exec.index v.cbfences imageIndex "cbfences[imageIndex]"
  Exec.call (w.result .vkResetFences) (.vkResetFences [fence] (w.result .vkResetFences))
    "Unable to reset command buffer fence"
  -- Record and submit commands for this frame
  Exec.assert (decide (imageIndex < v.cbuffers.length)) "std::size_t(imageIndex) < cbuffers.size()"
  Exec.assert (decide (imageIndex < v.framebuffers.length))
    "std::size_t(imageIndex) < framebuffers.size()"
  let sceneUniforms :=
    update_scene_uniforms w.position w.rotation v.window.swapchainExtent.width
      v.window.swapchainExtent.height w.numLight
  let materialUniforms : List MaterialUniform :=
    List.replicate v.materialDescriptors.length { material := none }
  let materialPBRUniforms : List MaterialPBRUniform :=
    List.replicate v.materialPBRDescriptors.length { material := none, size := 3 }
  let (materialUniforms, materialPBRUniforms) ←
    updateUniformsFrom v.carModel.materials w.numLight 0 materialUniforms.length
      (materialUniforms, materialPBRUniforms)
  let cbuffer ← Exec.index v.cbuffers imageIndex "cbuffers[imageIndex]"
  let framebuffer ← Exec.index v.framebuffers imageIndex "framebuffers[imageIndex]"
  record_commands w bd
    (recordArgs v cbuffer framebuffer sceneUniforms materialUniforms materialPBRUniforms)
  let cbuffer ← Exec.index v.cbuffers imageIndex "cbuffers[imageIndex]"
  let fence ← Exec.index v.cbfences imageIndex "cbfences[imageIndex]"
  submit_commands w v.window cbuffer fence v.imageAvailable v.renderFinished
  -- Present the result
  let presentInfo : VkPresentInfoKHR :=
    { waitSemaphores := [v.renderFinished]
      swapchains := [v.window.swapchain]
      imageIndices := [imageIndex] }
  let presentRes := w.result .vkQueuePresentKHR
  Exec.emit (.vkQueuePresentKHR v.window.presentQueue presentInfo presentRes)
  if presentRes = VK_SUBOPTIMAL_KHR ∨ presentRes = VK_ERROR_OUT_OF_DATE_KHR then
    pure { v with recreateSwapchain := true }
  else if presentRes ≠ VK_SUCCESS then
    Exec.raise (.error "Unable present swapchain image" presentRes)
  else
    pure v

/-- One iteration of the `while` loop of `main`; the result is the state of the
local variables when control returns to the loop head (by `continue` or by
reaching the end of the body). -/
def mainLoopBody (w : World) (bd : BufferBarrierDefaults) (v : MainVars) : Exec MainVars := do
  Exec.emit .glfwPollEvents
  Exec.emit .glfwSetKeyCallback
  Exec.emit .glfwSetMouseButtonCallback
  Exec.emit .glfwSetCursorPosCallback
  -- Recreate swap chain?
  if v.recreateSwapchain then
    rebuild w v
  else
    let acquireRes := w.result .vkAcquireNextImageKHR
    Exec.emit (.vkAcquireNextImageKHR v.window.swapchain v.imageAvailable 0 acquireRes w.imageIndex)
    if acquireRes = VK_SUBOPTIMAL_KHR ∨ acquireRes = VK_ERROR_OUT_OF_DATE_KHR then
      -- This occurs when the window has been resized
      pure { v with recreateSwapchain := true }
    else if acquireRes ≠ VK_SUCCESS then
      Exec.raise (.error "Unable to acquire enxt swapchain image" acquireRes)
    else
      frame w bd v w.imageIndex

/-- The `while (!glfwWindowShouldClose(window.window))` loop of `main`, run for
at most one iteration per element of the list: each element is what the
environment does during that iteration. -/
def mainLoop (bd : BufferBarrierDefaults) : List World → MainVars → Exec MainVars
  | [], v => Exec.pure v
  | w :: ws, v =>
    if w.glfwWindowShouldClose then Exec.pure v
    else Exec.bind (mainLoopBody w bd v) (fun v1 => mainLoop bd ws v1)

/-- What start-up obtains from `load_obj_model` and `create_loaded_mesh`
(`model.cpp`): the model data and the uploaded mesh. -/
structure Boot where
  carModel : ModelData
  loadedModel : LoadedMesh
deriving DecidableEq, Repr

/-- The loop of `main` that allocates one command buffer and one fence per
swapchain framebuffer. -/
def allocFrameSlots (w : World) (cpool : Handle) (n : Nat) : Exec (List (Handle × Handle)) :=
  Exec.collect n (fun _ => do
    let cb ← alloc_command_buffer w cpool
    let fence ← create_fence w VK_FENCE_CREATE_SIGNALED_BIT
    pure (cb, fence))

/-- The loops of `main` that create one uniform buffer of `size` bytes per material. -/
def createMaterialBuffers (w : World) (n size : Nat) : Exec (List Handle) :=
  Exec.collect n (fun _ => do
    let buffer ← create_buffer w size (VK_BUFFER_USAGE_UNIFORM_BUFFER_BIT ||| VK_BUFFER_USAGE_TRANSFER_DST_BIT)
    assign 0 buffer)

/-- The loops of `main` that allocate one descriptor set per material and point
it at the uniform buffer of the same index. -/
def createMaterialDescriptors (w : World) (dpool materialLayout : Handle) (ubos : List Handle)
    (n : Nat) : Exec (List Handle) :=
  Exec.collect n (fun i => do
    let set ← alloc_desc_set w dpool materialLayout
    let ubo ← Exec.index ubos i "materialUBO[i]"
    writeUniformBufferDescriptor set ubo
    pure set)

/-- The function `main` from its first statement to `bool recreateSwapchain = false;`. -/
def main_init (w : World) (boot : Boot) : Exec MainVars := do
  -- Create vulkan window
  let window ← make_vulkan_window w
  -- Create VMA allocator
  let allocator ← create_allocator w
  -- Intialize resources
  let renderPass ← create_render_pass w window
  let offlineRenderPass ← create_render_pass_texture w window
  let sceneLayout ← create_scene_descriptor_layout w
  let materialLayout ← create_material_descriptor_layout w
  let objectLayout ← create_object_descriptor_layout w
  let pipeLayout ← create_pipeline_layout w sceneLayout materialLayout objectLayout
  let pipe ← create_pipeline w window offlineRenderPass pipeLayout
  let pipe_filter_bright ← create_pipeline_filter_bright w window offlineRenderPass pipeLayout
  let pipeLayoutTex ← create_pipeline_with_texture_layout w sceneLayout objectLayout
  let postPipeLayout ← create_postprocess_pipeline_layout w sceneLayout objectLayout
  let postPipe ← create_postprocess_pipeline w window renderPass postPipeLayout
  let filterHorizontalPipe ← create_pipeline_horizontal w window renderPass postPipeLayout
  let filterVerticalPipe ← create_pipeline_vertical w window renderPass postPipeLayout
  -- Depth Buffer
  let (depthBuffer, depthBufferView) ← create_depth_buffer w window
  let (backBuffer, backBufferView) ← create_offine_image_view w window
  let (backFrameBuffer, backFrameBufferView) ← create_offine_image_view w window
  let (backBufferHorizontal, backBufferViewHorizontal) ← create_offine_image_view w window
  let (backBufferVertical, backBufferViewVertical) ← create_offine_image_view w window
  let framebuffers ← create_swapchain_framebuffers w window renderPass [] depthBufferView
  let cpool ← create_command_pool w
    (VK_COMMAND_POOL_CREATE_TRANSIENT_BIT ||| VK_COMMAND_POOL_CREATE_RESET_COMMAND_BUFFER_BIT)
  let slots ← allocFrameSlots w cpool framebuffers.length
  let cbuffers := slots.map Prod.fst
  let cbfences := slots.map Prod.snd
  let imageAvailable ← create_semaphore w
  let renderFinished ← create_semaphore w
  -- Create descriptor pool
  let dpool ← create_descriptor_pool w
  -- Load the model data
  let carModel := boot.carModel
  let loadedModel := boot.loadedModel
  -- Create a new framebuffer for offscreen rendering
  let backFramebuffer ← create_framebuffer w window offlineRenderPass 0 depthBufferView backFrameBufferView
  let temp_framebuffer ← create_framebuffer w window offlineRenderPass 0 depthBufferView backBufferView
  let temp_framebuffer_horizontal ←
    create_framebuffer w window offlineRenderPass 0 depthBufferView backBufferViewHorizontal
  let temp_framebuffer_vertical ←
    create_framebuffer w window offlineRenderPass 0 depthBufferView backBufferViewVertical
  -- Create scene uniform buffer
  let sceneUBO ← create_buffer w sizeof_SceneUniform
    (VK_BUFFER_USAGE_UNIFORM_BUFFER_BIT ||| VK_BUFFER_USAGE_TRANSFER_DST_BIT)
  let sceneDescriptor ← alloc_desc_set w dpool sceneLayout
  writeUniformBufferDescriptor sceneDescriptor sceneUBO
  -- Default sampler
  let filterSampler ← create_anisotropic_filter_sampler w 1
  let backFrameBufferDescriptor ← alloc_desc_set w dpool objectLayout
  updateBackBufferDescriptorSet backFrameBufferDescriptor backFrameBufferView filterSampler
  let backBufferDescriptor ← alloc_desc_set w dpool objectLayout
  updateBackBufferDescriptorSet backBufferDescriptor backBufferView filterSampler
  let backBufferBrightHorizontal ← alloc_desc_set w dpool objectLayout
  updateBackBufferDescriptorSet backBufferBrightHorizontal backBufferViewHorizontal filterSampler
  let backBufferBrightVertical ← alloc_desc_set w dpool objectLayout
  updateBackBufferDescriptorSet backBufferBrightVertical backBufferViewVertical filterSampler
  let materialUBO ← createMaterialBuffers w carModel.materials.length sizeof_MaterialUniform
  let materialDescriptors ←
    createMaterialDescriptors w dpool materialLayout materialUBO carModel.materials.length
  let materialPBRUBO ← createMaterialBuffers w carModel.materials.length sizeof_MaterialPBRUniform
  let materialPBRDescriptors ←
    createMaterialDescriptors w dpool materialLayout materialPBRUBO carModel.materials.length
  pure
    { window := window
      allocator := allocator
      renderPass := renderPass
      offlineRenderPass := offlineRenderPass
      sceneLayout := sceneLayout
      materialLayout := materialLayout
      objectLayout := objectLayout
      pipeLayout := pipeLayout
      pipe := pipe
      pipe_filter_bright := pipe_filter_bright
      pipeLayoutTex := pipeLayoutTex
      postPipeLayout := postPipeLayout
      postPipe := postPipe
      filterHorizontalPipe := filterHorizontalPipe
      filterVerticalPipe := filterVerticalPipe
      depthBuffer := depthBuffer
      depthBufferView := depthBufferView
      backBuffer := backBuffer
      backBufferView := backBufferView
      backFrameBuffer := backFrameBuffer
      backFrameBufferView := backFrameBufferView
      backBufferHorizontal := backBufferHorizontal
      backBufferViewHorizontal := backBufferViewHorizontal
      backBufferVertical := backBufferVertical
      backBufferViewVertical := backBufferViewVertical
      framebuffers := framebuffers
      cpool := cpool
      cbuffers := cbuffers
      cbfences := cbfences
      imageAvailable := imageAvailable
      renderFinished := renderFinished
      dpool := dpool
      carModel := carModel
      loadedModel := loadedModel
      backFramebuffer := backFramebuffer
      temp_framebuffer := temp_framebuffer
      temp_framebuffer_horizontal := temp_framebuffer_horizontal
      temp_framebuffer_vertical := temp_framebuffer_vertical
      sceneUBO := sceneUBO
      sceneDescriptor := sceneDescriptor
      filterSampler := filterSampler
      backFrameBufferDescriptor := backFrameBufferDescriptor
      backBufferDescriptor := backBufferDescriptor
      backBufferBrightHorizontal := backBufferBrightHorizontal
      backBufferBrightVertical := backBufferBrightVertical
      materialUBO := materialUBO
      materialDescriptors := materialDescriptors
      materialPBRUBO := materialPBRUBO
      materialPBRDescriptors := materialPBRDescriptors
      recreateSwapchain := false }

/-- The state of the driver before the program starts: no object exists, the
first handle it hands out is 1. -/
def Device.initial : Device :=
  { nextHandle := 1, objects := [], destroyed := [], descriptorWrites := [] }

/-- The function `main` up to the end of the main loop, the loop running for at
most one iteration per element of `ws`. -/
def main (bd : BufferBarrierDefaults) (w0 : World) (boot : Boot) (ws : List World) : Exec MainVars :=
  Exec.bind (main_init w0 boot) (fun v => mainLoop bd ws v)

/-! ## Reading a trace -/

/-- The commands a trace records into command buffer `cb`, in order. -/
def recorded (cb : Handle) (t : List Event) : List Cmd :=
  t.filterMap (fun e =>
    match e with
    | .record c x => if c = cb then some x else none
    | _ => none)

/-- A render pass instance: the render pass and framebuffer of its
`vkCmdBeginRenderPass` and the commands up to its `vkCmdEndRenderPass`. -/
structure PassInstance where
  renderPass : Handle
  framebuffer : Handle
  body : List Cmd
deriving DecidableEq, Repr

/-- Split a command list into its render pass instances.  The first argument
is the instance that is open (its begin info and its commands so far, last
first).  The result is `none` when a begin occurs inside an open instance, an
end occurs outside one, a draw occurs outside one, or an instance is left open. -/
def passInstances : Option (VkRenderPassBeginInfo × List Cmd) → List Cmd → Option (List PassInstance)
  | none, [] => some []
  | some _, [] => none
  | none, .vkCmdBeginRenderPass info :: cs => passInstances (some (info, [])) cs
  | some _, .vkCmdBeginRenderPass _ :: _ => none
  | none, .vkCmdEndRenderPass :: _ => none
  | some (info, body), .vkCmdEndRenderPass :: cs =>
    (passInstances none cs).map
      (fun ps => { renderPass := info.renderPass, framebuffer := info.framebuffer, body := body.reverse } :: ps)
  | none, .vkCmdDraw _ _ _ _ :: _ => none
  | none, _ :: cs => passInstances none cs
  | some (info, body), c :: cs => passInstances (some (info, c :: body)) cs

/-- Whether a command opens a render pass instance. -/
def Cmd.isBegin : Cmd → Bool
  | .vkCmdBeginRenderPass _ => true
  | _ => false

/-- Whether a command opens or closes a render pass instance. -/
def Cmd.isBeginOrEnd : Cmd → Bool
  | .vkCmdBeginRenderPass _ => true
  | .vkCmdEndRenderPass => true
  | _ => false

/-- Whether a command is a draw. -/
def Cmd.isDraw : Cmd → Bool
  | .vkCmdDraw _ _ _ _ => true
  | _ => false

/-- Whether a command is a `vkCmdUpdateBuffer`. -/
def Cmd.isUpdate : Cmd → Bool
  | .vkCmdUpdateBuffer _ _ _ _ => true
  | _ => false

/-- Whether a command is a `vkCmdPipelineBarrier`. -/
def Cmd.isBarrier : Cmd → Bool
  | .vkCmdPipelineBarrier _ _ _ _ _ _ => true
  | _ => false

/-- The arguments of `record_commands` index every vector inside its bounds:
the four material vectors are as long as the loop over `aMaterialDescriptor`
runs, the per-submesh vectors are as long as the loop over `car.positions`
runs, and every material index selects an element of both descriptor vectors. -/
def RecordArgs.InBounds (a : RecordArgs) : Prop :=
  a.aMaterialDescriptor.length ≤ a.aMaterialUBOs.length ∧
  a.aMaterialDescriptor.length ≤ a.aMaterialUniforms.length ∧
  a.aMaterialDescriptor.length ≤ a.aMaterialPBRUBOs.length ∧
  a.aMaterialDescriptor.length ≤ a.aMaterialPBRUniforms.length ∧
  a.car.positions.length ≤ a.car.normals.length ∧
  a.car.positions.length ≤ a.car.texCorods.length ∧
  a.car.positions.length ≤ a.car.colors.length ∧
  a.car.positions.length ≤ a.car.surfaceNormals.length ∧
  a.car.positions.length ≤ a.car.vertexCount.length ∧
  a.car.positions.length ≤ a.car.materialIndex.length ∧
  ∀ i, i < a.car.positions.length →
    0 ≤ a.car.materialIndex.getD i 0 ∧
    (a.car.materialIndex.getD i 0).toNat < a.aMaterialDescriptor.length ∧
    (a.car.materialIndex.getD i 0).toNat < a.aMaterialPBRDescriptor.length

/-- The pipeline barrier a six-argument `buffer_barrier` call records. -/
def barrierCmd (bd : BufferBarrierDefaults) (aBuffer : Handle) (aSrcAccessMask aDstAccessMask : VkFlags) : Cmd :=
  .vkCmdPipelineBarrier aSrcAccessMask aDstAccessMask 0 0
    [ { srcAccessMask := aSrcAccessMask
        dstAccessMask := aDstAccessMask
        buffer := aBuffer
        size := bd.aSize
        offset := bd.aOffset
        srcQueueFamilyIndex := bd.aSrcQueueFamilyIndex
        dstQueueFamilyIndex := bd.aDstQueueFamilyIndex } ] 0

/-- Barrier, update, barrier on one uniform buffer. -/
def uploadCmds (bd : BufferBarrierDefaults) (buffer : Handle) (size : Nat) (src : UniformSource) : List Cmd :=
  [ barrierCmd bd buffer VK_ACCESS_UNIFORM_READ_BIT VK_ACCESS_TRANSFER_WRITE_BIT,
    .vkCmdUpdateBuffer buffer 0 size src,
    barrierCmd bd buffer VK_ACCESS_TRANSFER_WRITE_BIT VK_ACCESS_UNIFORM_READ_BIT ]

/-- The commands of iteration `i` of the material upload loop. -/
def materialCmds (bd : BufferBarrierDefaults) (a : RecordArgs) (i : Nat) : List Cmd :=
  uploadCmds bd (a.aMaterialUBOs.getD i 0) sizeof_MaterialUniform (.aMaterialUniforms i) ++
  uploadCmds bd (a.aMaterialPBRUBOs.getD i 0) sizeof_MaterialPBRUniform (.aMaterialPBRUniforms i)

/-- All uniform uploads, in recording order. -/
def uploadsCmds (bd : BufferBarrierDefaults) (a : RecordArgs) : List Cmd :=
  uploadCmds bd a.aSceneUBO sizeof_SceneUniform .aSceneUniform ++
  (List.range' 0 a.aMaterialDescriptor.length).flatMap (materialCmds bd a)

/-- The commands of iteration `i` of a draw loop that binds `pipeline`. -/
def drawCmds (a : RecordArgs) (pipeline : Handle) (i : Nat) : List Cmd :=
  [ .vkCmdBindDescriptorSets a.aGraphicsLayout 1
      [a.aMaterialDescriptor.getD (a.car.materialIndex.getD i 0).toNat 0],
    .vkCmdBindDescriptorSets a.aGraphicsLayout 2
      [a.aMaterialPBRDescriptor.getD (a.car.materialIndex.getD i 0).toNat 0],
    .vkCmdBindPipeline pipeline,
    .vkCmdBindVertexBuffers 0
      [ a.car.positions.getD i 0, a.car.normals.getD i 0, a.car.texCorods.getD i 0,
        a.car.colors.getD i 0, a.car.surfaceNormals.getD i 0 ]
      [0, 0, 0, 0, 0],
    .vkCmdDraw (a.car.vertexCount.getD i 0) 1 0 0 ]

/-- The commands between the begin and the end of a mesh pass that binds `pipeline`. -/
def meshPassBody (a : RecordArgs) (pipeline : Handle) : List Cmd :=
  .vkCmdBindDescriptorSets a.aGraphicsLayout 0 [a.aSceneDesctipror] ::
    (List.range' 0 a.car.positions.length).flatMap (drawCmds a pipeline)

/-- The commands between the begin and the end of a blur pass. -/
def blurPassBody (a : RecordArgs) (pipeline descriptor : Handle) : List Cmd :=
  [ .vkCmdBindPipeline pipeline,
    .vkCmdBindDescriptorSets a.aGraphicsLayoutTexture 0 [descriptor],
    .vkCmdDraw 3 1 0 0 ]

/-- The commands between the begin and the end of the composite pass. -/
def compositePassBody (a : RecordArgs) : List Cmd :=
  [ .vkCmdBindPipeline a.aPostPipe,
    .vkCmdBindDescriptorSets a.aGraphicsLayoutTexture 0 [a.aFilterVerticalDescriptor],
    .vkCmdBindDescriptorSets a.aGraphicsLayoutTexture 1 [a.aBackFrameBufferDescriptor],
    .vkCmdDraw 3 1 0 0 ]

/-- A `vkCmdBeginRenderPass` of `record_commands`. -/
def beginCmd (a : RecordArgs) (renderPass framebuffer : Handle) (clear : ClearValues) : Cmd :=
  .vkCmdBeginRenderPass
    { renderPass := renderPass
      framebuffer := framebuffer
      renderArea := a.aImageExtent
      clearValueCount := 2
      pClearValues := clear }

/-- One render pass instance: begin, body, end. -/
def passCmds (a : RecordArgs) (renderPass framebuffer : Handle) (clear : ClearValues)
    (body : List Cmd) : List Cmd :=
  beginCmd a renderPass framebuffer clear :: (body ++ [.vkCmdEndRenderPass])

/-- The five render passes, in recording order. -/
def passesCmds (a : RecordArgs) : List Cmd :=
  passCmds a a.aBackRenderPass a.aBackbuffer clearValuesBlack (meshPassBody a a.aFilterPipe) ++
  (passCmds a a.aBackRenderPass a.aFilterHorizontalBuffer clearValuesBlack
    (blurPassBody a a.aHorizontalPipe a.aBackBufferDescriptor) ++
  (passCmds a a.aBackRenderPass a.aFilterVerticalBuffer clearValuesGray
    (blurPassBody a a.aVerticalPipe a.aFilterHorizontalDescriptor) ++
  (passCmds a a.aBackRenderPass a.aFrameBackBuffer clearValuesGray (meshPassBody a a.aGraphicsPipe) ++
  passCmds a a.aRenderPass a.aFramebuffer clearValuesGray (compositePassBody a))))

/-- The command list `record_commands` records when every index is in range. -/
def expectedCmds (bd : BufferBarrierDefaults) (a : RecordArgs) : List Cmd :=
  uploadsCmds bd a ++ passesCmds a


/-- Check that every `vkCmdUpdateBuffer` of a command list has the barrier
uniform-read to transfer-write on its buffer as the command right before it and
the barrier transfer-write to uniform-read on its buffer as the command right
after it.  The first argument is the command before the list. -/
def updatesEnclosed (bd : BufferBarrierDefaults) : Option Cmd → List Cmd → Bool
  | _, [] => true
  | prev, .vkCmdUpdateBuffer buffer o s src :: rest =>
    decide (prev = some (barrierCmd bd buffer VK_ACCESS_UNIFORM_READ_BIT VK_ACCESS_TRANSFER_WRITE_BIT)) &&
    decide (rest.head? = some (barrierCmd bd buffer VK_ACCESS_TRANSFER_WRITE_BIT VK_ACCESS_UNIFORM_READ_BIT)) &&
    updatesEnclosed bd (some (.vkCmdUpdateBuffer buffer o s src)) rest
  | _, c :: rest => updatesEnclosed bd (some c) rest

/-- The commands one call of a recording function puts into command buffer `cb`. -/
def recordedBy (cb : Handle) (x : Exec Unit) : List Cmd :=
  recorded cb (x { nextHandle := 1, objects := [], destroyed := [], descriptorWrites := [] }).1

/-- The triple the source records around one uniform upload: the call
`buffer_barrier(uniform-read, transfer-write, vertex-shader, transfer)`, the
`vkCmdUpdateBuffer`, and the call `buffer_barrier(transfer-write, uniform-read,
transfer, vertex-shader)`, all on `buffer`. -/
def sandwich (bd : BufferBarrierDefaults) (cb buffer : Handle) (size : Nat) (src : UniformSource) : List Cmd :=
  recordedBy cb (buffer_barrier6 bd cb buffer VK_ACCESS_UNIFORM_READ_BIT VK_ACCESS_TRANSFER_WRITE_BIT
    VK_PIPELINE_STAGE_VERTEX_SHADER_BIT VK_PIPELINE_STAGE_TRANSFER_BIT) ++
  [.vkCmdUpdateBuffer buffer 0 size src] ++
  recordedBy cb (buffer_barrier6 bd cb buffer VK_ACCESS_TRANSFER_WRITE_BIT VK_ACCESS_UNIFORM_READ_BIT
    VK_PIPELINE_STAGE_TRANSFER_BIT VK_PIPELINE_STAGE_VERTEX_SHADER_BIT)

/-- Replace the pipeline `old` by `new` in a pipeline bind; other commands are unchanged. -/
def Cmd.replacePipeline (old new : Handle) : Cmd → Cmd
  | .vkCmdBindPipeline p => .vkCmdBindPipeline (if p = old then new else p)
  | c => c

/-! ## Sample inputs -/

/-- A shader file of two words that every `fread` reads completely. -/
def okFile : ShaderFile := { bytes := 8, fread := fun _ requested => requested }

/-- An environment in which every call succeeds. -/
def World.allOk : World :=
  { glfwWindowShouldClose := false
    result := fun _ => VK_SUCCESS
    createResult := fun _ => VK_SUCCESS
    imageIndex := 0
    numLight := 1
    position := initialPosition
    rotation := initialRotation
    swapImageCount := 2
    swapchainFormat := 50
    swapchainExtent := { width := 800, height := 600 }
    files := fun _ => some okFile }

/-- The defaults `VK_WHOLE_SIZE`, `0`, `VK_QUEUE_FAMILY_IGNORED`, `VK_QUEUE_FAMILY_IGNORED`. -/
def sampleDefaults : BufferBarrierDefaults :=
  { aSize := 18446744073709551615, aOffset := 0
    aSrcQueueFamilyIndex := 4294967295, aDstQueueFamilyIndex := 4294967295 }

/-- A mesh of two submeshes, the first of material 1 and the second of material 0. -/
def sampleMesh : LoadedMesh :=
  { positions := [101, 102], normals := [111, 112], texCorods := [121, 122], colors := [131, 132]
    surfaceNormals := [141, 142], vertexCount := [3, 6], materialIndex := [1, 0] }

/-- Arguments for `record_commands` with two materials and the mesh `sampleMesh`. -/
def sampleArgs : RecordArgs :=
  { aCmdBuff := 1, aBackRenderPass := 2, aRenderPass := 3, aFrameBackBuffer := 4, aBackbuffer := 5
    aFilterHorizontalBuffer := 6, aFilterVerticalBuffer := 7, aFramebuffer := 8, aGraphicsPipe := 9
    aFilterPipe := 10, aHorizontalPipe := 11, aVerticalPipe := 12, aPostPipe := 13
    aImageExtent := { width := 800, height := 600 }, car := sampleMesh, aSceneUBO := 14
    aSceneUniform := { size := 1 }, aGraphicsLayout := 15, aGraphicsLayoutTexture := 16
    aSceneDesctipror := 17, aBackFrameBufferDescriptor := 18, aBackBufferDescriptor := 19
    aFilterHorizontalDescriptor := 20, aFilterVerticalDescriptor := 21
    aMaterialUBOs := [31, 32], aMaterialUniforms := [{ material := some 0 }, { material := some 1 }]
    aMaterialDescriptor := [41, 42], aMaterialPBRUBOs := [51, 52]
    aMaterialPBRUniforms := [{ material := some 0, size := 1 }, { material := some 1, size := 1 }]
    aMaterialPBRDescriptor := [61, 62] }

/-- A model of two materials with the mesh `sampleMesh`. -/
def sampleBoot : Boot :=
  { carModel := { materials := [{ materialName := "a" }, { materialName := "b" }] }
    loadedModel := sampleMesh }

/-! ## Classifying events and environments -/

/-- Events of object construction and teardown: waiting for the device,
rebuilding the swapchain, creating and destroying objects, writing descriptor
sets, reading shader files. -/
def Event.isSetup : Event → Bool
  | .vkDeviceWaitIdle => true
  | .recreate_swapchain => true
  | .create _ _ _ => true
  | .destroy _ => true
  | .vkUpdateDescriptorSets _ => true
  | .fopen _ _ => true
  | .fread _ _ _ _ => true
  | .fclose _ => true
  | _ => false

/-- Whether an event is a `vkAcquireNextImageKHR`. -/
def Event.isAcquire : Event → Bool
  | .vkAcquireNextImageKHR _ _ _ _ _ => true
  | _ => false

/-- Whether an event is a `vkQueuePresentKHR`. -/
def Event.isPresent : Event → Bool
  | .vkQueuePresentKHR _ _ _ => true
  | _ => false

/-- Whether an event is a `vkQueueSubmit`. -/
def Event.isSubmit : Event → Bool
  | .vkQueueSubmit _ _ _ _ => true
  | _ => false

/-- Events that touch command buffer `cb` only: begin, record, end on `cb`. -/
def Event.isRecordingOn (cb : Handle) : Event → Bool
  | .vkBeginCommandBuffer c _ _ => decide (c = cb)
  | .record c _ => decide (c = cb)
  | .vkEndCommandBuffer c _ => decide (c = cb)
  | _ => false

/-- A shader file whose length is a multiple of four and whose reads make progress. -/
def ShaderFile.Readable (f : ShaderFile) : Prop :=
  f.bytes % 4 = 0 ∧ ∀ offset requested, 0 < requested → 0 < f.fread offset requested

/-- Every object creation succeeds and every shader file can be read. -/
def World.CreationSucceeds (w : World) : Prop :=
  (∀ h, w.createResult h = VK_SUCCESS) ∧ ∀ path, ∃ f, w.files path = some f ∧ f.Readable

/-- Every call other than the acquire and the present succeeds. -/
def World.OthersSucceed (w : World) : Prop :=
  w.CreationSucceeds ∧
  ∀ s, s ≠ Site.vkAcquireNextImageKHR → s ≠ Site.vkQueuePresentKHR → w.result s = VK_SUCCESS

/-- A piece of the program performs only events satisfying `P`, and when it
returns, the value it returns satisfies `Q`. -/
def Exec.Sat {α : Type} (P : Event → Prop) (Q : α → Prop) (x : Exec α) : Prop :=
  ∀ d, (∀ e ∈ (x d).1, P e) ∧ ∀ a d1, (x d).2 = .done a d1 → Q a

/-- A piece of the program returns, with a value satisfying `Q`. -/
def Exec.Total {α : Type} (Q : α → Prop) (x : Exec α) : Prop :=
  ∀ d, ∃ a d1, (x d).2 = .done a d1 ∧ Q a

/-- A state of the local variables of `main` at the loop head: two swapchain
images, two materials, the mesh `sampleMesh`. -/
def sampleVars : MainVars :=
  { window :=
      { window := 1, device := 2, graphicsQueue := 3, presentQueue := 4, swapchain := 5
        swapViews := [6, 7], swapchainFormat := 50, swapchainExtent := { width := 800, height := 600 } }
    allocator := 8, renderPass := 9, offlineRenderPass := 10, sceneLayout := 11, materialLayout := 12
    objectLayout := 13, pipeLayout := 14, pipe := 15, pipe_filter_bright := 16, pipeLayoutTex := 17
    postPipeLayout := 18, postPipe := 19, filterHorizontalPipe := 20, filterVerticalPipe := 21
    depthBuffer := 22, depthBufferView := 23, backBuffer := 24, backBufferView := 25
    backFrameBuffer := 26, backFrameBufferView := 27, backBufferHorizontal := 28
    backBufferViewHorizontal := 29, backBufferVertical := 30, backBufferViewVertical := 31
    framebuffers := [32, 33], cpool := 34, cbuffers := [35, 37], cbfences := [36, 38]
    imageAvailable := 39, renderFinished := 40, dpool := 41
    carModel := sampleBoot.carModel, loadedModel := sampleMesh
    backFramebuffer := 42, temp_framebuffer := 43, temp_framebuffer_horizontal := 44
    temp_framebuffer_vertical := 45, sceneUBO := 46, sceneDescriptor := 47, filterSampler := 48
    backFrameBufferDescriptor := 49, backBufferDescriptor := 50, backBufferBrightHorizontal := 51
    backBufferBrightVertical := 52, materialUBO := [53, 54], materialDescriptors := [55, 56]
    materialPBRUBO := [57, 58], materialPBRDescriptors := [59, 60], recreateSwapchain := false }

/-- A driver state whose next handle is above every handle of `sampleVars`. -/
def sampleDevice : Device :=
  { nextHandle := 100, objects := [], destroyed := [], descriptorWrites := [] }

/-- The first five calls of a main-loop iteration that does not rebuild. -/
def iterationHead (w : World) (v : MainVars) : List Event :=
  [ .glfwPollEvents, .glfwSetKeyCallback, .glfwSetMouseButtonCallback, .glfwSetCursorPosCallback,
    .vkAcquireNextImageKHR v.window.swapchain v.imageAvailable 0
      (w.result .vkAcquireNextImageKHR) w.imageIndex ]

/-! ## Frames -/

/-- Every vector element the frame for image index `i` accesses exists: the
slot `i` of the three per-image vectors, the material vectors up to the number
of material descriptor sets, and the per-submesh vectors of the loaded mesh
with material indices that select a descriptor set. -/
def MainVars.FrameInBounds (v : MainVars) (i : Nat) : Prop :=
  i < v.cbfences.length ∧ i < v.cbuffers.length ∧ i < v.framebuffers.length ∧
  v.materialDescriptors.length ≤ v.carModel.materials.length ∧
  v.materialDescriptors.length ≤ v.materialPBRDescriptors.length ∧
  v.materialDescriptors.length ≤ v.materialUBO.length ∧
  v.materialDescriptors.length ≤ v.materialPBRUBO.length ∧
  v.loadedModel.positions.length ≤ v.loadedModel.normals.length ∧
  v.loadedModel.positions.length ≤ v.loadedModel.texCorods.length ∧
  v.loadedModel.positions.length ≤ v.loadedModel.colors.length ∧
  v.loadedModel.positions.length ≤ v.loadedModel.surfaceNormals.length ∧
  v.loadedModel.positions.length ≤ v.loadedModel.vertexCount.length ∧
  v.loadedModel.positions.length ≤ v.loadedModel.materialIndex.length ∧
  ∀ j, j < v.loadedModel.positions.length →
    0 ≤ v.loadedModel.materialIndex.getD j 0 ∧
    (v.loadedModel.materialIndex.getD j 0).toNat < v.materialDescriptors.length ∧
    (v.loadedModel.materialIndex.getD j 0).toNat < v.materialPBRDescriptors.length

/-- What the events of the frame for image index `i` may refer to: a fence wait
or reset names the fence `cbfences[i]` alone; beginning, recording into and
ending a command buffer concern `cbuffers[i]`; a submission goes to the graphics
queue with the one command buffer `cbuffers[i]`, waits on `imageAvailable` at the
colour-attachment-output stage, signals `renderFinished` and is fenced by
`cbfences[i]`; a present waits on `renderFinished` and presents image `i` of the
window's swapchain; an acquire signals `imageAvailable`. -/
def FrameEventOk (v : MainVars) (i : Nat) : Event → Prop
  | .vkWaitForFences fences _ => ∃ f, v.cbfences.get? i = some f ∧ fences = [f]
  | .vkResetFences fences _ => ∃ f, v.cbfences.get? i = some f ∧ fences = [f]
  | .vkBeginCommandBuffer cb _ _ => v.cbuffers.get? i = some cb
  | .record cb _ => v.cbuffers.get? i = some cb
  | .vkEndCommandBuffer cb _ => v.cbuffers.get? i = some cb
  | .vkQueueSubmit queue submit fence _ =>
    queue = v.window.graphicsQueue ∧
    (∃ cb, v.cbuffers.get? i = some cb ∧ submit.commandBuffers = [cb]) ∧
    submit.waitSemaphores = [v.imageAvailable] ∧
    submit.waitDstStageMask = [VK_PIPELINE_STAGE_COLOR_ATTACHMENT_OUTPUT_BIT] ∧
    submit.signalSemaphores = [v.renderFinished] ∧
    v.cbfences.get? i = some fence
  | .vkQueuePresentKHR queue info _ =>
    queue = v.window.presentQueue ∧ info.waitSemaphores = [v.renderFinished] ∧
    info.swapchains = [v.window.swapchain] ∧ info.imageIndices = [i]
  | .vkAcquireNextImageKHR swapchain semaphore _ _ imageIndex =>
    swapchain = v.window.swapchain ∧ semaphore = v.imageAvailable ∧ imageIndex = i
  | _ => True

/-! ## Ordering of fence waits, recording and submission -/

/-- What a reader of the trace keeps track of: within the current loop
iteration the fences waited on, the fences reset after having been waited on,
and the command buffers recorded into before any fence was reset; and, across
iterations, the fences of the submissions that have not been waited for since. -/
structure OrderState where
  waited : List Handle
  armed : List Handle
  early : List Handle
  pending : List Handle
deriving DecidableEq, Repr

/-- One step of the reader.  `glfwPollEvents` starts an iteration.  A successful
wait marks its fences as waited on and their submissions as no longer
outstanding.  A successful reset arms the fences it names that were waited on.
Recording while no fence is armed marks the command buffer.  A submission is
accepted only if its fence is armed, none of its command buffers is marked, and
no earlier submission with that fence is outstanding; it then becomes the
outstanding submission of its fence.  Otherwise the reader stops (`none`). -/
def orderStep (s : OrderState) : Event → Option OrderState
  | .glfwPollEvents => some { s with waited := [], armed := [], early := [] }
  | .vkWaitForFences fences res =>
    if res = VK_SUCCESS then
      some { s with waited := fences ++ s.waited, pending := s.pending.filter (fun f => !fences.contains f) }
    else some s
  | .vkResetFences fences res =>
    if res = VK_SUCCESS then
      some { s with armed := fences.filter (fun f => s.waited.contains f) ++ s.armed }
    else some s
  | .vkBeginCommandBuffer cb _ _ =>
    if s.armed.isEmpty then some { s with early := cb :: s.early } else some s
  | .record cb _ =>
    if s.armed.isEmpty then some { s with early := cb :: s.early } else some s
  | .vkQueueSubmit _ submit fence _ =>
    if s.armed.contains fence && submit.commandBuffers.all (fun cb => !s.early.contains cb) &&
        !s.pending.contains fence then
      some { s with pending := fence :: s.pending }
    else none
  | _ => some s

/-- Run a reader over a trace. -/
def runMonitor {σ : Type} (step : σ → Event → Option σ) : σ → List Event → Option σ
  | s, [] => some s
  | s, e :: t =>
    match step s e with
    | some s1 => runMonitor step s1 t
    | none => none

/-- The trace of a piece of the program is a run of events satisfying `P`
followed by a tail satisfying `T`. -/
def Exec.Ends {α : Type} (P : Event → Prop) (T : List Event → Prop) (x : Exec α) : Prop :=
  ∀ d, ∃ t1 t2, (x d).1 = t1 ++ t2 ∧ (∀ e ∈ t1, P e) ∧ T t2

/-! ## The frame that reaches recording -/

/-- The two material uniform vectors after the loop of `main` over the indices
`i, ..., i + k - 1` has run without an access out of range. -/
def materialUniformsFrom (numLight : Int) :
    Nat → Nat → List MaterialUniform × List MaterialPBRUniform →
      List MaterialUniform × List MaterialPBRUniform
  | _, 0, acc => acc
  | i, k + 1, (mu, pbr) =>
    materialUniformsFrom numLight (i + 1) k
      (mu.set i (update_material_uniforms i), pbr.set i (update_material_PBR_uniforms i numLight))

/-- The value of `materialUniforms` and `materialPBRUniforms` when `main` calls `record_commands`. -/
def frameMaterialUniforms (w : World) (v : MainVars) : List MaterialUniform × List MaterialPBRUniform :=
  materialUniformsFrom w.numLight 0 v.materialDescriptors.length
    (List.replicate v.materialDescriptors.length { material := none },
     List.replicate v.materialPBRDescriptors.length { material := none, size := 3 })

/-- The arguments of the call of `record_commands` in the frame for image index
`i`, when slot `i` exists. -/
def frameRecordArgs (w : World) (v : MainVars) (i : Nat) : RecordArgs :=
  recordArgs v (v.cbuffers.getD i 0) (v.framebuffers.getD i 0)
    (update_scene_uniforms w.position w.rotation v.window.swapchainExtent.width
      v.window.swapchainExtent.height w.numLight)
    (frameMaterialUniforms w v).1 (frameMaterialUniforms w v).2

/-- The `vkQueueSubmit` of a frame on the command buffer `cb` with the fence `f`. -/
def submitEvent (v : MainVars) (cb f : Handle) (res : VkResult) : Event :=
  .vkQueueSubmit v.window.graphicsQueue
    { commandBuffers := [cb]
      waitSemaphores := [v.imageAvailable]
      waitDstStageMask := [VK_PIPELINE_STAGE_COLOR_ATTACHMENT_OUTPUT_BIT]
      signalSemaphores := [v.renderFinished] }
    f res

/-- The `vkQueuePresentKHR` of the frame for image index `i`. -/
def presentEvent (v : MainVars) (i : Nat) (res : VkResult) : Event :=
  .vkQueuePresentKHR v.window.presentQueue
    { waitSemaphores := [v.renderFinished]
      swapchains := [v.window.swapchain]
      imageIndices := [i] }
    res

/-- How a frame ends after recording: nothing more when `vkEndCommandBuffer`
failed, the submission alone when it failed, else the submission and the present. -/
def frameTail (w : World) (v : MainVars) (i : Nat) : List Event :=
  if w.result .vkEndCommandBuffer = VK_SUCCESS then
    if w.result .vkQueueSubmit = VK_SUCCESS then
      [ submitEvent v (v.cbuffers.getD i 0) (v.cbfences.getD i 0) VK_SUCCESS,
        presentEvent v i (w.result .vkQueuePresentKHR) ]
    else [ submitEvent v (v.cbuffers.getD i 0) (v.cbfences.getD i 0) (w.result .vkQueueSubmit) ]
  else []

/-- The outcome of a frame that reaches recording. -/
def frameOutcome (w : World) (v : MainVars) (d : Device) : Outcome MainVars :=
  if w.result .vkEndCommandBuffer = VK_SUCCESS then
    if w.result .vkQueueSubmit = VK_SUCCESS then
      if w.result .vkQueuePresentKHR = VK_SUBOPTIMAL_KHR ∨
          w.result .vkQueuePresentKHR = VK_ERROR_OUT_OF_DATE_KHR then
        .done { v with recreateSwapchain := true } d
      else if w.result .vkQueuePresentKHR ≠ VK_SUCCESS then
        .fault (.error "Unable present swapchain image" (w.result .vkQueuePresentKHR))
      else .done v d
    else .fault (.error "Unable to submit command buffer to queue" (w.result .vkQueueSubmit))
  else .fault (.error "Unable to end recording command buffer" (w.result .vkEndCommandBuffer))

/-- The events of a frame that reaches recording, for image index `i`. -/
def frameEvents (w : World) (bd : BufferBarrierDefaults) (v : MainVars) (i : Nat) : List Event :=
  [ .vkWaitForFences [v.cbfences.getD i 0] VK_SUCCESS,
    .vkResetFences [v.cbfences.getD i 0] VK_SUCCESS,
    .vkBeginCommandBuffer (v.cbuffers.getD i 0) VK_COMMAND_BUFFER_USAGE_ONE_TIME_SUBMIT_BIT VK_SUCCESS ] ++
  (expectedCmds bd (frameRecordArgs w v i)).map (.record (v.cbuffers.getD i 0)) ++
  [ .vkEndCommandBuffer (v.cbuffers.getD i 0) (w.result .vkEndCommandBuffer) ] ++
  frameTail w v i

/-- The status returned by a `vkAcquireNextImageKHR` or a `vkQueuePresentKHR`. -/
def Event.swapchainStatus : Event → Option VkResult
  | .vkAcquireNextImageKHR _ _ _ res _ => some res
  | .vkQueuePresentKHR _ _ res => some res
  | _ => none

/-- The status returned by a `vkQueuePresentKHR`. -/
def Event.presentStatus : Event → Option VkResult
  | .vkQueuePresentKHR _ _ res => some res
  | _ => none

/-- A status other than success, suboptimal and out-of-date. -/
def isFatalStatus (res : VkResult) : Prop :=
  res ≠ VK_SUCCESS ∧ res ≠ VK_SUBOPTIMAL_KHR ∧ res ≠ VK_ERROR_OUT_OF_DATE_KHR

/-- The status suboptimal or out-of-date. -/
def isStaleStatus (res : VkResult) : Prop :=
  res = VK_SUBOPTIMAL_KHR ∨ res = VK_ERROR_OUT_OF_DATE_KHR

/-- An environment in which every call succeeds except the present, which
returns `VK_SUBOPTIMAL_KHR`. -/
def World.stalePresent : World :=
  { World.allOk with
    result := fun s => if s = Site.vkQueuePresentKHR then VK_SUBOPTIMAL_KHR else VK_SUCCESS }

/-- The end of the trace of an iteration for image index `i`: nothing, or a
failed submission, or a successful submission followed by the present; the
submission is the one of `submit_commands` on `cbuffers[i]`, fenced by `cbfences[i]`. -/
def SubmitThenPresent (v : MainVars) (i : Nat) (t : List Event) : Prop :=
  t = [] ∨ ∃ cb f, v.cbuffers.get? i = some cb ∧ v.cbfences.get? i = some f ∧
    ((∃ r, r ≠ VK_SUCCESS ∧ t = [submitEvent v cb f r]) ∨
      ∃ r, t = [submitEvent v cb f VK_SUCCESS, presentEvent v i r])

/-- The two `static_assert`s that follow each uniform struct of namespace `glsl`,
for a struct of `size` bytes. -/
def staticSizeCheck (size : Nat) : Bool :=
  decide (size ≤ 65536) && decide (size % 4 = 0)

/-! ## The driver state along a successful run -/

/-- The driver state after a successful creation of `o`. -/
def Device.alloc (d : Device) (o : Object) : Device :=
  { d with nextHandle := d.nextHandle + 1, objects := (d.nextHandle, o) :: d.objects }

/-- The driver state after the successful creations of a list of objects, in order. -/
def Device.allocs (d : Device) (os : List Object) : Device := os.foldl Device.alloc d

/-- The driver state after the destruction of `h`. -/
def Device.free (d : Device) (h : Handle) : Device :=
  if h = 0 then d else { d with destroyed := h :: d.destroyed }

/-- The driver state after the destructions of a list of handles, in order. -/
def Device.frees (d : Device) (hs : List Handle) : Device := hs.foldl Device.free d

/-- The driver state after a `vkUpdateDescriptorSets`. -/
def Device.write (d : Device) (writes : List VkWriteDescriptorSet) : Device :=
  { d with descriptorWrites := writes.reverse ++ d.descriptorWrites }

/-- The object behind a handle: the creation parameters the driver remembers for it. -/
def Device.object (d : Device) (h : Handle) : Option Object := d.objects.lookup h

/-- The attachments of the framebuffer behind a handle. -/
def Device.attachments (d : Device) (fb : Handle) : Option (List Handle) :=
  match d.object fb with
  | some (.framebuffer info) => some info.attachments
  | _ => none

/-- The image view a combined-image-sampler descriptor set refers to: the one
of the most recent write to binding 0 of the set. -/
def Device.sampledView (d : Device) (set : Handle) : Option Handle :=
  match d.descriptorWrites.find? (fun wr => wr.dstSet = set ∧ wr.dstBinding = 0) with
  | some wr =>
    match wr.info with
    | .image _ imageView _ => some imageView
    | .buffer _ => none
  | none => none

/-! ## The rebuild on its success path -/

/-- The length of a shader file on disk (0 when there is none). -/
def shaderBytes (w : World) (path : String) : Nat :=
  match w.files path with
  | some f => f.bytes
  | none => 0

/-- The result and driver state of a `recreate_swapchain` in which every creation succeeds. -/
def afterRecreateSwapchain (w : World) (aWindow : VulkanWindow) (d : Device) :
    (VulkanWindow × SwapChanges) × Device :=
  (({ aWindow with
        swapchain := d.nextHandle
        swapViews := List.range' (d.nextHandle + 1) w.swapImageCount
        swapchainFormat := w.swapchainFormat
        swapchainExtent := w.swapchainExtent },
    { changedSize := decide (w.swapchainExtent ≠ aWindow.swapchainExtent)
      changedFormat := decide (w.swapchainFormat ≠ aWindow.swapchainFormat) }),
   (((d.alloc (.swapchain w.swapchainFormat w.swapchainExtent)).allocs
      ((List.range' 0 w.swapImageCount).map (fun i => .swapView d.nextHandle i))).frees
        aWindow.swapViews).free aWindow.swapchain)

/-- The variables and driver state after `rebuildRenderPass` when every creation succeeds. -/
def afterRebuildRenderPass (changes : SwapChanges) (v : MainVars) (d : Device) : MainVars × Device :=
  if changes.changedFormat then
    ({ v with renderPass := d.nextHandle },
      (d.alloc (.renderPass (presentPassInfo v.window))).free v.renderPass)
  else (v, d)

/-- The driver state after an image and its view were created and assigned to
the variables that held `oldImage` and `oldView`; the new image is
`d.nextHandle`, the new view `d.nextHandle + 1`. -/
def afterImagePair (d : Device) (info : VkImageCreateInfo) (aspectMask : VkFlags)
    (oldImage oldView : Handle) : Device :=
  (((d.alloc (.image info)).alloc
      (.imageView { image := d.nextHandle, format := info.format, aspectMask := aspectMask })).free
        oldImage).free oldView

/-- The `VkImageCreateInfo` of `create_depth_buffer`. -/
def depthImageInfo (aWindow : VulkanWindow) : VkImageCreateInfo :=
  { format := kDepthFormat
    extent := aWindow.swapchainExtent
    usage := VK_IMAGE_USAGE_DEPTH_STENCIL_ATTACHMENT_BIT }

/-- The `VkImageCreateInfo` of `create_offine_image_view`. -/
def offscreenImageInfo (aWindow : VulkanWindow) : VkImageCreateInfo :=
  { format := aWindow.swapchainFormat
    extent := aWindow.swapchainExtent
    usage := VK_IMAGE_USAGE_COLOR_ATTACHMENT_BIT ||| VK_IMAGE_USAGE_SAMPLED_BIT }

/-- The variables and driver state after `rebuildTargets` when every creation succeeds. -/
def afterRebuildTargets (changes : SwapChanges) (v : MainVars) (d : Device) : MainVars × Device :=
  if changes.changedSize then
    let d1 := afterImagePair d (depthImageInfo v.window) VK_IMAGE_ASPECT_DEPTH_BIT
      v.depthBuffer v.depthBufferView
    let d2 := afterImagePair d1 (offscreenImageInfo v.window) VK_IMAGE_ASPECT_COLOR_BIT
      v.backBuffer v.backBufferView
    let d3 := afterImagePair d2 (offscreenImageInfo v.window) VK_IMAGE_ASPECT_COLOR_BIT
      v.backFrameBuffer v.backFrameBufferView
    let d4 := afterImagePair d3 (offscreenImageInfo v.window) VK_IMAGE_ASPECT_COLOR_BIT
      v.backBufferHorizontal v.backBufferViewHorizontal
    let d5 := afterImagePair d4 (offscreenImageInfo v.window) VK_IMAGE_ASPECT_COLOR_BIT
      v.backBufferVertical v.backBufferViewVertical
    ({ v with
        depthBuffer := d.nextHandle
        depthBufferView := d.nextHandle + 1
        backBuffer := d.nextHandle + 2
        backBufferView := d.nextHandle + 3
        backFrameBuffer := d.nextHandle + 4
        backFrameBufferView := d.nextHandle + 5
        backBufferHorizontal := d.nextHandle + 6
        backBufferViewHorizontal := d.nextHandle + 7
        backBufferVertical := d.nextHandle + 8
        backBufferViewVertical := d.nextHandle + 9 }, d5)
  else (v, d)

/-- The `VkFramebufferCreateInfo` of `create_framebuffer` and of `create_swapchain_framebuffers`. -/
def framebufferInfo (aWindow : VulkanWindow) (aRenderPass aColorView aDepthView : Handle) :
    VkFramebufferCreateInfo :=
  { renderPass := aRenderPass
    attachments := [aColorView, aDepthView]
    width := aWindow.swapchainExtent.width
    height := aWindow.swapchainExtent.height
    layers := 1 }

/-- The write of `updateBackBufferDescriptorSet`. -/
def textureWrite (set view sampler : Handle) : VkWriteDescriptorSet :=
  { dstSet := set
    dstBinding := 0
    descriptorType := VK_DESCRIPTOR_TYPE_COMBINED_IMAGE_SAMPLER
    descriptorCount := 1
    info := .image .VK_IMAGE_LAYOUT_SHADER_READ_ONLY_OPTIMAL view sampler }

/-- The variables and driver state after `rebuildFramebuffers` when every creation succeeds. -/
def afterRebuildFramebuffers (v : MainVars) (d : Device) : MainVars × Device :=
  let d1 := (d.alloc (.framebuffer (framebufferInfo v.window v.offlineRenderPass
    v.backFrameBufferView v.depthBufferView))).free v.backFramebuffer
  let d2 := (d1.alloc (.framebuffer (framebufferInfo v.window v.offlineRenderPass
    v.backBufferView v.depthBufferView))).free v.temp_framebuffer
  let d3 := (d2.alloc (.framebuffer (framebufferInfo v.window v.offlineRenderPass
    v.backBufferViewHorizontal v.depthBufferView))).free v.temp_framebuffer_horizontal
  let d4 := (d3.alloc (.framebuffer (framebufferInfo v.window v.offlineRenderPass
    v.backBufferViewVertical v.depthBufferView))).free v.temp_framebuffer_vertical
  let d5 := d4.frees v.framebuffers
  let d6 := d5.allocs ((List.range' 0 v.window.swapViews.length).map (fun i =>
    .framebuffer (framebufferInfo v.window v.renderPass (v.window.swapViews.getD i 0) v.depthBufferView)))
  let d7 := (((d6.write [textureWrite v.backFrameBufferDescriptor v.backFrameBufferView v.filterSampler]).write
    [textureWrite v.backBufferDescriptor v.backBufferView v.filterSampler]).write
    [textureWrite v.backBufferBrightHorizontal v.backBufferViewHorizontal v.filterSampler]).write
    [textureWrite v.backBufferBrightVertical v.backBufferViewVertical v.filterSampler]
  ({ v with
      backFramebuffer := d.nextHandle
      temp_framebuffer := d.nextHandle + 1
      temp_framebuffer_horizontal := d.nextHandle + 2
      temp_framebuffer_vertical := d.nextHandle + 3
      framebuffers := List.range' (d.nextHandle + 4) v.window.swapViews.length }, d7)

/-- The `VkGraphicsPipelineCreateInfo` of `createGraphicsPipeline`. -/
def pipelineInfo (aWindow : VulkanWindow) (vert frag : Handle) (bindings attributes : Nat)
    (cullMode : VkFlags) (aRenderPass aPipelineLayout : Handle) : VkGraphicsPipelineCreateInfo :=
  { vert := vert
    frag := frag
    vertexBindingDescriptionCount := bindings
    vertexAttributeDescriptionCount := attributes
    viewport := aWindow.swapchainExtent
    scissor := aWindow.swapchainExtent
    cullMode := cullMode
    layout := aPipelineLayout
    renderPass := aRenderPass
    subpass := 0 }

/-- The driver state after a pipeline was built from two shader files and
assigned to the variable that held `old`; the new pipeline is `d.nextHandle + 2`. -/
def afterPipeline (w : World) (d : Device) (aWindow : VulkanWindow) (vertPath fragPath : String)
    (bindings attributes : Nat) (cullMode : VkFlags) (aRenderPass aPipelineLayout old : Handle) :
    Device :=
  ((((((d.alloc (.shaderModule vertPath (shaderBytes w vertPath))).alloc
    (.shaderModule fragPath (shaderBytes w fragPath))).alloc
    (.pipeline (pipelineInfo aWindow d.nextHandle (d.nextHandle + 1) bindings attributes cullMode
      aRenderPass aPipelineLayout))).free (d.nextHandle + 1)).free d.nextHandle).free old)

/-- The variables and driver state after `rebuildPipelines` when every creation
succeeds and every shader file is read. -/
def afterRebuildPipelines (w : World) (changes : SwapChanges) (v : MainVars) (d : Device) :
    MainVars × Device :=
  if changes.changedSize then
    let d1 := afterPipeline w d v.window cfg.kVertShaderPath cfg.kFragShaderPath 5 5
      VK_CULL_MODE_BACK_BIT v.offlineRenderPass v.pipeLayout v.pipe
    let d2 := afterPipeline w d1 v.window cfg.kfilterBrightVertPath cfg.kfilterBrightFragPath 5 5
      VK_CULL_MODE_BACK_BIT v.offlineRenderPass v.pipeLayout v.pipe_filter_bright
    let d3 := afterPipeline w d2 v.window cfg.kPostProcessinVertgPath cfg.kPostProcessingFragPath 0 0
      VK_CULL_MODE_FRONT_BIT v.renderPass v.postPipeLayout v.postPipe
    let d4 := afterPipeline w d3 v.window cfg.kHorizontalFilterVertPath cfg.kHorizontalFilterFragPath 0 0
      VK_CULL_MODE_FRONT_BIT v.renderPass v.postPipeLayout v.filterHorizontalPipe
    let d5 := afterPipeline w d4 v.window cfg.kVerticalFilterVertPath cfg.kVerticalFilterFragPath 0 0
      VK_CULL_MODE_FRONT_BIT v.renderPass v.postPipeLayout v.filterVerticalPipe
    ({ v with
        pipe := d.nextHandle + 2
        pipe_filter_bright := d.nextHandle + 5
        postPipe := d.nextHandle + 8
        filterHorizontalPipe := d.nextHandle + 11
        filterVerticalPipe := d.nextHandle + 14 }, d5)
  else (v, d)

/-- The variables and driver state after the rebuild block when every creation
succeeds and every shader file is read. -/
def afterRebuild (w : World) (v : MainVars) (d : Device) : MainVars × Device :=
  let r1 := afterRecreateSwapchain w v.window d
  let r2 := afterRebuildRenderPass r1.1.2 { v with window := r1.1.1 } r1.2
  let r3 := afterRebuildTargets r1.1.2 r2.1 r2.2
  let r4 := afterRebuildFramebuffers r3.1 r3.2
  let r5 := afterRebuildPipelines w r1.1.2 r4.1 r4.2
  ({ r5.1 with recreateSwapchain := false }, r5.2)

/-! ## What a rebuild creates -/

/-- A swapchain or a swapchain image view. -/
def Object.isSwapchainPart : Object → Bool
  | .swapchain _ _ => true
  | .swapView _ _ => true
  | _ => false

def Object.isRenderPass : Object → Bool
  | .renderPass _ => true
  | _ => false

/-- An image or an image view: the depth buffer and the offscreen colour targets. -/
def Object.isTarget : Object → Bool
  | .image _ => true
  | .imageView _ => true
  | _ => false

def Object.isFramebuffer : Object → Bool
  | .framebuffer _ => true
  | _ => false

/-- A pipeline or a shader module loaded to build one. -/
def Object.isPipelinePart : Object → Bool
  | .shaderModule _ _ => true
  | .pipeline _ => true
  | _ => false

/-- An event of construction and teardown other than `vkDeviceWaitIdle`, whose
creation, if it is one, is of an object in `allowed` (whatever its status). -/
def Event.isResourceOp (allowed : Object → Bool) : Event → Bool
  | .create o _ _ => allowed o
  | .destroy _ => true
  | .vkUpdateDescriptorSets _ => true
  | .fopen _ _ => true
  | .fread _ _ _ _ => true
  | .fclose _ => true
  | .recreate_swapchain => true
  | _ => false

/-- What the rest of the rebuild block may create once `recreate_swapchain` has
reported `changes`: framebuffers always, a render pass only if the format
changed, images, image views, shader modules and pipelines only if the size changed. -/
def rebuildAllowed (changes : SwapChanges) (o : Object) : Bool :=
  o.isFramebuffer || (changes.changedFormat && o.isRenderPass) ||
    (changes.changedSize && (o.isTarget || o.isPipelinePart))

/-- The successful creations of a trace, in order: handle and object. -/
def created (t : List Event) : List (Handle × Object) :=
  t.filterMap (fun e =>
    match e with
    | .create o res h => if res = VK_SUCCESS then some (h, o) else none
    | _ => none)

/-- The handles destroyed in a trace, in order. -/
def destroyedIn (t : List Event) : List Handle :=
  t.filterMap (fun e =>
    match e with
    | .destroy h => some h
    | _ => none)

/-- The driver state `d1` comes after `d`: handles were only handed out, so what
is behind the handles of `d` is unchanged; handles were only added to the
destroyed ones; descriptor writes were only added. -/
def Device.Grows (d d1 : Device) : Prop :=
  d.nextHandle ≤ d1.nextHandle ∧
  (∀ h, h < d.nextHandle → d1.object h = d.object h) ∧
  (∀ h, h ∈ d.destroyed → h ∈ d1.destroyed) ∧
  ∃ ws, d1.descriptorWrites = ws ++ d.descriptorWrites

/-- What `recreate_swapchain` reports for the swapchain the window system hands
back: whether the extent and whether the format differ from the window's. -/
def reportedChanges (w : World) (v : MainVars) : SwapChanges :=
  { changedSize := decide (w.swapchainExtent ≠ v.window.swapchainExtent)
    changedFormat := decide (w.swapchainFormat ≠ v.window.swapchainFormat) }

/-- The variables and driver state after the `recreate_swapchain` of a rebuild. -/
def stageSwapchain (w : World) (v : MainVars) (d : Device) : MainVars × Device :=
  ({ v with window := (afterRecreateSwapchain w v.window d).1.1 }, (afterRecreateSwapchain w v.window d).2)

/-- The variables and driver state after the render pass statement of a rebuild. -/
def stageRenderPass (w : World) (v : MainVars) (d : Device) : MainVars × Device :=
  afterRebuildRenderPass (reportedChanges w v) (stageSwapchain w v d).1 (stageSwapchain w v d).2

/-- The variables and driver state after the first size block of a rebuild. -/
def stageTargets (w : World) (v : MainVars) (d : Device) : MainVars × Device :=
  afterRebuildTargets (reportedChanges w v) (stageRenderPass w v d).1 (stageRenderPass w v d).2

/-- The variables and driver state after the framebuffers and descriptor writes of a rebuild. -/
def stageFramebuffers (w : World) (v : MainVars) (d : Device) : MainVars × Device :=
  afterRebuildFramebuffers (stageTargets w v d).1 (stageTargets w v d).2

/-- The variables and driver state after the second size block of a rebuild. -/
def stagePipelines (w : World) (v : MainVars) (d : Device) : MainVars × Device :=
  afterRebuildPipelines w (reportedChanges w v) (stageFramebuffers w v d).1 (stageFramebuffers w v d).2

/-- Whenever a piece of the program returns, the driver state it started from,
the value it returns and the driver state it leaves are related by `R`. -/
def Exec.Post {α : Type} (x : Exec α) (R : Device → α → Device → Prop) : Prop :=
  ∀ d a d1, (x d).2 = .done a d1 → R d a d1

/-- An environment in which every call succeeds and the window system hands
back a swapchain of another format on a rebuild. -/
def World.newFormat : World := { World.allOk with swapchainFormat := 44 }

/-- An environment in which every call succeeds and the window system hands
back a swapchain of another extent on a rebuild. -/
def World.resized : World := { World.allOk with swapchainExtent := { width := 1024, height := 768 } }

/-- An environment in which every call succeeds and the window system hands
back a swapchain of three images on a rebuild. -/
def World.threeImages : World := { World.allOk with swapImageCount := 3 }

/-- The variables of `main` assigned under `if (changes.changedSize)` in the
rebuild block: the depth buffer and the four offscreen colour targets (image
and view), then the five pipelines. -/
def MainVars.sizeDependent (v : MainVars) : List Handle :=
  [v.depthBuffer, v.depthBufferView, v.backBuffer, v.backBufferView, v.backFrameBuffer,
   v.backFrameBufferView, v.backBufferHorizontal, v.backBufferViewHorizontal, v.backBufferVertical,
   v.backBufferViewVertical, v.pipe, v.pipe_filter_bright, v.postPipe, v.filterHorizontalPipe,
   v.filterVerticalPipe]

/-- Behind `h` is a pipeline built by `createGraphicsPipeline` from the two
shader files for the window, render pass and layout given. -/
def Device.HasPipeline (d : Device) (w : World) (h : Handle) (aWindow : VulkanWindow)
    (vertPath fragPath : String) (bindings attributes : Nat) (cullMode : VkFlags)
    (aRenderPass aPipelineLayout : Handle) : Prop :=
  ∃ vert frag,
    d.object vert = some (.shaderModule vertPath (shaderBytes w vertPath)) ∧
    d.object frag = some (.shaderModule fragPath (shaderBytes w fragPath)) ∧
    d.object h = some (.pipeline (pipelineInfo aWindow vert frag bindings attributes cullMode
      aRenderPass aPipelineLayout))

/-! ## Live resources -/

/-- The live resources of a driver state: the handles handed out behind which
is an object and that were not destroyed. -/
def Device.live (d : Device) : Finset Handle :=
  (Finset.range d.nextHandle).filter (fun h => (d.object h).isSome = true ∧ h ∉ d.destroyed)

/-- Handles are handed out from 1 upwards (0 is `VK_NULL_HANDLE`) and every
destroyed handle was handed out before. -/
def Device.Sound (d : Device) : Prop :=
  0 < d.nextHandle ∧ ∀ h ∈ d.destroyed, h < d.nextHandle

/-- The handles every rebuild replaces, in the order it destroys them: the
swapchain image views and the swapchain inside `recreate_swapchain`, the four
offscreen framebuffers, the swapchain framebuffers. -/
def MainVars.alwaysReplaced (v : MainVars) : List Handle :=
  v.window.swapViews ++ [v.window.swapchain] ++
    [v.backFramebuffer, v.temp_framebuffer, v.temp_framebuffer_horizontal,
      v.temp_framebuffer_vertical] ++ v.framebuffers

/-- The variables hold what the driver state has: the handles a rebuild
replaces are distinct live resources, one swapchain framebuffer per view. -/
def MainVars.OwnedBy (v : MainVars) (d : Device) : Prop :=
  d.Sound ∧ v.alwaysReplaced.Nodup ∧ (∀ h ∈ v.alwaysReplaced, h ≠ 0 ∧ h ∈ d.live) ∧
  v.framebuffers.length = v.window.swapViews.length

/-- The driver state `d1` comes after `d` by creations, which gave an object to
every handle handed out in between, and by the destruction of exactly the
handles of `fs` other than `VK_NULL_HANDLE`. -/
def Device.Step (d d1 : Device) (fs : List Handle) : Prop :=
  d.Grows d1 ∧
  (∀ h, d.nextHandle ≤ h → h < d1.nextHandle → (d1.object h).isSome = true) ∧
  (∀ h, h ∈ d1.destroyed ↔ h ∈ d.destroyed ∨ (h ∈ fs ∧ h ≠ 0))

/-- A state of the variables of `main` that holds live resources of
`ownedDevice`: the one a rebuild in which nothing changed leaves from `sampleVars`. -/
def ownedVars : MainVars := (afterRebuild World.allOk sampleVars sampleDevice).1

/-- The driver state that goes with `ownedVars`. -/
def ownedDevice : Device := (afterRebuild World.allOk sampleVars sampleDevice).2

/-! ## What a render pass instance renders into and samples -/

/-- The colour view a render pass instance renders into: attachment 0 of its
framebuffer (`create_framebuffer` and `create_swapchain_framebuffers` put the
colour view first, the depth view second). -/
def PassInstance.colourView (d : Device) (p : PassInstance) : Option Handle :=
  match d.attachments p.framebuffer with
  | some (view :: _) => some view
  | _ => none

/-- The image views the commands of a list bind for sampling, each with the
set number it is bound at: for every `vkCmdBindDescriptorSets`, the views its
descriptor sets refer to. -/
def sampledBy (d : Device) (cs : List Cmd) : List (Nat × Handle) :=
  cs.flatMap (fun c =>
    match c with
    | .vkCmdBindDescriptorSets _ firstSet sets =>
      (List.range' 0 sets.length).filterMap (fun j =>
        (d.sampledView (sets.getD j 0)).map (fun view => (firstSet + j, view)))
    | _ => [])

/-- The wiring done in `main`: each offscreen framebuffer has the view of its
target as colour attachment, swapchain framebuffer `i` has swapchain view `i`,
each texture descriptor set refers to the view of its target, the scene and
material descriptor sets refer to no image view (they are uniform buffer
descriptors), and the four target views and the swapchain views are distinct. -/
def MainVars.Wired (v : MainVars) (d : Device) : Prop :=
  d.attachments v.temp_framebuffer = some [v.backBufferView, v.depthBufferView] ∧
  d.attachments v.temp_framebuffer_horizontal =
    some [v.backBufferViewHorizontal, v.depthBufferView] ∧
  d.attachments v.temp_framebuffer_vertical = some [v.backBufferViewVertical, v.depthBufferView] ∧
  d.attachments v.backFramebuffer = some [v.backFrameBufferView, v.depthBufferView] ∧
  (∀ i, i < v.framebuffers.length →
    d.attachments (v.framebuffers.getD i 0) =
      some [v.window.swapViews.getD i 0, v.depthBufferView]) ∧
  v.framebuffers.length = v.window.swapViews.length ∧
  d.sampledView v.backBufferDescriptor = some v.backBufferView ∧
  d.sampledView v.backBufferBrightHorizontal = some v.backBufferViewHorizontal ∧
  d.sampledView v.backBufferBrightVertical = some v.backBufferViewVertical ∧
  d.sampledView v.backFrameBufferDescriptor = some v.backFrameBufferView ∧
  (∀ s ∈ v.sceneDescriptor :: (v.materialDescriptors ++ v.materialPBRDescriptors),
    d.sampledView s = none) ∧
  ([v.backBufferView, v.backBufferViewHorizontal, v.backBufferViewVertical,
    v.backFrameBufferView] ++ v.window.swapViews).Nodup

/-! ## `labutils/vkimage.cpp`: mip level count -/

/-- The function `countl_zero_` on a `std::uint32_t`: `aX <<= k` keeps the low 32 bits. -/
def countl_zero_ (aX : Nat) : Nat :=
  if aX = 0 then 32
  else
    let res := 0
    let (res, aX) :=
      if aX &&& 0xffff0000 = 0 then (res + 16, (aX <<< 16) % 2 ^ 32) else (res, aX)
    let (res, aX) :=
      if aX &&& 0xff000000 = 0 then (res + 8, (aX <<< 8) % 2 ^ 32) else (res, aX)
    let (res, aX) :=
      if aX &&& 0xf0000000 = 0 then (res + 4, (aX <<< 4) % 2 ^ 32) else (res, aX)
    let (res, aX) :=
      if aX &&& 0xc0000000 = 0 then (res + 2, (aX <<< 2) % 2 ^ 32) else (res, aX)
    let res := if aX &&& 0x80000000 = 0 then res + 1 else res
    res

/-- The function `compute_mip_level_count`; the subtraction is on `std::uint32_t`. -/
def compute_mip_level_count (aWidth aHeight : Nat) : Nat :=
  let bits := aWidth ||| aHeight
  let leadingZeros := countl_zero_ bits
  (32 + 2 ^ 32 - leadingZeros) % 2 ^ 32

/-- The far corner `dstOffsets[1]` of the blit of one iteration of the mip loop
of `load_image_texture2d_with_mipmap`: `widthI > 1 ? widthI / 2 : 1`, the same
for the height.  It is the halving of each dimension, rounding down, never
below 1. -/
def nextMipExtent (e : Nat × Nat) : Nat × Nat :=
  (if e.1 > 1 then e.1 / 2 else 1, if e.2 > 1 then e.2 / 2 else 1)

/-- The chain of the specification: "the chain obtained by repeatedly halving
each dimension (rounding down, never below 1) until the level is 1 by 1".  This
is its number of levels from the level `e` on, `e` included; `fuel` bounds the
number of halvings.  It is a definition to compare `compute_mip_level_count`
with, not a function of the source. -/
def halvingChainLevels : Nat → Nat × Nat → Nat
  | 0, _ => 1
  | fuel + 1, e => if e = (1, 1) then 1 else 1 + halvingChainLevels fuel (nextMipExtent e)

/-- The update of `widthI` and `heightI` at the end of an iteration of the mip
loop of `load_image_texture2d_with_mipmap`: `if (widthI > 1) widthI /= 2`, the
same for the height. -/
def halveExtent (e : Nat × Nat) : Nat × Nat :=
  (if e.1 > 1 then e.1 / 2 else e.1, if e.2 > 1 then e.2 / 2 else e.2)

/-- The `VkImageBlit` of one iteration of the mip loop: the mip levels and the
far corners `srcOffsets[1]` and `dstOffsets[1]`, without their third component 1. -/
structure MipBlit where
  srcMipLevel : Nat
  srcExtent : Nat × Nat
  dstMipLevel : Nat
  dstExtent : Nat × Nat
deriving DecidableEq, Repr

/-- The blits of the loop `for (level = 1; level < mipLevels; ++level)` of
`load_image_texture2d_with_mipmap` from `level` on, `n` iterations being left,
with `(widthI, heightI) = e`. -/
def mipBlitsFrom : Nat → Nat → Nat × Nat → List MipBlit
  | 0, _, _ => []
  | n + 1, level, e =>
    { srcMipLevel := level - 1, srcExtent := e, dstMipLevel := level, dstExtent := nextMipExtent e } ::
      mipBlitsFrom n (level + 1) (halveExtent e)

/-- The blits `load_image_texture2d_with_mipmap` records for a base image of
`baseWidth` by `baseHeight` (two `int`s that `stbi_info` hands over, which the
function asserts to be positive): `mipLevels` is `compute_mip_level_count`, and
the loop runs for the levels 1 to `mipLevels - 1`. -/
def mipBlits (baseWidth baseHeight : Nat) : List MipBlit :=
  mipBlitsFrom (compute_mip_level_count baseWidth baseHeight - 1) 1 (baseWidth, baseHeight)

/-- The extents of the mip levels the loop leaves: the base level, then the
destination of each blit. -/
def mipLevelExtents (baseWidth baseHeight : Nat) : List (Nat × Nat) :=
  (baseWidth, baseHeight) :: (mipBlits baseWidth baseHeight).map (fun b => b.dstExtent)

/-! ## The reads of `load_shader_module` -/

/-- The `fread` calls of the read loop on a file of `words` words, from `offset`
on, when the successive calls return the counts of the list: each asks for the
words that remain and the next one starts where the one before stopped. -/
def freadsFrom (path : String) (words : Nat) : Nat → List Nat → List Event
  | _, [] => []
  | offset, n :: ns => .fread path offset (words - offset) n :: freadsFrom path words (offset + n) ns

/-! ## Start-up on its success path -/

/-- The write of the blocks of `main` that point a uniform-buffer descriptor set at a buffer. -/
def uniformWrite (set buffer : Handle) : VkWriteDescriptorSet :=
  { dstSet := set
    dstBinding := 0
    descriptorType := VK_DESCRIPTOR_TYPE_UNIFORM_BUFFER
    descriptorCount := 1
    info := .buffer buffer }

/-- The variables of `main` before its first statement: the model data is
there, no handle is held yet. -/
def MainVars.blank (boot : Boot) : MainVars :=
  { (default : MainVars) with
    carModel := boot.carModel, loadedModel := boot.loadedModel, recreateSwapchain := false }

/-- The window and the driver state after `make_vulkan_window` when every creation succeeds. -/
def afterMakeWindow (w : World) (d : Device) : VulkanWindow × Device :=
  let d1 := d.alloc .window
  let d2 := d1.alloc .device
  let d3 := d2.alloc .queue
  let d4 := d3.alloc .queue
  let d5 := d4.alloc (.swapchain w.swapchainFormat w.swapchainExtent)
  ({ window := d.nextHandle
     device := d1.nextHandle
     graphicsQueue := d2.nextHandle
     presentQueue := d3.nextHandle
     swapchain := d4.nextHandle
     swapViews := List.range' d5.nextHandle w.swapImageCount
     swapchainFormat := w.swapchainFormat
     swapchainExtent := w.swapchainExtent },
   d5.allocs ((List.range' 0 w.swapImageCount).map (fun i => .swapView d4.nextHandle i)))

/-- Start-up, first part: the window. -/
def initWindow (w : World) (r : MainVars × Device) : MainVars × Device :=
  ({ r.1 with window := (afterMakeWindow w r.2).1 }, (afterMakeWindow w r.2).2)

/-- Start-up, second part: the allocator, the two render passes, the three
descriptor set layouts and the pipeline layout of the mesh pipelines. -/
def initLayouts (r : MainVars × Device) : MainVars × Device :=
  let v := r.1
  let d := r.2
  let d1 := d.alloc .allocator
  let d2 := d1.alloc (.renderPass (presentPassInfo v.window))
  let d3 := d2.alloc (.renderPass (offlinePassInfo v.window))
  let d4 := d3.alloc
    (.descriptorSetLayout
      [ { binding := 0, descriptorType := VK_DESCRIPTOR_TYPE_UNIFORM_BUFFER, descriptorCount := 1
          stageFlags := VK_SHADER_STAGE_VERTEX_BIT } ])
  let d5 := d4.alloc
    (.descriptorSetLayout
      [ { binding := 0, descriptorType := VK_DESCRIPTOR_TYPE_UNIFORM_BUFFER, descriptorCount := 1
          stageFlags := VK_SHADER_STAGE_FRAGMENT_BIT } ])
  let d6 := d5.alloc
    (.descriptorSetLayout
      [ { binding := 0, descriptorType := VK_DESCRIPTOR_TYPE_COMBINED_IMAGE_SAMPLER, descriptorCount := 1
          stageFlags := VK_SHADER_STAGE_FRAGMENT_BIT } ])
  let d7 := d6.alloc (.pipelineLayout [d3.nextHandle, d4.nextHandle, d4.nextHandle, d5.nextHandle])
  ({ v with
      allocator := d.nextHandle
      renderPass := d1.nextHandle
      offlineRenderPass := d2.nextHandle
      sceneLayout := d3.nextHandle
      materialLayout := d4.nextHandle
      objectLayout := d5.nextHandle
      pipeLayout := d6.nextHandle }, d7)

/-- The driver state after `createGraphicsPipeline` when every creation
succeeds and both shader files are read; the pipeline is `d.nextHandle + 2`. -/
def afterCreatePipeline (w : World) (d : Device) (aWindow : VulkanWindow) (vertPath fragPath : String)
    (bindings attributes : Nat) (cullMode : VkFlags) (aRenderPass aPipelineLayout : Handle) :
    Device :=
  ((((d.alloc (.shaderModule vertPath (shaderBytes w vertPath))).alloc
    (.shaderModule fragPath (shaderBytes w fragPath))).alloc
    (.pipeline (pipelineInfo aWindow d.nextHandle (d.nextHandle + 1) bindings attributes cullMode
      aRenderPass aPipelineLayout))).free (d.nextHandle + 1)).free d.nextHandle

/-- Start-up, third part: the five pipelines and the two other pipeline layouts. -/
def initPipelines (w : World) (r : MainVars × Device) : MainVars × Device :=
  let v := r.1
  let d := r.2
  let d1 := afterCreatePipeline w d v.window cfg.kVertShaderPath cfg.kFragShaderPath 5 5
    VK_CULL_MODE_BACK_BIT v.offlineRenderPass v.pipeLayout
  let d2 := afterCreatePipeline w d1 v.window cfg.kfilterBrightVertPath cfg.kfilterBrightFragPath 5 5
    VK_CULL_MODE_BACK_BIT v.offlineRenderPass v.pipeLayout
  let d3 := d2.alloc (.pipelineLayout [v.sceneLayout, v.objectLayout])
  let d4 := d3.alloc (.pipelineLayout [v.objectLayout, v.objectLayout])
  let d5 := afterCreatePipeline w d4 v.window cfg.kPostProcessinVertgPath cfg.kPostProcessingFragPath
    0 0 VK_CULL_MODE_FRONT_BIT v.renderPass d3.nextHandle
  let d6 := afterCreatePipeline w d5 v.window cfg.kHorizontalFilterVertPath
    cfg.kHorizontalFilterFragPath 0 0 VK_CULL_MODE_FRONT_BIT v.renderPass d3.nextHandle
  let d7 := afterCreatePipeline w d6 v.window cfg.kVerticalFilterVertPath
    cfg.kVerticalFilterFragPath 0 0 VK_CULL_MODE_FRONT_BIT v.renderPass d3.nextHandle
  ({ v with
      pipe := d.nextHandle + 2
      pipe_filter_bright := d1.nextHandle + 2
      pipeLayoutTex := d2.nextHandle
      postPipeLayout := d3.nextHandle
      postPipe := d4.nextHandle + 2
      filterHorizontalPipe := d5.nextHandle + 2
      filterVerticalPipe := d6.nextHandle + 2 }, d7)

/-- The driver state after an image and its view were created; the image is
`d.nextHandle`, the view `d.nextHandle + 1`. -/
def afterCreateImagePair (d : Device) (info : VkImageCreateInfo) (aspectMask : VkFlags) : Device :=
  (d.alloc (.image info)).alloc
    (.imageView { image := d.nextHandle, format := info.format, aspectMask := aspectMask })

/-- Start-up, fourth part: the depth buffer and the four offscreen targets. -/
def initTargets (r : MainVars × Device) : MainVars × Device :=
  let v := r.1
  let d := r.2
  let d1 := afterCreateImagePair d (depthImageInfo v.window) VK_IMAGE_ASPECT_DEPTH_BIT
  let d2 := afterCreateImagePair d1 (offscreenImageInfo v.window) VK_IMAGE_ASPECT_COLOR_BIT
  let d3 := afterCreateImagePair d2 (offscreenImageInfo v.window) VK_IMAGE_ASPECT_COLOR_BIT
  let d4 := afterCreateImagePair d3 (offscreenImageInfo v.window) VK_IMAGE_ASPECT_COLOR_BIT
  let d5 := afterCreateImagePair d4 (offscreenImageInfo v.window) VK_IMAGE_ASPECT_COLOR_BIT
  ({ v with
      depthBuffer := d.nextHandle
      depthBufferView := d.nextHandle + 1
      backBuffer := d1.nextHandle
      backBufferView := d1.nextHandle + 1
      backFrameBuffer := d2.nextHandle
      backFrameBufferView := d2.nextHandle + 1
      backBufferHorizontal := d3.nextHandle
      backBufferViewHorizontal := d3.nextHandle + 1
      backBufferVertical := d4.nextHandle
      backBufferViewVertical := d4.nextHandle + 1 }, d5)

/-- Start-up, fifth part: the swapchain framebuffers, the command pool, one
command buffer and one fence per swapchain framebuffer, the two semaphores and
the descriptor pool. -/
def initSlots (r : MainVars × Device) : MainVars × Device :=
  let v := r.1
  let d := r.2
  let n := v.window.swapViews.length
  let d1 := d.allocs ((List.range' 0 n).map (fun i =>
    .framebuffer (framebufferInfo v.window v.renderPass (v.window.swapViews.getD i 0)
      v.depthBufferView)))
  let d2 := d1.alloc (.commandPool
    (VK_COMMAND_POOL_CREATE_TRANSIENT_BIT ||| VK_COMMAND_POOL_CREATE_RESET_COMMAND_BUFFER_BIT))
  let d3 := d2.allocs ((List.range' 0 n).flatMap (fun _ =>
    [.commandBuffer d1.nextHandle, .fence VK_FENCE_CREATE_SIGNALED_BIT]))
  let d4 := d3.alloc .semaphore
  let d5 := d4.alloc .semaphore
  let d6 := d5.alloc .descriptorPool
  ({ v with
      framebuffers := List.range' d.nextHandle n
      cpool := d1.nextHandle
      cbuffers := ((List.range' 0 n).map (fun i =>
        (d2.nextHandle + 2 * i, d2.nextHandle + 2 * i + 1))).map Prod.fst
      cbfences := ((List.range' 0 n).map (fun i =>
        (d2.nextHandle + 2 * i, d2.nextHandle + 2 * i + 1))).map Prod.snd
      imageAvailable := d3.nextHandle
      renderFinished := d4.nextHandle
      dpool := d5.nextHandle }, d6)

/-- Start-up, sixth part: the four offscreen framebuffers, the scene uniform
buffer and its descriptor set, the sampler and the four texture descriptor sets. -/
def initWiring (r : MainVars × Device) : MainVars × Device :=
  let v := r.1
  let d := r.2
  let d1 := (d.alloc (.framebuffer (framebufferInfo v.window v.offlineRenderPass
    v.backFrameBufferView v.depthBufferView))).free 0
  let d2 := (d1.alloc (.framebuffer (framebufferInfo v.window v.offlineRenderPass
    v.backBufferView v.depthBufferView))).free 0
  let d3 := (d2.alloc (.framebuffer (framebufferInfo v.window v.offlineRenderPass
    v.backBufferViewHorizontal v.depthBufferView))).free 0
  let d4 := (d3.alloc (.framebuffer (framebufferInfo v.window v.offlineRenderPass
    v.backBufferViewVertical v.depthBufferView))).free 0
  let d5 := d4.alloc (.buffer sizeof_SceneUniform
    (VK_BUFFER_USAGE_UNIFORM_BUFFER_BIT ||| VK_BUFFER_USAGE_TRANSFER_DST_BIT))
  let d6 := (d5.alloc (.descriptorSet v.dpool v.sceneLayout)).write
    [uniformWrite d5.nextHandle d4.nextHandle]
  let d7 := d6.alloc (.sampler 1)
  let d8 := (d7.alloc (.descriptorSet v.dpool v.objectLayout)).write
    [textureWrite d7.nextHandle v.backFrameBufferView d6.nextHandle]
  let d9 := (d8.alloc (.descriptorSet v.dpool v.objectLayout)).write
    [textureWrite d8.nextHandle v.backBufferView d6.nextHandle]
  let d10 := (d9.alloc (.descriptorSet v.dpool v.objectLayout)).write
    [textureWrite d9.nextHandle v.backBufferViewHorizontal d6.nextHandle]
  let d11 := (d10.alloc (.descriptorSet v.dpool v.objectLayout)).write
    [textureWrite d10.nextHandle v.backBufferViewVertical d6.nextHandle]
  ({ v with
      backFramebuffer := d.nextHandle
      temp_framebuffer := d1.nextHandle
      temp_framebuffer_horizontal := d2.nextHandle
      temp_framebuffer_vertical := d3.nextHandle
      sceneUBO := d4.nextHandle
      sceneDescriptor := d5.nextHandle
      filterSampler := d6.nextHandle
      backFrameBufferDescriptor := d7.nextHandle
      backBufferDescriptor := d8.nextHandle
      backBufferBrightHorizontal := d9.nextHandle
      backBufferBrightVertical := d10.nextHandle }, d11)

/-- The driver state after a loop of `main` that allocates `n` descriptor sets
and points set `i` at `ubos[i]`; set `i` is `d.nextHandle + i`. -/
def afterMaterialDescriptors (d : Device) (dpool materialLayout : Handle) (ubos : List Handle)
    (n : Nat) : Device :=
  (d.allocs ((List.range' 0 n).map (fun _ => .descriptorSet dpool materialLayout))).write
    ((List.range' 0 n).map (fun i => uniformWrite (d.nextHandle + i) (ubos.getD i 0)))

/-- Start-up, last part: one uniform buffer and one descriptor set per
material, twice (material and PBR material). -/
def initMaterials (r : MainVars × Device) : MainVars × Device :=
  let v := r.1
  let d := r.2
  let m := v.carModel.materials.length
  let d1 := d.allocs ((List.range' 0 m).map (fun _ => .buffer sizeof_MaterialUniform
    (VK_BUFFER_USAGE_UNIFORM_BUFFER_BIT ||| VK_BUFFER_USAGE_TRANSFER_DST_BIT)))
  let d2 := afterMaterialDescriptors d1 v.dpool v.materialLayout (List.range' d.nextHandle m) m
  let d3 := d2.allocs ((List.range' 0 m).map (fun _ => .buffer sizeof_MaterialPBRUniform
    (VK_BUFFER_USAGE_UNIFORM_BUFFER_BIT ||| VK_BUFFER_USAGE_TRANSFER_DST_BIT)))
  let d4 := afterMaterialDescriptors d3 v.dpool v.materialLayout (List.range' d2.nextHandle m) m
  ({ v with
      materialUBO := List.range' d.nextHandle m
      materialDescriptors := List.range' d1.nextHandle m
      materialPBRUBO := List.range' d2.nextHandle m
      materialPBRDescriptors := List.range' d3.nextHandle m }, d4)

/-- The variables and the driver state when `main` reaches its loop, every
creation having succeeded and every shader file having been read. -/
def afterMainInit (w : World) (boot : Boot) (d : Device) : MainVars × Device :=
  initMaterials (initWiring (initSlots (initTargets (initPipelines w (initLayouts
    (initWindow w (MainVars.blank boot, d)))))))

/-! ## Reading the driver state -/

/-- The render pass a pipeline was created against. -/
def Device.pipelineRenderPass (d : Device) (h : Handle) : Option Handle :=
  match d.object h with
  | some (.pipeline info) => some info.renderPass
  | _ => none

/-- The format of the colour attachment (attachment 0) of a render pass. -/
def Device.colourFormat (d : Device) (h : Handle) : Option VkFormat :=
  match d.object h with
  | some (.renderPass info) => info.attachments.head?.map (fun a => a.format)
  | _ => none

/-- The format an image was created with. -/
def Device.imageFormat (d : Device) (h : Handle) : Option VkFormat :=
  match d.object h with
  | some (.image info) => some info.format
  | _ => none

/-- The format an image view was created with. -/
def Device.viewFormat (d : Device) (h : Handle) : Option VkFormat :=
  match d.object h with
  | some (.imageView info) => some info.format
  | _ => none

/-- The size in bytes a buffer was created with. -/
def Device.bufferSize (d : Device) (h : Handle) : Option Nat :=
  match d.object h with
  | some (.buffer size _) => some size
  | _ => none

/-! ## The loop of `main` -/

/-- The states in which `main` can stand at the head of its loop: the one
start-up leaves, and the one an iteration that returns leaves. -/
inductive AtLoopHead (w0 : World) (boot : Boot) (d0 : Device) (bd : BufferBarrierDefaults) :
    MainVars → Device → Prop
  | start {v : MainVars} {d : Device} :
      (main_init w0 boot d0).2 = .done v d → AtLoopHead w0 boot d0 bd v d
  | next {w : World} {v v1 : MainVars} {d d1 : Device} :
      AtLoopHead w0 boot d0 bd v d → (mainLoopBody w bd v d).2 = .done v1 d1 →
      AtLoopHead w0 boot d0 bd v1 d1

/-- The uniform buffers of `main` exist with the sizes of their structs, and
the four material vectors have one element per material of the model. -/
def MainVars.UniformsSized (v : MainVars) (d : Device) : Prop :=
  v.sceneUBO < d.nextHandle ∧ d.bufferSize v.sceneUBO = some sizeof_SceneUniform ∧
  (∀ h ∈ v.materialUBO, h < d.nextHandle ∧ d.bufferSize h = some sizeof_MaterialUniform) ∧
  (∀ h ∈ v.materialPBRUBO, h < d.nextHandle ∧ d.bufferSize h = some sizeof_MaterialPBRUniform) ∧
  v.materialUBO.length = v.carModel.materials.length ∧
  v.materialDescriptors.length = v.carModel.materials.length ∧
  v.materialPBRUBO.length = v.carModel.materials.length ∧
  v.materialPBRDescriptors.length = v.carModel.materials.length

/-- The per-submesh vectors of the uploaded mesh are as long as its `positions`
vector, and every material index selects a material of the model. -/
def Boot.MeshInBounds (boot : Boot) : Prop :=
  boot.loadedModel.positions.length ≤ boot.loadedModel.normals.length ∧
  boot.loadedModel.positions.length ≤ boot.loadedModel.texCorods.length ∧
  boot.loadedModel.positions.length ≤ boot.loadedModel.colors.length ∧
  boot.loadedModel.positions.length ≤ boot.loadedModel.surfaceNormals.length ∧
  boot.loadedModel.positions.length ≤ boot.loadedModel.vertexCount.length ∧
  boot.loadedModel.positions.length ≤ boot.loadedModel.materialIndex.length ∧
  ∀ j, j < boot.loadedModel.positions.length →
    0 ≤ boot.loadedModel.materialIndex.getD j 0 ∧
    (boot.loadedModel.materialIndex.getD j 0).toNat < boot.carModel.materials.length

/-! ## `cw2/model.cpp`: `load_obj_model` -/

/-- The struct `tinyobj::index_t`. -/
structure index_t where
  vertex_index : Int
  normal_index : Int
  texcoord_index : Int
deriving DecidableEq, Repr

/-- The fields of `tinyobj::mesh_t` that `load_obj_model` reads. -/
structure mesh_t where
  indices : List index_t
  num_face_vertices : List Nat
  material_ids : List Int
deriving DecidableEq, Repr

/-- The struct `tinyobj::shape_t`. -/
structure shape_t where
  name : String
  mesh : mesh_t
deriving DecidableEq, Repr

/-- The struct `tinyobj::attrib_t`: flat arrays of floats. -/
structure attrib_t where
  vertices : List Float32
  normals : List Float32
  texcoords : List Float32
deriving DecidableEq, Repr

/-- The fields of `tinyobj::material_t` kept: the name and the diffuse colour,
of which `load_obj_model` makes `materialName` and `color`. -/
structure material_t where
  name : String
  diffuse : Vec3 := { x := f32_0, y := f32_0, z := f32_0 }
deriving DecidableEq, Repr

/-- The element `xs[i]` of a `std::vector` for an index expression `i` of type
`int`: the index converts to `size_t`, so a negative one is out of range, and
an expression that does not fit in `int` has no defined value. -/
def atInt {α : Type} (xs : List α) (i : Int) : Option α :=
  if i < 0 ∨ 2 ^ 31 ≤ i then none else xs.get? i.toNat

/-- The block "copy over data" of the loop over `objMesh.indices`: the position,
the normal (there must be one) and the texture coordinate of one index. -/
def readVertex (attrib : attrib_t) (objIdx : index_t) : Option (Vec3 × Vec3 × Vec2) := do
  let p0 ← atInt attrib.vertices (objIdx.vertex_index * 3 + 0)
  let p1 ← atInt attrib.vertices (objIdx.vertex_index * 3 + 1)
  let p2 ← atInt attrib.vertices (objIdx.vertex_index * 3 + 2)
  -- assert( objIdx.normal_index >= 0 )
  if objIdx.normal_index < 0 then none
  else do
    let n0 ← atInt attrib.normals (objIdx.normal_index * 3 + 0)
    let n1 ← atInt attrib.normals (objIdx.normal_index * 3 + 1)
    let n2 ← atInt attrib.normals (objIdx.normal_index * 3 + 2)
    if objIdx.texcoord_index ≥ 0 then do
      let t0 ← atInt attrib.texcoords (objIdx.texcoord_index * 2 + 0)
      let t1 ← atInt attrib.texcoords (objIdx.texcoord_index * 2 + 1)
      some ({ x := p0, y := p1, z := p2 }, { x := n0, y := n1, z := n2 }, { x := t0, y := t1 })
    else
      some ({ x := p0, y := p1, z := p2 }, { x := n0, y := n1, z := n2 },
        { x := f32_0, y := f32_0 })

/-- The local variables of the loop over the shapes and of the loop over the
indices of one shape, with the model being filled.  The counters are `size_t`
and never exceed the number of indices read so far. -/
structure ShapeLoop where
  model : ModelData
  currentIndex : Nat
  currentMaterial : Int
  indices : Nat
  face : Nat
  vert : Nat
deriving DecidableEq, Repr

/-- The block that appends a `MeshInfo` for the run that ends; a material index
that passed the `assert` converts to `std::uint32_t` unchanged. -/
def emitMesh (s : shape_t) (model : ModelData) (currentMaterial : Int)
    (currentIndex indices : Nat) : Option ModelData :=
  -- assert( currentMaterial >= 0 )
  if currentMaterial < 0 then none
  else
    match model.materials.get? currentMaterial.toNat with
    | none => none
    | some material =>
      some { model with
        meshes := model.meshes ++
          [ { materialIndex := currentMaterial.toNat
              meshName := s.name ++ "::" ++ material.materialName
              vertexStartIndex := currentIndex
              numberOfVertices := indices } ] }

/-- The part "check if material changed" of the loop body. -/
def checkMaterial (s : shape_t) (st : ShapeLoop) : Option ShapeLoop :=
  match s.mesh.material_ids.get? st.face with
  | none => none
  | some matId =>
    if matId ≠ st.currentMaterial then
      match (if st.indices ≠ 0 then
          emitMesh s st.model st.currentMaterial st.currentIndex st.indices
        else some st.model) with
      | none => none
      | some model =>
        some { st with
          model := model
          currentIndex := st.currentIndex + st.indices
          currentMaterial := matId
          indices := 0 }
    else some st

/-- The body of the loop `for( auto const& objIdx : objMesh.indices )`. -/
def loadIndex (attrib : attrib_t) (s : shape_t) (st : ShapeLoop) (objIdx : index_t) :
    Option ShapeLoop :=
  match checkMaterial s st with
  | none => none
  | some st =>
    match readVertex attrib objIdx with
    | none => none
    | some (position, normal, texCoord) =>
      some { st with
        model :=
          { st.model with
            vertexPositions := st.model.vertexPositions ++ [position]
            vertexNormals := st.model.vertexNormals ++ [normal]
            vertexTextureCoords := st.model.vertexTextureCoords ++ [texCoord] }
        indices := st.indices + 1
        -- accounting: next vertex
        face := if st.vert + 1 = 3 then st.face + 1 else st.face
        vert := if st.vert + 1 = 3 then 0 else st.vert + 1 }

/-- The loop over the indices of one shape, from the state `st`. -/
def loadIndices (attrib : attrib_t) (s : shape_t) : ShapeLoop → List index_t → Option ShapeLoop
  | st, [] => some st
  | st, objIdx :: rest =>
    match loadIndex attrib s st objIdx with
    | none => none
    | some st1 => loadIndices attrib s st1 rest

/-- The block after the loop over the indices: the `MeshInfo` of the last run. -/
def finishShape (s : shape_t) (st : ShapeLoop) : Option (ModelData × Nat) :=
  if st.indices ≠ 0 then
    match emitMesh s st.model st.currentMaterial st.currentIndex st.indices with
    | none => none
    | some model => some (model, st.currentIndex + st.indices)
  else some (st.model, st.currentIndex)

/-- The body of the loop `for( auto const& s : shapes )`; the pair is the model
and `currentIndex`.  The three `assert`s are those of the source, the last one
standing for the loop over `num_face_vertices`. -/
def loadShape (attrib : attrib_t) (acc : ModelData × Nat) (s : shape_t) :
    Option (ModelData × Nat) :=
  if s.mesh.indices.isEmpty then some acc
  else if s.mesh.material_ids.isEmpty then none
  else if s.mesh.indices.length % 3 ≠ 0 then none
  else if ¬ (s.mesh.num_face_vertices.all (fun faceVerts => decide (3 = faceVerts)) = true) then none
  else
    match loadIndices attrib s
        { model := acc.1, currentIndex := acc.2, currentMaterial := -1, indices := 0
          face := 0, vert := 0 } s.mesh.indices with
    | none => none
    | some st => finishShape s st

/-- The loop over the shapes. -/
def loadShapes (attrib : attrib_t) : ModelData × Nat → List shape_t → Option (ModelData × Nat)
  | acc, [] => some acc
  | acc, s :: rest =>
    match loadShape attrib acc s with
    | none => none
    | some acc1 => loadShapes attrib acc1 rest

/-- The function `load_obj_model` from the point where `tinyobj::LoadObj`
(called with triangulation) has returned `true`, leaving `attrib`, `shapes`
and `materials`; `none` stands for a failed `assert` or an element access
outside a vector. -/
def load_obj_model (attrib : attrib_t) (shapes : List shape_t) (materials : List material_t) :
    Option ModelData :=
  let model : ModelData :=
    { materials := materials.map (fun m => { materialName := m.name, color := m.diffuse }) }
  let totalVertices := (shapes.map (fun s => s.mesh.indices.length)).sum
  match loadShapes attrib (model, 0) shapes with
  | none => none
  | some (model, _) =>
    if model.vertexPositions.length = totalVertices ∧ model.vertexNormals.length = totalVertices ∧
        model.vertexTextureCoords.length = totalVertices then some model
    else none

/-! ### What `load_obj_model` is expected to produce -/

/-- The maximal runs of equal consecutive elements of a list, in order, each
with its length. -/
def runs : List Int → List (Int × Nat)
  | [] => []
  | x :: xs =>
    match runs xs with
    | [] => [(x, 1)]
    | (y, c) :: rest => if x = y then (x, c + 1) :: rest else (x, 1) :: (y, c) :: rest

/-- The runs of faces of one material of a shape, as material id and number of
vertices: the faces are the first `indices.size() / 3` entries of `material_ids`. -/
def shapeRuns (s : shape_t) : List (Int × Nat) :=
  (runs (s.mesh.material_ids.take (s.mesh.indices.length / 3))).map (fun r => (r.1, 3 * r.2))

/-- The `MeshInfo` records for a list of runs that starts at vertex `start`. -/
def meshesOfRuns (s : shape_t) (materials : List MaterialInfo) : Nat → List (Int × Nat) → List MeshInfo
  | _, [] => []
  | start, r :: rs =>
    { materialIndex := r.1.toNat
      meshName := s.name ++ "::" ++ ((materials.get? r.1.toNat).map (fun m => m.materialName)).getD ""
      vertexStartIndex := start
      numberOfVertices := r.2 } :: meshesOfRuns s materials (start + r.2) rs

/-- The `MeshInfo` records of a list of shapes whose first vertex is `start`. -/
def meshesOfShapes (materials : List MaterialInfo) : Nat → List shape_t → List MeshInfo
  | _, [] => []
  | start, s :: rest =>
    meshesOfRuns s materials start (shapeRuns s) ++
      meshesOfShapes materials (start + s.mesh.indices.length) rest

/-- Whether a list of `MeshInfo` tiles the vertices from `start` on: each
record starts where the one before it ends. -/
def tilesFrom : Nat → List MeshInfo → Bool
  | _, [] => true
  | start, m :: ms =>
    decide (m.vertexStartIndex = start) && tilesFrom (start + m.numberOfVertices) ms

/-- An index refers to data that exists: its position, its normal (there is
one) and, when it has one, its texture coordinate lie inside the arrays of
`attrib`, at offsets that fit in `int`. -/
def index_t.InRange (attrib : attrib_t) (objIdx : index_t) : Prop :=
  0 ≤ objIdx.vertex_index ∧ objIdx.vertex_index * 3 + 2 < attrib.vertices.length ∧
  objIdx.vertex_index * 3 + 2 < 2 ^ 31 ∧
  0 ≤ objIdx.normal_index ∧ objIdx.normal_index * 3 + 2 < attrib.normals.length ∧
  objIdx.normal_index * 3 + 2 < 2 ^ 31 ∧
  (0 ≤ objIdx.texcoord_index →
    objIdx.texcoord_index * 2 + 1 < attrib.texcoords.length ∧
    objIdx.texcoord_index * 2 + 1 < 2 ^ 31)

/-- What `tinyobj::LoadObj` called with triangulation hands over, for a file in
which every vertex has a normal: every face has three vertices, a shape has
three indices and one material id per face, a material id is an `int` that is
-1 or names a material, and every index refers to data that exists. -/
def Parsed (attrib : attrib_t) (shapes : List shape_t) (materials : List material_t) : Prop :=
  ∀ s ∈ shapes,
    (∀ faceVerts ∈ s.mesh.num_face_vertices, faceVerts = 3) ∧
    s.mesh.indices.length = 3 * s.mesh.num_face_vertices.length ∧
    s.mesh.material_ids.length = s.mesh.num_face_vertices.length ∧
    (∀ id ∈ s.mesh.material_ids, -1 ≤ id ∧ id < materials.length ∧ id < 2 ^ 31) ∧
    (∀ objIdx ∈ s.mesh.indices, objIdx.InRange attrib)

/-- Every face of every shape has a material: no material id is negative. -/
def MaterialsAssigned (shapes : List shape_t) : Prop :=
  ∀ s ∈ shapes, ∀ id ∈ s.mesh.material_ids, 0 ≤ id

/-- The pairs (material id, count) of the `MeshInfo` records the loop over the
indices leaves, counting the run in progress, when it starts with `count`
indices of the material `current` pending and reads the material ids `ms`. -/
def pendingRuns : Int → Nat → List Int → List (Int × Nat)
  | current, count, [] => if count = 0 then [] else [(current, count)]
  | current, count, m :: ms =>
    if m ≠ current then
      if count = 0 then pendingRuns m 1 ms else (current, count) :: pendingRuns m 1 ms
    else pendingRuns current (count + 1) ms

/-- The material ids the loop over the indices reads from the face counter
`face` and the vertex counter `vert` on, for `n` indices. -/
def readIds (ids : List Int) : Nat → Nat → Nat → List Int
  | _, _, 0 => []
  | face, vert, n + 1 =>
    ids.getD face 0 ::
      (if vert + 1 = 3 then readIds ids (face + 1) 0 n else readIds ids face (vert + 1) n)

/-- Three vertices with a normal each and one texture coordinate. -/
def sampleAttrib : attrib_t :=
  { vertices := [0, 0, 0, 1, 0, 0, 2, 0, 0]
    normals := [0, 0, 1, 0, 0, 1, 0, 0, 1]
    texcoords := [0, 0] }

/-- Two materials. -/
def sampleMaterials : List material_t := [{ name := "a" }, { name := "b" }]

/-- A shape of three triangles over the vertices of `sampleAttrib`, the first
and the third of material 0 and the second of material 1, and a shape of one
triangle of material 1. -/
def sampleShapes : List shape_t :=
  [ { name := "s"
      mesh :=
        { indices :=
            [ { vertex_index := 0, normal_index := 0, texcoord_index := 0 },
              { vertex_index := 1, normal_index := 1, texcoord_index := -1 },
              { vertex_index := 2, normal_index := 2, texcoord_index := -1 },
              { vertex_index := 0, normal_index := 0, texcoord_index := -1 },
              { vertex_index := 2, normal_index := 2, texcoord_index := -1 },
              { vertex_index := 1, normal_index := 1, texcoord_index := -1 },
              { vertex_index := 1, normal_index := 1, texcoord_index := -1 },
              { vertex_index := 2, normal_index := 2, texcoord_index := -1 },
              { vertex_index := 0, normal_index := 0, texcoord_index := -1 } ]
          num_face_vertices := [3, 3, 3]
          material_ids := [0, 1, 0] } },
    { name := "t"
      mesh :=
        { indices :=
            [ { vertex_index := 0, normal_index := 0, texcoord_index := 0 },
              { vertex_index := 1, normal_index := 1, texcoord_index := 0 },
              { vertex_index := 2, normal_index := 2, texcoord_index := 0 } ]
          num_face_vertices := [3]
          material_ids := [1] } } ]

/-! ## `cw2/model.cpp`: `create_loaded_mesh` -/

/-- The vectors `create_loaded_mesh` fills for one submesh before it uploads them. -/
structure MeshVectors where
  positions : List Vec3
  normals : List Vec3
  texCoords : List Vec2
  colour : List Vec3
  surfaceNormals : List Vec3
deriving DecidableEq, Repr

/-- The loop `for (...; j < stop; j++) out.push_back(xs[j])` from `j` on, for
`count` iterations. -/
def copyFrom {α : Type} (xs : List α) : Nat → Nat → Option (List α)
  | _, 0 => some []
  | j, count + 1 =>
    match xs.get? j with
    | none => none
    | some x =>
      match copyFrom xs (j + 1) count with
      | none => none
      | some rest => some (x :: rest)

/-- The loop `for (size_t j = start; j < start + n; j++) out.push_back(xs[j])`;
the bound `start + n` is computed in `size_t`. -/
def copyRange {α : Type} (xs : List α) (start n : Nat) : Option (List α) :=
  copyFrom xs start ((start + n) % 2 ^ 64 - start)

/-- The loop that fills `colour`: one copy of the colour of the material of the
submesh per vertex. -/
def colourOf (model : ModelData) (mesh : MeshInfo) : Option (List Vec3) :=
  if mesh.numberOfVertices = 0 then some []
  else
    match model.materials.get? mesh.materialIndex with
    | none => none
    | some material => some (List.replicate mesh.numberOfVertices material.color)

/-- The loop `for (size_t j = 0; j < positions.size(); j += 3)` from `j` on: per
triangle three copies of its normal, which `faceNormal` computes from three
positions (`glm::normalize(glm::cross(v1, v2))`, float arithmetic).  `fuel`
bounds the number of iterations; running out of it is `none`. -/
def surfaceNormalsFrom (faceNormal : Vec3 → Vec3 → Vec3 → Vec3) (positions : List Vec3) :
    Nat → Nat → Option (List Vec3)
  | 0, _ => none
  | fuel + 1, j =>
    if j < positions.length then
      match positions.get? (j + 1), positions.get? j, positions.get? (j + 2) with
      | some p1, some p0, some p2 =>
        match surfaceNormalsFrom faceNormal positions fuel (j + 3) with
        | none => none
        | some rest =>
          some (faceNormal p0 p1 p2 :: faceNormal p0 p1 p2 :: faceNormal p0 p1 p2 :: rest)
      | _, _, _ => none
    else some []

/-- The vectors of one iteration of the loop of `create_loaded_mesh`; `none`
stands for an element access outside a vector. -/
def meshVectors (faceNormal : Vec3 → Vec3 → Vec3 → Vec3) (model : ModelData) (mesh : MeshInfo) :
    Option MeshVectors :=
  match copyRange model.vertexPositions mesh.vertexStartIndex mesh.numberOfVertices,
      copyRange model.vertexNormals mesh.vertexStartIndex mesh.numberOfVertices,
      copyRange model.vertexTextureCoords mesh.vertexStartIndex mesh.numberOfVertices,
      colourOf model mesh with
  | some positions, some normals, some texCoords, some colour =>
    match surfaceNormalsFrom faceNormal positions (positions.length + 1) 0 with
    | none => none
    | some surfaceNormals =>
      some { positions := positions, normals := normals, texCoords := texCoords, colour := colour
             surfaceNormals := surfaceNormals }
  | _, _, _, _ => none

/-- The value a `std::uint32_t` has as an `int`. -/
def toInt32 (n : Nat) : Int :=
  if n % 2 ^ 32 < 2 ^ 31 then (n % 2 ^ 32 : Nat) else (n % 2 ^ 32 : Nat) - 2 ^ 32

/-- Per triangle of a list of positions, three copies of its normal. -/
def faceNormalsOf (faceNormal : Vec3 → Vec3 → Vec3 → Vec3) : List Vec3 → List Vec3
  | p0 :: p1 :: p2 :: rest =>
    faceNormal p0 p1 p2 :: faceNormal p0 p1 p2 :: faceNormal p0 p1 p2 ::
      faceNormalsOf faceNormal rest
  | _ => []

def VK_BUFFER_USAGE_TRANSFER_SRC_BIT : VkFlags := 0x00000001
def VK_BUFFER_USAGE_VERTEX_BUFFER_BIT : VkFlags := 0x00000080

/-- The size `sizeof(glm::vec3)`. -/
def sizeof_vec3 : Nat := 3 * sizeof_float

/-- The size `sizeof(glm::vec2)`. -/
def sizeof_vec2 : Nat := 2 * sizeof_float

/-- The default arguments of `lut::create_fence` and `lut::create_command_pool`,
which are declared in `vkutil.hpp`. -/
structure UploadDefaults where
  aFenceFlags : VkFlags
  aPoolFlags : VkFlags
deriving DecidableEq, Repr

/-- A value computed from the vectors of the model: an element access outside a
vector ends the run. -/
def Exec.ofOption {α : Type} (o : Option α) (what : String) : Exec α :=
  match o with
  | some a => Exec.pure a
  | none => Exec.raise (.outOfRange what)

/-- One block "map the staging buffer, `memcpy` the vector into it, unmap". -/
def stageVector (w : World) (staging : Handle) (bytes : Nat) : Exec Unit := do
  Exec.call (w.result .vmaMapMemory) (.vmaMapMemory staging (w.result .vmaMapMemory))
    "Mapping memory for writing"
  Exec.emit (.memcpy staging bytes)
  Exec.emit (.vmaUnmapMemory staging)

/-- One block "copy the staging buffer into the final buffer, then a barrier on
the final buffer". -/
def copyVector (bd : BufferBarrierDefaults) (uploadCmd staging gpu : Handle) (bytes : Nat) :
    Exec Unit := do
  vkCmd uploadCmd (.vkCmdCopyBuffer staging gpu bytes)
  buffer_barrier6 bd uploadCmd gpu
    VK_ACCESS_TRANSFER_WRITE_BIT VK_ACCESS_VERTEX_ATTRIBUTE_READ_BIT
    VK_PIPELINE_STAGE_TRANSFER_BIT VK_PIPELINE_STAGE_VERTEX_INPUT_BIT

/-- The body of the loop of `create_loaded_mesh` for the submesh `mesh`: `acc`
holds the seven vectors of the result as filled so far.  At the end of the
iteration the wrappers that still own an object are destroyed, the one declared
last first. -/
def loadMesh (w : World) (bd : BufferBarrierDefaults) (ud : UploadDefaults)
    (faceNormal : Vec3 → Vec3 → Vec3 → Vec3) (aContext : VulkanWindow) (model : ModelData)
    (acc : LoadedMesh) (mesh : MeshInfo) : Exec LoadedMesh := do
  let v ← Exec.ofOption (meshVectors faceNormal model mesh) "model.vertexPositions[j]"
  let vertexCount := acc.vertexCount ++ [mesh.numberOfVertices % 2 ^ 32]
  let materialIndex := acc.materialIndex ++ [toInt32 mesh.materialIndex]
  let vertexPosGPU ← create_buffer w (sizeof_vec3 * v.positions.length)
    (VK_BUFFER_USAGE_VERTEX_BUFFER_BIT ||| VK_BUFFER_USAGE_TRANSFER_DST_BIT)
  let vertexNormalGPU ← create_buffer w (sizeof_vec3 * v.normals.length)
    (VK_BUFFER_USAGE_VERTEX_BUFFER_BIT ||| VK_BUFFER_USAGE_TRANSFER_DST_BIT)
  let vertexTexCoordsGPU ← create_buffer w (sizeof_vec2 * v.texCoords.length)
    (VK_BUFFER_USAGE_VERTEX_BUFFER_BIT ||| VK_BUFFER_USAGE_TRANSFER_DST_BIT)
  let vertexColorsGPU ← create_buffer w (sizeof_vec3 * v.colour.length)
    (VK_BUFFER_USAGE_VERTEX_BUFFER_BIT ||| VK_BUFFER_USAGE_TRANSFER_DST_BIT)
  let surfaceNormalsGPU ← create_buffer w (sizeof_vec3 * v.surfaceNormals.length)
    (VK_BUFFER_USAGE_VERTEX_BUFFER_BIT ||| VK_BUFFER_USAGE_TRANSFER_DST_BIT)
  let posStaging ← create_buffer w (sizeof_vec3 * v.positions.length)
    VK_BUFFER_USAGE_TRANSFER_SRC_BIT
  let normalStaging ← create_buffer w (sizeof_vec3 * v.normals.length)
    VK_BUFFER_USAGE_TRANSFER_SRC_BIT
  let textCoordStaging ← create_buffer w (sizeof_vec2 * v.texCoords.length)
    VK_BUFFER_USAGE_TRANSFER_SRC_BIT
  let colorStaging ← create_buffer w (sizeof_vec3 * v.colour.length)
    VK_BUFFER_USAGE_TRANSFER_SRC_BIT
  let surfaceNormalStaging ← create_buffer w (sizeof_vec3 * v.surfaceNormals.length)
    VK_BUFFER_USAGE_TRANSFER_SRC_BIT
  stageVector w posStaging (sizeof_vec3 * v.positions.length)
  stageVector w normalStaging (sizeof_vec3 * v.normals.length)
  stageVector w textCoordStaging (sizeof_vec2 * v.texCoords.length)
  stageVector w colorStaging (sizeof_vec3 * v.colour.length)
  stageVector w surfaceNormalStaging (sizeof_vec3 * v.surfaceNormals.length)
  -- Make sure the vulkan instance is still alive after all transfers are completed.
  let uploadComplete ← create_fence w ud.aFenceFlags
  -- Queue data uploads from staging buffers to the final buffers
  let uploadPool ← create_command_pool w ud.aPoolFlags
  let uploadCmd ← alloc_command_buffer w uploadPool
  Exec.call (w.result .vkBeginCommandBuffer)
    (.vkBeginCommandBuffer uploadCmd 0 (w.result .vkBeginCommandBuffer))
    "Beginning command buffer recording"
  copyVector bd uploadCmd posStaging vertexPosGPU (sizeof_vec3 * v.positions.length)
  copyVector bd uploadCmd normalStaging vertexNormalGPU (sizeof_vec3 * v.normals.length)
  copyVector bd uploadCmd textCoordStaging vertexTexCoordsGPU (sizeof_vec2 * v.texCoords.length)
  copyVector bd uploadCmd colorStaging vertexColorsGPU (sizeof_vec3 * v.colour.length)
  copyVector bd uploadCmd surfaceNormalStaging surfaceNormalsGPU
    (sizeof_vec3 * v.surfaceNormals.length)
  Exec.call (w.result .vkEndCommandBuffer)
    (.vkEndCommandBuffer uploadCmd (w.result .vkEndCommandBuffer))
    "Ending command buffer recording"
  -- Submit transfer commands
  let submitInfo : VkSubmitInfo :=
    { commandBuffers := [uploadCmd]
      waitSemaphores := []
      waitDstStageMask := []
      signalSemaphores := [] }
  Exec.call (w.result .vkQueueSubmit)
    (.vkQueueSubmit aContext.graphicsQueue submitInfo uploadComplete (w.result .vkQueueSubmit))
    "Submitting commands"
  -- Wait for command to finish before we destroy the temporary resources
  Exec.call (w.result .vkWaitForFences)
    (.vkWaitForFences [uploadComplete] (w.result .vkWaitForFences))
    "Waiting for upload to complete"
  Exec.destroy uploadPool
  Exec.destroy uploadComplete
  Exec.destroy surfaceNormalStaging
  Exec.destroy colorStaging
  Exec.destroy textCoordStaging
  Exec.destroy normalStaging
  Exec.destroy posStaging
  pure
    { positions := acc.positions ++ [vertexPosGPU]
      normals := acc.normals ++ [vertexNormalGPU]
      texCorods := acc.texCorods ++ [vertexTexCoordsGPU]
      colors := acc.colors ++ [vertexColorsGPU]
      surfaceNormals := acc.surfaceNormals ++ [surfaceNormalsGPU]
      vertexCount := vertexCount
      materialIndex := materialIndex }

/-- The loop `for (size_t i = 0; i < model.meshes.size(); i++)` of
`create_loaded_mesh` over the submeshes that remain. -/
def loadMeshes (w : World) (bd : BufferBarrierDefaults) (ud : UploadDefaults)
    (faceNormal : Vec3 → Vec3 → Vec3 → Vec3) (aContext : VulkanWindow) (model : ModelData) :
    LoadedMesh → List MeshInfo → Exec LoadedMesh
  | acc, [] => Exec.pure acc
  | acc, mesh :: rest =>
    Exec.bind (loadMesh w bd ud faceNormal aContext model acc mesh)
      (fun acc1 => loadMeshes w bd ud faceNormal aContext model acc1 rest)

/-- The function `create_loaded_mesh` of `model.cpp`; its parameters `dpool`,
`objectLayout` and `PBR` are not used by its body. -/
def create_loaded_mesh (w : World) (bd : BufferBarrierDefaults) (ud : UploadDefaults)
    (faceNormal : Vec3 → Vec3 → Vec3 → Vec3) (aContext : VulkanWindow) (model : ModelData) :
    Exec LoadedMesh :=
  loadMeshes w bd ud faceNormal aContext model
    { positions := [], normals := [], texCorods := [], colors := [], surfaceNormals := []
      vertexCount := [], materialIndex := [] } model.meshes

/-- An environment in which every call of an upload succeeds. -/
def World.UploadSucceeds (w : World) : Prop :=
  (∀ n, w.createResult n = VK_SUCCESS) ∧ ∀ s, w.result s = VK_SUCCESS

/-- What the loop of `create_loaded_mesh` adds to the seven vectors of its
result over the submeshes `ms`: one buffer to each of the five buffer vectors,
the vertex count as a `std::uint32_t` and the material index as an `int`. -/
def LoadedMesh.Grown (acc r : LoadedMesh) (ms : List MeshInfo) : Prop :=
  r.vertexCount = acc.vertexCount ++ ms.map (fun m => m.numberOfVertices % 2 ^ 32) ∧
  r.materialIndex = acc.materialIndex ++ ms.map (fun m => toInt32 m.materialIndex) ∧
  r.positions.length = acc.positions.length + ms.length ∧
  r.normals.length = acc.normals.length + ms.length ∧
  r.texCorods.length = acc.texCorods.length + ms.length ∧
  r.colors.length = acc.colors.length + ms.length ∧
  r.surfaceNormals.length = acc.surfaceNormals.length + ms.length

/-- One shape of `n` triangles of material 0 that all repeat the first vertex of
`sampleAttrib`. -/
def manyFaces (n : Nat) : List shape_t :=
  [ { name := "big"
      mesh :=
        { indices := List.replicate (3 * n)
            { vertex_index := 0, normal_index := 0, texcoord_index := -1 }
          num_face_vertices := List.replicate n 3
          material_ids := List.replicate n 0 } } ]

/-- Defaults for the flags of the fence and of the command pool of an upload. -/
def sampleUpload : UploadDefaults := { aFenceFlags := 0, aPoolFlags := 0 }

/-- A stand-in for `glm::normalize(glm::cross(v1, v2))`: the first corner. -/
def sampleFaceNormal : Vec3 → Vec3 → Vec3 → Vec3 := fun p0 _ _ => p0

/-- A file of six bytes, a length that is not a multiple of four, that every
`fread` reads completely. -/
def sixByteFile : ShaderFile := { bytes := 6, fread := fun _ requested => requested }

/-- An environment in which every call succeeds and every shader file is `sixByteFile`. -/
def World.sixByteFiles : World := { World.allOk with files := fun _ => some sixByteFile }

/-- The three vertices of `sampleAttrib`, without normals (a file with no `vn` line). -/
def attribNoNormals : attrib_t :=
  { vertices := [0, 0, 0, 1, 0, 0, 2, 0, 0]
    normals := []
    texcoords := [] }

/-- One triangle of material 0 whose vertices have no normal: `normal_index` is -1. -/
def triangleNoNormals : List shape_t :=
  [ { name := "s"
      mesh :=
        { indices :=
            [ { vertex_index := 0, normal_index := -1, texcoord_index := -1 },
              { vertex_index := 1, normal_index := -1, texcoord_index := -1 },
              { vertex_index := 2, normal_index := -1, texcoord_index := -1 } ]
          num_face_vertices := [3]
          material_ids := [0] } } ]

/-- Two triangles, of material 0 and of material 1, whose vertices have no normal. -/
def twoRunsNoNormals : List shape_t :=
  [ { name := "s"
      mesh :=
        { indices :=
            [ { vertex_index := 0, normal_index := -1, texcoord_index := -1 },
              { vertex_index := 1, normal_index := -1, texcoord_index := -1 },
              { vertex_index := 2, normal_index := -1, texcoord_index := -1 },
              { vertex_index := 0, normal_index := -1, texcoord_index := -1 },
              { vertex_index := 2, normal_index := -1, texcoord_index := -1 },
              { vertex_index := 1, normal_index := -1, texcoord_index := -1 } ]
          num_face_vertices := [3, 3]
          material_ids := [0, 1] } } ]

/-! ## The content of buffers -/

/-- A struct whose address `record_commands` passes as `pData` to `vkCmdUpdateBuffer`. -/
inductive UniformValue
  | scene (u : SceneUniform)
  | material (u : MaterialUniform)
  | materialPBR (u : MaterialPBRUniform)
deriving DecidableEq, Repr

/-- What a `pData` pointer of `record_commands` points at, for the arguments
`a`: `&aSceneUniform`, `&aMaterialUniforms[i]`, `&aMaterialPBRUniforms[i]`. -/
def RecordArgs.pointee (a : RecordArgs) : UniformSource → Option UniformValue
  | .aSceneUniform => some (.scene a.aSceneUniform)
  | .aMaterialUniforms i => (a.aMaterialUniforms.get? i).map .material
  | .aMaterialPBRUniforms i => (a.aMaterialPBRUniforms.get? i).map .materialPBR

/-- One byte of buffer memory that came from the host: byte `index` of the
object representation of `value`. -/
structure HostByte where
  value : UniformValue
  index : Nat
deriving DecidableEq, Repr

/-- The content of the buffers of the device: per buffer handle and byte
offset, the byte there (`none` where no command of the model has written). -/
abbrev BufferMemory := Handle → Nat → Option HostByte

/-- Whether a command is a `vkCmdCopyBuffer`. -/
def Cmd.isCopy : Cmd → Bool
  | .vkCmdCopyBuffer _ _ _ => true
  | _ => false

/-- What the execution of one command does to the content of the buffers:
`vkCmdUpdateBuffer` copies `dataSize` bytes from `pData` into `dstBuffer` from
`dstOffset` on, `vkCmdCopyBuffer` copies the first `size` bytes of `srcBuffer`
into `dstBuffer`, the other commands write no buffer. -/
def Cmd.execute (host : UniformSource → Option UniformValue) (m : BufferMemory) :
    Cmd → BufferMemory
  | .vkCmdUpdateBuffer dstBuffer dstOffset dataSize pData => fun b k =>
    if b = dstBuffer ∧ dstOffset ≤ k ∧ k < dstOffset + dataSize then
      (host pData).map (fun v => { value := v, index := k - dstOffset })
    else m b k
  | .vkCmdCopyBuffer srcBuffer dstBuffer size => fun b k =>
    if b = dstBuffer ∧ k < size then m srcBuffer k else m b k
  | _ => m

/-- The content of the buffers after the commands of a command buffer were
executed in order. -/
def executeCmds (host : UniformSource → Option UniformValue) (m : BufferMemory)
    (cs : List Cmd) : BufferMemory :=
  cs.foldl (Cmd.execute host) m

/-- The whole content of the buffer `b` of `size` bytes is, byte for byte, the
object representation of `v`. -/
def BufferMemory.Holds (m : BufferMemory) (b : Handle) (size : Nat) (v : UniformValue) : Prop :=
  ∀ k, k < size → m b k = some { value := v, index := k }

/-- The wiring done in `main`, with what a rebuild needs to keep it: the four
texture descriptor sets are distinct from each other and from the scene and
material descriptor sets, and the four target views are handles the driver has
handed out. -/
def MainVars.WiringKept (v : MainVars) (d : Device) : Prop :=
  v.Wired d ∧
  [v.backFrameBufferDescriptor, v.backBufferDescriptor, v.backBufferBrightHorizontal,
    v.backBufferBrightVertical].Nodup ∧
  (∀ s ∈ v.sceneDescriptor :: (v.materialDescriptors ++ v.materialPBRDescriptors),
    s ∉ [v.backFrameBufferDescriptor, v.backBufferDescriptor, v.backBufferBrightHorizontal,
      v.backBufferBrightVertical]) ∧
  ∀ x ∈ [v.backBufferView, v.backBufferViewHorizontal, v.backBufferViewVertical,
    v.backFrameBufferView], x < d.nextHandle
/-! ## Running the embedding -/

namespace Exec

@[simp] theorem bind_eq {α β : Type} (x : Exec α) (f : α → Exec β) : x >>= f = Exec.bind x f := rfl

@[simp] theorem pure_eq {α : Type} (a : α) : (Pure.pure a : Exec α) = Exec.pure a := rfl

@[simp] theorem pure_apply {α : Type} (a : α) (d : Device) : Exec.pure a d = ([], .done a d) := rfl

@[simp] theorem emit_apply (e : Event) (d : Device) : Exec.emit e d = ([e], .done () d) := rfl

@[simp] theorem raise_apply {α : Type} (f : Fault) (d : Device) :
    (Exec.raise f : Exec α) d = ([], .fault f) := rfl

theorem bind_apply {α β : Type} (x : Exec α) (f : α → Exec β) (d : Device) :
    Exec.bind x f d =
      match x d with
      | (t, .fault e) => (t, .fault e)
      | (t, .done a d1) => (t ++ (f a d1).1, (f a d1).2) := rfl

theorem bind_done {α β : Type} {x : Exec α} {f : α → Exec β} {d d1 : Device} {t : List Event} {a : α}
    (h : x d = (t, .done a d1)) : Exec.bind x f d = (t ++ (f a d1).1, (f a d1).2) := by
  simp [bind_apply, h]

theorem bind_fault {α β : Type} {x : Exec α} {f : α → Exec β} {d : Device} {t : List Event} {e : Fault}
    (h : x d = (t, .fault e)) : Exec.bind x f d = (t, .fault e) := by
  simp [bind_apply, h]

theorem get?_eq_getD {α : Type} {xs : List α} {i : Nat} (dflt : α) (h : i < xs.length) :
    xs.get? i = some (xs.getD i dflt) := by
  induction xs generalizing i with
  | nil => simp at h
  | cons x xs ih =>
    cases i with
    | zero => rfl
    | succ i => simpa using ih (Nat.lt_of_succ_lt_succ h)

theorem index_apply {α : Type} {xs : List α} {i : Nat} (dflt : α) (what : String) (d : Device)
    (h : i < xs.length) : Exec.index xs i what d = ([], .done (xs.getD i dflt) d) := by
  unfold Exec.index
  rw [get?_eq_getD dflt h]
  rfl

theorem forLoopFrom_done (body : Nat → Exec Unit) (ev : Nat → List Event) (d : Device) :
    ∀ k i, (∀ j, i ≤ j → j < i + k → body j d = (ev j, .done () d)) →
      Exec.forLoopFrom body i k d = ((List.range' i k).flatMap ev, .done () d) := by
  intro k
  induction k with
  | zero => intro i _; simp [Exec.forLoopFrom]
  | succ k ih =>
    intro i h
    have h0 := h i (Nat.le_refl i) (by omega)
    have ht := ih (i + 1) (fun j h1 h2 => h j (by omega) (by omega))
    simp [Exec.forLoopFrom, bind_done h0, ht, List.range'_succ]

end Exec

theorem vkCmd_apply (cb : Handle) (c : Cmd) (d : Device) : vkCmd cb c d = ([.record cb c], .done () d) := rfl

theorem buffer_barrier6_apply (bd : BufferBarrierDefaults) (cb buf : Handle) (a b s t : VkFlags) (d : Device) :
    buffer_barrier6 bd cb buf a b s t d = ([.record cb (barrierCmd bd buf a b)], .done () d) := rfl

theorem uploadMaterial_apply (bd : BufferBarrierDefaults) (a : RecordArgs) (h : a.InBounds) (i : Nat)
    (hi : i < a.aMaterialDescriptor.length) (d : Device) :
    uploadMaterial bd a i d = ((materialCmds bd a i).map (.record a.aCmdBuff), .done () d) := by
  obtain ⟨h1, h2, h3, h4, _⟩ := h
  simp only [uploadMaterial, Exec.bind_eq, Exec.bind_apply,
    Exec.index_apply 0 _ _ (Nat.lt_of_lt_of_le hi h1),
    Exec.index_apply ⟨none⟩ _ _ (Nat.lt_of_lt_of_le hi h2),
    Exec.index_apply 0 _ _ (Nat.lt_of_lt_of_le hi h3),
    Exec.index_apply ⟨none, 0⟩ _ _ (Nat.lt_of_lt_of_le hi h4), buffer_barrier6_apply, vkCmd_apply]
  rfl

theorem indexInt_apply {α : Type} {xs : List α} {z : Int} (dflt : α) (what : String) (d : Device)
    (h0 : 0 ≤ z) (h : z.toNat < xs.length) :
    indexInt xs z what d = ([], .done (xs.getD z.toNat dflt) d) := by
  unfold indexInt
  rw [if_neg (by omega)]
  exact Exec.index_apply dflt what d h

theorem drawSubmesh_apply (a : RecordArgs) (h : a.InBounds) (pipeline : Handle) (i : Nat)
    (hi : i < a.car.positions.length) (d : Device) :
    drawSubmesh a pipeline i d = ((drawCmds a pipeline i).map (.record a.aCmdBuff), .done () d) := by
  obtain ⟨_, _, _, _, h5, h6, h7, h8, h9, h10, h11⟩ := h
  obtain ⟨m0, m1, m2⟩ := h11 i hi
  simp only [drawSubmesh, Exec.bind_eq, Exec.bind_apply,
    Exec.index_apply 0 _ _ hi,
    Exec.index_apply 0 _ _ (Nat.lt_of_lt_of_le hi h5),
    Exec.index_apply 0 _ _ (Nat.lt_of_lt_of_le hi h6),
    Exec.index_apply 0 _ _ (Nat.lt_of_lt_of_le hi h7),
    Exec.index_apply 0 _ _ (Nat.lt_of_lt_of_le hi h8),
    Exec.index_apply 0 _ _ (Nat.lt_of_lt_of_le hi h9),
    Exec.index_apply (0 : Int) _ _ (Nat.lt_of_lt_of_le hi h10),
    indexInt_apply 0 _ _ m0 m1, indexInt_apply 0 _ _ m0 m2, vkCmd_apply]
  rfl

theorem call_apply_success (e : Event) (what : String) (d : Device) :
    Exec.call VK_SUCCESS e what d = ([e], .done () d) := by
  simp [Exec.call]

theorem call_apply_failure {res : VkResult} (h : res ≠ VK_SUCCESS) (e : Event) (what : String) (d : Device) :
    Exec.call res e what d = ([e], .fault (.error what res)) := by
  simp [Exec.call, h]

/-- What `record_commands` does when every index is in range and
`vkBeginCommandBuffer` succeeds: it records `expectedCmds`, then either returns
or throws according to the status of `vkEndCommandBuffer`. -/
theorem record_commands_apply (w : World) (bd : BufferBarrierDefaults) (a : RecordArgs)
    (h : a.InBounds) (hb : w.result .vkBeginCommandBuffer = VK_SUCCESS) (d : Device) :
    record_commands w bd a d =
      (.vkBeginCommandBuffer a.aCmdBuff VK_COMMAND_BUFFER_USAGE_ONE_TIME_SUBMIT_BIT VK_SUCCESS ::
          (expectedCmds bd a).map (.record a.aCmdBuff) ++
          [.vkEndCommandBuffer a.aCmdBuff (w.result .vkEndCommandBuffer)],
        if w.result .vkEndCommandBuffer = VK_SUCCESS then .done () d
        else .fault (.error "Unable to end recording command buffer" (w.result .vkEndCommandBuffer))) := by
  have hm := Exec.forLoopFrom_done (uploadMaterial bd a) (fun i => (materialCmds bd a i).map (.record a.aCmdBuff)) d
    a.aMaterialDescriptor.length 0 (fun j _ hj => uploadMaterial_apply bd a h j (by omega) d)
  have hd := fun p => Exec.forLoopFrom_done (drawSubmesh a p) (fun i => (drawCmds a p i).map (.record a.aCmdBuff)) d
    a.car.positions.length 0 (fun j _ hj => drawSubmesh_apply a h p j (by omega) d)
  by_cases he : w.result .vkEndCommandBuffer = VK_SUCCESS
  · simp only [record_commands, Exec.bind_eq, Exec.bind_apply, hb, he, call_apply_success,
      buffer_barrier6_apply, vkCmd_apply, Exec.forLoop, hm, hd]
    simp [expectedCmds, uploadsCmds, passesCmds, passCmds, uploadCmds, meshPassBody, blurPassBody,
      compositePassBody, beginCmd, List.map_flatMap, List.flatMap_map]
  · simp only [record_commands, Exec.bind_eq, Exec.bind_apply, hb, call_apply_success,
      call_apply_failure he, buffer_barrier6_apply, vkCmd_apply, Exec.forLoop, hm, hd]
    simp [he, expectedCmds, uploadsCmds, passesCmds, passCmds, uploadCmds, meshPassBody, blurPassBody,
      compositePassBody, beginCmd, List.map_flatMap, List.flatMap_map]
theorem sampleArgs_inBounds : sampleArgs.InBounds := by
  refine ⟨by decide, by decide, by decide, by decide, by decide, by decide, by decide, by decide,
    by decide, by decide, ?_⟩
  intro i hi
  have : i = 0 ∨ i = 1 := by
    have : i < 2 := hi
    omega
  rcases this with rfl | rfl <;> decide

theorem recorded_map_record (cb : Handle) (cmds : List Cmd) :
    recorded cb (cmds.map (.record cb)) = cmds := by
  induction cmds with
  | nil => rfl
  | cons c cs ih => simpa [recorded] using ih

theorem recorded_append (cb : Handle) (t1 t2 : List Event) :
    recorded cb (t1 ++ t2) = recorded cb t1 ++ recorded cb t2 := by
  simp [recorded]

/-- The commands in the command buffer after a `record_commands` whose indices
are in range and whose `vkBeginCommandBuffer` succeeded. -/
theorem recorded_record_commands (w : World) (bd : BufferBarrierDefaults) (a : RecordArgs)
    (h : a.InBounds) (hb : w.result .vkBeginCommandBuffer = VK_SUCCESS) (d : Device) :
    recorded a.aCmdBuff (record_commands w bd a d).1 = expectedCmds bd a := by
  rw [record_commands_apply w bd a h hb d]
  have h1 : ∀ t, recorded a.aCmdBuff
      (.vkBeginCommandBuffer a.aCmdBuff VK_COMMAND_BUFFER_USAGE_ONE_TIME_SUBMIT_BIT VK_SUCCESS :: t) =
      recorded a.aCmdBuff t := fun _ => rfl
  have h2 : recorded a.aCmdBuff [.vkEndCommandBuffer a.aCmdBuff (w.result .vkEndCommandBuffer)] = [] := rfl
  simp only [List.cons_append, h1, recorded_append, recorded_map_record, h2, List.append_nil]

theorem passInstances_skip (pre rest : List Cmd)
    (h : ∀ c ∈ pre, c.isBeginOrEnd = false ∧ c.isDraw = false) :
    passInstances none (pre ++ rest) = passInstances none rest := by
  induction pre with
  | nil => rfl
  | cons c cs ih =>
    have hc := h c (by simp)
    have ih2 := ih (fun x hx => h x (by simp [hx]))
    cases c <;> simp_all [passInstances, Cmd.isBeginOrEnd, Cmd.isDraw]

theorem passInstances_body (info : VkRenderPassBeginInfo) (body rest : List Cmd)
    (h : ∀ c ∈ body, c.isBeginOrEnd = false) :
    ∀ acc : List Cmd, passInstances (some (info, acc)) (body ++ .vkCmdEndRenderPass :: rest) =
      (passInstances none rest).map
        (fun ps => { renderPass := info.renderPass, framebuffer := info.framebuffer,
                     body := acc.reverse ++ body } :: ps) := by
  induction body with
  | nil => intro acc; simp [passInstances]
  | cons c cs ih =>
    intro acc
    have hc := h c (by simp)
    have ih2 := ih (fun x hx => h x (by simp [hx])) (c :: acc)
    cases c <;> simp_all [passInstances, Cmd.isBeginOrEnd]

theorem drawCmds_noBeginEnd (a : RecordArgs) (p : Handle) (n : Nat) :
    ∀ c ∈ (List.range' 0 n).flatMap (drawCmds a p), c.isBeginOrEnd = false := by
  intro c hc
  simp only [List.mem_flatMap] at hc
  obtain ⟨i, _, hi⟩ := hc
  simp only [drawCmds, List.mem_cons, List.mem_singleton, List.not_mem_nil, or_false] at hi
  rcases hi with rfl | rfl | rfl | rfl | rfl <;> rfl

theorem uploadsCmds_plain (bd : BufferBarrierDefaults) (a : RecordArgs) :
    ∀ c ∈ uploadsCmds bd a, c.isBeginOrEnd = false ∧ c.isDraw = false := by
  intro c hc
  simp only [uploadsCmds, uploadCmds, materialCmds, List.mem_append, List.mem_flatMap, List.mem_cons,
    List.mem_singleton, List.not_mem_nil, or_false] at hc
  rcases hc with (rfl | rfl | rfl) | ⟨i, _, (rfl | rfl | rfl) | (rfl | rfl | rfl)⟩ <;> exact ⟨rfl, rfl⟩

theorem passInstances_passCmds (a : RecordArgs) (rp fb : Handle) (cl : ClearValues)
    (body rest : List Cmd) (h : ∀ c ∈ body, c.isBeginOrEnd = false) :
    passInstances none (passCmds a rp fb cl body ++ rest) =
      (passInstances none rest).map
        (fun ps => { renderPass := rp, framebuffer := fb, body := body } :: ps) := by
  have := passInstances_body
    { renderPass := rp, framebuffer := fb, renderArea := a.aImageExtent, clearValueCount := 2,
      pClearValues := cl } body rest h []
  simpa [passCmds, beginCmd, passInstances] using this

theorem meshPassBody_noBeginEnd (a : RecordArgs) (p : Handle) :
    ∀ c ∈ meshPassBody a p, c.isBeginOrEnd = false := by
  intro c hc
  simp only [meshPassBody, List.mem_cons] at hc
  rcases hc with rfl | hc
  · rfl
  · exact drawCmds_noBeginEnd a p _ c hc

theorem blurPassBody_noBeginEnd (a : RecordArgs) (p s : Handle) :
    ∀ c ∈ blurPassBody a p s, c.isBeginOrEnd = false := by
  intro c hc
  simp only [blurPassBody, List.mem_cons, List.mem_singleton, List.not_mem_nil, or_false] at hc
  rcases hc with rfl | rfl | rfl <;> rfl

theorem compositePassBody_noBeginEnd (a : RecordArgs) :
    ∀ c ∈ compositePassBody a, c.isBeginOrEnd = false := by
  intro c hc
  simp only [compositePassBody, List.mem_cons, List.mem_singleton, List.not_mem_nil, or_false] at hc
  rcases hc with rfl | rfl | rfl | rfl <;> rfl

/-- The render pass instances of the command list `record_commands` records. -/
theorem passInstances_expectedCmds (bd : BufferBarrierDefaults) (a : RecordArgs) :
    passInstances none (expectedCmds bd a) = some
      [ { renderPass := a.aBackRenderPass, framebuffer := a.aBackbuffer,
          body := meshPassBody a a.aFilterPipe },
        { renderPass := a.aBackRenderPass, framebuffer := a.aFilterHorizontalBuffer,
          body := blurPassBody a a.aHorizontalPipe a.aBackBufferDescriptor },
        { renderPass := a.aBackRenderPass, framebuffer := a.aFilterVerticalBuffer,
          body := blurPassBody a a.aVerticalPipe a.aFilterHorizontalDescriptor },
        { renderPass := a.aBackRenderPass, framebuffer := a.aFrameBackBuffer,
          body := meshPassBody a a.aGraphicsPipe },
        { renderPass := a.aRenderPass, framebuffer := a.aFramebuffer,
          body := compositePassBody a } ] := by
  rw [expectedCmds, passInstances_skip _ _ (uploadsCmds_plain bd a), passesCmds,
    passInstances_passCmds _ _ _ _ _ _ (meshPassBody_noBeginEnd a _),
    passInstances_passCmds _ _ _ _ _ _ (blurPassBody_noBeginEnd a _ _),
    passInstances_passCmds _ _ _ _ _ _ (blurPassBody_noBeginEnd a _ _),
    passInstances_passCmds _ _ _ _ _ _ (meshPassBody_noBeginEnd a _),
    ← List.append_nil (passCmds a a.aRenderPass a.aFramebuffer clearValuesGray (compositePassBody a)),
    passInstances_passCmds _ _ _ _ _ _ (compositePassBody_noBeginEnd a)]
  rfl

theorem recordedBy_buffer_barrier6 (bd : BufferBarrierDefaults) (cb buf : Handle) (a b s t : VkFlags) :
    recordedBy cb (buffer_barrier6 bd cb buf a b s t) = [barrierCmd bd buf a b] := by
  simp [recordedBy, buffer_barrier6_apply, recorded]

theorem sandwich_eq (bd : BufferBarrierDefaults) (cb buf : Handle) (size : Nat) (src : UniformSource) :
    sandwich bd cb buf size src = uploadCmds bd buf size src := by
  simp [sandwich, recordedBy_buffer_barrier6, uploadCmds]

theorem uploadsCmds_eq_sandwiches (bd : BufferBarrierDefaults) (a : RecordArgs) :
    uploadsCmds bd a =
      sandwich bd a.aCmdBuff a.aSceneUBO sizeof_SceneUniform .aSceneUniform ++
      (List.range a.aMaterialDescriptor.length).flatMap (fun i =>
        sandwich bd a.aCmdBuff (a.aMaterialUBOs.getD i 0) sizeof_MaterialUniform (.aMaterialUniforms i) ++
        sandwich bd a.aCmdBuff (a.aMaterialPBRUBOs.getD i 0) sizeof_MaterialPBRUniform
          (.aMaterialPBRUniforms i)) := by
  simp only [sandwich_eq, uploadsCmds, List.range_eq_range']
  rfl

theorem takeWhile_append_stop {α : Type} (p : α → Bool) (pre : List α) (x : α) (rest : List α)
    (h : ∀ c ∈ pre, p c = true) (hx : p x = false) :
    (pre ++ x :: rest).takeWhile p = pre := by
  induction pre with
  | nil => simp [List.takeWhile, hx]
  | cons c cs ih =>
    simp [List.takeWhile, h c (by simp), ih (fun y hy => h y (by simp [hy]))]

theorem filter_flatMap_length {α : Type} (p : α → Bool) (f : Nat → List α) (k : Nat)
    (h : ∀ i, ((f i).filter p).length = k) :
    ∀ n s, (((List.range' s n).flatMap f).filter p).length = k * n := by
  intro n
  induction n with
  | zero => intro s; simp
  | succ n ih =>
    intro s
    simp [List.range'_succ, h, ih (s + 1)]
    ring

theorem passesCmds_plain (a : RecordArgs) :
    ∀ c ∈ passesCmds a, c.isUpdate = false ∧ c.isBarrier = false := by
  intro c hc
  simp only [passesCmds, passCmds, beginCmd, meshPassBody, blurPassBody, compositePassBody, drawCmds,
    List.mem_append, List.mem_cons, List.mem_flatMap, List.mem_singleton, List.not_mem_nil,
    or_false] at hc
  rcases hc with (rfl | (rfl | ⟨i, _, rfl | rfl | rfl | rfl | rfl⟩) | rfl) |
    (rfl | (rfl | rfl | rfl) | rfl) | (rfl | (rfl | rfl | rfl) | rfl) |
    (rfl | (rfl | ⟨i, _, rfl | rfl | rfl | rfl | rfl⟩) | rfl) | (rfl | (rfl | rfl | rfl | rfl) | rfl) <;>
    exact ⟨rfl, rfl⟩

theorem filter_eq_nil_of_all_false {α : Type} (p : α → Bool) (xs : List α) (h : ∀ c ∈ xs, p c = false) :
    xs.filter p = [] := by
  induction xs with
  | nil => rfl
  | cons c cs ih =>
    simp [List.filter, h c (by simp), ih (fun y hy => h y (by simp [hy]))]

theorem updatesEnclosed_plain (bd : BufferBarrierDefaults) (xs : List Cmd)
    (h : ∀ c ∈ xs, c.isUpdate = false) : ∀ prev, updatesEnclosed bd prev xs = true := by
  induction xs with
  | nil => intro prev; rfl
  | cons c cs ih =>
    intro prev
    have hc := h c (by simp)
    have ih2 := ih (fun x hx => h x (by simp [hx]))
    cases c <;> simp_all [updatesEnclosed, Cmd.isUpdate]

theorem updatesEnclosed_uploadCmds (bd : BufferBarrierDefaults) (buf : Handle) (size : Nat)
    (src : UniformSource) (rest : List Cmd) (prev : Option Cmd) :
    updatesEnclosed bd prev (uploadCmds bd buf size src ++ rest) =
      updatesEnclosed bd
        (some (barrierCmd bd buf VK_ACCESS_TRANSFER_WRITE_BIT VK_ACCESS_UNIFORM_READ_BIT)) rest := by
  simp [uploadCmds, updatesEnclosed, barrierCmd]

theorem updatesEnclosed_materials (bd : BufferBarrierDefaults) (a : RecordArgs) (rest : List Cmd)
    (hrest : ∀ prev, updatesEnclosed bd prev rest = true) :
    ∀ n s prev, updatesEnclosed bd prev ((List.range' s n).flatMap (materialCmds bd a) ++ rest) = true := by
  intro n
  induction n with
  | zero => intro s prev; simpa using hrest prev
  | succ n ih =>
    intro s prev
    simp only [List.range'_succ, List.flatMap_cons, materialCmds, List.append_assoc,
      updatesEnclosed_uploadCmds]
    exact ih (s + 1) _

/-- C8 (code bug): `buffer_barrier` called with source access uniform-read,
destination access transfer-write, source stage fragment-shader and destination
stage transfer records a pipeline barrier whose source stage mask is the
access mask `VK_ACCESS_UNIFORM_READ_BIT` (the vertex-shader stage bit), not the
stage mask it was given; the stage arguments are never used. -/
theorem buffer_barrier_stage_masks_are_access_masks :
    (buffer_barrier 1 2 VK_ACCESS_UNIFORM_READ_BIT VK_ACCESS_TRANSFER_WRITE_BIT
        VK_PIPELINE_STAGE_FRAGMENT_SHADER_BIT VK_PIPELINE_STAGE_TRANSFER_BIT 64 0 0 0 Device.initial).1 =
      [ .record 1 (.vkCmdPipelineBarrier VK_ACCESS_UNIFORM_READ_BIT VK_ACCESS_TRANSFER_WRITE_BIT 0 0
          [ { srcAccessMask := VK_ACCESS_UNIFORM_READ_BIT, dstAccessMask := VK_ACCESS_TRANSFER_WRITE_BIT
              srcQueueFamilyIndex := 0, dstQueueFamilyIndex := 0, buffer := 2, offset := 0, size := 64 } ] 0) ] ∧
    VK_ACCESS_UNIFORM_READ_BIT ≠ VK_PIPELINE_STAGE_FRAGMENT_SHADER_BIT ∧
    VK_ACCESS_UNIFORM_READ_BIT = VK_PIPELINE_STAGE_VERTEX_SHADER_BIT := by
  decide

/-- C4: when every index is in range and the command buffer could be begun,
the commands `record_commands` records split into exactly five render pass
instances, none nested or left open and no draw outside them, which are in
order the offscreen pass on `aBackbuffer`, on `aFilterHorizontalBuffer`, on
`aFilterVerticalBuffer`, on `aFrameBackBuffer`, and the present pass on
`aFramebuffer`. -/
theorem record_commands_five_render_passes (w : World) (bd : BufferBarrierDefaults) (a : RecordArgs)
    (d : Device) (h : a.InBounds) (hb : w.result .vkBeginCommandBuffer = VK_SUCCESS) :
    ∃ ps : List PassInstance,
      passInstances none (recorded a.aCmdBuff (record_commands w bd a d).1) = some ps ∧
      ps.map (fun p => (p.renderPass, p.framebuffer)) =
        [ (a.aBackRenderPass, a.aBackbuffer),
          (a.aBackRenderPass, a.aFilterHorizontalBuffer),
          (a.aBackRenderPass, a.aFilterVerticalBuffer),
          (a.aBackRenderPass, a.aFrameBackBuffer),
          (a.aRenderPass, a.aFramebuffer) ] := by
  rw [recorded_record_commands w bd a h hb d, passInstances_expectedCmds]
  exact ⟨_, rfl, rfl⟩

theorem record_commands_five_render_passes_witness :
    sampleArgs.InBounds ∧
    ∃ ps : List PassInstance,
      passInstances none
        (recorded sampleArgs.aCmdBuff (record_commands World.allOk sampleDefaults sampleArgs Device.initial).1) =
          some ps ∧
      ps.map (fun p => (p.renderPass, p.framebuffer)) = [(2, 5), (2, 6), (2, 7), (2, 4), (3, 8)] :=
  ⟨sampleArgs_inBounds,
    record_commands_five_render_passes World.allOk sampleDefaults sampleArgs Device.initial
      sampleArgs_inBounds rfl⟩

/-- C6: when every index is in range and the command buffer could be begun,
the commands recorded before the first render pass begins are the triple
barrier, update, barrier on the scene uniform buffer, then for each material
`i < M` the triple on material buffer `i` and the triple on PBR-material
buffer `i`; the whole command buffer holds `1 + 2M` updates and `2 + 4M`
barriers, and every update has its two barriers right before and right after it. -/
theorem record_commands_uniform_uploads (w : World) (bd : BufferBarrierDefaults) (a : RecordArgs)
    (d : Device) (h : a.InBounds) (hb : w.result .vkBeginCommandBuffer = VK_SUCCESS) :
    (recorded a.aCmdBuff (record_commands w bd a d).1).takeWhile (fun c => !c.isBegin) =
      sandwich bd a.aCmdBuff a.aSceneUBO sizeof_SceneUniform .aSceneUniform ++
      (List.range a.aMaterialDescriptor.length).flatMap (fun i =>
        sandwich bd a.aCmdBuff (a.aMaterialUBOs.getD i 0) sizeof_MaterialUniform (.aMaterialUniforms i) ++
        sandwich bd a.aCmdBuff (a.aMaterialPBRUBOs.getD i 0) sizeof_MaterialPBRUniform
          (.aMaterialPBRUniforms i)) ∧
    ((recorded a.aCmdBuff (record_commands w bd a d).1).filter Cmd.isUpdate).length =
      1 + 2 * a.aMaterialDescriptor.length ∧
    ((recorded a.aCmdBuff (record_commands w bd a d).1).filter Cmd.isBarrier).length =
      2 + 4 * a.aMaterialDescriptor.length ∧
    updatesEnclosed bd none (recorded a.aCmdBuff (record_commands w bd a d).1) = true := by
  rw [recorded_record_commands w bd a h hb d]
  have hp := passesCmds_plain a
  refine ⟨?_, ?_, ?_, ?_⟩
  · rw [← uploadsCmds_eq_sandwiches, expectedCmds]
    have : passesCmds a = beginCmd a a.aBackRenderPass a.aBackbuffer clearValuesBlack ::
        ((meshPassBody a a.aFilterPipe ++ [.vkCmdEndRenderPass]) ++ _) := rfl
    rw [this]
    apply takeWhile_append_stop
    · intro c hc
      have := (uploadsCmds_plain bd a c hc).1
      cases c <;> simp_all [Cmd.isBegin, Cmd.isBeginOrEnd]
    · rfl
  · rw [expectedCmds, List.filter_append,
      filter_eq_nil_of_all_false _ (passesCmds a) (fun c hc => (hp c hc).1), uploadsCmds,
      List.filter_append, List.length_append, List.length_append,
      filter_flatMap_length Cmd.isUpdate (materialCmds bd a) 2 (fun i => rfl)]
    simp [uploadCmds, barrierCmd, Cmd.isUpdate]
  · rw [expectedCmds, List.filter_append,
      filter_eq_nil_of_all_false _ (passesCmds a) (fun c hc => (hp c hc).2), uploadsCmds,
      List.filter_append, List.length_append, List.length_append,
      filter_flatMap_length Cmd.isBarrier (materialCmds bd a) 4 (fun i => rfl)]
    simp [uploadCmds, barrierCmd, Cmd.isBarrier]
  · rw [expectedCmds, uploadsCmds, List.append_assoc, updatesEnclosed_uploadCmds]
    exact updatesEnclosed_materials bd a _
      (updatesEnclosed_plain bd _ (fun c hc => (hp c hc).1)) _ _ _

theorem record_commands_uniform_uploads_witness :
    sampleArgs.InBounds ∧ World.allOk.result .vkBeginCommandBuffer = VK_SUCCESS ∧
    ((recorded sampleArgs.aCmdBuff
        (record_commands World.allOk sampleDefaults sampleArgs Device.initial).1).filter
          Cmd.isUpdate).length = 1 + 2 * 2 ∧
    ((recorded sampleArgs.aCmdBuff
        (record_commands World.allOk sampleDefaults sampleArgs Device.initial).1).filter
          Cmd.isBarrier).length = 2 + 4 * 2 :=
  ⟨sampleArgs_inBounds, rfl,
    (record_commands_uniform_uploads World.allOk sampleDefaults sampleArgs Device.initial
      sampleArgs_inBounds rfl).2.1,
    (record_commands_uniform_uploads World.allOk sampleDefaults sampleArgs Device.initial
      sampleArgs_inBounds rfl).2.2.1⟩

theorem meshPassBody_replacePipeline (a : RecordArgs) (old new : Handle) :
    (meshPassBody a old).map (Cmd.replacePipeline old new) = meshPassBody a new := by
  have hd : ∀ i, (drawCmds a old i).map (Cmd.replacePipeline old new) = drawCmds a new i := by
    intro i
    simp [drawCmds, Cmd.replacePipeline]
  simp only [meshPassBody, List.map_cons, List.map_flatMap, hd]
  rfl

/-- C7: when every index is in range and the command buffer could be begun,
of the five render pass instances recorded the first holds: the scene
descriptor set bound at set 0, then for each submesh `i < N` in order the
material descriptor `materialIndex[i]` at set 1, the PBR-material descriptor
`materialIndex[i]` at set 2, the bright-filter pipeline, the five vertex buffers
of submesh `i` at bindings 0..4 and one draw of `vertexCount[i]` vertices; and
the fourth holds the same commands with the bright-filter pipeline replaced by
the lit pipeline. -/
theorem record_commands_pass4_is_pass1_with_lit_pipeline (w : World) (bd : BufferBarrierDefaults)
    (a : RecordArgs) (d : Device) (h : a.InBounds)
    (hb : w.result .vkBeginCommandBuffer = VK_SUCCESS) :
    ∃ p1 p2 p3 p4 p5 : PassInstance,
      passInstances none (recorded a.aCmdBuff (record_commands w bd a d).1) = some [p1, p2, p3, p4, p5] ∧
      p1.body =
        .vkCmdBindDescriptorSets a.aGraphicsLayout 0 [a.aSceneDesctipror] ::
          (List.range a.car.positions.length).flatMap (fun i =>
            [ .vkCmdBindDescriptorSets a.aGraphicsLayout 1
                [a.aMaterialDescriptor.getD (a.car.materialIndex.getD i 0).toNat 0],
              .vkCmdBindDescriptorSets a.aGraphicsLayout 2
                [a.aMaterialPBRDescriptor.getD (a.car.materialIndex.getD i 0).toNat 0],
              .vkCmdBindPipeline a.aFilterPipe,
              .vkCmdBindVertexBuffers 0
                [ a.car.positions.getD i 0, a.car.normals.getD i 0, a.car.texCorods.getD i 0,
                  a.car.colors.getD i 0, a.car.surfaceNormals.getD i 0 ]
                [0, 0, 0, 0, 0],
              .vkCmdDraw (a.car.vertexCount.getD i 0) 1 0 0 ]) ∧
      p4.body = p1.body.map (Cmd.replacePipeline a.aFilterPipe a.aGraphicsPipe) ∧
      p4.body = meshPassBody a a.aGraphicsPipe := by
  rw [recorded_record_commands w bd a h hb d, passInstances_expectedCmds]
  refine ⟨_, _, _, _, _, rfl, ?_, ?_, rfl⟩
  · simp only [meshPassBody, List.range_eq_range']
    rfl
  · exact (meshPassBody_replacePipeline a _ _).symm

theorem record_commands_pass4_is_pass1_with_lit_pipeline_witness :
    sampleArgs.InBounds ∧ World.allOk.result .vkBeginCommandBuffer = VK_SUCCESS ∧
    ∃ p1 p2 p3 p4 p5 : PassInstance,
      passInstances none
        (recorded sampleArgs.aCmdBuff
          (record_commands World.allOk sampleDefaults sampleArgs Device.initial).1) =
        some [p1, p2, p3, p4, p5] ∧
      p4.body = p1.body.map (Cmd.replacePipeline sampleArgs.aFilterPipe sampleArgs.aGraphicsPipe) := by
  obtain ⟨p1, p2, p3, p4, p5, h1, _, h3, _⟩ :=
    record_commands_pass4_is_pass1_with_lit_pipeline World.allOk sampleDefaults sampleArgs
      Device.initial sampleArgs_inBounds rfl
  exact ⟨sampleArgs_inBounds, rfl, p1, p2, p3, p4, p5, h1, h3⟩

theorem allOk_creationSucceeds : World.allOk.CreationSucceeds :=
  ⟨fun _ => rfl, fun _ => ⟨okFile, rfl, rfl, fun _ _ h => h⟩⟩

theorem allOk_othersSucceed : World.allOk.OthersSucceed :=
  ⟨allOk_creationSucceeds, fun _ _ _ => rfl⟩

namespace Exec

theorem bind_cases {α β : Type} (x : Exec α) (f : α → Exec β) (d : Device) :
    (∃ t e, x d = (t, .fault e) ∧ Exec.bind x f d = (t, .fault e)) ∨
    (∃ t a d1, x d = (t, .done a d1) ∧ Exec.bind x f d = (t ++ (f a d1).1, (f a d1).2)) := by
  rcases h : x d with ⟨t, o⟩
  cases o with
  | done a d1 => exact Or.inr ⟨_, _, _, rfl, bind_done h⟩
  | fault e => exact Or.inl ⟨_, _, rfl, bind_fault h⟩

theorem sat_pure {α : Type} {P : Event → Prop} {Q : α → Prop} {a : α} (h : Q a) :
    Sat P Q (Exec.pure a) := by
  intro d
  refine ⟨by simp, ?_⟩
  intro b d1 hb
  simp only [pure_apply, Outcome.done.injEq] at hb
  exact hb.1 ▸ h

theorem sat_bind {α β : Type} {P : Event → Prop} {R : α → Prop} {Q : β → Prop} {x : Exec α}
    {f : α → Exec β} (hx : Sat P R x) (hf : ∀ a, R a → Sat P Q (f a)) : Sat P Q (Exec.bind x f) := by
  intro d
  rcases bind_cases x f d with ⟨t, e, h1, h2⟩ | ⟨t, a, d1, h1, h2⟩
  · rw [h2]
    have := (hx d).1
    rw [h1] at this
    exact ⟨this, by simp⟩
  · rw [h2]
    have h3 := hx d
    rw [h1] at h3
    have h4 := hf a (h3.2 a d1 rfl) d1
    refine ⟨?_, h4.2⟩
    intro e he
    rcases List.mem_append.1 he with he | he
    · exact h3.1 e he
    · exact h4.1 e he

theorem sat_weaken {α : Type} {P P1 : Event → Prop} {Q Q1 : α → Prop} {x : Exec α}
    (h : Sat P Q x) (hP : ∀ e, P e → P1 e) (hQ : ∀ a, Q a → Q1 a) : Sat P1 Q1 x :=
  fun d => ⟨fun e he => hP e ((h d).1 e he), fun a d1 ha => hQ a ((h d).2 a d1 ha)⟩

theorem sat_emit {P : Event → Prop} {e : Event} (h : P e) : Sat P (fun _ => True) (Exec.emit e) := by
  intro d
  exact ⟨by simpa using h, fun _ _ _ => trivial⟩

theorem sat_raise {α : Type} {P : Event → Prop} {Q : α → Prop} {f : Fault} :
    Sat P Q (Exec.raise f : Exec α) := by
  intro d
  exact ⟨by simp, by simp⟩

theorem sat_assert {P : Event → Prop} {c : Bool} {what : String} :
    Sat P (fun _ => c = true) (Exec.assert c what) := by
  intro d
  cases c <;> simp [Exec.assert]

theorem sat_call {P : Event → Prop} {res : VkResult} {e : Event} {what : String} (h : P e) :
    Sat P (fun _ => res = VK_SUCCESS) (Exec.call res e what) := by
  intro d
  by_cases hr : res = VK_SUCCESS <;> simp [Exec.call, hr, h]

theorem sat_create {P : Event → Prop} {w : World} {o : Object} {what : String}
    (h : ∀ r n, P (.create o r n)) : Sat P (fun _ => True) (Exec.create w o what) := by
  intro d
  by_cases hr : w.createResult d.nextHandle = VK_SUCCESS <;> simp [Exec.create, hr, h]

theorem sat_destroy {P : Event → Prop} {h : Handle} (hP : ∀ n, P (.destroy n)) :
    Sat P (fun _ => True) (Exec.destroy h) := by
  intro d
  by_cases hr : h = 0 <;> simp [Exec.destroy, hr, hP]

theorem sat_vkUpdateDescriptorSets {P : Event → Prop} {ws : List VkWriteDescriptorSet}
    (hP : P (.vkUpdateDescriptorSets ws)) : Sat P (fun _ => True) (Exec.vkUpdateDescriptorSets ws) := by
  intro d
  simp [Exec.vkUpdateDescriptorSets, hP]

theorem sat_index {α : Type} {P : Event → Prop} {xs : List α} {i : Nat} {what : String} :
    Sat P (fun a => xs.get? i = some a) (Exec.index xs i what) := by
  intro d
  unfold Exec.index
  cases h : xs.get? i <;> simp

theorem sat_forLoopFrom {P : Event → Prop} {body : Nat → Exec Unit}
    (h : ∀ j, Sat P (fun _ => True) (body j)) :
    ∀ k i, Sat P (fun _ => True) (Exec.forLoopFrom body i k) := by
  intro k
  induction k with
  | zero => intro i; exact sat_pure trivial
  | succ k ih => intro i; exact sat_bind (h i) (fun _ _ => ih (i + 1))

theorem sat_collectFrom {α : Type} {P : Event → Prop} {body : Nat → Exec α}
    (h : ∀ j, Sat P (fun _ => True) (body j)) :
    ∀ k i, Sat P (fun xs => xs.length = k) (Exec.collectFrom body i k) := by
  intro k
  induction k with
  | zero => intro i; exact sat_pure rfl
  | succ k ih =>
    intro i
    exact sat_bind (h i) (fun _ _ => sat_bind (ih (i + 1)) (fun xs hxs => sat_pure (by simp [hxs])))

theorem sat_destroyAll {P : Event → Prop} (hP : ∀ n, P (.destroy n)) :
    ∀ hs, Sat P (fun _ => True) (Exec.destroyAll hs) := by
  intro hs
  induction hs with
  | nil => exact sat_pure trivial
  | cons h hs ih => exact sat_bind (sat_destroy hP) (fun _ _ => ih)

theorem total_pure {α : Type} {Q : α → Prop} {a : α} (h : Q a) : Total Q (Exec.pure a) :=
  fun d => ⟨a, d, rfl, h⟩

theorem total_bind {α β : Type} {R : α → Prop} {Q : β → Prop} {x : Exec α} {f : α → Exec β}
    (hx : Total R x) (hf : ∀ a, R a → Total Q (f a)) : Total Q (Exec.bind x f) := by
  intro d
  obtain ⟨a, d1, h1, h2⟩ := hx d
  obtain ⟨b, d2, h3, h4⟩ := hf a h2 d1
  refine ⟨b, d2, ?_, h4⟩
  have : x d = ((x d).1, .done a d1) := by rw [← h1]
  rw [bind_done this]
  exact h3

theorem total_weaken {α : Type} {Q Q1 : α → Prop} {x : Exec α} (h : Total Q x)
    (hQ : ∀ a, Q a → Q1 a) : Total Q1 x := by
  intro d
  obtain ⟨a, d1, h1, h2⟩ := h d
  exact ⟨a, d1, h1, hQ a h2⟩

theorem total_emit {e : Event} : Total (fun _ => True) (Exec.emit e) :=
  fun d => ⟨(), d, rfl, trivial⟩

theorem total_assert {c : Bool} {what : String} (h : c = true) :
    Total (fun _ => True) (Exec.assert c what) := by
  intro d
  exact ⟨(), d, by simp [Exec.assert, h], trivial⟩

theorem total_call {res : VkResult} {e : Event} {what : String} (h : res = VK_SUCCESS) :
    Total (fun _ => True) (Exec.call res e what) := by
  intro d
  exact ⟨(), d, by simp [Exec.call, h], trivial⟩

theorem total_create {w : World} {o : Object} {what : String} (h : ∀ n, w.createResult n = VK_SUCCESS) :
    Total (fun _ => True) (Exec.create w o what) := by
  intro d
  refine ⟨d.nextHandle, { d with nextHandle := d.nextHandle + 1, objects := (d.nextHandle, o) :: d.objects },
    ?_, trivial⟩
  simp [Exec.create, h]

theorem total_destroy {h : Handle} : Total (fun _ => True) (Exec.destroy h) := by
  intro d
  by_cases hr : h = 0
  · exact ⟨(), d, by simp [Exec.destroy, hr], trivial⟩
  · exact ⟨(), { d with destroyed := h :: d.destroyed }, by simp [Exec.destroy, hr], trivial⟩

theorem total_vkUpdateDescriptorSets {ws : List VkWriteDescriptorSet} :
    Total (fun _ => True) (Exec.vkUpdateDescriptorSets ws) :=
  fun _ => ⟨(), _, rfl, trivial⟩

theorem total_index {α : Type} {xs : List α} {i : Nat} {what : String} (h : i < xs.length) :
    Total (fun a => xs.get? i = some a) (Exec.index xs i what) := by
  intro d
  unfold Exec.index
  rw [List.get?_eq_get h]
  exact ⟨_, d, rfl, rfl⟩

theorem total_collectFrom {α : Type} {body : Nat → Exec α} :
    ∀ k i, (∀ j, i ≤ j → j < i + k → Total (fun _ => True) (body j)) →
      Total (fun xs => xs.length = k) (Exec.collectFrom body i k) := by
  intro k
  induction k with
  | zero => intro i _; exact total_pure rfl
  | succ k ih =>
    intro i h
    exact total_bind (h i (Nat.le_refl i) (by omega)) (fun _ _ =>
      total_bind (ih (i + 1) (fun j h1 h2 => h j (by omega) (by omega)))
        (fun xs hxs => total_pure (by simp [hxs])))

theorem total_destroyAll : ∀ hs, Total (fun _ => True) (Exec.destroyAll hs) := by
  intro hs
  induction hs with
  | nil => exact total_pure trivial
  | cons h hs ih => exact total_bind total_destroy (fun _ _ => ih)

end Exec

namespace Exec

theorem sat_index_true {α : Type} {P : Event → Prop} {xs : List α} {i : Nat} {what : String} :
    Sat P (fun _ => True) (Exec.index xs i what) :=
  sat_weaken sat_index (fun _ h => h) (fun _ _ => trivial)

theorem sat_assert_true {P : Event → Prop} {c : Bool} {what : String} :
    Sat P (fun _ => True) (Exec.assert c what) :=
  sat_weaken sat_assert (fun _ h => h) (fun _ _ => trivial)

theorem sat_call_true {P : Event → Prop} {res : VkResult} {e : Event} {what : String} (h : P e) :
    Sat P (fun _ => True) (Exec.call res e what) :=
  sat_weaken (sat_call h) (fun _ h => h) (fun _ _ => trivial)

theorem sat_collectFrom_true {α : Type} {P : Event → Prop} {body : Nat → Exec α}
    (h : ∀ j, Sat P (fun _ => True) (body j)) (k i : Nat) :
    Sat P (fun _ => True) (Exec.collectFrom body i k) :=
  sat_weaken (sat_collectFrom h k i) (fun _ h => h) (fun _ _ => trivial)

theorem sat_collect_true {α : Type} {P : Event → Prop} {body : Nat → Exec α}
    (h : ∀ j, Sat P (fun _ => True) (body j)) (n : Nat) :
    Sat P (fun _ => True) (Exec.collect n body) :=
  sat_collectFrom_true h n 0

end Exec

open Exec in
theorem readWords_setup (p : String) (f : ShaderFile) (words : Nat) :
    ∀ fuel offset, Sat (fun e => e.isSetup = true) (fun _ => True) (readWords p f words fuel offset) := by
  intro fuel
  induction fuel with
  | zero => intro offset; exact sat_pure trivial
  | succ fuel ih =>
    intro offset
    unfold readWords
    split
    · exact sat_pure trivial
    · refine sat_bind (R := fun _ => True) (sat_emit rfl) (fun _ _ => ?_)
      split
      · exact sat_bind (R := fun _ => True) (sat_emit rfl) (fun _ _ => sat_raise)
      · exact ih _

open Exec in
theorem load_shader_module_setup (w : World) (p : String) :
    Sat (fun e => e.isSetup = true) (fun _ => True) (load_shader_module w p) := by
  unfold load_shader_module
  split
  · simp only [bind_eq]
    refine sat_bind (R := fun _ => True) (sat_emit rfl) (fun _ _ => ?_)
    refine sat_bind (R := fun _ => True) sat_assert_true (fun _ _ => ?_)
    refine sat_bind (R := fun _ => True) (readWords_setup _ _ _ _ _) (fun _ _ => ?_)
    refine sat_bind (R := fun _ => True) (sat_emit rfl) (fun _ _ => ?_)
    exact sat_create (fun _ _ => rfl)
  · simp only [bind_eq]
    exact sat_bind (R := fun _ => True) (sat_emit rfl) (fun _ _ => sat_raise)

open Exec in
theorem createGraphicsPipeline_setup (w : World) (win : VulkanWindow) (vp fp : String) (b a : Nat)
    (c : VkFlags) (rp pl : Handle) :
    Sat (fun e => e.isSetup = true) (fun _ => True) (createGraphicsPipeline w win vp fp b a c rp pl) := by
  unfold createGraphicsPipeline
  simp only [bind_eq, pure_eq]
  refine sat_bind (R := fun _ => True) (load_shader_module_setup _ _) (fun _ _ => ?_)
  refine sat_bind (R := fun _ => True) (load_shader_module_setup _ _) (fun _ _ => ?_)
  refine sat_bind (R := fun _ => True) (sat_create (fun _ _ => rfl)) (fun _ _ => ?_)
  refine sat_bind (R := fun _ => True) (sat_destroy (fun _ => rfl)) (fun _ _ => ?_)
  refine sat_bind (R := fun _ => True) (sat_destroy (fun _ => rfl)) (fun _ _ => ?_)
  exact sat_pure trivial

open Exec in
theorem assign_setup (old new : Handle) :
    Sat (fun e => e.isSetup = true) (fun _ => True) (assign old new) :=
  sat_bind (R := fun _ => True) (sat_destroy (fun _ => rfl)) (fun _ _ => sat_pure trivial)

open Exec in
theorem create_image_pair_setup (w : World) (win : VulkanWindow) :
    Sat (fun e => e.isSetup = true) (fun _ => True) (create_offine_image_view w win) ∧
    Sat (fun e => e.isSetup = true) (fun _ => True) (create_depth_buffer w win) := by
  constructor
  · unfold create_offine_image_view
    simp only [bind_eq, pure_eq]
    refine sat_bind (R := fun _ => True) (sat_create (fun _ _ => rfl)) (fun _ _ => ?_)
    refine sat_bind (R := fun _ => True) (sat_create (fun _ _ => rfl)) (fun _ _ => ?_)
    exact sat_pure trivial
  · unfold create_depth_buffer
    simp only [bind_eq, pure_eq]
    refine sat_bind (R := fun _ => True) (sat_create (fun _ _ => rfl)) (fun _ _ => ?_)
    refine sat_bind (R := fun _ => True) (sat_create (fun _ _ => rfl)) (fun _ _ => ?_)
    exact sat_pure trivial

open Exec in
theorem create_framebuffer_setup (w : World) (win : VulkanWindow) (rp old dv bv : Handle) :
    Sat (fun e => e.isSetup = true) (fun _ => True) (create_framebuffer w win rp old dv bv) := by
  unfold create_framebuffer
  simp only [bind_eq]
  exact sat_bind (R := fun _ => True) (sat_create (fun _ _ => rfl)) (fun _ _ => assign_setup _ _)

open Exec in
theorem create_swapchain_framebuffers_setup (w : World) (win : VulkanWindow) (rp : Handle)
    (fbs : List Handle) (dv : Handle) :
    Sat (fun e => e.isSetup = true) (fun _ => True) (create_swapchain_framebuffers w win rp fbs dv) := by
  unfold create_swapchain_framebuffers
  simp only [bind_eq, pure_eq]
  refine sat_bind (R := fun _ => True) sat_assert_true (fun _ _ => ?_)
  refine sat_bind (R := fun _ => True) (sat_collect_true (fun j => ?_) _) (fun _ _ => ?_)
  · exact sat_bind (R := fun _ => True) sat_index_true (fun _ _ => sat_create (fun _ _ => rfl))
  · exact sat_bind (R := fun _ => True) sat_assert_true (fun _ _ => sat_pure trivial)

open Exec in
theorem recreate_swapchain_setup (w : World) (win : VulkanWindow) :
    Sat (fun e => e.isSetup = true) (fun _ => True) (recreate_swapchain w win) := by
  unfold recreate_swapchain createSwapViews
  simp only [bind_eq, pure_eq]
  refine sat_bind (R := fun _ => True) (sat_emit rfl) (fun _ _ => ?_)
  refine sat_bind (R := fun _ => True) (sat_create (fun _ _ => rfl)) (fun _ _ => ?_)
  refine sat_bind (R := fun _ => True) ?_ (fun _ _ => ?_)
  · apply sat_collect_true
    intro j
    exact sat_create (fun _ _ => rfl)
  refine sat_bind (R := fun _ => True) ?_ (fun _ _ => ?_)
  · apply sat_destroyAll
    intro n
    rfl
  refine sat_bind (R := fun _ => True) (sat_destroy (fun _ => rfl)) (fun _ _ => ?_)
  exact sat_pure trivial

open Exec in
theorem updateBackBufferDescriptorSet_setup (s v f : Handle) :
    Sat (fun e => e.isSetup = true) (fun _ => True) (updateBackBufferDescriptorSet s v f) :=
  sat_vkUpdateDescriptorSets rfl

open Exec in
theorem rebuildRenderPass_setup (w : World) (c : SwapChanges) (v : MainVars) :
    Sat (fun e => e.isSetup = true) (fun _ => True) (rebuildRenderPass w c v) := by
  unfold rebuildRenderPass create_render_pass
  simp only [bind_eq, pure_eq]
  split
  · refine sat_bind (R := fun _ => True) (sat_create (fun _ _ => rfl)) (fun _ _ => ?_)
    exact sat_bind (R := fun _ => True) (assign_setup _ _) (fun _ _ => sat_pure trivial)
  · exact sat_pure trivial

open Exec in
theorem rebuildTargets_setup (w : World) (c : SwapChanges) (v : MainVars) :
    Sat (fun e => e.isSetup = true) (fun _ => True) (rebuildTargets w c v) := by
  unfold rebuildTargets
  simp only [bind_eq, pure_eq]
  split
  · refine sat_bind (R := fun _ => True) (create_image_pair_setup _ _).2 (fun _ _ => ?_)
    refine sat_bind (R := fun _ => True) (assign_setup _ _) (fun _ _ => ?_)
    refine sat_bind (R := fun _ => True) (assign_setup _ _) (fun _ _ => ?_)
    refine sat_bind (R := fun _ => True) (create_image_pair_setup _ _).1 (fun _ _ => ?_)
    refine sat_bind (R := fun _ => True) (assign_setup _ _) (fun _ _ => ?_)
    refine sat_bind (R := fun _ => True) (assign_setup _ _) (fun _ _ => ?_)
    refine sat_bind (R := fun _ => True) (create_image_pair_setup _ _).1 (fun _ _ => ?_)
    refine sat_bind (R := fun _ => True) (assign_setup _ _) (fun _ _ => ?_)
    refine sat_bind (R := fun _ => True) (assign_setup _ _) (fun _ _ => ?_)
    refine sat_bind (R := fun _ => True) (create_image_pair_setup _ _).1 (fun _ _ => ?_)
    refine sat_bind (R := fun _ => True) (assign_setup _ _) (fun _ _ => ?_)
    refine sat_bind (R := fun _ => True) (assign_setup _ _) (fun _ _ => ?_)
    refine sat_bind (R := fun _ => True) (create_image_pair_setup _ _).1 (fun _ _ => ?_)
    refine sat_bind (R := fun _ => True) (assign_setup _ _) (fun _ _ => ?_)
    refine sat_bind (R := fun _ => True) (assign_setup _ _) (fun _ _ => ?_)
    exact sat_pure trivial
  · exact sat_pure trivial

open Exec in
theorem rebuildFramebuffers_setup (w : World) (v : MainVars) :
    Sat (fun e => e.isSetup = true) (fun _ => True) (rebuildFramebuffers w v) := by
  unfold rebuildFramebuffers
  simp only [bind_eq, pure_eq]
  refine sat_bind (R := fun _ => True) (create_framebuffer_setup _ _ _ _ _ _) (fun _ _ => ?_)
  refine sat_bind (R := fun _ => True) (create_framebuffer_setup _ _ _ _ _ _) (fun _ _ => ?_)
  refine sat_bind (R := fun _ => True) (create_framebuffer_setup _ _ _ _ _ _) (fun _ _ => ?_)
  refine sat_bind (R := fun _ => True) (create_framebuffer_setup _ _ _ _ _ _) (fun _ _ => ?_)
  refine sat_bind (R := fun _ => True) ?_ (fun _ _ => ?_)
  · apply sat_destroyAll
    intro n
    rfl
  refine sat_bind (R := fun _ => True) (create_swapchain_framebuffers_setup _ _ _ _ _) (fun _ _ => ?_)
  refine sat_bind (R := fun _ => True) (updateBackBufferDescriptorSet_setup _ _ _) (fun _ _ => ?_)
  refine sat_bind (R := fun _ => True) (updateBackBufferDescriptorSet_setup _ _ _) (fun _ _ => ?_)
  refine sat_bind (R := fun _ => True) (updateBackBufferDescriptorSet_setup _ _ _) (fun _ _ => ?_)
  refine sat_bind (R := fun _ => True) (updateBackBufferDescriptorSet_setup _ _ _) (fun _ _ => ?_)
  exact sat_pure trivial

open Exec in
theorem rebuildPipelines_setup (w : World) (c : SwapChanges) (v : MainVars) :
    Sat (fun e => e.isSetup = true) (fun _ => True) (rebuildPipelines w c v) := by
  unfold rebuildPipelines create_pipeline create_pipeline_filter_bright create_postprocess_pipeline
    create_pipeline_horizontal create_pipeline_vertical
  simp only [bind_eq, pure_eq]
  split
  · refine sat_bind (R := fun _ => True) (createGraphicsPipeline_setup _ _ _ _ _ _ _ _ _) (fun _ _ => ?_)
    refine sat_bind (R := fun _ => True) (assign_setup _ _) (fun _ _ => ?_)
    refine sat_bind (R := fun _ => True) (createGraphicsPipeline_setup _ _ _ _ _ _ _ _ _) (fun _ _ => ?_)
    refine sat_bind (R := fun _ => True) (assign_setup _ _) (fun _ _ => ?_)
    refine sat_bind (R := fun _ => True) (createGraphicsPipeline_setup _ _ _ _ _ _ _ _ _) (fun _ _ => ?_)
    refine sat_bind (R := fun _ => True) (assign_setup _ _) (fun _ _ => ?_)
    refine sat_bind (R := fun _ => True) (createGraphicsPipeline_setup _ _ _ _ _ _ _ _ _) (fun _ _ => ?_)
    refine sat_bind (R := fun _ => True) (assign_setup _ _) (fun _ _ => ?_)
    refine sat_bind (R := fun _ => True) (createGraphicsPipeline_setup _ _ _ _ _ _ _ _ _) (fun _ _ => ?_)
    refine sat_bind (R := fun _ => True) (assign_setup _ _) (fun _ _ => ?_)
    exact sat_pure trivial
  · exact sat_pure trivial

open Exec in
/-- The rebuild block performs only construction and teardown events, and when
it completes the flag `recreateSwapchain` is false. -/
theorem rebuild_setup (w : World) (v : MainVars) :
    Sat (fun e => e.isSetup = true) (fun v1 => v1.recreateSwapchain = false) (rebuild w v) := by
  unfold rebuild
  simp only [bind_eq, pure_eq]
  refine sat_bind (R := fun _ => True) (sat_emit rfl) (fun _ _ => ?_)
  refine sat_bind (R := fun _ => True) (recreate_swapchain_setup _ _) (fun _ _ => ?_)
  refine sat_bind (R := fun _ => True) (rebuildRenderPass_setup _ _ _) (fun _ _ => ?_)
  refine sat_bind (R := fun _ => True) (rebuildTargets_setup _ _ _) (fun _ _ => ?_)
  refine sat_bind (R := fun _ => True) (rebuildFramebuffers_setup _ _) (fun _ _ => ?_)
  refine sat_bind (R := fun _ => True) (rebuildPipelines_setup _ _ _) (fun _ _ => ?_)
  exact sat_pure rfl

namespace Exec

theorem total_collect {α : Type} {body : Nat → Exec α} (n : Nat)
    (h : ∀ j, j < n → Total (fun _ => True) (body j)) :
    Total (fun xs => xs.length = n) (Exec.collect n body) :=
  total_collectFrom n 0 (fun j _ hj => h j (by omega))

theorem total_true {α : Type} {Q : α → Prop} {x : Exec α} (h : Total Q x) : Total (fun _ => True) x :=
  total_weaken h (fun _ _ => trivial)

end Exec

open Exec in
theorem readWords_total (p : String) (f : ShaderFile) (words : Nat) (hf : f.Readable) :
    ∀ fuel offset, offset ≤ words → Total (fun _ => True) (readWords p f words fuel offset) := by
  intro fuel
  induction fuel with
  | zero => intro offset _; exact total_pure trivial
  | succ fuel ih =>
    intro offset ho
    unfold readWords
    split
    · exact total_pure trivial
    · rename_i hne
      have hpos : 0 < words - offset := by omega
      have hr := hf.2 offset (words - offset) hpos
      refine total_bind (R := fun _ => True) total_emit (fun _ _ => ?_)
      rw [if_neg (by omega)]
      exact ih _ (by omega)

open Exec in
theorem load_shader_module_total (w : World) (hw : w.CreationSucceeds) (p : String) :
    Total (fun _ => True) (load_shader_module w p) := by
  obtain ⟨f, hf, hr⟩ := hw.2 p
  unfold load_shader_module
  rw [hf]
  simp only [bind_eq]
  refine total_bind (R := fun _ => True) total_emit (fun _ _ => ?_)
  refine total_bind (R := fun _ => True) (total_assert (by simp [hr.1])) (fun _ _ => ?_)
  refine total_bind (R := fun _ => True) (readWords_total _ _ _ hr _ _ (Nat.zero_le _)) (fun _ _ => ?_)
  refine total_bind (R := fun _ => True) total_emit (fun _ _ => ?_)
  exact total_create hw.1

open Exec in
theorem assign_total (old new : Handle) : Total (fun _ => True) (assign old new) :=
  total_bind (R := fun _ => True) total_destroy (fun _ _ => total_pure trivial)

open Exec in
theorem createGraphicsPipeline_total (w : World) (hw : w.CreationSucceeds) (win : VulkanWindow)
    (vp fp : String) (b a : Nat) (c : VkFlags) (rp pl : Handle) :
    Total (fun _ => True) (createGraphicsPipeline w win vp fp b a c rp pl) := by
  unfold createGraphicsPipeline
  simp only [bind_eq, pure_eq]
  refine total_bind (R := fun _ => True) (load_shader_module_total _ hw _) (fun _ _ => ?_)
  refine total_bind (R := fun _ => True) (load_shader_module_total _ hw _) (fun _ _ => ?_)
  refine total_bind (R := fun _ => True) (total_create hw.1) (fun _ _ => ?_)
  refine total_bind (R := fun _ => True) total_destroy (fun _ _ => ?_)
  refine total_bind (R := fun _ => True) total_destroy (fun _ _ => ?_)
  exact total_pure trivial

open Exec in
theorem create_image_pair_total (w : World) (hw : w.CreationSucceeds) (win : VulkanWindow) :
    Total (fun _ => True) (create_offine_image_view w win) ∧
    Total (fun _ => True) (create_depth_buffer w win) := by
  constructor
  · unfold create_offine_image_view
    simp only [bind_eq, pure_eq]
    refine total_bind (R := fun _ => True) (total_create hw.1) (fun _ _ => ?_)
    refine total_bind (R := fun _ => True) (total_create hw.1) (fun _ _ => ?_)
    exact total_pure trivial
  · unfold create_depth_buffer
    simp only [bind_eq, pure_eq]
    refine total_bind (R := fun _ => True) (total_create hw.1) (fun _ _ => ?_)
    refine total_bind (R := fun _ => True) (total_create hw.1) (fun _ _ => ?_)
    exact total_pure trivial

open Exec in
theorem create_framebuffer_total (w : World) (hw : w.CreationSucceeds) (win : VulkanWindow)
    (rp old dv bv : Handle) : Total (fun _ => True) (create_framebuffer w win rp old dv bv) := by
  unfold create_framebuffer
  simp only [bind_eq]
  exact total_bind (R := fun _ => True) (total_create hw.1) (fun _ _ => assign_total _ _)

open Exec in
theorem create_swapchain_framebuffers_total (w : World) (hw : w.CreationSucceeds)
    (win : VulkanWindow) (rp dv : Handle) :
    Total (fun fbs => fbs.length = win.swapViews.length)
      (create_swapchain_framebuffers w win rp [] dv) := by
  unfold create_swapchain_framebuffers
  simp only [bind_eq, pure_eq]
  refine total_bind (R := fun _ => True) (total_assert rfl) (fun _ _ => ?_)
  refine total_bind (R := fun xs => xs.length = win.swapViews.length) ?_ (fun xs hxs => ?_)
  · apply total_collect
    intro j hj
    exact total_bind (R := fun _ => True) (total_true (total_index hj))
      (fun _ _ => total_create hw.1)
  · refine total_bind (R := fun _ => True) (total_assert (by simp [hxs])) (fun _ _ => ?_)
    exact total_pure (by simpa using hxs)

open Exec in
theorem recreate_swapchain_total (w : World) (hw : w.CreationSucceeds) (win : VulkanWindow) :
    Total (fun _ => True) (recreate_swapchain w win) := by
  unfold recreate_swapchain createSwapViews
  simp only [bind_eq, pure_eq]
  refine total_bind (R := fun _ => True) total_emit (fun _ _ => ?_)
  refine total_bind (R := fun _ => True) (total_create hw.1) (fun _ _ => ?_)
  refine total_bind (R := fun _ => True) ?_ (fun _ _ => ?_)
  · apply total_true
    apply total_collect
    intro j _
    exact total_create hw.1
  refine total_bind (R := fun _ => True) (total_destroyAll _) (fun _ _ => ?_)
  refine total_bind (R := fun _ => True) total_destroy (fun _ _ => ?_)
  exact total_pure trivial

open Exec in
theorem rebuildRenderPass_total (w : World) (hw : w.CreationSucceeds) (c : SwapChanges) (v : MainVars) :
    Total (fun _ => True) (rebuildRenderPass w c v) := by
  unfold rebuildRenderPass create_render_pass
  simp only [bind_eq, pure_eq]
  split
  · refine total_bind (R := fun _ => True) (total_create hw.1) (fun _ _ => ?_)
    exact total_bind (R := fun _ => True) (assign_total _ _) (fun _ _ => total_pure trivial)
  · exact total_pure trivial

open Exec in
theorem rebuildTargets_total (w : World) (hw : w.CreationSucceeds) (c : SwapChanges) (v : MainVars) :
    Total (fun _ => True) (rebuildTargets w c v) := by
  unfold rebuildTargets
  simp only [bind_eq, pure_eq]
  split
  · refine total_bind (R := fun _ => True) (create_image_pair_total _ hw _).2 (fun _ _ => ?_)
    refine total_bind (R := fun _ => True) (assign_total _ _) (fun _ _ => ?_)
    refine total_bind (R := fun _ => True) (assign_total _ _) (fun _ _ => ?_)
    refine total_bind (R := fun _ => True) (create_image_pair_total _ hw _).1 (fun _ _ => ?_)
    refine total_bind (R := fun _ => True) (assign_total _ _) (fun _ _ => ?_)
    refine total_bind (R := fun _ => True) (assign_total _ _) (fun _ _ => ?_)
    refine total_bind (R := fun _ => True) (create_image_pair_total _ hw _).1 (fun _ _ => ?_)
    refine total_bind (R := fun _ => True) (assign_total _ _) (fun _ _ => ?_)
    refine total_bind (R := fun _ => True) (assign_total _ _) (fun _ _ => ?_)
    refine total_bind (R := fun _ => True) (create_image_pair_total _ hw _).1 (fun _ _ => ?_)
    refine total_bind (R := fun _ => True) (assign_total _ _) (fun _ _ => ?_)
    refine total_bind (R := fun _ => True) (assign_total _ _) (fun _ _ => ?_)
    refine total_bind (R := fun _ => True) (create_image_pair_total _ hw _).1 (fun _ _ => ?_)
    refine total_bind (R := fun _ => True) (assign_total _ _) (fun _ _ => ?_)
    refine total_bind (R := fun _ => True) (assign_total _ _) (fun _ _ => ?_)
    exact total_pure trivial
  · exact total_pure trivial

open Exec in
theorem rebuildFramebuffers_total (w : World) (hw : w.CreationSucceeds) (v : MainVars) :
    Total (fun _ => True) (rebuildFramebuffers w v) := by
  unfold rebuildFramebuffers updateBackBufferDescriptorSet
  simp only [bind_eq, pure_eq]
  refine total_bind (R := fun _ => True) (create_framebuffer_total _ hw _ _ _ _ _) (fun _ _ => ?_)
  refine total_bind (R := fun _ => True) (create_framebuffer_total _ hw _ _ _ _ _) (fun _ _ => ?_)
  refine total_bind (R := fun _ => True) (create_framebuffer_total _ hw _ _ _ _ _) (fun _ _ => ?_)
  refine total_bind (R := fun _ => True) (create_framebuffer_total _ hw _ _ _ _ _) (fun _ _ => ?_)
  refine total_bind (R := fun _ => True) (total_destroyAll _) (fun _ _ => ?_)
  refine total_bind (R := fun _ => True)
    (total_true (create_swapchain_framebuffers_total _ hw _ _ _)) (fun _ _ => ?_)
  refine total_bind (R := fun _ => True) total_vkUpdateDescriptorSets (fun _ _ => ?_)
  refine total_bind (R := fun _ => True) total_vkUpdateDescriptorSets (fun _ _ => ?_)
  refine total_bind (R := fun _ => True) total_vkUpdateDescriptorSets (fun _ _ => ?_)
  refine total_bind (R := fun _ => True) total_vkUpdateDescriptorSets (fun _ _ => ?_)
  exact total_pure trivial

open Exec in
theorem rebuildPipelines_total (w : World) (hw : w.CreationSucceeds) (c : SwapChanges) (v : MainVars) :
    Total (fun _ => True) (rebuildPipelines w c v) := by
  unfold rebuildPipelines create_pipeline create_pipeline_filter_bright create_postprocess_pipeline
    create_pipeline_horizontal create_pipeline_vertical
  simp only [bind_eq, pure_eq]
  split
  · refine total_bind (R := fun _ => True) (createGraphicsPipeline_total _ hw _ _ _ _ _ _ _ _) (fun _ _ => ?_)
    refine total_bind (R := fun _ => True) (assign_total _ _) (fun _ _ => ?_)
    refine total_bind (R := fun _ => True) (createGraphicsPipeline_total _ hw _ _ _ _ _ _ _ _) (fun _ _ => ?_)
    refine total_bind (R := fun _ => True) (assign_total _ _) (fun _ _ => ?_)
    refine total_bind (R := fun _ => True) (createGraphicsPipeline_total _ hw _ _ _ _ _ _ _ _) (fun _ _ => ?_)
    refine total_bind (R := fun _ => True) (assign_total _ _) (fun _ _ => ?_)
    refine total_bind (R := fun _ => True) (createGraphicsPipeline_total _ hw _ _ _ _ _ _ _ _) (fun _ _ => ?_)
    refine total_bind (R := fun _ => True) (assign_total _ _) (fun _ _ => ?_)
    refine total_bind (R := fun _ => True) (createGraphicsPipeline_total _ hw _ _ _ _ _ _ _ _) (fun _ _ => ?_)
    refine total_bind (R := fun _ => True) (assign_total _ _) (fun _ _ => ?_)
    exact total_pure trivial
  · exact total_pure trivial

open Exec in
/-- When every creation succeeds the rebuild block completes. -/
theorem rebuild_total (w : World) (hw : w.CreationSucceeds) (v : MainVars) :
    Total (fun _ => True) (rebuild w v) := by
  unfold rebuild
  simp only [bind_eq, pure_eq]
  refine total_bind (R := fun _ => True) total_emit (fun _ _ => ?_)
  refine total_bind (R := fun _ => True) (recreate_swapchain_total _ hw _) (fun _ _ => ?_)
  refine total_bind (R := fun _ => True) (rebuildRenderPass_total _ hw _ _) (fun _ _ => ?_)
  refine total_bind (R := fun _ => True) (rebuildTargets_total _ hw _ _) (fun _ _ => ?_)
  refine total_bind (R := fun _ => True) (rebuildFramebuffers_total _ hw _) (fun _ _ => ?_)
  refine total_bind (R := fun _ => True) (rebuildPipelines_total _ hw _ _) (fun _ _ => ?_)
  exact total_pure trivial

theorem mainLoopBody_rebuild (w : World) (bd : BufferBarrierDefaults) (v : MainVars) (d : Device)
    (h : v.recreateSwapchain = true) :
    mainLoopBody w bd v d =
      ([.glfwPollEvents, .glfwSetKeyCallback, .glfwSetMouseButtonCallback, .glfwSetCursorPosCallback] ++
        (rebuild w v d).1, (rebuild w v d).2) := by
  simp [mainLoopBody, h, Exec.bind_apply]

theorem mainLoopBody_frame (w : World) (bd : BufferBarrierDefaults) (v : MainVars) (d : Device)
    (h : v.recreateSwapchain = false) (ha : w.result .vkAcquireNextImageKHR = VK_SUCCESS) :
    mainLoopBody w bd v d =
      (iterationHead w v ++ (frame w bd v w.imageIndex d).1, (frame w bd v w.imageIndex d).2) := by
  simp [mainLoopBody, h, ha, Exec.bind_apply, iterationHead, VK_SUCCESS, VK_SUBOPTIMAL_KHR,
    VK_ERROR_OUT_OF_DATE_KHR]

theorem mainLoopBody_stale (w : World) (bd : BufferBarrierDefaults) (v : MainVars) (d : Device)
    (h : v.recreateSwapchain = false)
    (ha : w.result .vkAcquireNextImageKHR = VK_SUBOPTIMAL_KHR ∨
      w.result .vkAcquireNextImageKHR = VK_ERROR_OUT_OF_DATE_KHR) :
    mainLoopBody w bd v d = (iterationHead w v, .done { v with recreateSwapchain := true } d) := by
  simp [mainLoopBody, h, ha, Exec.bind_apply, iterationHead]

theorem mainLoopBody_acquire_failed (w : World) (bd : BufferBarrierDefaults) (v : MainVars) (d : Device)
    (h : v.recreateSwapchain = false)
    (h1 : w.result .vkAcquireNextImageKHR ≠ VK_SUBOPTIMAL_KHR)
    (h2 : w.result .vkAcquireNextImageKHR ≠ VK_ERROR_OUT_OF_DATE_KHR)
    (h3 : w.result .vkAcquireNextImageKHR ≠ VK_SUCCESS) :
    mainLoopBody w bd v d =
      (iterationHead w v,
        .fault (.error "Unable to acquire enxt swapchain image" (w.result .vkAcquireNextImageKHR))) := by
  simp [mainLoopBody, h, h1, h2, h3, Exec.bind_apply, iterationHead]

theorem mainLoopBody_acquires (w : World) (bd : BufferBarrierDefaults) (v : MainVars) (d : Device)
    (h : v.recreateSwapchain = false) :
    ∃ rest, (mainLoopBody w bd v d).1 = iterationHead w v ++ rest := by
  by_cases h1 : w.result .vkAcquireNextImageKHR = VK_SUBOPTIMAL_KHR
  · exact ⟨[], by simp [mainLoopBody_stale w bd v d h (Or.inl h1)]⟩
  by_cases h2 : w.result .vkAcquireNextImageKHR = VK_ERROR_OUT_OF_DATE_KHR
  · exact ⟨[], by simp [mainLoopBody_stale w bd v d h (Or.inr h2)]⟩
  by_cases h3 : w.result .vkAcquireNextImageKHR = VK_SUCCESS
  · exact ⟨_, by rw [mainLoopBody_frame w bd v d h h3]⟩
  · exact ⟨[], by simp [mainLoopBody_acquire_failed w bd v d h h1 h2 h3]⟩

theorem bind_emit_trace {β : Type} (e : Event) (f : Unit → Exec β) (d : Device) :
    (Exec.bind (Exec.emit e) f d).1 = e :: (f () d).1 := rfl

theorem bind_trace_prefix {α β : Type} (x : Exec α) (f : α → Exec β) (d : Device) :
    ∃ rest, (Exec.bind x f d).1 = (x d).1 ++ rest := by
  rcases Exec.bind_cases x f d with ⟨t, e, h1, h2⟩ | ⟨t, a, d1, h1, h2⟩
  · exact ⟨[], by rw [h2, h1]; simp⟩
  · exact ⟨_, by rw [h2, h1]⟩

theorem rebuild_trace_head (w : World) (v : MainVars) (d : Device) :
    ∃ rest, (rebuild w v d).1 = .vkDeviceWaitIdle :: .recreate_swapchain :: rest := by
  unfold rebuild
  simp only [Exec.bind_eq]
  rw [bind_emit_trace]
  obtain ⟨rest, h⟩ := bind_trace_prefix (recreate_swapchain w v.window) _ d
  rw [h]
  unfold recreate_swapchain
  simp only [Exec.bind_eq]
  rw [bind_emit_trace]
  exact ⟨_, rfl⟩

/-- C1: in an iteration in which `vkAcquireNextImageKHR` returns
`VK_SUBOPTIMAL_KHR` or `VK_ERROR_OUT_OF_DATE_KHR` the program performs the poll,
the three callback registrations and the acquire and nothing else (no command
recorded, no fence wait or reset, no submit, no present) and leaves the loop
body with `recreateSwapchain` set.  Whatever the environment does in the
following iteration, that iteration waits for the device, rebuilds the
swapchain, performs only construction and teardown calls and no acquire; it
completes when every creation succeeds, and whenever it completes the flag is
clear and the iteration after it acquires. -/
theorem stale_acquire_abandons_frame_then_rebuilds (w : World) (bd : BufferBarrierDefaults)
    (v : MainVars) (d : Device) (hflag : v.recreateSwapchain = false)
    (hacq : w.result .vkAcquireNextImageKHR = VK_SUBOPTIMAL_KHR ∨
      w.result .vkAcquireNextImageKHR = VK_ERROR_OUT_OF_DATE_KHR) :
    mainLoopBody w bd v d = (iterationHead w v, .done { v with recreateSwapchain := true } d) ∧
    ∀ w2 : World,
      (∃ rest,
        (mainLoopBody w2 bd { v with recreateSwapchain := true } d).1 =
          [ .glfwPollEvents, .glfwSetKeyCallback, .glfwSetMouseButtonCallback,
            .glfwSetCursorPosCallback, .vkDeviceWaitIdle, .recreate_swapchain ] ++ rest ∧
        ∀ e ∈ rest, e.isSetup = true) ∧
      (∀ e ∈ (mainLoopBody w2 bd { v with recreateSwapchain := true } d).1, e.isAcquire = false) ∧
      (w2.CreationSucceeds →
        ∃ v2 d2, (mainLoopBody w2 bd { v with recreateSwapchain := true } d).2 = .done v2 d2) ∧
      ∀ v2 d2, (mainLoopBody w2 bd { v with recreateSwapchain := true } d).2 = .done v2 d2 →
        v2.recreateSwapchain = false ∧
        ∀ w3 : World, ∃ rest, (mainLoopBody w3 bd v2 d2).1 = iterationHead w3 v2 ++ rest := by
  refine ⟨mainLoopBody_stale w bd v d hflag hacq, fun w2 => ?_⟩
  have hs := rebuild_setup w2 { v with recreateSwapchain := true } d
  obtain ⟨rest, hrest⟩ := rebuild_trace_head w2 { v with recreateSwapchain := true } d
  rw [mainLoopBody_rebuild w2 bd _ d rfl]
  have hall : ∀ e ∈ rest, e.isSetup = true := by
    intro e he
    exact hs.1 e (by rw [hrest]; simp [he])
  refine ⟨⟨rest, by simp [hrest], hall⟩, ?_, ?_, ?_⟩
  · intro e he
    simp only [List.mem_append, List.mem_cons, List.mem_singleton, List.not_mem_nil, or_false] at he
    rcases he with (rfl | rfl | rfl | rfl) | he
    · rfl
    · rfl
    · rfl
    · rfl
    · have := hs.1 e he
      cases e <;> simp_all [Event.isSetup, Event.isAcquire]
  · intro hw
    obtain ⟨v2, d2, h, _⟩ := rebuild_total w2 hw { v with recreateSwapchain := true } d
    exact ⟨v2, d2, h⟩
  · intro v2 d2 h
    have hf := hs.2 v2 d2 h
    exact ⟨hf, fun w3 => mainLoopBody_acquires w3 bd v2 d2 hf⟩

theorem stale_acquire_abandons_frame_then_rebuilds_witness :
    sampleVars.recreateSwapchain = false ∧
    ({ World.allOk with result := fun _ => VK_ERROR_OUT_OF_DATE_KHR } : World).result
      .vkAcquireNextImageKHR = VK_ERROR_OUT_OF_DATE_KHR ∧
    mainLoopBody { World.allOk with result := fun _ => VK_ERROR_OUT_OF_DATE_KHR } sampleDefaults
        sampleVars sampleDevice =
      (iterationHead { World.allOk with result := fun _ => VK_ERROR_OUT_OF_DATE_KHR } sampleVars,
        .done { sampleVars with recreateSwapchain := true } sampleDevice) :=
  ⟨rfl, rfl,
    (stale_acquire_abandons_frame_then_rebuilds
      { World.allOk with result := fun _ => VK_ERROR_OUT_OF_DATE_KHR } sampleDefaults sampleVars
      sampleDevice rfl (Or.inr rfl)).1⟩

theorem sampleVars_frameInBounds : sampleVars.FrameInBounds 0 := by
  refine ⟨by decide, by decide, by decide, by decide, by decide, by decide, by decide, by decide,
    by decide, by decide, by decide, by decide, by decide, ?_⟩
  intro j hj
  have : j = 0 ∨ j = 1 := by
    have : j < 2 := hj
    omega
  rcases this with rfl | rfl <;> decide

open Exec in
theorem uploadMaterial_recording (bd : BufferBarrierDefaults) (a : RecordArgs) (i : Nat) :
    Sat (fun e => e.isRecordingOn a.aCmdBuff = true) (fun _ => True) (uploadMaterial bd a i) := by
  have hc : ∀ c, Sat (fun e => e.isRecordingOn a.aCmdBuff = true) (fun _ => True) (vkCmd a.aCmdBuff c) :=
    fun c => sat_emit (by simp [Event.isRecordingOn])
  unfold uploadMaterial buffer_barrier6 buffer_barrier
  simp only [bind_eq]
  refine sat_bind (R := fun _ => True) sat_index_true (fun _ _ => ?_)
  refine sat_bind (R := fun _ => True) (hc _) (fun _ _ => ?_)
  refine sat_bind (R := fun _ => True) sat_index_true (fun _ _ => ?_)
  refine sat_bind (R := fun _ => True) (hc _) (fun _ _ => ?_)
  refine sat_bind (R := fun _ => True) (hc _) (fun _ _ => ?_)
  refine sat_bind (R := fun _ => True) sat_index_true (fun _ _ => ?_)
  refine sat_bind (R := fun _ => True) (hc _) (fun _ _ => ?_)
  refine sat_bind (R := fun _ => True) sat_index_true (fun _ _ => ?_)
  refine sat_bind (R := fun _ => True) (hc _) (fun _ _ => ?_)
  exact hc _

open Exec in
theorem indexInt_silent {α : Type} (P : Event → Prop) (xs : List α) (z : Int) (what : String) :
    Sat P (fun _ => True) (indexInt xs z what) := by
  unfold indexInt
  split
  · exact sat_raise
  · exact sat_index_true

open Exec in
theorem drawSubmesh_recording (a : RecordArgs) (p : Handle) (i : Nat) :
    Sat (fun e => e.isRecordingOn a.aCmdBuff = true) (fun _ => True) (drawSubmesh a p i) := by
  have hc : ∀ c, Sat (fun e => e.isRecordingOn a.aCmdBuff = true) (fun _ => True) (vkCmd a.aCmdBuff c) :=
    fun c => sat_emit (by simp [Event.isRecordingOn])
  unfold drawSubmesh
  simp only [bind_eq]
  refine sat_bind (R := fun _ => True) sat_index_true (fun _ _ => ?_)
  refine sat_bind (R := fun _ => True) (indexInt_silent _ _ _ _) (fun _ _ => ?_)
  refine sat_bind (R := fun _ => True) (hc _) (fun _ _ => ?_)
  refine sat_bind (R := fun _ => True) sat_index_true (fun _ _ => ?_)
  refine sat_bind (R := fun _ => True) (indexInt_silent _ _ _ _) (fun _ _ => ?_)
  refine sat_bind (R := fun _ => True) (hc _) (fun _ _ => ?_)
  refine sat_bind (R := fun _ => True) (hc _) (fun _ _ => ?_)
  refine sat_bind (R := fun _ => True) sat_index_true (fun _ _ => ?_)
  refine sat_bind (R := fun _ => True) sat_index_true (fun _ _ => ?_)
  refine sat_bind (R := fun _ => True) sat_index_true (fun _ _ => ?_)
  refine sat_bind (R := fun _ => True) sat_index_true (fun _ _ => ?_)
  refine sat_bind (R := fun _ => True) sat_index_true (fun _ _ => ?_)
  refine sat_bind (R := fun _ => True) (hc _) (fun _ _ => ?_)
  refine sat_bind (R := fun _ => True) sat_index_true (fun _ _ => ?_)
  exact hc _

open Exec in
/-- Whatever its outcome, `record_commands` only begins, records into and ends
the command buffer `aCmdBuff`. -/
theorem record_commands_recording (w : World) (bd : BufferBarrierDefaults) (a : RecordArgs) :
    Sat (fun e => e.isRecordingOn a.aCmdBuff = true) (fun _ => True) (record_commands w bd a) := by
  have hc : ∀ c, Sat (fun e => e.isRecordingOn a.aCmdBuff = true) (fun _ => True) (vkCmd a.aCmdBuff c) :=
    fun c => sat_emit (by simp [Event.isRecordingOn])
  have hm : Sat (fun e => e.isRecordingOn a.aCmdBuff = true) (fun _ => True)
      (Exec.forLoop a.aMaterialDescriptor.length (uploadMaterial bd a)) :=
    sat_forLoopFrom (uploadMaterial_recording bd a) _ _
  have hd : ∀ p, Sat (fun e => e.isRecordingOn a.aCmdBuff = true) (fun _ => True)
      (Exec.forLoop a.car.positions.length (drawSubmesh a p)) :=
    fun p => sat_forLoopFrom (drawSubmesh_recording a p) _ _
  unfold record_commands buffer_barrier6 buffer_barrier
  simp only [bind_eq]
  refine sat_bind (R := fun _ => True) (sat_call_true (by simp [Event.isRecordingOn])) (fun _ _ => ?_)
  refine sat_bind (R := fun _ => True) (hc _) (fun _ _ => ?_)
  refine sat_bind (R := fun _ => True) (hc _) (fun _ _ => ?_)
  refine sat_bind (R := fun _ => True) (hc _) (fun _ _ => ?_)
  refine sat_bind (R := fun _ => True) hm (fun _ _ => ?_)
  refine sat_bind (R := fun _ => True) (hc _) (fun _ _ => ?_)
  refine sat_bind (R := fun _ => True) (hc _) (fun _ _ => ?_)
  refine sat_bind (R := fun _ => True) (hd _) (fun _ _ => ?_)
  refine sat_bind (R := fun _ => True) (hc _) (fun _ _ => ?_)
  refine sat_bind (R := fun _ => True) (hc _) (fun _ _ => ?_)
  refine sat_bind (R := fun _ => True) (hc _) (fun _ _ => ?_)
  refine sat_bind (R := fun _ => True) (hc _) (fun _ _ => ?_)
  refine sat_bind (R := fun _ => True) (hc _) (fun _ _ => ?_)
  refine sat_bind (R := fun _ => True) (hc _) (fun _ _ => ?_)
  refine sat_bind (R := fun _ => True) (hc _) (fun _ _ => ?_)
  refine sat_bind (R := fun _ => True) (hc _) (fun _ _ => ?_)
  refine sat_bind (R := fun _ => True) (hc _) (fun _ _ => ?_)
  refine sat_bind (R := fun _ => True) (hc _) (fun _ _ => ?_)
  refine sat_bind (R := fun _ => True) (hc _) (fun _ _ => ?_)
  refine sat_bind (R := fun _ => True) (hc _) (fun _ _ => ?_)
  refine sat_bind (R := fun _ => True) (hc _) (fun _ _ => ?_)
  refine sat_bind (R := fun _ => True) (hd _) (fun _ _ => ?_)
  refine sat_bind (R := fun _ => True) (hc _) (fun _ _ => ?_)
  refine sat_bind (R := fun _ => True) (hc _) (fun _ _ => ?_)
  refine sat_bind (R := fun _ => True) (hc _) (fun _ _ => ?_)
  refine sat_bind (R := fun _ => True) (hc _) (fun _ _ => ?_)
  refine sat_bind (R := fun _ => True) (hc _) (fun _ _ => ?_)
  refine sat_bind (R := fun _ => True) (hc _) (fun _ _ => ?_)
  refine sat_bind (R := fun _ => True) (hc _) (fun _ _ => ?_)
  exact sat_call_true (by simp [Event.isRecordingOn])

open Exec in
theorem updateUniformsFrom_silent (P : Event → Prop) (ms : List MaterialInfo) (n : Int) :
    ∀ k i acc, Sat P (fun _ => True) (updateUniformsFrom ms n i k acc) := by
  intro k
  induction k with
  | zero => intro i acc; exact sat_pure trivial
  | succ k ih =>
    rintro i ⟨mu, pbr⟩
    unfold updateUniformsFrom
    refine sat_bind (R := fun _ => True) sat_index_true (fun _ _ => ?_)
    refine sat_bind (R := fun _ => True) sat_index_true (fun _ _ => ?_)
    refine sat_bind (R := fun _ => True) sat_index_true (fun _ _ => ?_)
    exact ih _ _

theorem isRecordingOn_frameEventOk (v : MainVars) (i : Nat) (cb : Handle)
    (hcb : v.cbuffers.get? i = some cb) (e : Event) (he : e.isRecordingOn cb = true) :
    FrameEventOk v i e := by
  cases e <;> simp [Event.isRecordingOn] at he <;> (subst he; exact hcb)

theorem isSetup_frameEventOk (v : MainVars) (i : Nat) (e : Event) (he : e.isSetup = true) :
    FrameEventOk v i e := by
  cases e <;> simp [Event.isSetup] at he <;> simp [FrameEventOk]

open Exec in
/-- Whatever its outcome, every event of a frame refers to slot `imageIndex`. -/
theorem frame_events (w : World) (bd : BufferBarrierDefaults) (v : MainVars) (i : Nat) :
    Sat (FrameEventOk v i) (fun _ => True) (frame w bd v i) := by
  unfold frame submit_commands
  simp only [bind_eq, pure_eq]
  refine sat_bind (R := fun _ => True) sat_assert_true (fun _ _ => ?_)
  refine sat_bind sat_index (fun f hf => ?_)
  refine sat_bind (R := fun _ => True) (sat_call_true ⟨f, hf, rfl⟩) (fun _ _ => ?_)
  refine sat_bind sat_index (fun f2 hf2 => ?_)
  refine sat_bind (R := fun _ => True) (sat_call_true ⟨f2, hf2, rfl⟩) (fun _ _ => ?_)
  refine sat_bind (R := fun _ => True) sat_assert_true (fun _ _ => ?_)
  refine sat_bind (R := fun _ => True) sat_assert_true (fun _ _ => ?_)
  refine sat_bind (R := fun _ => True) (updateUniformsFrom_silent _ _ _ _ _ _) (fun p _ => ?_)
  refine sat_bind sat_index (fun cb hcb => ?_)
  refine sat_bind (R := fun _ => True) sat_index_true (fun fb _ => ?_)
  refine sat_bind (R := fun _ => True)
    (sat_weaken (record_commands_recording _ _ _) (isRecordingOn_frameEventOk v i cb hcb)
      (fun _ _ => trivial)) (fun _ _ => ?_)
  refine sat_bind sat_index (fun cb2 hcb2 => ?_)
  refine sat_bind sat_index (fun f3 hf3 => ?_)
  refine sat_bind (R := fun _ => True)
    (sat_call_true ⟨rfl, ⟨cb2, hcb2, rfl⟩, rfl, rfl, rfl, hf3⟩) (fun _ _ => ?_)
  refine sat_bind (R := fun _ => True) (sat_emit ⟨rfl, rfl, rfl, rfl⟩) (fun _ _ => ?_)
  split
  · exact sat_pure trivial
  · split
    · exact sat_raise
    · exact sat_pure trivial

open Exec in
/-- Whatever its outcome, every event of a loop iteration refers to the slot of
the image index the acquire returns. -/
theorem mainLoopBody_events (w : World) (bd : BufferBarrierDefaults) (v : MainVars) :
    Sat (FrameEventOk v w.imageIndex) (fun _ => True) (mainLoopBody w bd v) := by
  unfold mainLoopBody
  simp only [bind_eq, pure_eq]
  refine sat_bind (R := fun _ => True) (sat_emit trivial) (fun _ _ => ?_)
  refine sat_bind (R := fun _ => True) (sat_emit trivial) (fun _ _ => ?_)
  refine sat_bind (R := fun _ => True) (sat_emit trivial) (fun _ _ => ?_)
  refine sat_bind (R := fun _ => True) (sat_emit trivial) (fun _ _ => ?_)
  split
  · exact sat_weaken (rebuild_setup w v) (isSetup_frameEventOk v _) (fun _ _ => trivial)
  · refine sat_bind (R := fun _ => True) (sat_emit ⟨rfl, rfl, rfl⟩) (fun _ _ => ?_)
    split
    · exact sat_pure trivial
    · split
      · exact sat_raise
      · exact frame_events w bd v _

theorem materialUniformsFrom_length (n : Int) :
    ∀ k i acc, (materialUniformsFrom n i k acc).1.length = acc.1.length ∧
      (materialUniformsFrom n i k acc).2.length = acc.2.length := by
  intro k
  induction k with
  | zero => intro i acc; exact ⟨rfl, rfl⟩
  | succ k ih =>
    rintro i ⟨mu, pbr⟩
    have := ih (i + 1) (mu.set i (update_material_uniforms i), pbr.set i (update_material_PBR_uniforms i n))
    simpa [materialUniformsFrom] using this

theorem updateUniformsFrom_apply (ms : List MaterialInfo) (n : Int) (d : Device) :
    ∀ k i acc, i + k ≤ acc.1.length → i + k ≤ ms.length → i + k ≤ acc.2.length →
      updateUniformsFrom ms n i k acc d = ([], .done (materialUniformsFrom n i k acc) d) := by
  intro k
  induction k with
  | zero => intro i acc _ _ _; rfl
  | succ k ih =>
    rintro i ⟨mu, pbr⟩ h1 h2 h3
    change i + (k + 1) ≤ mu.length at h1
    change i + (k + 1) ≤ pbr.length at h3
    have h1 : i < mu.length := by omega
    have h2 : i < ms.length := by omega
    have h3 : i < pbr.length := by omega
    have ht := ih (i + 1) (mu.set i (update_material_uniforms i), pbr.set i (update_material_PBR_uniforms i n))
      (by simp; omega) (by omega) (by simp; omega)
    unfold updateUniformsFrom
    rw [Exec.bind_done (Exec.index_apply { material := none } _ d h1),
      Exec.bind_done (Exec.index_apply { materialName := "" } _ d h2),
      Exec.bind_done (Exec.index_apply { material := none, size := 3 } _ d h3), ht]
    simp [materialUniformsFrom]

theorem frameMaterialUniforms_length (w : World) (v : MainVars) :
    (frameMaterialUniforms w v).1.length = v.materialDescriptors.length ∧
      (frameMaterialUniforms w v).2.length = v.materialPBRDescriptors.length := by
  have := materialUniformsFrom_length w.numLight v.materialDescriptors.length 0
    (List.replicate v.materialDescriptors.length { material := none },
     List.replicate v.materialPBRDescriptors.length { material := none, size := 3 })
  simpa [frameMaterialUniforms] using this

theorem frameRecordArgs_inBounds (w : World) (v : MainVars) (i : Nat) (h : v.FrameInBounds i) :
    (frameRecordArgs w v i).InBounds := by
  obtain ⟨_, _, _, h4, h5, h6, h7, h8, h9, h10, h11, h12, h13, h14⟩ := h
  have hl := frameMaterialUniforms_length w v
  refine ⟨h6, ?_, h7, ?_, h8, h9, h10, h11, h12, h13, h14⟩
  · show v.materialDescriptors.length ≤ (frameMaterialUniforms w v).1.length
    omega
  · show v.materialDescriptors.length ≤ (frameMaterialUniforms w v).2.length
    omega

/-- What a frame does when every index is in range and the fence wait, the fence
reset and `vkBeginCommandBuffer` succeed. -/
theorem frame_apply (w : World) (bd : BufferBarrierDefaults) (v : MainVars) (i : Nat) (d : Device)
    (h : v.FrameInBounds i)
    (hw : w.result .vkWaitForFences = VK_SUCCESS) (hr : w.result .vkResetFences = VK_SUCCESS)
    (hb : w.result .vkBeginCommandBuffer = VK_SUCCESS) :
    frame w bd v i d = (frameEvents w bd v i, frameOutcome w v d) := by
  have hin := frameRecordArgs_inBounds w v i h
  obtain ⟨h1, h2, h3, h4, h5, h6, h7, _⟩ := h
  have ha1 : ∀ what d, Exec.assert (decide (i < v.cbfences.length)) what d = ([], .done () d) := by
    intro what d; simp [Exec.assert, h1]
  have ha2 : ∀ what d, Exec.assert (decide (i < v.cbuffers.length)) what d = ([], .done () d) := by
    intro what d; simp [Exec.assert, h2]
  have ha3 : ∀ what d, Exec.assert (decide (i < v.framebuffers.length)) what d = ([], .done () d) := by
    intro what d; simp [Exec.assert, h3]
  have hi1 : ∀ what d, Exec.index v.cbfences i what d = ([], .done (v.cbfences.getD i 0) d) :=
    fun what d => Exec.index_apply 0 what d h1
  have hi2 : ∀ what d, Exec.index v.cbuffers i what d = ([], .done (v.cbuffers.getD i 0) d) :=
    fun what d => Exec.index_apply 0 what d h2
  have hi3 : ∀ what d, Exec.index v.framebuffers i what d = ([], .done (v.framebuffers.getD i 0) d) :=
    fun what d => Exec.index_apply 0 what d h3
  have hu : ∀ d, updateUniformsFrom v.carModel.materials w.numLight 0
      (List.replicate v.materialDescriptors.length ({ material := none } : MaterialUniform)).length
      (List.replicate v.materialDescriptors.length { material := none },
       List.replicate v.materialPBRDescriptors.length { material := none, size := 3 }) d =
      ([], .done (frameMaterialUniforms w v) d) := by
    intro d
    rw [updateUniformsFrom_apply _ _ _ _ _ _ (by simp) (by simp; omega) (by simp; omega)]
    simp [frameMaterialUniforms]
  have hrec := record_commands_apply w bd (frameRecordArgs w v i) hin hb d
  unfold frame
  simp only [Exec.bind_eq, Exec.pure_eq]
  rw [Exec.bind_done (ha1 _ _), Exec.bind_done (hi1 _ _), hw, Exec.bind_done (call_apply_success _ _ _),
    Exec.bind_done (hi1 _ _), hr, Exec.bind_done (call_apply_success _ _ _), Exec.bind_done (ha2 _ _),
    Exec.bind_done (ha3 _ _), Exec.bind_done (hu _)]
  have hrec2 : record_commands w bd
      (recordArgs v (v.cbuffers.getD i 0) (v.framebuffers.getD i 0)
        (update_scene_uniforms w.position w.rotation v.window.swapchainExtent.width
          v.window.swapchainExtent.height w.numLight)
        (frameMaterialUniforms w v).1 (frameMaterialUniforms w v).2) d = _ := hrec
  have hcb : (frameRecordArgs w v i).aCmdBuff = v.cbuffers.getD i 0 := rfl
  rw [hcb] at hrec2
  by_cases he : w.result .vkEndCommandBuffer = VK_SUCCESS
  · rw [he] at hrec2
    simp only [if_true] at hrec2
    by_cases hs : w.result .vkQueueSubmit = VK_SUCCESS
    · simp only [Exec.bind_done (hi2 _ _), Exec.bind_done (hi3 _ _), Exec.bind_done hrec2,
        Exec.bind_done (hi1 _ _), submit_commands, hs, Exec.bind_done (call_apply_success _ _ _),
        Exec.bind_done (Exec.emit_apply _ _)]
      by_cases hp1 : w.result .vkQueuePresentKHR = VK_SUBOPTIMAL_KHR ∨
          w.result .vkQueuePresentKHR = VK_ERROR_OUT_OF_DATE_KHR
      · simp [frameEvents, frameTail, frameOutcome, he, hs, hp1, submitEvent, presentEvent]
      · by_cases hp2 : w.result .vkQueuePresentKHR = VK_SUCCESS
        · have n1 : ¬ (VK_SUCCESS = VK_SUBOPTIMAL_KHR ∨ VK_SUCCESS = VK_ERROR_OUT_OF_DATE_KHR) := by decide
          simp [frameEvents, frameTail, frameOutcome, he, hs, hp2, n1, submitEvent, presentEvent]
        · simp [frameEvents, frameTail, frameOutcome, he, hs, hp1, hp2, submitEvent, presentEvent]
    · simp only [Exec.bind_done (hi2 _ _), Exec.bind_done (hi3 _ _), Exec.bind_done hrec2,
        Exec.bind_done (hi1 _ _), submit_commands, Exec.bind_fault (call_apply_failure hs _ _ _)]
      simp [frameEvents, frameTail, frameOutcome, he, hs, submitEvent]
  · simp only [he, if_false] at hrec2
    simp only [Exec.bind_done (hi2 _ _), Exec.bind_done (hi3 _ _), Exec.bind_fault hrec2]
    simp [frameEvents, frameTail, frameOutcome, he]

theorem recorded_frameTail (w : World) (v : MainVars) (i : Nat) (cb : Handle) :
    recorded cb (frameTail w v i) = [] := by
  unfold frameTail
  split
  · split <;> rfl
  · rfl

theorem recorded_frameEvents (w : World) (bd : BufferBarrierDefaults) (v : MainVars) (i : Nat) :
    recorded (v.cbuffers.getD i 0) (frameEvents w bd v i) = expectedCmds bd (frameRecordArgs w v i) := by
  have h1 : ∀ f r, recorded (v.cbuffers.getD i 0)
      [.vkWaitForFences [f] r, .vkResetFences [f] r,
        .vkBeginCommandBuffer (v.cbuffers.getD i 0) VK_COMMAND_BUFFER_USAGE_ONE_TIME_SUBMIT_BIT r] = [] :=
    fun _ _ => rfl
  have h2 : ∀ r, recorded (v.cbuffers.getD i 0) [.vkEndCommandBuffer (v.cbuffers.getD i 0) r] = [] :=
    fun _ => rfl
  simp only [frameEvents, recorded_append, h1, h2, recorded_map_record, recorded_frameTail,
    List.append_nil, List.nil_append]

theorem recorded_iterationHead (w : World) (v : MainVars) (cb : Handle) :
    recorded cb (iterationHead w v) = [] := rfl

/-- C2: in an iteration whose acquire succeeds and whose frame reaches recording
(every index is in range; the fence wait, the fence reset and
`vkBeginCommandBuffer` succeed), the fence waited on, reset and passed to the
submission is `cbfences[imageIndex]`, the command buffer begun, recorded into,
ended and submitted is `cbuffers[imageIndex]`, and the fifth render pass
instance recorded, the present pass, is on `framebuffers[imageIndex]`, where
`imageIndex` is the index the acquire returned. -/
theorem frame_uses_slot_of_acquired_image (w : World) (bd : BufferBarrierDefaults) (v : MainVars)
    (d : Device) (hflag : v.recreateSwapchain = false)
    (hacq : w.result .vkAcquireNextImageKHR = VK_SUCCESS)
    (hin : v.FrameInBounds w.imageIndex)
    (hw : w.result .vkWaitForFences = VK_SUCCESS) (hr : w.result .vkResetFences = VK_SUCCESS)
    (hb : w.result .vkBeginCommandBuffer = VK_SUCCESS) :
    ∃ (cb f fb : Handle) (tail : List Event) (ps : List PassInstance),
      v.cbuffers.get? w.imageIndex = some cb ∧
      v.cbfences.get? w.imageIndex = some f ∧
      v.framebuffers.get? w.imageIndex = some fb ∧
      (mainLoopBody w bd v d).1 =
        [ .glfwPollEvents, .glfwSetKeyCallback, .glfwSetMouseButtonCallback, .glfwSetCursorPosCallback,
          .vkAcquireNextImageKHR v.window.swapchain v.imageAvailable 0 VK_SUCCESS w.imageIndex,
          .vkWaitForFences [f] VK_SUCCESS, .vkResetFences [f] VK_SUCCESS,
          .vkBeginCommandBuffer cb VK_COMMAND_BUFFER_USAGE_ONE_TIME_SUBMIT_BIT VK_SUCCESS ] ++
        (recorded cb (mainLoopBody w bd v d).1).map (.record cb) ++
        [ .vkEndCommandBuffer cb (w.result .vkEndCommandBuffer) ] ++ tail ∧
      (tail = [] ∨ (∃ r, tail = [submitEvent v cb f r]) ∨
        ∃ r, tail = [submitEvent v cb f VK_SUCCESS, presentEvent v w.imageIndex r]) ∧
      passInstances none (recorded cb (mainLoopBody w bd v d).1) = some ps ∧
      ps.map (fun p => (p.renderPass, p.framebuffer)) =
        [ (v.offlineRenderPass, v.temp_framebuffer),
          (v.offlineRenderPass, v.temp_framebuffer_horizontal),
          (v.offlineRenderPass, v.temp_framebuffer_vertical),
          (v.offlineRenderPass, v.backFramebuffer),
          (v.renderPass, fb) ] := by
  have ht : (mainLoopBody w bd v d).1 = iterationHead w v ++ frameEvents w bd v w.imageIndex := by
    rw [mainLoopBody_frame w bd v d hflag hacq, frame_apply w bd v _ d hin hw hr hb]
  have hrec : recorded (v.cbuffers.getD w.imageIndex 0) (mainLoopBody w bd v d).1 =
      expectedCmds bd (frameRecordArgs w v w.imageIndex) := by
    rw [ht, recorded_append, recorded_iterationHead, recorded_frameEvents, List.nil_append]
  obtain ⟨ps, hps, hmap⟩ : ∃ ps, passInstances none (expectedCmds bd (frameRecordArgs w v w.imageIndex)) =
      some ps ∧ ps.map (fun p => (p.renderPass, p.framebuffer)) =
        [ (v.offlineRenderPass, v.temp_framebuffer),
          (v.offlineRenderPass, v.temp_framebuffer_horizontal),
          (v.offlineRenderPass, v.temp_framebuffer_vertical),
          (v.offlineRenderPass, v.backFramebuffer),
          (v.renderPass, v.framebuffers.getD w.imageIndex 0) ] :=
    ⟨_, passInstances_expectedCmds _ _, rfl⟩
  refine ⟨v.cbuffers.getD w.imageIndex 0, v.cbfences.getD w.imageIndex 0,
    v.framebuffers.getD w.imageIndex 0, frameTail w v w.imageIndex, ps,
    Exec.get?_eq_getD 0 hin.2.1, Exec.get?_eq_getD 0 hin.1, Exec.get?_eq_getD 0 hin.2.2.1, ?_, ?_, ?_, ?_⟩
  · rw [hrec, ht]
    simp [iterationHead, frameEvents, hacq]
  · unfold frameTail
    split
    · split
      · exact Or.inr (Or.inr ⟨_, rfl⟩)
      · exact Or.inr (Or.inl ⟨_, rfl⟩)
    · exact Or.inl rfl
  · rw [hrec, hps]
  · exact hmap

theorem frame_uses_slot_of_acquired_image_witness :
    ∃ (tail : List Event) (ps : List PassInstance),
      (mainLoopBody World.allOk sampleDefaults sampleVars sampleDevice).1 =
        [ .glfwPollEvents, .glfwSetKeyCallback, .glfwSetMouseButtonCallback, .glfwSetCursorPosCallback,
          .vkAcquireNextImageKHR 5 39 0 VK_SUCCESS 0,
          .vkWaitForFences [36] VK_SUCCESS, .vkResetFences [36] VK_SUCCESS,
          .vkBeginCommandBuffer 35 VK_COMMAND_BUFFER_USAGE_ONE_TIME_SUBMIT_BIT VK_SUCCESS ] ++
        (recorded 35 (mainLoopBody World.allOk sampleDefaults sampleVars sampleDevice).1).map (.record 35) ++
        [ .vkEndCommandBuffer 35 VK_SUCCESS ] ++ tail ∧
      (tail = [] ∨ (∃ r, tail = [submitEvent sampleVars 35 36 r]) ∨
        ∃ r, tail = [submitEvent sampleVars 35 36 VK_SUCCESS, presentEvent sampleVars 0 r]) ∧
      passInstances none (recorded 35 (mainLoopBody World.allOk sampleDefaults sampleVars sampleDevice).1) =
        some ps ∧
      ps.map (fun p => (p.renderPass, p.framebuffer)) = [(10, 43), (10, 44), (10, 45), (10, 42), (9, 32)] := by
  obtain ⟨cb, f, fb, tail, ps, h1, h2, h3, h4⟩ :=
    frame_uses_slot_of_acquired_image World.allOk sampleDefaults sampleVars sampleDevice rfl rfl
      sampleVars_frameInBounds rfl rfl rfl
  have e1 : cb = 35 := by
    have : sampleVars.cbuffers.get? 0 = some 35 := rfl
    exact (Option.some.inj (h1.symm.trans this))
  have e2 : f = 36 := by
    have : sampleVars.cbfences.get? 0 = some 36 := rfl
    exact (Option.some.inj (h2.symm.trans this))
  have e3 : fb = 32 := by
    have : sampleVars.framebuffers.get? 0 = some 32 := rfl
    exact (Option.some.inj (h3.symm.trans this))
  subst e1 e2 e3
  exact ⟨tail, ps, h4⟩

theorem isSetup_swapchainStatus (e : Event) (h : e.isSetup = true) : e.swapchainStatus = none := by
  cases e <;> simp [Event.isSetup] at h <;> rfl

theorem frameEvents_swapchainStatus (w : World) (bd : BufferBarrierDefaults) (v : MainVars) (i : Nat)
    (e : Event) (r : VkResult) (he : e ∈ frameEvents w bd v i) (hr : e.swapchainStatus = some r) :
    w.result .vkEndCommandBuffer = VK_SUCCESS ∧ w.result .vkQueueSubmit = VK_SUCCESS ∧
      r = w.result .vkQueuePresentKHR ∧ e = presentEvent v i r := by
  unfold frameEvents frameTail at he
  simp only [List.mem_append, List.mem_cons, List.mem_map, List.mem_singleton, List.not_mem_nil,
    or_false] at he
  rcases he with (((h | h | h) | ⟨c, _, h⟩) | h) | h
  · subst h; simp [Event.swapchainStatus] at hr
  · subst h; simp [Event.swapchainStatus] at hr
  · subst h; simp [Event.swapchainStatus] at hr
  · subst h; simp [Event.swapchainStatus] at hr
  · subst h; simp [Event.swapchainStatus] at hr
  · split at h
    · split at h
      · simp only [List.mem_cons, List.mem_singleton, List.not_mem_nil, or_false] at h
        rcases h with h | h
        · subst h; simp [Event.swapchainStatus, submitEvent] at hr
        · subst h
          simp only [Event.swapchainStatus, presentEvent, Option.some.injEq] at hr
          subst hr
          exact ⟨by assumption, by assumption, rfl, rfl⟩
      · simp only [List.mem_singleton] at h
        subst h; simp [Event.swapchainStatus, submitEvent] at hr
    · simp at h

theorem iterationHead_swapchainStatus (w : World) (v : MainVars) (e : Event) (r : VkResult)
    (he : e ∈ iterationHead w v) (hr : e.swapchainStatus = some r) :
    r = w.result .vkAcquireNextImageKHR := by
  simp only [iterationHead, List.mem_cons, List.mem_singleton, List.not_mem_nil, or_false] at he
  rcases he with h | h | h | h | h <;> subst h <;> simp [Event.swapchainStatus] at hr
  exact hr.symm

theorem mainLoopBody_flagged_head (w : World) (bd : BufferBarrierDefaults) (v : MainVars) (d : Device)
    (h : v.recreateSwapchain = true) :
    ∃ rest, (mainLoopBody w bd v d).1 =
      [ .glfwPollEvents, .glfwSetKeyCallback, .glfwSetMouseButtonCallback, .glfwSetCursorPosCallback,
        .vkDeviceWaitIdle, .recreate_swapchain ] ++ rest := by
  obtain ⟨rest, hrest⟩ := rebuild_trace_head w v d
  exact ⟨rest, by rw [mainLoopBody_rebuild w bd v d h, hrest]; rfl⟩

/-- C10: in an iteration in which every call other than the acquire and the
present succeeds and every index used is in range, a fatal error is raised if
and only if the acquire or the present made in it returned a status other than
success, suboptimal and out-of-date; when the acquire or the present returned
suboptimal or out-of-date the iteration returns with `recreateSwapchain` set,
and the next iteration starts with the swapchain rebuild. -/
theorem iteration_fatal_iff_unexpected_swapchain_status (w : World) (bd : BufferBarrierDefaults)
    (v : MainVars) (d : Device) (hw : w.OthersSucceed)
    (hin : v.recreateSwapchain = false → v.FrameInBounds w.imageIndex) :
    ((∃ f, (mainLoopBody w bd v d).2 = .fault f) ↔
      ∃ e ∈ (mainLoopBody w bd v d).1, ∃ r, e.swapchainStatus = some r ∧ isFatalStatus r) ∧
    (∀ e ∈ (mainLoopBody w bd v d).1, ∀ r, e.swapchainStatus = some r → isStaleStatus r →
      (mainLoopBody w bd v d).2 = .done { v with recreateSwapchain := true } d ∧
      ∀ w2 d2, ∃ rest, (mainLoopBody w2 bd { v with recreateSwapchain := true } d2).1 =
        [ .glfwPollEvents, .glfwSetKeyCallback, .glfwSetMouseButtonCallback, .glfwSetCursorPosCallback,
          .vkDeviceWaitIdle, .recreate_swapchain ] ++ rest) := by
  have hnext : ∀ w2 d2, ∃ rest, (mainLoopBody w2 bd { v with recreateSwapchain := true } d2).1 =
        [ .glfwPollEvents, .glfwSetKeyCallback, .glfwSetMouseButtonCallback, .glfwSetCursorPosCallback,
          .vkDeviceWaitIdle, .recreate_swapchain ] ++ rest :=
    fun w2 d2 => mainLoopBody_flagged_head w2 bd _ d2 rfl
  by_cases hflag : v.recreateSwapchain = true
  · -- the iteration rebuilds: no acquire, no present, no fault
    have ht := mainLoopBody_rebuild w bd v d hflag
    obtain ⟨v1, d1, hdone, _⟩ := rebuild_total w hw.1 v d
    have hnone : ∀ e ∈ (mainLoopBody w bd v d).1, e.swapchainStatus = none := by
      intro e he
      rw [ht] at he
      simp only [List.mem_append, List.mem_cons, List.mem_singleton, List.not_mem_nil, or_false] at he
      rcases he with (h | h | h | h) | h
      · subst h; rfl
      · subst h; rfl
      · subst h; rfl
      · subst h; rfl
      · exact isSetup_swapchainStatus e ((rebuild_setup w v d).1 e h)
    refine ⟨⟨?_, ?_⟩, ?_⟩
    · rintro ⟨f, hf⟩
      rw [ht] at hf
      simp only [hdone] at hf
      cases hf
    · rintro ⟨e, he, r, hr, _⟩
      rw [hnone e he] at hr
      cases hr
    · intro e he r hr
      rw [hnone e he] at hr
      cases hr
  · have hflag : v.recreateSwapchain = false := by simpa using hflag
    have hb := hin hflag
    by_cases h1 : w.result .vkAcquireNextImageKHR = VK_SUBOPTIMAL_KHR ∨
        w.result .vkAcquireNextImageKHR = VK_ERROR_OUT_OF_DATE_KHR
    · -- stale acquire
      have ht := mainLoopBody_stale w bd v d hflag h1
      refine ⟨⟨?_, ?_⟩, ?_⟩
      · rintro ⟨f, hf⟩
        rw [ht] at hf
        cases hf
      · rintro ⟨e, he, r, hr, hfat⟩
        rw [ht] at he
        have := iterationHead_swapchainStatus w v e r he hr
        subst this
        rcases h1 with h1 | h1
        · exact absurd h1 hfat.2.1
        · exact absurd h1 hfat.2.2
      · intro e he r hr _
        exact ⟨by rw [ht], hnext⟩
    · by_cases h2 : w.result .vkAcquireNextImageKHR = VK_SUCCESS
      · -- the frame runs
        have hS : ∀ s, s ≠ Site.vkAcquireNextImageKHR → s ≠ Site.vkQueuePresentKHR →
            w.result s = VK_SUCCESS := hw.2
        have hwait := hS .vkWaitForFences (by decide) (by decide)
        have hreset := hS .vkResetFences (by decide) (by decide)
        have hbegin := hS .vkBeginCommandBuffer (by decide) (by decide)
        have hend := hS .vkEndCommandBuffer (by decide) (by decide)
        have hsub := hS .vkQueueSubmit (by decide) (by decide)
        have ht : mainLoopBody w bd v d =
            (iterationHead w v ++ frameEvents w bd v w.imageIndex, frameOutcome w v d) := by
          rw [mainLoopBody_frame w bd v d hflag h2, frame_apply w bd v _ d hb hwait hreset hbegin]
        have hstat : ∀ e ∈ (mainLoopBody w bd v d).1, ∀ r, e.swapchainStatus = some r →
            r = VK_SUCCESS ∨ r = w.result .vkQueuePresentKHR := by
          intro e he r hr
          rw [ht] at he
          rcases List.mem_append.1 he with he | he
          · exact Or.inl ((iterationHead_swapchainStatus w v e r he hr).trans h2)
          · exact Or.inr (frameEvents_swapchainStatus w bd v _ e r he hr).2.2.1
        have hpres : presentEvent v w.imageIndex (w.result .vkQueuePresentKHR) ∈
            (mainLoopBody w bd v d).1 := by
          rw [ht]
          simp [frameEvents, frameTail, hend, hsub]
        have hnotstale : ¬ isStaleStatus VK_SUCCESS := by unfold isStaleStatus; decide
        have hnotfatal : ¬ isFatalStatus VK_SUCCESS := by
          intro h; exact h.1 rfl
        refine ⟨⟨?_, ?_⟩, ?_⟩
        · rintro ⟨f, hf⟩
          refine ⟨_, hpres, w.result .vkQueuePresentKHR, rfl, ?_⟩
          rw [ht] at hf
          simp only [frameOutcome, hend, hsub, if_true] at hf
          by_cases hp1 : w.result .vkQueuePresentKHR = VK_SUBOPTIMAL_KHR ∨
              w.result .vkQueuePresentKHR = VK_ERROR_OUT_OF_DATE_KHR
          · simp only [hp1, if_true] at hf
            cases hf
          · by_cases hp2 : w.result .vkQueuePresentKHR = VK_SUCCESS
            · rw [if_neg hp1, if_neg (by simpa using hp2)] at hf
              cases hf
            · exact ⟨hp2, fun h => hp1 (Or.inl h), fun h => hp1 (Or.inr h)⟩
        · rintro ⟨e, he, r, hr, hfat⟩
          rcases hstat e he r hr with h | h
          · subst h; exact absurd hfat hnotfatal
          · subst h
            rw [ht]
            simp only [frameOutcome, hend, hsub, if_true]
            rw [if_neg (by rintro (h | h); exact hfat.2.1 h; exact hfat.2.2 h),
              if_pos hfat.1]
            exact ⟨_, rfl⟩
        · intro e he r hr hstale
          rcases hstat e he r hr with h | h
          · subst h; exact absurd hstale hnotstale
          · subst h
            refine ⟨?_, hnext⟩
            rw [ht]
            simp only [frameOutcome, hend, hsub, if_true]
            have hstale2 : w.result .vkQueuePresentKHR = VK_SUBOPTIMAL_KHR ∨
                w.result .vkQueuePresentKHR = VK_ERROR_OUT_OF_DATE_KHR := hstale
            rw [if_pos hstale2]
      · -- the acquire failed
        have ht := mainLoopBody_acquire_failed w bd v d hflag (fun h => h1 (Or.inl h))
          (fun h => h1 (Or.inr h)) h2
        refine ⟨⟨?_, ?_⟩, ?_⟩
        · intro _
          refine ⟨.vkAcquireNextImageKHR v.window.swapchain v.imageAvailable 0
              (w.result .vkAcquireNextImageKHR) w.imageIndex, ?_, w.result .vkAcquireNextImageKHR, rfl, h2,
            fun h => h1 (Or.inl h), fun h => h1 (Or.inr h)⟩
          rw [ht]; simp [iterationHead]
        · intro _
          rw [ht]
          exact ⟨_, rfl⟩
        · intro e he r hr hstale
          rw [ht] at he
          have := iterationHead_swapchainStatus w v e r he hr
          subst this
          exact absurd hstale h1

theorem iteration_fatal_iff_unexpected_swapchain_status_witness :
    ((∃ f, (mainLoopBody World.stalePresent sampleDefaults sampleVars sampleDevice).2 = .fault f) ↔
      ∃ e ∈ (mainLoopBody World.stalePresent sampleDefaults sampleVars sampleDevice).1,
        ∃ r, e.swapchainStatus = some r ∧ isFatalStatus r) ∧
    (∀ e ∈ (mainLoopBody World.stalePresent sampleDefaults sampleVars sampleDevice).1,
      ∀ r, e.swapchainStatus = some r → isStaleStatus r →
      (mainLoopBody World.stalePresent sampleDefaults sampleVars sampleDevice).2 =
        .done { sampleVars with recreateSwapchain := true } sampleDevice ∧
      ∀ w2 d2, ∃ rest, (mainLoopBody w2 sampleDefaults { sampleVars with recreateSwapchain := true } d2).1 =
        [ .glfwPollEvents, .glfwSetKeyCallback, .glfwSetMouseButtonCallback, .glfwSetCursorPosCallback,
          .vkDeviceWaitIdle, .recreate_swapchain ] ++ rest) :=
  iteration_fatal_iff_unexpected_swapchain_status World.stalePresent sampleDefaults sampleVars sampleDevice
    ⟨allOk_creationSucceeds, by intro s h1 h2; cases s <;> simp_all [World.stalePresent]⟩
    (fun _ => sampleVars_frameInBounds)

open Exec in
theorem ends_bind_sat {α β : Type} {P : Event → Prop} {T : List Event → Prop} {R : α → Prop}
    {x : Exec α} {f : α → Exec β} (hx : Sat P R x) (hf : ∀ a, R a → Ends P T (f a)) (hT : T []) :
    Ends P T (Exec.bind x f) := by
  intro d
  rcases bind_cases x f d with ⟨t, e, h1, h2⟩ | ⟨t, a, d1, h1, h2⟩
  · refine ⟨t, [], by rw [h2]; simp, ?_, hT⟩
    have := (hx d).1
    rw [h1] at this
    exact this
  · have hs := hx d
    rw [h1] at hs
    obtain ⟨t1, t2, h3, h4, h5⟩ := hf a (hs.2 a d1 rfl) d1
    refine ⟨t ++ t1, t2, by rw [h2, h3]; simp, ?_, h5⟩
    intro e he
    rcases List.mem_append.1 he with he | he
    · exact hs.1 e he
    · exact h4 e he

open Exec in
theorem ends_of_sat {α : Type} {P : Event → Prop} {T : List Event → Prop} {R : α → Prop}
    {x : Exec α} (hx : Sat P R x) (hT : T []) : Ends P T x :=
  fun d => ⟨(x d).1, [], by simp, (hx d).1, hT⟩

open Exec in
theorem ends_tail {α : Type} {P : Event → Prop} {T : List Event → Prop} {x : Exec α}
    (h : ∀ d, T (x d).1) : Ends P T x :=
  fun d => ⟨[], (x d).1, by simp, by simp, h d⟩

theorem isRecordingOn_notSubmit (cb : Handle) (e : Event) (he : e.isRecordingOn cb = true) :
    e.isSubmit = false ∧ e.isPresent = false := by
  cases e <;> simp [Event.isRecordingOn] at he <;> exact ⟨rfl, rfl⟩

theorem isSetup_notSubmit (e : Event) (he : e.isSetup = true) :
    e.isSubmit = false ∧ e.isPresent = false := by
  cases e <;> simp [Event.isSetup] at he <;> exact ⟨rfl, rfl⟩

/-- The trace of `submit_commands` followed by the present of `main`. -/
theorem submit_present_tail (w : World) (v : MainVars) (i : Nat) (cb f : Handle)
    (hcb : v.cbuffers.get? i = some cb) (hf : v.cbfences.get? i = some f) (d : Device) :
    SubmitThenPresent v i
      (Exec.bind (submit_commands w v.window cb f v.imageAvailable v.renderFinished) (fun _ =>
        Exec.bind (Exec.emit (presentEvent v i (w.result .vkQueuePresentKHR))) (fun _ =>
          if w.result .vkQueuePresentKHR = VK_SUBOPTIMAL_KHR ∨
              w.result .vkQueuePresentKHR = VK_ERROR_OUT_OF_DATE_KHR then
            Exec.pure { v with recreateSwapchain := true }
          else if w.result .vkQueuePresentKHR ≠ VK_SUCCESS then
            Exec.raise (.error "Unable present swapchain image" (w.result .vkQueuePresentKHR))
          else
            Exec.pure v)) d).1 := by
  refine Or.inr ⟨cb, f, hcb, hf, ?_⟩
  by_cases hs : w.result .vkQueueSubmit = VK_SUCCESS
  · refine Or.inr ⟨w.result .vkQueuePresentKHR, ?_⟩
    unfold submit_commands
    rw [hs, Exec.bind_done (call_apply_success _ _ _), Exec.bind_done (Exec.emit_apply _ _)]
    by_cases hp1 : w.result .vkQueuePresentKHR = VK_SUBOPTIMAL_KHR ∨
        w.result .vkQueuePresentKHR = VK_ERROR_OUT_OF_DATE_KHR
    · simp [hp1, submitEvent]
    · by_cases hp2 : w.result .vkQueuePresentKHR = VK_SUCCESS
      · have n1 : ¬ (VK_SUCCESS = VK_SUBOPTIMAL_KHR ∨ VK_SUCCESS = VK_ERROR_OUT_OF_DATE_KHR) := by decide
        simp [hp2, n1, submitEvent]
      · simp [hp1, hp2, submitEvent]
  · refine Or.inl ⟨w.result .vkQueueSubmit, hs, ?_⟩
    unfold submit_commands
    rw [Exec.bind_fault (call_apply_failure hs _ _ _)]
    rfl

open Exec in
/-- Whatever its outcome, a frame makes no submission and no present before its
last events, which are nothing, or a failed submission, or a successful
submission followed by the present. -/
theorem frame_ends (w : World) (bd : BufferBarrierDefaults) (v : MainVars) (i : Nat) :
    Ends (fun e => e.isSubmit = false ∧ e.isPresent = false) (SubmitThenPresent v i) (frame w bd v i) := by
  have hT : SubmitThenPresent v i [] := Or.inl rfl
  unfold frame
  simp only [bind_eq, pure_eq]
  refine ends_bind_sat (R := fun _ => True) sat_assert_true (fun _ _ => ?_) hT
  refine ends_bind_sat (R := fun _ => True) sat_index_true (fun f _ => ?_) hT
  refine ends_bind_sat (R := fun _ => True) (sat_call_true ⟨rfl, rfl⟩) (fun _ _ => ?_) hT
  refine ends_bind_sat (R := fun _ => True) sat_index_true (fun f2 _ => ?_) hT
  refine ends_bind_sat (R := fun _ => True) (sat_call_true ⟨rfl, rfl⟩) (fun _ _ => ?_) hT
  refine ends_bind_sat (R := fun _ => True) sat_assert_true (fun _ _ => ?_) hT
  refine ends_bind_sat (R := fun _ => True) sat_assert_true (fun _ _ => ?_) hT
  refine ends_bind_sat (R := fun _ => True) (updateUniformsFrom_silent _ _ _ _ _ _) (fun p _ => ?_) hT
  refine ends_bind_sat (R := fun _ => True) sat_index_true (fun cb _ => ?_) hT
  refine ends_bind_sat (R := fun _ => True) sat_index_true (fun fb _ => ?_) hT
  refine ends_bind_sat (R := fun _ => True)
    (sat_weaken (record_commands_recording _ _ _) (isRecordingOn_notSubmit _) (fun _ _ => trivial))
    (fun _ _ => ?_) hT
  refine ends_bind_sat sat_index (fun cb2 hcb2 => ?_) hT
  refine ends_bind_sat sat_index (fun f3 hf3 => ?_) hT
  exact ends_tail (submit_present_tail w v i cb2 f3 hcb2 hf3)

open Exec in
theorem mainLoopBody_ends (w : World) (bd : BufferBarrierDefaults) (v : MainVars) :
    Ends (fun e => e.isSubmit = false ∧ e.isPresent = false) (SubmitThenPresent v w.imageIndex)
      (mainLoopBody w bd v) := by
  have hT : SubmitThenPresent v w.imageIndex [] := Or.inl rfl
  unfold mainLoopBody
  simp only [bind_eq, pure_eq]
  refine ends_bind_sat (R := fun _ => True) (sat_emit ⟨rfl, rfl⟩) (fun _ _ => ?_) hT
  refine ends_bind_sat (R := fun _ => True) (sat_emit ⟨rfl, rfl⟩) (fun _ _ => ?_) hT
  refine ends_bind_sat (R := fun _ => True) (sat_emit ⟨rfl, rfl⟩) (fun _ _ => ?_) hT
  refine ends_bind_sat (R := fun _ => True) (sat_emit ⟨rfl, rfl⟩) (fun _ _ => ?_) hT
  split
  · exact ends_of_sat (sat_weaken (rebuild_setup w v) isSetup_notSubmit (fun _ h => h)) hT
  · refine ends_bind_sat (R := fun _ => True) (sat_emit ⟨rfl, rfl⟩) (fun _ _ => ?_) hT
    split
    · exact ends_of_sat (sat_pure (Q := fun _ => True) trivial) hT
    · split
      · exact ends_of_sat (sat_raise (Q := fun _ => True)) hT
      · exact frame_ends w bd v _

/-- C9: `submit_commands` makes exactly one `vkQueueSubmit`, on the graphics
queue, with the one command buffer, the one wait semaphore at the
colour-attachment-output stage, the one signal semaphore and the fence it was
passed.  In every loop iteration no submission and no present is made before
the last events, which are nothing, or a failed submission, or a successful
submission followed by a present: the submission is of `cbuffers[imageIndex]`,
waits on `imageAvailable`, which the acquire of the iteration was given to
signal, signals `renderFinished` and is fenced by `cbfences[imageIndex]`, and
the present waits on `renderFinished`. -/
theorem submission_shape (w : World) (bd : BufferBarrierDefaults) (v : MainVars) (d : Device) :
    (∀ (aContext : VulkanWindow) (aCmdBuff aFence aWaitSemaphore aSignalSemaphore : Handle) (d1 : Device),
      (submit_commands w aContext aCmdBuff aFence aWaitSemaphore aSignalSemaphore d1).1 =
        [ .vkQueueSubmit aContext.graphicsQueue
            { commandBuffers := [aCmdBuff]
              waitSemaphores := [aWaitSemaphore]
              waitDstStageMask := [VK_PIPELINE_STAGE_COLOR_ATTACHMENT_OUTPUT_BIT]
              signalSemaphores := [aSignalSemaphore] }
            aFence (w.result .vkQueueSubmit) ]) ∧
    ∃ t1 t2, (mainLoopBody w bd v d).1 = t1 ++ t2 ∧
      (∀ e ∈ t1, e.isSubmit = false ∧ e.isPresent = false) ∧
      (∀ e ∈ t1, ∀ swapchain semaphore fence res imageIndex,
        e = .vkAcquireNextImageKHR swapchain semaphore fence res imageIndex →
          semaphore = v.imageAvailable ∧ imageIndex = w.imageIndex) ∧
      (t2 = [] ∨ ∃ cb f, v.cbuffers.get? w.imageIndex = some cb ∧ v.cbfences.get? w.imageIndex = some f ∧
        ((∃ r, r ≠ VK_SUCCESS ∧ t2 =
            [ .vkQueueSubmit v.window.graphicsQueue
                { commandBuffers := [cb]
                  waitSemaphores := [v.imageAvailable]
                  waitDstStageMask := [VK_PIPELINE_STAGE_COLOR_ATTACHMENT_OUTPUT_BIT]
                  signalSemaphores := [v.renderFinished] }
                f r ]) ∨
          ∃ r, t2 =
            [ .vkQueueSubmit v.window.graphicsQueue
                { commandBuffers := [cb]
                  waitSemaphores := [v.imageAvailable]
                  waitDstStageMask := [VK_PIPELINE_STAGE_COLOR_ATTACHMENT_OUTPUT_BIT]
                  signalSemaphores := [v.renderFinished] }
                f VK_SUCCESS,
              .vkQueuePresentKHR v.window.presentQueue
                { waitSemaphores := [v.renderFinished]
                  swapchains := [v.window.swapchain]
                  imageIndices := [w.imageIndex] }
                r ])) := by
  refine ⟨?_, ?_⟩
  · intro aContext aCmdBuff aFence aWaitSemaphore aSignalSemaphore d1
    unfold submit_commands
    by_cases hs : w.result .vkQueueSubmit = VK_SUCCESS
    · simp [Exec.call, hs]
    · simp [Exec.call, hs]
  · obtain ⟨t1, t2, h1, h2, h3⟩ := mainLoopBody_ends w bd v d
    refine ⟨t1, t2, h1, h2, ?_, h3⟩
    intro e he swapchain semaphore fence res imageIndex heq
    have hok := (mainLoopBody_events w bd v d).1 e (by rw [h1]; exact List.mem_append_left _ he)
    subst heq
    exact ⟨hok.2.1, hok.2.2⟩

namespace Exec

theorem sat_silent_index {α : Type} {xs : List α} {i : Nat} {what : String} :
    Sat (fun _ => False) (fun a => xs.get? i = some a) (Exec.index xs i what) := sat_index

end Exec

namespace Exec

end Exec

/-- The reader is not trivial: it stops at a submission whose fence was not
waited on and reset in the iteration, at one whose fence was reset before
being waited on, at one whose command buffer was recorded into before the
fence was reset, and at a second submission with a fence whose first
submission was not waited for in between; it reads through two iterations
that each wait, reset and submit. -/
theorem orderStep_rejects :
    runMonitor orderStep ⟨[], [], [], []⟩
      [ .glfwPollEvents, submitEvent sampleVars 35 36 VK_SUCCESS ] = none ∧
    runMonitor orderStep ⟨[], [], [], []⟩
      [ .glfwPollEvents, .vkResetFences [36] VK_SUCCESS, .vkWaitForFences [36] VK_SUCCESS,
        submitEvent sampleVars 35 36 VK_SUCCESS ] = none ∧
    runMonitor orderStep ⟨[], [], [], []⟩
      [ .glfwPollEvents, .vkWaitForFences [36] VK_SUCCESS, .record 35 .vkCmdEndRenderPass,
        .vkResetFences [36] VK_SUCCESS, submitEvent sampleVars 35 36 VK_SUCCESS ] = none ∧
    runMonitor orderStep ⟨[], [], [], []⟩
      [ .glfwPollEvents, .vkWaitForFences [36] VK_SUCCESS, .vkResetFences [36] VK_SUCCESS,
        submitEvent sampleVars 35 36 VK_SUCCESS, submitEvent sampleVars 37 36 VK_SUCCESS ] = none ∧
    runMonitor orderStep ⟨[], [], [], []⟩
      [ .glfwPollEvents, .vkWaitForFences [36] VK_SUCCESS, .vkResetFences [36] VK_SUCCESS,
        submitEvent sampleVars 35 36 VK_SUCCESS,
        .glfwPollEvents, .vkWaitForFences [36] VK_SUCCESS, .vkResetFences [36] VK_SUCCESS,
        submitEvent sampleVars 35 36 VK_SUCCESS ] = some ⟨[36], [36], [], [36]⟩ := by
  refine ⟨by decide, by decide, by decide, by decide, by decide⟩

/-- C17: `create_render_pass_texture` makes one `vkCreateRenderPass` call whose
info declares exactly two subpass dependencies, external to subpass 0 from
fragment-shader stage and shader-read access to colour-attachment-output stage
and colour-attachment-write access, and subpass 0 to external with the two
sides exchanged, both by-region, and whose colour attachment ends in
shader-read-only layout; `create_render_pass` makes one call whose info
declares one subpass and no dependency, whose colour attachment ends in
present-source layout and whose depth attachment ends in
depth-stencil-attachment-optimal layout. -/
theorem render_pass_dependencies_and_final_layouts (w : World) (aWindow : VulkanWindow) (d : Device) :
    (∃ res h, (create_render_pass_texture w aWindow d).1 =
      [.create (.renderPass (offlinePassInfo aWindow)) res h]) ∧
    (offlinePassInfo aWindow).dependencies =
      [ { srcSubpass := VK_SUBPASS_EXTERNAL
          dstSubpass := 0
          srcStageMask := VK_PIPELINE_STAGE_FRAGMENT_SHADER_BIT
          dstStageMask := VK_PIPELINE_STAGE_COLOR_ATTACHMENT_OUTPUT_BIT
          srcAccessMask := VK_ACCESS_SHADER_READ_BIT
          dstAccessMask := VK_ACCESS_COLOR_ATTACHMENT_WRITE_BIT
          dependencyFlags := VK_DEPENDENCY_BY_REGION_BIT },
        { srcSubpass := 0
          dstSubpass := VK_SUBPASS_EXTERNAL
          srcStageMask := VK_PIPELINE_STAGE_COLOR_ATTACHMENT_OUTPUT_BIT
          dstStageMask := VK_PIPELINE_STAGE_FRAGMENT_SHADER_BIT
          srcAccessMask := VK_ACCESS_COLOR_ATTACHMENT_WRITE_BIT
          dstAccessMask := VK_ACCESS_SHADER_READ_BIT
          dependencyFlags := VK_DEPENDENCY_BY_REGION_BIT } ] ∧
    (offlinePassInfo aWindow).subpasses.map (fun s => s.colorAttachments.map (fun r => r.attachment)) = [[0]] ∧
    ((offlinePassInfo aWindow).attachments.get? 0).map (fun a => a.finalLayout) =
      some .VK_IMAGE_LAYOUT_SHADER_READ_ONLY_OPTIMAL ∧
    (∃ res h, (create_render_pass w aWindow d).1 =
      [.create (.renderPass (presentPassInfo aWindow)) res h]) ∧
    (presentPassInfo aWindow).subpasses.length = 1 ∧
    (presentPassInfo aWindow).dependencies = [] ∧
    (presentPassInfo aWindow).subpasses.map
      (fun s => (s.colorAttachments.map (fun r => r.attachment),
        s.depthStencilAttachment.map (fun r => r.attachment))) = [([0], some 1)] ∧
    ((presentPassInfo aWindow).attachments.get? 0).map (fun a => a.finalLayout) =
      some .VK_IMAGE_LAYOUT_PRESENT_SRC_KHR ∧
    ((presentPassInfo aWindow).attachments.get? 1).map (fun a => a.finalLayout) =
      some .VK_IMAGE_LAYOUT_DEPTH_STENCIL_ATTACHMENT_OPTIMAL := by
  refine ⟨?_, rfl, rfl, rfl, ?_, rfl, rfl, rfl, rfl, rfl⟩
  · unfold create_render_pass_texture Exec.create
    split
    · exact ⟨_, _, rfl⟩
    · exact ⟨_, _, rfl⟩
  · unfold create_render_pass Exec.create
    split
    · exact ⟨_, _, rfl⟩
    · exact ⟨_, _, rfl⟩

theorem index_apply_outOfRange {α : Type} {xs : List α} {i : Nat} (what : String) (d : Device)
    (h : ¬ i < xs.length) : Exec.index xs i what d = ([], .fault (.outOfRange what)) := by
  unfold Exec.index
  have : xs.get? i = none := by simp; omega
  rw [this]
  rfl

theorem materialUniformsFrom_below (n : Int) :
    ∀ k i acc j, j < i → (materialUniformsFrom n i k acc).2[j]? = acc.2[j]? := by
  intro k
  induction k with
  | zero => intro i acc j _; rfl
  | succ k ih =>
    rintro i ⟨mu, pbr⟩ j hj
    have := ih (i + 1) (mu.set i (update_material_uniforms i), pbr.set i (update_material_PBR_uniforms i n))
      j (by omega)
    simp only [materialUniformsFrom, this]
    rw [List.getElem?_set_ne (by omega)]

theorem materialUniformsFrom_written (n : Int) :
    ∀ k i acc j, i ≤ j → j < i + k → j < acc.2.length →
      (materialUniformsFrom n i k acc).2[j]? = some (update_material_PBR_uniforms j n) := by
  intro k
  induction k with
  | zero => intro i acc j h1 h2 _; omega
  | succ k ih =>
    rintro i ⟨mu, pbr⟩ j h1 h2 h3
    change j < pbr.length at h3
    by_cases hij : j = i
    · subst hij
      simp only [materialUniformsFrom]
      rw [materialUniformsFrom_below n k (j + 1) _ j (by omega)]
      simp [h3]
    · have := ih (i + 1) (mu.set i (update_material_uniforms i), pbr.set i (update_material_PBR_uniforms i n))
        j (by omega) (by omega) (by simpa using h3)
      simpa only [materialUniformsFrom] using this

theorem updateUniformsFrom_result (ms : List MaterialInfo) (n : Int) (d : Device) :
    ∀ k i acc res d1, (updateUniformsFrom ms n i k acc d).2 = .done res d1 →
      res = materialUniformsFrom n i k acc ∧ (0 < k → i + k ≤ acc.2.length) := by
  intro k
  induction k with
  | zero =>
    intro i acc res d1 h
    simp only [updateUniformsFrom, Exec.pure_apply, Outcome.done.injEq] at h
    exact ⟨h.1.symm, fun h0 => absurd h0 (by omega)⟩
  | succ k ih =>
    rintro i ⟨mu, pbr⟩ res d1 h
    unfold updateUniformsFrom at h
    by_cases h1 : i < mu.length
    · rw [Exec.bind_done (Exec.index_apply { material := none } _ d h1)] at h
      by_cases h2 : i < ms.length
      · rw [Exec.bind_done (Exec.index_apply { materialName := "" } _ d h2)] at h
        by_cases h3 : i < pbr.length
        · rw [Exec.bind_done (Exec.index_apply { material := none, size := 3 } _ d h3)] at h
          obtain ⟨e1, e2⟩ := ih (i + 1) _ res d1 h
          refine ⟨by simpa only [materialUniformsFrom] using e1, fun _ => ?_⟩
          by_cases hk : 0 < k
          · have := e2 hk
            simp only [List.length_set] at this
            show i + (k + 1) ≤ pbr.length
            omega
          · show i + (k + 1) ≤ pbr.length
            omega
        · rw [Exec.bind_fault (index_apply_outOfRange _ d h3)] at h
          cases h
      · rw [Exec.bind_fault (index_apply_outOfRange _ d h2)] at h
        cases h
    · rw [Exec.bind_fault (index_apply_outOfRange _ d h1)] at h
      cases h

/-- C18: for every light count `n`, `update_scene_uniforms` sets the `size`
field of the scene uniform to `n` and `update_material_PBR_uniforms` sets the
`size` field of a PBR material uniform to `n`; after the loop of `main` over
the material uniforms has run, every PBR material uniform with an index below
the loop bound has `size` equal to `n`; the three light positions and colours
written are the same for every `n` and every camera state; for the counts 1, 2,
3 the `size` field of the scene uniform is 1, 2, 3. -/
theorem light_count_reaches_uniforms (position rotation : Vec3) (width height : Nat) (n : Int) :
    (update_scene_uniforms position rotation width height n).size = n ∧
    (∀ i, (update_material_PBR_uniforms i n).size = n) ∧
    (∀ (ms : List MaterialInfo) (k : Nat) (acc res : List MaterialUniform × List MaterialPBRUniform)
        (d d1 : Device),
      (updateUniformsFrom ms n 0 k acc d).2 = .done res d1 →
        ∀ j, j < k → (res.2[j]?).map (fun u => u.size) = some n) ∧
    (update_scene_uniforms position rotation width height n).lightPos =
      [ { x := f32_0, y := f32_9_3, z := f32_neg3, w := f32_1 },
        { x := f32_0, y := f32_9_3, z := f32_neg3, w := f32_1 },
        { x := f32_0, y := f32_9_3, z := f32_neg3, w := f32_1 } ] ∧
    (update_scene_uniforms position rotation width height n).lightColor =
      [ { x := f32_1, y := f32_1, z := f32_0_8, w := f32_1 },
        { x := f32_0, y := f32_1, z := f32_0, w := f32_1 },
        { x := f32_0, y := f32_0, z := f32_1, w := f32_1 } ] ∧
    [1, 2, 3].map (fun m => (update_scene_uniforms position rotation width height m).size) = [1, 2, 3] := by
  refine ⟨rfl, fun _ => rfl, ?_, rfl, rfl, rfl⟩
  intro ms k acc res d d1 h j hj
  obtain ⟨e1, e2⟩ := updateUniformsFrom_result ms n d k 0 acc res d1 h
  have hlen := e2 (by omega)
  rw [e1, materialUniformsFrom_written n k 0 acc j (by omega) (by omega) (by omega)]
  rfl

/-- C19 as stated fails: with the camera at its initial position `(0, 0, -5)`
the `cameraPos` field written is not that position, whatever its fourth component. -/
theorem cameraPos_is_not_the_camera_position :
    ¬ ∃ w4, (update_scene_uniforms initialPosition initialRotation 800 600 1).cameraPos =
      Vec4.ofVec3 initialPosition w4 := by
  rintro ⟨w4, h⟩
  have hz : f32_0 = f32_neg5 := congrArg Vec4.z h
  exact absurd hz (by decide)

/-- C19, amended: for every camera state, `update_scene_uniforms` writes the
zero vector into the `cameraPos` field of the scene uniform. -/
theorem cameraPos_is_zero (position rotation : Vec3) (width height : Nat) (n : Int) :
    (update_scene_uniforms position rotation width height n).cameraPos =
      { x := f32_0, y := f32_0, z := f32_0, w := f32_0 } := rfl

/-- C20: with 4-byte `float` and `int`, 16-byte `vec4` and 64-byte `mat4` and no
padding, `SceneUniform` has 372 bytes, `MaterialUniform` 52 and
`MaterialPBRUniform` 44; each passes the static size check, which accepts a
size exactly when it is at most 65536 and a multiple of 4, so it accepts 65536
and rejects every larger size. -/
theorem uniform_sizes_pass_static_check :
    sizeof_SceneUniform = 372 ∧ sizeof_MaterialUniform = 52 ∧ sizeof_MaterialPBRUniform = 44 ∧
    staticSizeCheck sizeof_SceneUniform = true ∧ staticSizeCheck sizeof_MaterialUniform = true ∧
    staticSizeCheck sizeof_MaterialPBRUniform = true ∧
    (∀ s, staticSizeCheck s = true ↔ s ≤ 65536 ∧ s % 4 = 0) ∧
    staticSizeCheck 65536 = true ∧
    ∀ s, 65536 < s → staticSizeCheck s = false := by
  refine ⟨rfl, rfl, rfl, by decide, by decide, by decide, ?_, by decide, ?_⟩
  · intro s
    simp [staticSizeCheck]
  · intro s hs
    simp [staticSizeCheck]
    omega

theorem outcome_bind_done {α β : Type} {x : Exec α} {f : α → Exec β} {d d1 : Device} {a : α}
    (h : (x d).2 = .done a d1) : (Exec.bind x f d).2 = (f a d1).2 := by
  have : x d = ((x d).1, .done a d1) := by rw [← h]
  rw [Exec.bind_done this]

theorem trace_bind_done {α β : Type} {x : Exec α} {f : α → Exec β} {d d1 : Device} {a : α}
    (h : (x d).2 = .done a d1) : (Exec.bind x f d).1 = (x d).1 ++ (f a d1).1 := by
  have : x d = ((x d).1, .done a d1) := by rw [← h]
  rw [Exec.bind_done this]

theorem create_outcome (w : World) (o : Object) (what : String) (d : Device)
    (h : w.createResult d.nextHandle = VK_SUCCESS) :
    (Exec.create w o what d).2 = .done d.nextHandle (d.alloc o) := by
  simp [Exec.create, h, Device.alloc]

theorem destroy_outcome (h : Handle) (d : Device) : (Exec.destroy h d).2 = .done () (d.free h) := by
  by_cases hz : h = 0 <;> simp [Exec.destroy, Device.free, hz]

theorem assign_outcome (old new : Handle) (d : Device) :
    (assign old new d).2 = .done new (d.free old) := by
  unfold assign
  rw [outcome_bind_done (destroy_outcome old d)]
  rfl

theorem destroyAll_outcome : ∀ (hs : List Handle) (d : Device),
    (Exec.destroyAll hs d).2 = .done () (d.frees hs) := by
  intro hs
  induction hs with
  | nil => intro d; rfl
  | cons h hs ih =>
    intro d
    unfold Exec.destroyAll
    rw [outcome_bind_done (destroy_outcome h d), ih]
    rfl

theorem vkUpdateDescriptorSets_outcome (ws : List VkWriteDescriptorSet) (d : Device) :
    (Exec.vkUpdateDescriptorSets ws d).2 = .done () (d.write ws) := rfl

theorem index_outcome {α : Type} {xs : List α} {i : Nat} (dflt : α) (what : String) (d : Device)
    (h : i < xs.length) : (Exec.index xs i what d).2 = .done (xs.getD i dflt) d := by
  rw [Exec.index_apply dflt what d h]

theorem assert_outcome (c : Bool) (what : String) (d : Device) (h : c = true) :
    (Exec.assert c what d).2 = .done () d := by
  simp [Exec.assert, h]

/-- A loop that creates one object per iteration, on the success path: the
handles are consecutive and the objects are remembered in order. -/
theorem collectFrom_create_outcome (w : World) (hc : ∀ h, w.createResult h = VK_SUCCESS)
    (body : Nat → Exec Handle) (objs : Nat → Object) :
    ∀ (k i : Nat) (d : Device),
      (∀ j d0, i ≤ j → j < i + k → (body j d0).2 = .done d0.nextHandle (d0.alloc (objs j))) →
      (Exec.collectFrom body i k d).2 =
        .done (List.range' d.nextHandle k) (d.allocs ((List.range' i k).map objs)) := by
  intro k
  induction k with
  | zero => intro i d _; rfl
  | succ k ih =>
    intro i d hb
    unfold Exec.collectFrom
    rw [outcome_bind_done (hb i d (Nat.le_refl i) (by omega)),
      outcome_bind_done (ih (i + 1) _ (fun j d0 h1 h2 => hb j d0 (by omega) (by omega)))]
    simp [Device.allocs, Device.alloc, List.range'_succ]

theorem outcome_bind_emit {β : Type} (e : Event) (f : Unit → Exec β) (d : Device) :
    (Exec.bind (Exec.emit e) f d).2 = (f () d).2 := rfl

@[simp] theorem nextHandle_alloc (d : Device) (o : Object) : (d.alloc o).nextHandle = d.nextHandle + 1 := rfl

@[simp] theorem nextHandle_free (d : Device) (h : Handle) : (d.free h).nextHandle = d.nextHandle := by
  unfold Device.free
  split <;> rfl

@[simp] theorem nextHandle_write (d : Device) (ws : List VkWriteDescriptorSet) :
    (d.write ws).nextHandle = d.nextHandle := rfl

@[simp] theorem nextHandle_frees : ∀ (hs : List Handle) (d : Device), (d.frees hs).nextHandle = d.nextHandle := by
  intro hs
  induction hs with
  | nil => intro d; rfl
  | cons h hs ih =>
    intro d
    show ((d.free h).frees hs).nextHandle = d.nextHandle
    rw [ih, nextHandle_free]

@[simp] theorem nextHandle_allocs : ∀ (os : List Object) (d : Device),
    (d.allocs os).nextHandle = d.nextHandle + os.length := by
  intro os
  induction os with
  | nil => intro d; rfl
  | cons o os ih =>
    intro d
    show ((d.alloc o).allocs os).nextHandle = d.nextHandle + (o :: os).length
    rw [ih, nextHandle_alloc, List.length_cons, Nat.add_assoc, Nat.add_comm 1]

theorem recreate_swapchain_outcome (w : World) (hc : ∀ h, w.createResult h = VK_SUCCESS)
    (aWindow : VulkanWindow) (d : Device) :
    (recreate_swapchain w aWindow d).2 =
      .done (afterRecreateSwapchain w aWindow d).1 (afterRecreateSwapchain w aWindow d).2 := by
  unfold recreate_swapchain createSwapViews Exec.collect
  simp only [Exec.bind_eq, Exec.pure_eq]
  rw [outcome_bind_emit,
    outcome_bind_done (create_outcome w _ _ d (hc _)),
    outcome_bind_done (collectFrom_create_outcome w hc _ (fun i => .swapView d.nextHandle i) _ 0 _
      (fun j d0 _ _ => create_outcome w _ _ d0 (hc _))),
    outcome_bind_done (destroyAll_outcome _ _),
    outcome_bind_done (destroy_outcome _ _)]
  simp [afterRecreateSwapchain]

theorem rebuildRenderPass_outcome (w : World) (hc : ∀ h, w.createResult h = VK_SUCCESS)
    (changes : SwapChanges) (v : MainVars) (d : Device) :
    (rebuildRenderPass w changes v d).2 =
      .done (afterRebuildRenderPass changes v d).1 (afterRebuildRenderPass changes v d).2 := by
  unfold rebuildRenderPass afterRebuildRenderPass create_render_pass
  split
  · simp only [Exec.bind_eq, Exec.pure_eq]
    rw [outcome_bind_done (create_outcome w _ _ d (hc _)), outcome_bind_done (assign_outcome _ _ _)]
    rfl
  · rfl

theorem create_depth_buffer_outcome (w : World) (hc : ∀ h, w.createResult h = VK_SUCCESS)
    (aWindow : VulkanWindow) (d : Device) :
    (create_depth_buffer w aWindow d).2 = .done (d.nextHandle, d.nextHandle + 1)
      ((d.alloc (.image (depthImageInfo aWindow))).alloc
        (.imageView { image := d.nextHandle, format := kDepthFormat, aspectMask := VK_IMAGE_ASPECT_DEPTH_BIT })) := by
  unfold create_depth_buffer
  simp only [Exec.bind_eq, Exec.pure_eq]
  rw [outcome_bind_done (create_outcome w _ _ d (hc _)), outcome_bind_done (create_outcome w _ _ _ (hc _))]
  rfl

theorem create_offine_image_view_outcome (w : World) (hc : ∀ h, w.createResult h = VK_SUCCESS)
    (aWindow : VulkanWindow) (d : Device) :
    (create_offine_image_view w aWindow d).2 = .done (d.nextHandle, d.nextHandle + 1)
      ((d.alloc (.image (offscreenImageInfo aWindow))).alloc
        (.imageView { image := d.nextHandle, format := aWindow.swapchainFormat,
                      aspectMask := VK_IMAGE_ASPECT_COLOR_BIT })) := by
  unfold create_offine_image_view
  simp only [Exec.bind_eq, Exec.pure_eq]
  rw [outcome_bind_done (create_outcome w _ _ d (hc _)), outcome_bind_done (create_outcome w _ _ _ (hc _))]
  rfl

theorem rebuildTargets_outcome (w : World) (hc : ∀ h, w.createResult h = VK_SUCCESS)
    (changes : SwapChanges) (v : MainVars) (d : Device) :
    (rebuildTargets w changes v d).2 =
      .done (afterRebuildTargets changes v d).1 (afterRebuildTargets changes v d).2 := by
  unfold rebuildTargets afterRebuildTargets
  split
  · simp only [Exec.bind_eq, Exec.pure_eq]
    rw [outcome_bind_done (create_depth_buffer_outcome w hc _ _)]
    simp only []
    rw [outcome_bind_done (assign_outcome _ _ _), outcome_bind_done (assign_outcome _ _ _),
      outcome_bind_done (create_offine_image_view_outcome w hc _ _)]
    simp only []
    rw [outcome_bind_done (assign_outcome _ _ _), outcome_bind_done (assign_outcome _ _ _),
      outcome_bind_done (create_offine_image_view_outcome w hc _ _)]
    simp only []
    rw [outcome_bind_done (assign_outcome _ _ _), outcome_bind_done (assign_outcome _ _ _),
      outcome_bind_done (create_offine_image_view_outcome w hc _ _)]
    simp only []
    rw [outcome_bind_done (assign_outcome _ _ _), outcome_bind_done (assign_outcome _ _ _),
      outcome_bind_done (create_offine_image_view_outcome w hc _ _)]
    simp only []
    rw [outcome_bind_done (assign_outcome _ _ _), outcome_bind_done (assign_outcome _ _ _)]
    simp [afterImagePair, depthImageInfo, offscreenImageInfo, Nat.add_assoc]
  · rfl

theorem readWords_outcome (p : String) (f : ShaderFile) (words : Nat) (hf : f.Readable) (d : Device) :
    ∀ fuel offset, offset ≤ words → (readWords p f words fuel offset d).2 = .done () d := by
  intro fuel
  induction fuel with
  | zero => intro offset _; rfl
  | succ fuel ih =>
    intro offset ho
    unfold readWords
    split
    · rfl
    · rename_i hne
      have hpos : 0 < words - offset := by omega
      have hr := hf.2 offset (words - offset) hpos
      simp only []
      rw [outcome_bind_emit, if_neg (by omega)]
      exact ih _ (by omega)

theorem load_shader_module_outcome (w : World) (hw : w.CreationSucceeds) (p : String) (d : Device) :
    (load_shader_module w p d).2 =
      .done d.nextHandle (d.alloc (.shaderModule p (shaderBytes w p))) := by
  obtain ⟨f, hf, hr⟩ := hw.2 p
  unfold load_shader_module shaderBytes
  rw [hf]
  simp only [Exec.bind_eq]
  rw [outcome_bind_emit,
    outcome_bind_done (assert_outcome _ _ _ (by simp [hr.1])),
    outcome_bind_done (readWords_outcome _ _ _ hr _ _ _ (Nat.zero_le _)),
    outcome_bind_emit]
  exact create_outcome w _ _ d (hw.1 _)

theorem createGraphicsPipeline_outcome (w : World) (hw : w.CreationSucceeds) (win : VulkanWindow)
    (vp fp : String) (b a : Nat) (c : VkFlags) (rp pl : Handle) (d : Device) :
    (createGraphicsPipeline w win vp fp b a c rp pl d).2 =
      .done (d.nextHandle + 2)
        (((((d.alloc (.shaderModule vp (shaderBytes w vp))).alloc
          (.shaderModule fp (shaderBytes w fp))).alloc
          (.pipeline (pipelineInfo win d.nextHandle (d.nextHandle + 1) b a c rp pl))).free
            (d.nextHandle + 1)).free d.nextHandle) := by
  unfold createGraphicsPipeline
  simp only [Exec.bind_eq, Exec.pure_eq]
  rw [outcome_bind_done (load_shader_module_outcome w hw _ _),
    outcome_bind_done (load_shader_module_outcome w hw _ _),
    outcome_bind_done (create_outcome w _ _ _ (hw.1 _)),
    outcome_bind_done (destroy_outcome _ _),
    outcome_bind_done (destroy_outcome _ _)]
  rfl

theorem rebuildPipelines_outcome (w : World) (hw : w.CreationSucceeds)
    (changes : SwapChanges) (v : MainVars) (d : Device) :
    (rebuildPipelines w changes v d).2 =
      .done (afterRebuildPipelines w changes v d).1 (afterRebuildPipelines w changes v d).2 := by
  unfold rebuildPipelines afterRebuildPipelines create_pipeline create_pipeline_filter_bright
    create_postprocess_pipeline create_pipeline_horizontal create_pipeline_vertical
  split
  · simp only [Exec.bind_eq, Exec.pure_eq]
    rw [outcome_bind_done (createGraphicsPipeline_outcome w hw _ _ _ _ _ _ _ _ _),
      outcome_bind_done (assign_outcome _ _ _),
      outcome_bind_done (createGraphicsPipeline_outcome w hw _ _ _ _ _ _ _ _ _),
      outcome_bind_done (assign_outcome _ _ _),
      outcome_bind_done (createGraphicsPipeline_outcome w hw _ _ _ _ _ _ _ _ _),
      outcome_bind_done (assign_outcome _ _ _),
      outcome_bind_done (createGraphicsPipeline_outcome w hw _ _ _ _ _ _ _ _ _),
      outcome_bind_done (assign_outcome _ _ _),
      outcome_bind_done (createGraphicsPipeline_outcome w hw _ _ _ _ _ _ _ _ _),
      outcome_bind_done (assign_outcome _ _ _)]
    simp [afterPipeline, Nat.add_assoc]
  · rfl

theorem create_framebuffer_outcome (w : World) (hc : ∀ h, w.createResult h = VK_SUCCESS)
    (aWindow : VulkanWindow) (rp old dv bv : Handle) (d : Device) :
    (create_framebuffer w aWindow rp old dv bv d).2 =
      .done d.nextHandle ((d.alloc (.framebuffer (framebufferInfo aWindow rp bv dv))).free old) := by
  unfold create_framebuffer
  simp only [Exec.bind_eq]
  rw [outcome_bind_done (create_outcome w _ _ d (hc _))]
  exact assign_outcome _ _ _

theorem create_swapchain_framebuffers_outcome (w : World) (hc : ∀ h, w.createResult h = VK_SUCCESS)
    (aWindow : VulkanWindow) (rp dv : Handle) (d : Device) :
    (create_swapchain_framebuffers w aWindow rp [] dv d).2 =
      .done (List.range' d.nextHandle aWindow.swapViews.length)
        (d.allocs ((List.range' 0 aWindow.swapViews.length).map (fun i =>
          .framebuffer (framebufferInfo aWindow rp (aWindow.swapViews.getD i 0) dv)))) := by
  unfold create_swapchain_framebuffers Exec.collect
  simp only [Exec.bind_eq, Exec.pure_eq]
  rw [outcome_bind_done (assert_outcome _ _ _ (by rfl)),
    outcome_bind_done (collectFrom_create_outcome w hc _
      (fun i => .framebuffer (framebufferInfo aWindow rp (aWindow.swapViews.getD i 0) dv)) _ 0 _
      (fun j d0 _ hj => by
        rw [outcome_bind_done (index_outcome 0 _ d0 (by omega))]
        exact create_outcome w _ _ d0 (hc _))),
    outcome_bind_done (assert_outcome _ _ _ (by simp))]
  simp

theorem rebuildFramebuffers_outcome (w : World) (hc : ∀ h, w.createResult h = VK_SUCCESS)
    (v : MainVars) (d : Device) :
    (rebuildFramebuffers w v d).2 =
      .done (afterRebuildFramebuffers v d).1 (afterRebuildFramebuffers v d).2 := by
  unfold rebuildFramebuffers afterRebuildFramebuffers updateBackBufferDescriptorSet
  simp only [Exec.bind_eq, Exec.pure_eq]
  rw [outcome_bind_done (create_framebuffer_outcome w hc _ _ _ _ _ _),
    outcome_bind_done (create_framebuffer_outcome w hc _ _ _ _ _ _),
    outcome_bind_done (create_framebuffer_outcome w hc _ _ _ _ _ _),
    outcome_bind_done (create_framebuffer_outcome w hc _ _ _ _ _ _),
    outcome_bind_done (destroyAll_outcome _ _),
    outcome_bind_done (create_swapchain_framebuffers_outcome w hc _ _ _ _),
    outcome_bind_done (vkUpdateDescriptorSets_outcome _ _),
    outcome_bind_done (vkUpdateDescriptorSets_outcome _ _),
    outcome_bind_done (vkUpdateDescriptorSets_outcome _ _),
    outcome_bind_done (vkUpdateDescriptorSets_outcome _ _)]
  simp [textureWrite, Nat.add_assoc]

/-- On its success path the rebuild block returns the variables and the driver
state that `afterRebuild` gives. -/
theorem rebuild_outcome (w : World) (hw : w.CreationSucceeds) (v : MainVars) (d : Device) :
    (rebuild w v d).2 = .done (afterRebuild w v d).1 (afterRebuild w v d).2 := by
  unfold rebuild afterRebuild
  simp only [Exec.bind_eq, Exec.pure_eq]
  rw [outcome_bind_emit,
    outcome_bind_done (recreate_swapchain_outcome w hw.1 _ _),
    outcome_bind_done (rebuildRenderPass_outcome w hw.1 _ _ _),
    outcome_bind_done (rebuildTargets_outcome w hw.1 _ _ _),
    outcome_bind_done (rebuildFramebuffers_outcome w hw.1 _ _),
    outcome_bind_done (rebuildPipelines_outcome w hw _ _ _)]
  rfl

open Exec in
theorem readWords_resourceOp (A : Object → Bool) (p : String) (f : ShaderFile) (words : Nat) :
    ∀ fuel offset, Sat (fun e => e.isResourceOp A = true) (fun _ => True)
      (readWords p f words fuel offset) := by
  intro fuel
  induction fuel with
  | zero => intro offset; exact sat_pure trivial
  | succ fuel ih =>
    intro offset
    unfold readWords
    split
    · exact sat_pure trivial
    · refine sat_bind (R := fun _ => True) (sat_emit rfl) (fun _ _ => ?_)
      split
      · exact sat_bind (R := fun _ => True) (sat_emit rfl) (fun _ _ => sat_raise)
      · exact ih _

open Exec in
theorem load_shader_module_resourceOp (A : Object → Bool) (hA : ∀ p n, A (.shaderModule p n) = true)
    (w : World) (p : String) :
    Sat (fun e => e.isResourceOp A = true) (fun _ => True) (load_shader_module w p) := by
  unfold load_shader_module
  split
  · simp only [bind_eq]
    refine sat_bind (R := fun _ => True) (sat_emit rfl) (fun _ _ => ?_)
    refine sat_bind (R := fun _ => True) sat_assert_true (fun _ _ => ?_)
    refine sat_bind (R := fun _ => True) (readWords_resourceOp A _ _ _ _ _) (fun _ _ => ?_)
    refine sat_bind (R := fun _ => True) (sat_emit rfl) (fun _ _ => ?_)
    exact sat_create (fun _ _ => hA _ _)
  · simp only [bind_eq]
    exact sat_bind (R := fun _ => True) (sat_emit rfl) (fun _ _ => sat_raise)

open Exec in
theorem createGraphicsPipeline_resourceOp (A : Object → Bool) (hA : ∀ o, o.isPipelinePart = true → A o = true)
    (w : World) (win : VulkanWindow) (vp fp : String) (b a : Nat) (c : VkFlags) (rp pl : Handle) :
    Sat (fun e => e.isResourceOp A = true) (fun _ => True)
      (createGraphicsPipeline w win vp fp b a c rp pl) := by
  unfold createGraphicsPipeline
  simp only [bind_eq, pure_eq]
  refine sat_bind (R := fun _ => True) (load_shader_module_resourceOp A (fun _ _ => hA _ rfl) _ _)
    (fun _ _ => ?_)
  refine sat_bind (R := fun _ => True) (load_shader_module_resourceOp A (fun _ _ => hA _ rfl) _ _)
    (fun _ _ => ?_)
  refine sat_bind (R := fun _ => True) (sat_create (fun _ _ => hA _ rfl)) (fun _ _ => ?_)
  refine sat_bind (R := fun _ => True) (sat_destroy (fun _ => rfl)) (fun _ _ => ?_)
  refine sat_bind (R := fun _ => True) (sat_destroy (fun _ => rfl)) (fun _ _ => ?_)
  exact sat_pure trivial

open Exec in
theorem assign_resourceOp (A : Object → Bool) (old new : Handle) :
    Sat (fun e => e.isResourceOp A = true) (fun _ => True) (assign old new) :=
  sat_bind (R := fun _ => True) (sat_destroy (fun _ => rfl)) (fun _ _ => sat_pure trivial)

open Exec in
theorem create_image_pair_resourceOp (A : Object → Bool) (hA : ∀ o, o.isTarget = true → A o = true)
    (w : World) (win : VulkanWindow) :
    Sat (fun e => e.isResourceOp A = true) (fun _ => True) (create_offine_image_view w win) ∧
    Sat (fun e => e.isResourceOp A = true) (fun _ => True) (create_depth_buffer w win) := by
  constructor
  · unfold create_offine_image_view
    simp only [bind_eq, pure_eq]
    refine sat_bind (R := fun _ => True) (sat_create (fun _ _ => hA _ rfl)) (fun _ _ => ?_)
    refine sat_bind (R := fun _ => True) (sat_create (fun _ _ => hA _ rfl)) (fun _ _ => ?_)
    exact sat_pure trivial
  · unfold create_depth_buffer
    simp only [bind_eq, pure_eq]
    refine sat_bind (R := fun _ => True) (sat_create (fun _ _ => hA _ rfl)) (fun _ _ => ?_)
    refine sat_bind (R := fun _ => True) (sat_create (fun _ _ => hA _ rfl)) (fun _ _ => ?_)
    exact sat_pure trivial

open Exec in
theorem create_framebuffer_resourceOp (A : Object → Bool) (hA : ∀ o, o.isFramebuffer = true → A o = true)
    (w : World) (win : VulkanWindow) (rp old dv bv : Handle) :
    Sat (fun e => e.isResourceOp A = true) (fun _ => True) (create_framebuffer w win rp old dv bv) := by
  unfold create_framebuffer
  simp only [bind_eq]
  exact sat_bind (R := fun _ => True) (sat_create (fun _ _ => hA _ rfl)) (fun _ _ => assign_resourceOp A _ _)

open Exec in
theorem create_swapchain_framebuffers_resourceOp (A : Object → Bool)
    (hA : ∀ o, o.isFramebuffer = true → A o = true) (w : World) (win : VulkanWindow) (rp : Handle)
    (fbs : List Handle) (dv : Handle) :
    Sat (fun e => e.isResourceOp A = true) (fun _ => True)
      (create_swapchain_framebuffers w win rp fbs dv) := by
  unfold create_swapchain_framebuffers
  simp only [bind_eq, pure_eq]
  refine sat_bind (R := fun _ => True) sat_assert_true (fun _ _ => ?_)
  refine sat_bind (R := fun _ => True) (sat_collect_true (fun j => ?_) _) (fun _ _ => ?_)
  · exact sat_bind (R := fun _ => True) sat_index_true (fun _ _ => sat_create (fun _ _ => hA _ rfl))
  · exact sat_bind (R := fun _ => True) sat_assert_true (fun _ _ => sat_pure trivial)

open Exec in
/-- Whatever its outcome, `recreate_swapchain` creates only a swapchain and its
image views, and what it reports is decided by the format and extent. -/
theorem recreate_swapchain_resourceOp (w : World) (win : VulkanWindow) :
    Sat (fun e => e.isResourceOp Object.isSwapchainPart = true)
      (fun r => r.2 = { changedSize := decide (w.swapchainExtent ≠ win.swapchainExtent)
                        changedFormat := decide (w.swapchainFormat ≠ win.swapchainFormat) })
      (recreate_swapchain w win) := by
  unfold recreate_swapchain createSwapViews
  simp only [bind_eq, pure_eq]
  refine sat_bind (R := fun _ => True) (sat_emit rfl) (fun _ _ => ?_)
  refine sat_bind (R := fun _ => True) (sat_create (fun _ _ => rfl)) (fun _ _ => ?_)
  refine sat_bind (R := fun _ => True) ?_ (fun _ _ => ?_)
  · apply sat_collect_true
    intro j
    exact sat_create (fun _ _ => rfl)
  refine sat_bind (R := fun _ => True) ?_ (fun _ _ => ?_)
  · apply sat_destroyAll
    intro n
    rfl
  refine sat_bind (R := fun _ => True) (sat_destroy (fun _ => rfl)) (fun _ _ => ?_)
  exact sat_pure rfl

open Exec in
/-- Whatever its outcome, the statement `if (changes.changedFormat) renderPass =
create_render_pass(window);` creates nothing but a render pass, and nothing at
all and leaves the variables as they are when the format did not change. -/
theorem rebuildRenderPass_resourceOp (w : World) (c : SwapChanges) (v : MainVars) :
    Sat (fun e => e.isResourceOp (fun o => c.changedFormat && o.isRenderPass) = true)
      (fun v1 => c.changedFormat = false → v1 = v) (rebuildRenderPass w c v) := by
  unfold rebuildRenderPass create_render_pass
  simp only [bind_eq, pure_eq]
  split
  · rename_i hc
    refine sat_bind (R := fun _ => True) (sat_create (fun _ _ => by simp [hc, Object.isRenderPass, Event.isResourceOp]))
      (fun _ _ => ?_)
    exact sat_bind (R := fun _ => True) (assign_resourceOp _ _ _)
      (fun _ _ => sat_pure (fun h => by simp [hc] at h))
  · exact sat_pure (fun _ => rfl)

open Exec in
/-- Whatever its outcome, the first `if (changes.changedSize)` block creates
nothing but images and image views, and nothing at all when the size did not change. -/
theorem rebuildTargets_resourceOp (w : World) (c : SwapChanges) (v : MainVars) :
    Sat (fun e => e.isResourceOp (fun o => c.changedSize && o.isTarget) = true)
      (fun v1 => c.changedSize = false → v1 = v) (rebuildTargets w c v) := by
  unfold rebuildTargets
  simp only [bind_eq, pure_eq]
  split
  · rename_i hc
    have hA : ∀ o : Object, o.isTarget = true → (c.changedSize && o.isTarget) = true := by
      intro o ho; simp [hc, ho]
    have h1 := (create_image_pair_resourceOp _ hA w v.window).1
    have h2 := (create_image_pair_resourceOp _ hA w v.window).2
    refine sat_bind (R := fun _ => True) h2 (fun _ _ => ?_)
    refine sat_bind (R := fun _ => True) (assign_resourceOp _ _ _) (fun _ _ => ?_)
    refine sat_bind (R := fun _ => True) (assign_resourceOp _ _ _) (fun _ _ => ?_)
    refine sat_bind (R := fun _ => True) h1 (fun _ _ => ?_)
    refine sat_bind (R := fun _ => True) (assign_resourceOp _ _ _) (fun _ _ => ?_)
    refine sat_bind (R := fun _ => True) (assign_resourceOp _ _ _) (fun _ _ => ?_)
    refine sat_bind (R := fun _ => True) h1 (fun _ _ => ?_)
    refine sat_bind (R := fun _ => True) (assign_resourceOp _ _ _) (fun _ _ => ?_)
    refine sat_bind (R := fun _ => True) (assign_resourceOp _ _ _) (fun _ _ => ?_)
    refine sat_bind (R := fun _ => True) h1 (fun _ _ => ?_)
    refine sat_bind (R := fun _ => True) (assign_resourceOp _ _ _) (fun _ _ => ?_)
    refine sat_bind (R := fun _ => True) (assign_resourceOp _ _ _) (fun _ _ => ?_)
    refine sat_bind (R := fun _ => True) h1 (fun _ _ => ?_)
    refine sat_bind (R := fun _ => True) (assign_resourceOp _ _ _) (fun _ _ => ?_)
    refine sat_bind (R := fun _ => True) (assign_resourceOp _ _ _) (fun _ _ => ?_)
    exact sat_pure (fun h => by simp [hc] at h)
  · exact sat_pure (fun _ => rfl)

open Exec in
/-- Whatever its outcome, the unconditional middle of the rebuild creates
nothing but framebuffers, and leaves every variable but the five framebuffer
variables as it is. -/
theorem rebuildFramebuffers_resourceOp (w : World) (v : MainVars) :
    Sat (fun e => e.isResourceOp Object.isFramebuffer = true)
      (fun v1 => ∃ a b c e fbs, v1 =
        { v with backFramebuffer := a, temp_framebuffer := b, temp_framebuffer_horizontal := c,
                 temp_framebuffer_vertical := e, framebuffers := fbs })
      (rebuildFramebuffers w v) := by
  unfold rebuildFramebuffers updateBackBufferDescriptorSet
  simp only [bind_eq, pure_eq]
  refine sat_bind (R := fun _ => True) (create_framebuffer_resourceOp _ (fun _ h => h) _ _ _ _ _ _)
    (fun _ _ => ?_)
  refine sat_bind (R := fun _ => True) (create_framebuffer_resourceOp _ (fun _ h => h) _ _ _ _ _ _)
    (fun _ _ => ?_)
  refine sat_bind (R := fun _ => True) (create_framebuffer_resourceOp _ (fun _ h => h) _ _ _ _ _ _)
    (fun _ _ => ?_)
  refine sat_bind (R := fun _ => True) (create_framebuffer_resourceOp _ (fun _ h => h) _ _ _ _ _ _)
    (fun _ _ => ?_)
  refine sat_bind (R := fun _ => True) ?_ (fun _ _ => ?_)
  · apply sat_destroyAll
    intro n
    rfl
  refine sat_bind (R := fun _ => True) (create_swapchain_framebuffers_resourceOp _ (fun _ h => h) _ _ _ _ _)
    (fun _ _ => ?_)
  refine sat_bind (R := fun _ => True) (sat_vkUpdateDescriptorSets rfl) (fun _ _ => ?_)
  refine sat_bind (R := fun _ => True) (sat_vkUpdateDescriptorSets rfl) (fun _ _ => ?_)
  refine sat_bind (R := fun _ => True) (sat_vkUpdateDescriptorSets rfl) (fun _ _ => ?_)
  refine sat_bind (R := fun _ => True) (sat_vkUpdateDescriptorSets rfl) (fun _ _ => ?_)
  exact sat_pure ⟨_, _, _, _, _, rfl⟩

open Exec in
/-- Whatever its outcome, the second `if (changes.changedSize)` block creates
nothing but shader modules and pipelines, and nothing at all when the size
did not change. -/
theorem rebuildPipelines_resourceOp (w : World) (c : SwapChanges) (v : MainVars) :
    Sat (fun e => e.isResourceOp (fun o => c.changedSize && o.isPipelinePart) = true)
      (fun v1 => c.changedSize = false → v1 = v) (rebuildPipelines w c v) := by
  unfold rebuildPipelines create_pipeline create_pipeline_filter_bright create_postprocess_pipeline
    create_pipeline_horizontal create_pipeline_vertical
  simp only [bind_eq, pure_eq]
  split
  · rename_i hc
    have hA : ∀ o : Object, o.isPipelinePart = true → (c.changedSize && o.isPipelinePart) = true := by
      intro o ho; simp [hc, ho]
    refine sat_bind (R := fun _ => True) (createGraphicsPipeline_resourceOp _ hA _ _ _ _ _ _ _ _ _)
      (fun _ _ => ?_)
    refine sat_bind (R := fun _ => True) (assign_resourceOp _ _ _) (fun _ _ => ?_)
    refine sat_bind (R := fun _ => True) (createGraphicsPipeline_resourceOp _ hA _ _ _ _ _ _ _ _ _)
      (fun _ _ => ?_)
    refine sat_bind (R := fun _ => True) (assign_resourceOp _ _ _) (fun _ _ => ?_)
    refine sat_bind (R := fun _ => True) (createGraphicsPipeline_resourceOp _ hA _ _ _ _ _ _ _ _ _)
      (fun _ _ => ?_)
    refine sat_bind (R := fun _ => True) (assign_resourceOp _ _ _) (fun _ _ => ?_)
    refine sat_bind (R := fun _ => True) (createGraphicsPipeline_resourceOp _ hA _ _ _ _ _ _ _ _ _)
      (fun _ _ => ?_)
    refine sat_bind (R := fun _ => True) (assign_resourceOp _ _ _) (fun _ _ => ?_)
    refine sat_bind (R := fun _ => True) (createGraphicsPipeline_resourceOp _ hA _ _ _ _ _ _ _ _ _)
      (fun _ _ => ?_)
    refine sat_bind (R := fun _ => True) (assign_resourceOp _ _ _) (fun _ _ => ?_)
    exact sat_pure (fun h => by simp [hc] at h)
  · exact sat_pure (fun _ => rfl)

@[simp] theorem object_alloc_self (d : Device) (o : Object) : (d.alloc o).object d.nextHandle = some o := by
  simp [Device.object, Device.alloc, List.lookup]

theorem object_alloc_ne (d : Device) (o : Object) (h : Handle) (hne : h ≠ d.nextHandle) :
    (d.alloc o).object h = d.object h := by
  have hb : (h == d.nextHandle) = false := by simpa using hne
  simp [Device.object, Device.alloc, List.lookup, hb]

@[simp] theorem object_free (d : Device) (h k : Handle) : (d.free k).object h = d.object h := by
  unfold Device.free
  split <;> rfl

@[simp] theorem object_write (d : Device) (ws : List VkWriteDescriptorSet) (h : Handle) :
    (d.write ws).object h = d.object h := rfl

@[simp] theorem object_frees : ∀ (ks : List Handle) (d : Device) (h : Handle),
    (d.frees ks).object h = d.object h := by
  intro ks
  induction ks with
  | nil => intro d h; rfl
  | cons k ks ih =>
    intro d h
    show ((d.free k).frees ks).object h = d.object h
    rw [ih, object_free]

theorem object_allocs_lt : ∀ (os : List Object) (d : Device) (h : Handle), h < d.nextHandle →
    (d.allocs os).object h = d.object h := by
  intro os
  induction os with
  | nil => intro d h _; rfl
  | cons o os ih =>
    intro d h hlt
    show ((d.alloc o).allocs os).object h = d.object h
    rw [ih _ _ (by rw [nextHandle_alloc]; exact Nat.lt_succ_of_lt hlt),
      object_alloc_ne _ _ _ (Nat.ne_of_lt hlt)]

/-- The objects a creating loop leaves behind its consecutive handles. -/
theorem object_allocs_new : ∀ (os : List Object) (d : Device) (i : Nat) (o : Object),
    os.get? i = some o → (d.allocs os).object (d.nextHandle + i) = some o := by
  intro os
  induction os with
  | nil => intro d i o h; simp at h
  | cons x os ih =>
    intro d i o h
    show ((d.alloc x).allocs os).object (d.nextHandle + i) = some o
    cases i with
    | zero =>
      simp only [List.get?_cons_zero, Option.some.injEq] at h
      subst h
      rw [object_allocs_lt _ _ _ (by rw [nextHandle_alloc]; exact Nat.lt_succ_self _)]
      exact object_alloc_self d x
    | succ i =>
      have := ih (d.alloc x) i o (by simpa using h)
      rw [nextHandle_alloc] at this
      rw [← this]
      congr 1
      exact (Nat.add_assoc _ _ _).trans (congrArg _ (Nat.add_comm _ _)) |>.symm

@[simp] theorem destroyed_alloc (d : Device) (o : Object) : (d.alloc o).destroyed = d.destroyed := rfl

@[simp] theorem destroyed_write (d : Device) (ws : List VkWriteDescriptorSet) :
    (d.write ws).destroyed = d.destroyed := rfl

@[simp] theorem destroyed_allocs : ∀ (os : List Object) (d : Device), (d.allocs os).destroyed = d.destroyed := by
  intro os
  induction os with
  | nil => intro d; rfl
  | cons o os ih => intro d; show ((d.alloc o).allocs os).destroyed = _; rw [ih, destroyed_alloc]

theorem destroyed_free (d : Device) (k : Handle) :
    (d.free k).destroyed = if k = 0 then d.destroyed else k :: d.destroyed := by
  unfold Device.free
  split <;> rfl

theorem mem_destroyed_free (d : Device) (k h : Handle) :
    h ∈ (d.free k).destroyed ↔ (h = k ∧ k ≠ 0) ∨ h ∈ d.destroyed := by
  rw [destroyed_free]
  split
  · rename_i hz
    constructor
    · intro hm; exact Or.inr hm
    · rintro (⟨_, h2⟩ | hm)
      · exact absurd hz h2
      · exact hm
  · rename_i hz
    simp [hz]

theorem mem_destroyed_frees : ∀ (ks : List Handle) (d : Device) (h : Handle),
    h ∈ (d.frees ks).destroyed ↔ (h ∈ ks ∧ h ≠ 0) ∨ h ∈ d.destroyed := by
  intro ks
  induction ks with
  | nil => intro d h; simp [Device.frees]
  | cons k ks ih =>
    intro d h
    show h ∈ ((d.free k).frees ks).destroyed ↔ _
    rw [ih, mem_destroyed_free]
    constructor
    · rintro (⟨h1, h2⟩ | ⟨rfl, h2⟩ | h3)
      · exact Or.inl ⟨List.mem_cons_of_mem _ h1, h2⟩
      · exact Or.inl ⟨List.mem_cons_self _ _, h2⟩
      · exact Or.inr h3
    · rintro (⟨h1, h2⟩ | h3)
      · rcases List.mem_cons.1 h1 with rfl | h1
        · exact Or.inr (Or.inl ⟨rfl, h2⟩)
        · exact Or.inl ⟨h1, h2⟩
      · exact Or.inr (Or.inr h3)

@[simp] theorem descriptorWrites_alloc (d : Device) (o : Object) :
    (d.alloc o).descriptorWrites = d.descriptorWrites := rfl

@[simp] theorem descriptorWrites_free (d : Device) (k : Handle) :
    (d.free k).descriptorWrites = d.descriptorWrites := by
  unfold Device.free
  split <;> rfl

@[simp] theorem descriptorWrites_allocs : ∀ (os : List Object) (d : Device),
    (d.allocs os).descriptorWrites = d.descriptorWrites := by
  intro os
  induction os with
  | nil => intro d; rfl
  | cons o os ih => intro d; show ((d.alloc o).allocs os).descriptorWrites = _; rw [ih, descriptorWrites_alloc]

@[simp] theorem descriptorWrites_frees : ∀ (ks : List Handle) (d : Device),
    (d.frees ks).descriptorWrites = d.descriptorWrites := by
  intro ks
  induction ks with
  | nil => intro d; rfl
  | cons k ks ih => intro d; show ((d.free k).frees ks).descriptorWrites = _; rw [ih, descriptorWrites_free]

theorem descriptorWrites_write (d : Device) (ws : List VkWriteDescriptorSet) :
    (d.write ws).descriptorWrites = ws.reverse ++ d.descriptorWrites := rfl

theorem grows_refl (d : Device) : d.Grows d :=
  ⟨Nat.le_refl _, fun _ _ => rfl, fun _ h => h, [], rfl⟩

theorem grows_trans {d d1 d2 : Device} (h1 : d.Grows d1) (h2 : d1.Grows d2) : d.Grows d2 := by
  obtain ⟨a1, b1, c1, ws1, e1⟩ := h1
  obtain ⟨a2, b2, c2, ws2, e2⟩ := h2
  refine ⟨Nat.le_trans a1 a2, fun h hlt => ?_, fun h hm => c2 h (c1 h hm), ws2 ++ ws1, ?_⟩
  · rw [b2 h (Nat.lt_of_lt_of_le hlt a1), b1 h hlt]
  · rw [e2, e1, List.append_assoc]

theorem grows_alloc (d : Device) (o : Object) : d.Grows (d.alloc o) :=
  ⟨Nat.le_succ _, fun h hlt => object_alloc_ne d o h (Nat.ne_of_lt hlt), fun _ h => h, [], rfl⟩

theorem grows_free (d : Device) (k : Handle) : d.Grows (d.free k) :=
  ⟨by simp, fun h _ => object_free d h k, fun h hm => (mem_destroyed_free d k h).2 (Or.inr hm),
    [], by simp⟩

theorem grows_write (d : Device) (ws : List VkWriteDescriptorSet) : d.Grows (d.write ws) :=
  ⟨Nat.le_refl _, fun _ _ => rfl, fun _ h => h, ws.reverse, rfl⟩

theorem grows_allocs (d : Device) (os : List Object) : d.Grows (d.allocs os) :=
  ⟨by simp, fun h hlt => object_allocs_lt os d h hlt, fun _ h => by simpa using h, [], by simp⟩

theorem grows_frees (d : Device) (ks : List Handle) : d.Grows (d.frees ks) :=
  ⟨by simp, fun h _ => object_frees ks d h, fun h hm => (mem_destroyed_frees ks d h).2 (Or.inr hm),
    [], by simp⟩

theorem object_alloc (d : Device) (o : Object) (h : Handle) :
    (d.alloc o).object h = if h = d.nextHandle then some o else d.object h := by
  split
  · rename_i he; subst he; exact object_alloc_self d o
  · rename_i hne; exact object_alloc_ne d o h hne

/-! ### `recreate_swapchain` on its success path -/

theorem afterRecreateSwapchain_nextHandle (w : World) (win : VulkanWindow) (d : Device) :
    (afterRecreateSwapchain w win d).2.nextHandle = d.nextHandle + 1 + w.swapImageCount := by
  simp [afterRecreateSwapchain]

theorem afterRecreateSwapchain_grows (w : World) (win : VulkanWindow) (d : Device) :
    d.Grows (afterRecreateSwapchain w win d).2 :=
  grows_trans (grows_alloc _ _) (grows_trans (grows_allocs _ _) (grows_trans (grows_frees _ _) (grows_free _ _)))

/-! ### The render pass -/

theorem afterRebuildRenderPass_grows (c : SwapChanges) (v : MainVars) (d : Device) :
    d.Grows (afterRebuildRenderPass c v d).2 := by
  unfold afterRebuildRenderPass
  split
  · exact grows_trans (grows_alloc _ _) (grows_free _ _)
  · exact grows_refl d

/-! ### The depth buffer and the offscreen targets -/

theorem afterImagePair_nextHandle (d : Device) (info : VkImageCreateInfo) (a : VkFlags) (i v : Handle) :
    (afterImagePair d info a i v).nextHandle = d.nextHandle + 2 := by
  simp [afterImagePair]

theorem afterImagePair_grows (d : Device) (info : VkImageCreateInfo) (a : VkFlags) (i v : Handle) :
    d.Grows (afterImagePair d info a i v) :=
  grows_trans (grows_alloc _ _) (grows_trans (grows_alloc _ _) (grows_trans (grows_free _ _) (grows_free _ _)))

theorem afterImagePair_image (d : Device) (info : VkImageCreateInfo) (a : VkFlags) (i v : Handle) :
    (afterImagePair d info a i v).object d.nextHandle = some (.image info) := by
  simp [afterImagePair, object_alloc]

theorem afterImagePair_view (d : Device) (info : VkImageCreateInfo) (a : VkFlags) (i v : Handle) :
    (afterImagePair d info a i v).object (d.nextHandle + 1) =
      some (.imageView { image := d.nextHandle, format := info.format, aspectMask := a }) := by
  simp [afterImagePair, object_alloc]

theorem afterImagePair_destroyed (d : Device) (info : VkImageCreateInfo) (a : VkFlags) (i v : Handle) :
    (i ≠ 0 → i ∈ (afterImagePair d info a i v).destroyed) ∧
    (v ≠ 0 → v ∈ (afterImagePair d info a i v).destroyed) := by
  unfold afterImagePair
  constructor
  · intro h
    exact (mem_destroyed_free _ _ _).2 (Or.inr ((mem_destroyed_free _ _ _).2 (Or.inl ⟨rfl, h⟩)))
  · intro h
    exact (mem_destroyed_free _ _ _).2 (Or.inl ⟨rfl, h⟩)

theorem afterRebuildTargets_grows (c : SwapChanges) (v : MainVars) (d : Device) :
    d.Grows (afterRebuildTargets c v d).2 := by
  unfold afterRebuildTargets
  split
  · exact grows_trans (afterImagePair_grows _ _ _ _ _) (grows_trans (afterImagePair_grows _ _ _ _ _)
      (grows_trans (afterImagePair_grows _ _ _ _ _) (grows_trans (afterImagePair_grows _ _ _ _ _)
        (afterImagePair_grows _ _ _ _ _))))
  · exact grows_refl d

theorem afterRebuild_eq (w : World) (v : MainVars) (d : Device) :
    afterRebuild w v d =
      ({ (stagePipelines w v d).1 with recreateSwapchain := false }, (stagePipelines w v d).2) := by
  unfold afterRebuild stagePipelines stageFramebuffers stageTargets stageRenderPass stageSwapchain
    reportedChanges
  rfl

theorem afterRebuild_device (w : World) (v : MainVars) (d : Device) :
    (afterRebuild w v d).2 = (stagePipelines w v d).2 := by
  rw [afterRebuild_eq]

/-! ### Variables after each stage of a rebuild -/

theorem stageSwapchain_vars (w : World) (v : MainVars) (d : Device) :
    (stageSwapchain w v d).1 =
      { v with window :=
        { v.window with
          swapchain := d.nextHandle
          swapViews := List.range' (d.nextHandle + 1) w.swapImageCount
          swapchainFormat := w.swapchainFormat
          swapchainExtent := w.swapchainExtent } } := rfl

theorem stageSwapchain_nextHandle (w : World) (v : MainVars) (d : Device) :
    (stageSwapchain w v d).2.nextHandle = d.nextHandle + 1 + w.swapImageCount :=
  afterRecreateSwapchain_nextHandle w v.window d

theorem stageRenderPass_vars (w : World) (v : MainVars) (d : Device) :
    (stageRenderPass w v d).1 =
      { (stageSwapchain w v d).1 with
        renderPass := if (reportedChanges w v).changedFormat then (stageSwapchain w v d).2.nextHandle
                      else v.renderPass } := by
  unfold stageRenderPass afterRebuildRenderPass
  split
  · rfl
  · rfl

theorem stageRenderPass_nextHandle (w : World) (v : MainVars) (d : Device) :
    (stageRenderPass w v d).2.nextHandle =
      (stageSwapchain w v d).2.nextHandle + if (reportedChanges w v).changedFormat then 1 else 0 := by
  unfold stageRenderPass afterRebuildRenderPass
  split <;> simp

theorem stageTargets_nextHandle (w : World) (v : MainVars) (d : Device) :
    (stageTargets w v d).2.nextHandle =
      (stageRenderPass w v d).2.nextHandle + if (reportedChanges w v).changedSize then 10 else 0 := by
  unfold stageTargets afterRebuildTargets
  split <;> simp [afterImagePair_nextHandle]

theorem stageFramebuffers_nextHandle (w : World) (v : MainVars) (d : Device) :
    (stageFramebuffers w v d).2.nextHandle =
      (stageTargets w v d).2.nextHandle + 4 + (stageTargets w v d).1.window.swapViews.length := by
  unfold stageFramebuffers afterRebuildFramebuffers
  simp

theorem stageTargets_window (w : World) (v : MainVars) (d : Device) :
    (stageTargets w v d).1.window = (stageSwapchain w v d).1.window := by
  unfold stageTargets afterRebuildTargets
  split
  · rw [stageRenderPass_vars]
  · rw [stageRenderPass_vars]

theorem stageSwapchain_swapViews_length (w : World) (v : MainVars) (d : Device) :
    (stageSwapchain w v d).1.window.swapViews.length = w.swapImageCount := by
  simp [stageSwapchain_vars]

/-- A rebuild leaves alone the command buffers, the fences, the descriptor
sets and the other variables it does not assign. -/
theorem afterRebuild_untouched (w : World) (v : MainVars) (d : Device) :
    (afterRebuild w v d).1.cbuffers = v.cbuffers ∧ (afterRebuild w v d).1.cbfences = v.cbfences ∧
    (afterRebuild w v d).1.backFrameBufferDescriptor = v.backFrameBufferDescriptor ∧
    (afterRebuild w v d).1.backBufferDescriptor = v.backBufferDescriptor ∧
    (afterRebuild w v d).1.backBufferBrightHorizontal = v.backBufferBrightHorizontal ∧
    (afterRebuild w v d).1.backBufferBrightVertical = v.backBufferBrightVertical ∧
    (afterRebuild w v d).1.offlineRenderPass = v.offlineRenderPass ∧
    (afterRebuild w v d).1.filterSampler = v.filterSampler ∧
    (afterRebuild w v d).1.pipeLayout = v.pipeLayout ∧
    (afterRebuild w v d).1.postPipeLayout = v.postPipeLayout := by
  by_cases he : w.swapchainExtent = v.window.swapchainExtent <;>
  by_cases hf : w.swapchainFormat = v.window.swapchainFormat <;>
  simp [afterRebuild, afterRebuildPipelines, afterRebuildFramebuffers, afterRebuildTargets,
    afterRebuildRenderPass, afterRecreateSwapchain, he, hf]

namespace Exec

theorem post_bind {α β : Type} {x : Exec α} {f : α → Exec β} {R1 : Device → α → Device → Prop}
    {R2 : α → Device → β → Device → Prop} (hx : Post x R1) (hf : ∀ a, Post (f a) (R2 a)) :
    Post (Exec.bind x f) (fun d b d2 => ∃ a d1, R1 d a d1 ∧ R2 a d1 b d2) := by
  intro d b d2 h
  rcases bind_cases x f d with ⟨t, e, h1, h2⟩ | ⟨t, a, d1, h1, h2⟩
  · rw [h2] at h; cases h
  · rw [h2] at h
    exact ⟨a, d1, hx d a d1 (by rw [h1]), hf a d1 b d2 h⟩

theorem post_weaken {α : Type} {x : Exec α} {R R1 : Device → α → Device → Prop} (hx : Post x R)
    (h : ∀ d a d1, R d a d1 → R1 d a d1) : Post x R1 :=
  fun d a d1 ha => h d a d1 (hx d a d1 ha)

theorem post_pure {α : Type} (a : α) : Post (Exec.pure a) (fun d b d1 => b = a ∧ d1 = d) := by
  intro d b d1 h
  simp only [pure_apply, Outcome.done.injEq] at h
  exact ⟨h.1.symm, h.2.symm⟩

theorem post_raise {α : Type} (f : Fault) (R : Device → α → Device → Prop) :
    Post (Exec.raise f : Exec α) R := by
  intro d b d1 h
  simp at h

theorem post_emit (e : Event) : Post (Exec.emit e) (fun d _ d1 => d1 = d) := by
  intro d b d1 h
  simp only [emit_apply, Outcome.done.injEq] at h
  exact h.2.symm

theorem post_assert (c : Bool) (what : String) :
    Post (Exec.assert c what) (fun d _ d1 => d1 = d ∧ c = true) := by
  intro d b d1 h
  cases c
  · simp [Exec.assert] at h
  · simp only [Exec.assert, if_true, pure_apply, Outcome.done.injEq] at h
    exact ⟨h.2.symm, rfl⟩

theorem post_create (w : World) (o : Object) (what : String) :
    Post (Exec.create w o what) (fun d a d1 => a = d.nextHandle ∧ d1 = d.alloc o) := by
  intro d a d1 h
  by_cases hr : w.createResult d.nextHandle = VK_SUCCESS
  · simp only [Exec.create, hr, if_true, Outcome.done.injEq] at h
    exact ⟨h.1.symm, h.2.symm⟩
  · simp [Exec.create, hr] at h

theorem post_destroy (k : Handle) : Post (Exec.destroy k) (fun d _ d1 => d1 = d.free k) := by
  intro d a d1 h
  rw [destroy_outcome] at h
  simp only [Outcome.done.injEq] at h
  exact h.2.symm

theorem post_destroyAll (ks : List Handle) : Post (Exec.destroyAll ks) (fun d _ d1 => d1 = d.frees ks) := by
  intro d a d1 h
  rw [destroyAll_outcome] at h
  simp only [Outcome.done.injEq] at h
  exact h.2.symm

theorem post_vkUpdateDescriptorSets (ws : List VkWriteDescriptorSet) :
    Post (Exec.vkUpdateDescriptorSets ws) (fun d _ d1 => d1 = d.write ws) := by
  intro d a d1 h
  rw [vkUpdateDescriptorSets_outcome] at h
  simp only [Outcome.done.injEq] at h
  exact h.2.symm

theorem post_index {α : Type} (xs : List α) (i : Nat) (what : String) :
    Post (Exec.index xs i what) (fun d a d1 => d1 = d ∧ xs.get? i = some a) := by
  intro d a d1 h
  unfold Exec.index at h
  cases hx : xs.get? i with
  | none => rw [hx] at h; simp at h
  | some x =>
    rw [hx] at h
    simp only [pure_apply, Outcome.done.injEq] at h
    exact ⟨h.2.symm, by rw [h.1]⟩

/-- A loop that creates one object per iteration: when it returns, the handles
are consecutive and the objects are remembered in order. -/
theorem post_collectFrom_create (body : Nat → Exec Handle) (objs : Nat → Object) :
    ∀ (k i : Nat),
      (∀ j, i ≤ j → j < i + k → Post (body j) (fun d a d1 => a = d.nextHandle ∧ d1 = d.alloc (objs j))) →
      Post (Exec.collectFrom body i k)
        (fun d xs d1 => xs = List.range' d.nextHandle k ∧ d1 = d.allocs ((List.range' i k).map objs)) := by
  intro k
  induction k with
  | zero =>
    intro i _ d xs d1 h
    simp only [Exec.collectFrom, pure_apply, Outcome.done.injEq] at h
    exact ⟨h.1.symm, h.2.symm⟩
  | succ k ih =>
    intro i hb
    unfold Exec.collectFrom
    refine post_weaken (post_bind (hb i (Nat.le_refl i) (by omega)) (fun a =>
      post_bind (ih (i + 1) (fun j h1 h2 => hb j (by omega) (by omega))) (fun xs => post_pure _))) ?_
    rintro d xs d1 ⟨a, d2, ⟨rfl, rfl⟩, ys, d3, ⟨rfl, rfl⟩, rfl, rfl⟩
    simp [Device.allocs, List.range'_succ]

end Exec

theorem post_step {α β : Type} {x : Exec α} {f : α → Exec β} {R1 : Device → α → Device → Prop}
    {d : Device} {R : β → Device → Prop} (hx : Exec.Post x R1)
    (hf : ∀ a d1, R1 d a d1 → ∀ b d2, (f a d1).2 = .done b d2 → R b d2) :
    ∀ b d2, (Exec.bind x f d).2 = .done b d2 → R b d2 := by
  intro b d2 h
  rcases Exec.bind_cases x f d with ⟨t, e, h1, h2⟩ | ⟨t, a, d1, h1, h2⟩
  · rw [h2] at h; cases h
  · rw [h2] at h
    exact hf a d1 (hx d a d1 (by rw [h1])) b d2 h

theorem post_done {α : Type} {a : α} {d : Device} {R : α → Device → Prop} (h : R a d) :
    ∀ b d2, (Exec.pure a d).2 = .done b d2 → R b d2 := by
  intro b d2 hb
  simp only [Exec.pure_apply, Outcome.done.injEq] at hb
  obtain ⟨rfl, rfl⟩ := hb
  exact h

open Exec in
theorem assign_post (old new : Handle) :
    Post (assign old new) (fun d a d1 => a = new ∧ d1 = d.free old) := by
  unfold assign
  refine post_weaken (post_bind (post_destroy _) (fun _ => post_pure _)) ?_
  rintro d a d1 ⟨_, _, rfl, rfl, rfl⟩
  exact ⟨rfl, rfl⟩

open Exec in
theorem recreate_swapchain_post (w : World) (win : VulkanWindow) :
    Post (recreate_swapchain w win) (fun d r d1 =>
      r = (afterRecreateSwapchain w win d).1 ∧ d1 = (afterRecreateSwapchain w win d).2) := by
  unfold recreate_swapchain createSwapViews Exec.collect
  simp only [bind_eq, pure_eq]
  refine post_weaken (post_bind (post_emit _) (fun _ => post_bind (post_create _ _ _) (fun sc =>
    post_bind (post_collectFrom_create _ (fun i => .swapView sc i) _ 0 (fun j _ _ => post_create _ _ _))
      (fun views => post_bind (post_destroyAll _) (fun _ => post_bind (post_destroy _)
        (fun _ => post_pure _)))))) ?_
  rintro d r d1 ⟨_, _, rfl, sc, _, ⟨rfl, rfl⟩, views, _, ⟨rfl, rfl⟩, _, _, rfl, _, _, rfl, rfl, rfl⟩
  simp [afterRecreateSwapchain]

open Exec in
theorem rebuildRenderPass_post (w : World) (c : SwapChanges) (v : MainVars) :
    Post (rebuildRenderPass w c v) (fun d v1 d1 =>
      v1 = (afterRebuildRenderPass c v d).1 ∧ d1 = (afterRebuildRenderPass c v d).2) := by
  unfold rebuildRenderPass afterRebuildRenderPass create_render_pass
  split
  · simp only [bind_eq, pure_eq]
    refine post_weaken (post_bind (post_create _ _ _) (fun rp => post_bind (assign_post _ _)
      (fun _ => post_pure _))) ?_
    rintro d v1 d1 ⟨rp, _, ⟨rfl, rfl⟩, _, _, ⟨rfl, rfl⟩, rfl, rfl⟩
    exact ⟨rfl, rfl⟩
  · exact post_pure v

open Exec in
theorem create_depth_buffer_post (w : World) (win : VulkanWindow) :
    Post (create_depth_buffer w win) (fun d r d1 =>
      r = (d.nextHandle, d.nextHandle + 1) ∧
      d1 = (d.alloc (.image (depthImageInfo win))).alloc
        (.imageView { image := d.nextHandle, format := kDepthFormat, aspectMask := VK_IMAGE_ASPECT_DEPTH_BIT })) := by
  unfold create_depth_buffer
  simp only [bind_eq, pure_eq]
  refine post_weaken (post_bind (post_create _ _ _) (fun _ => post_bind (post_create _ _ _)
    (fun _ => post_pure _))) ?_
  rintro d r d1 ⟨_, _, ⟨rfl, rfl⟩, _, _, ⟨rfl, rfl⟩, rfl, rfl⟩
  exact ⟨rfl, rfl⟩

open Exec in
theorem create_offine_image_view_post (w : World) (win : VulkanWindow) :
    Post (create_offine_image_view w win) (fun d r d1 =>
      r = (d.nextHandle, d.nextHandle + 1) ∧
      d1 = (d.alloc (.image (offscreenImageInfo win))).alloc
        (.imageView { image := d.nextHandle, format := win.swapchainFormat,
                      aspectMask := VK_IMAGE_ASPECT_COLOR_BIT })) := by
  unfold create_offine_image_view
  simp only [bind_eq, pure_eq]
  refine post_weaken (post_bind (post_create _ _ _) (fun _ => post_bind (post_create _ _ _)
    (fun _ => post_pure _))) ?_
  rintro d r d1 ⟨_, _, ⟨rfl, rfl⟩, _, _, ⟨rfl, rfl⟩, rfl, rfl⟩
  exact ⟨rfl, rfl⟩

open Exec in
theorem rebuildTargets_post (w : World) (c : SwapChanges) (v : MainVars) :
    Post (rebuildTargets w c v) (fun d v1 d1 =>
      v1 = (afterRebuildTargets c v d).1 ∧ d1 = (afterRebuildTargets c v d).2) := by
  intro d
  unfold rebuildTargets afterRebuildTargets
  split
  · simp only [bind_eq, pure_eq]
    refine post_step (create_depth_buffer_post _ _) (fun r d1 h => ?_)
    obtain ⟨rfl, rfl⟩ := h
    refine post_step (assign_post _ _) (fun r d1 h => ?_)
    obtain ⟨rfl, rfl⟩ := h
    refine post_step (assign_post _ _) (fun r d1 h => ?_)
    obtain ⟨rfl, rfl⟩ := h
    refine post_step (create_offine_image_view_post _ _) (fun r d1 h => ?_)
    obtain ⟨rfl, rfl⟩ := h
    refine post_step (assign_post _ _) (fun r d1 h => ?_)
    obtain ⟨rfl, rfl⟩ := h
    refine post_step (assign_post _ _) (fun r d1 h => ?_)
    obtain ⟨rfl, rfl⟩ := h
    refine post_step (create_offine_image_view_post _ _) (fun r d1 h => ?_)
    obtain ⟨rfl, rfl⟩ := h
    refine post_step (assign_post _ _) (fun r d1 h => ?_)
    obtain ⟨rfl, rfl⟩ := h
    refine post_step (assign_post _ _) (fun r d1 h => ?_)
    obtain ⟨rfl, rfl⟩ := h
    refine post_step (create_offine_image_view_post _ _) (fun r d1 h => ?_)
    obtain ⟨rfl, rfl⟩ := h
    refine post_step (assign_post _ _) (fun r d1 h => ?_)
    obtain ⟨rfl, rfl⟩ := h
    refine post_step (assign_post _ _) (fun r d1 h => ?_)
    obtain ⟨rfl, rfl⟩ := h
    refine post_step (create_offine_image_view_post _ _) (fun r d1 h => ?_)
    obtain ⟨rfl, rfl⟩ := h
    refine post_step (assign_post _ _) (fun r d1 h => ?_)
    obtain ⟨rfl, rfl⟩ := h
    refine post_step (assign_post _ _) (fun r d1 h => ?_)
    obtain ⟨rfl, rfl⟩ := h
    refine post_done ?_
    simp [afterImagePair, depthImageInfo, offscreenImageInfo, Nat.add_assoc]
  · exact post_done ⟨rfl, rfl⟩

open Exec in
theorem readWords_post (p : String) (f : ShaderFile) (words : Nat) :
    ∀ fuel offset, Post (readWords p f words fuel offset) (fun d _ d1 => d1 = d) := by
  intro fuel
  induction fuel with
  | zero => intro offset d; exact post_done rfl
  | succ fuel ih =>
    intro offset d
    unfold readWords
    split
    · exact post_done rfl
    · refine post_step (post_emit _) (fun _ d1 h => ?_)
      subst h
      split
      · refine post_step (post_emit _) (fun _ d1 h => ?_)
        intro b d2 hb
        simp at hb
      · exact ih _ _

open Exec in
theorem load_shader_module_post (w : World) (p : String) :
    Post (load_shader_module w p) (fun d a d1 =>
      a = d.nextHandle ∧ d1 = d.alloc (.shaderModule p (shaderBytes w p))) := by
  intro d
  unfold load_shader_module shaderBytes
  cases hfile : w.files p with
  | some f =>
    simp only [bind_eq]
    refine post_step (post_emit _) (fun _ d1 h => ?_)
    subst h
    refine post_step (post_assert _ _) (fun _ d1 h => ?_)
    obtain ⟨rfl, _⟩ := h
    refine post_step (readWords_post _ _ _ _ _) (fun _ d1 h => ?_)
    subst h
    refine post_step (post_emit _) (fun _ d1 h => ?_)
    subst h
    exact post_create _ _ _ _
  | none =>
    simp only [bind_eq]
    refine post_step (post_emit _) (fun _ d1 h => ?_)
    intro b d2 hb
    simp at hb

open Exec in
theorem createGraphicsPipeline_post (w : World) (win : VulkanWindow) (vp fp : String) (b a : Nat)
    (c : VkFlags) (rp pl : Handle) :
    Post (createGraphicsPipeline w win vp fp b a c rp pl) (fun d h d1 =>
      h = d.nextHandle + 2 ∧
      d1 = ((((d.alloc (.shaderModule vp (shaderBytes w vp))).alloc
          (.shaderModule fp (shaderBytes w fp))).alloc
          (.pipeline (pipelineInfo win d.nextHandle (d.nextHandle + 1) b a c rp pl))).free
            (d.nextHandle + 1)).free d.nextHandle) := by
  intro d
  unfold createGraphicsPipeline
  simp only [bind_eq, pure_eq]
  refine post_step (load_shader_module_post _ _) (fun _ d1 h => ?_)
  obtain ⟨rfl, rfl⟩ := h
  refine post_step (load_shader_module_post _ _) (fun _ d1 h => ?_)
  obtain ⟨rfl, rfl⟩ := h
  refine post_step (post_create _ _ _) (fun _ d1 h => ?_)
  obtain ⟨rfl, rfl⟩ := h
  refine post_step (post_destroy _) (fun _ d1 h => ?_)
  subst h
  refine post_step (post_destroy _) (fun _ d1 h => ?_)
  subst h
  exact post_done ⟨rfl, rfl⟩

open Exec in
theorem rebuildPipelines_post (w : World) (c : SwapChanges) (v : MainVars) :
    Post (rebuildPipelines w c v) (fun d v1 d1 =>
      v1 = (afterRebuildPipelines w c v d).1 ∧ d1 = (afterRebuildPipelines w c v d).2) := by
  intro d
  unfold rebuildPipelines afterRebuildPipelines create_pipeline create_pipeline_filter_bright
    create_postprocess_pipeline create_pipeline_horizontal create_pipeline_vertical
  split
  · simp only [bind_eq, pure_eq]
    refine post_step (createGraphicsPipeline_post _ _ _ _ _ _ _ _ _) (fun _ d1 h => ?_)
    obtain ⟨rfl, rfl⟩ := h
    refine post_step (assign_post _ _) (fun _ d1 h => ?_)
    obtain ⟨rfl, rfl⟩ := h
    refine post_step (createGraphicsPipeline_post _ _ _ _ _ _ _ _ _) (fun _ d1 h => ?_)
    obtain ⟨rfl, rfl⟩ := h
    refine post_step (assign_post _ _) (fun _ d1 h => ?_)
    obtain ⟨rfl, rfl⟩ := h
    refine post_step (createGraphicsPipeline_post _ _ _ _ _ _ _ _ _) (fun _ d1 h => ?_)
    obtain ⟨rfl, rfl⟩ := h
    refine post_step (assign_post _ _) (fun _ d1 h => ?_)
    obtain ⟨rfl, rfl⟩ := h
    refine post_step (createGraphicsPipeline_post _ _ _ _ _ _ _ _ _) (fun _ d1 h => ?_)
    obtain ⟨rfl, rfl⟩ := h
    refine post_step (assign_post _ _) (fun _ d1 h => ?_)
    obtain ⟨rfl, rfl⟩ := h
    refine post_step (createGraphicsPipeline_post _ _ _ _ _ _ _ _ _) (fun _ d1 h => ?_)
    obtain ⟨rfl, rfl⟩ := h
    refine post_step (assign_post _ _) (fun _ d1 h => ?_)
    obtain ⟨rfl, rfl⟩ := h
    refine post_done ?_
    simp [afterPipeline, Nat.add_assoc]
  · exact post_done ⟨rfl, rfl⟩

open Exec in
theorem create_framebuffer_post (w : World) (win : VulkanWindow) (rp old dv bv : Handle) :
    Post (create_framebuffer w win rp old dv bv) (fun d a d1 =>
      a = d.nextHandle ∧ d1 = (d.alloc (.framebuffer (framebufferInfo win rp bv dv))).free old) := by
  intro d
  unfold create_framebuffer
  simp only [bind_eq]
  refine post_step (post_create _ _ _) (fun _ d1 h => ?_)
  obtain ⟨rfl, rfl⟩ := h
  exact assign_post _ _ _

open Exec in
theorem create_swapchain_framebuffers_post (w : World) (win : VulkanWindow) (rp dv : Handle) :
    Post (create_swapchain_framebuffers w win rp [] dv) (fun d fbs d1 =>
      fbs = List.range' d.nextHandle win.swapViews.length ∧
      d1 = d.allocs ((List.range' 0 win.swapViews.length).map (fun i =>
          .framebuffer (framebufferInfo win rp (win.swapViews.getD i 0) dv)))) := by
  intro d
  unfold create_swapchain_framebuffers Exec.collect
  simp only [bind_eq, pure_eq]
  refine post_step (post_assert _ _) (fun _ d1 h => ?_)
  obtain ⟨rfl, _⟩ := h
  refine post_step (post_collectFrom_create _
    (fun i => .framebuffer (framebufferInfo win rp (win.swapViews.getD i 0) dv)) _ 0 ?_) (fun _ d1 h => ?_)
  · intro j _ hj d0
    refine post_step (post_index _ _ _) (fun view d1 h => ?_)
    obtain ⟨rfl, hv⟩ := h
    have hview : view = win.swapViews.getD j 0 := by
      rw [get?_eq_getD 0 (by omega)] at hv
      exact (Option.some.inj hv).symm
    subst hview
    exact post_create _ _ _ _
  obtain ⟨rfl, rfl⟩ := h
  refine post_step (post_assert _ _) (fun _ d1 h => ?_)
  obtain ⟨rfl, _⟩ := h
  refine post_done ?_
  simp

open Exec in
theorem rebuildFramebuffers_post (w : World) (v : MainVars) :
    Post (rebuildFramebuffers w v) (fun d v1 d1 =>
      v1 = (afterRebuildFramebuffers v d).1 ∧ d1 = (afterRebuildFramebuffers v d).2) := by
  intro d
  unfold rebuildFramebuffers afterRebuildFramebuffers updateBackBufferDescriptorSet
  simp only [bind_eq, pure_eq]
  refine post_step (create_framebuffer_post _ _ _ _ _ _) (fun _ d1 h => ?_)
  obtain ⟨rfl, rfl⟩ := h
  refine post_step (create_framebuffer_post _ _ _ _ _ _) (fun _ d1 h => ?_)
  obtain ⟨rfl, rfl⟩ := h
  refine post_step (create_framebuffer_post _ _ _ _ _ _) (fun _ d1 h => ?_)
  obtain ⟨rfl, rfl⟩ := h
  refine post_step (create_framebuffer_post _ _ _ _ _ _) (fun _ d1 h => ?_)
  obtain ⟨rfl, rfl⟩ := h
  refine post_step (post_destroyAll _) (fun _ d1 h => ?_)
  subst h
  refine post_step (create_swapchain_framebuffers_post _ _ _ _) (fun _ d1 h => ?_)
  obtain ⟨rfl, rfl⟩ := h
  refine post_step (post_vkUpdateDescriptorSets _) (fun _ d1 h => ?_)
  subst h
  refine post_step (post_vkUpdateDescriptorSets _) (fun _ d1 h => ?_)
  subst h
  refine post_step (post_vkUpdateDescriptorSets _) (fun _ d1 h => ?_)
  subst h
  refine post_step (post_vkUpdateDescriptorSets _) (fun _ d1 h => ?_)
  subst h
  refine post_done ?_
  simp [textureWrite, Nat.add_assoc]

open Exec in
/-- Whenever the rebuild block returns, the variables and the driver state are
those `afterRebuild` gives. -/
theorem rebuild_post (w : World) (v : MainVars) :
    Post (rebuild w v) (fun d v2 d2 => v2 = (afterRebuild w v d).1 ∧ d2 = (afterRebuild w v d).2) := by
  intro d
  unfold rebuild afterRebuild
  simp only [bind_eq, pure_eq]
  refine post_step (post_emit _) (fun _ d1 h => ?_)
  subst h
  refine post_step (recreate_swapchain_post _ _) (fun _ d1 h => ?_)
  obtain ⟨rfl, rfl⟩ := h
  refine post_step (rebuildRenderPass_post _ _ _) (fun _ d1 h => ?_)
  obtain ⟨rfl, rfl⟩ := h
  refine post_step (rebuildTargets_post _ _ _) (fun _ d1 h => ?_)
  obtain ⟨rfl, rfl⟩ := h
  refine post_step (rebuildFramebuffers_post _ _) (fun _ d1 h => ?_)
  obtain ⟨rfl, rfl⟩ := h
  refine post_step (rebuildPipelines_post _ _ _) (fun _ d1 h => ?_)
  obtain ⟨rfl, rfl⟩ := h
  exact post_done ⟨rfl, rfl⟩

theorem isResourceOp_mono {A B : Object → Bool} (h : ∀ o, A o = true → B o = true) (e : Event)
    (he : e.isResourceOp A = true) : e.isResourceOp B = true := by
  cases e <;> simp [Event.isResourceOp] at he ⊢
  exact h _ he

theorem sat_trace {α : Type} {P : Event → Prop} {Q : α → Prop} {x : Exec α} (h : Exec.Sat P Q x)
    (d : Device) : ∀ e ∈ (x d).1, P e := (h d).1

open Exec in
/-- Whatever its outcome, the rebuild block starts with `vkDeviceWaitIdle`
followed by `recreate_swapchain`; every later event is a creation, a
destruction, a descriptor write or a shader file access, and the creations
are of swapchain parts, of framebuffers, of a render pass only if the format
changed, of images, image views, shader modules and pipelines only if the
size changed. -/
theorem rebuild_census (w : World) (v : MainVars) (d : Device) :
    ∃ rest, (rebuild w v d).1 = .vkDeviceWaitIdle :: .recreate_swapchain :: rest ∧
      ∀ e ∈ rest, e.isResourceOp
        (fun o => o.isSwapchainPart || rebuildAllowed (reportedChanges w v) o) = true := by
  obtain ⟨rest, hrest⟩ := rebuild_trace_head w v d
  refine ⟨rest, hrest, ?_⟩
  have hall : ∀ e ∈ Event.recreate_swapchain :: rest, e.isResourceOp
      (fun o => o.isSwapchainPart || rebuildAllowed (reportedChanges w v) o) = true := by
    have htail : (rebuild w v d).1.tail = .recreate_swapchain :: rest := by rw [hrest]; rfl
    rw [← htail]
    unfold rebuild
    simp only [bind_eq, pure_eq]
    rw [bind_emit_trace]
    refine sat_trace (Q := fun _ => True) ?_ d
    refine sat_bind (sat_weaken (recreate_swapchain_resourceOp w v.window)
      (isResourceOp_mono (fun o ho => by simp [ho])) (fun _ h => h)) (fun r hr => ?_)
    have hr2 : r.2 = reportedChanges w v := hr
    obtain ⟨win, ch⟩ := r
    simp only at hr2
    subst hr2
    refine sat_bind (R := fun _ => True) (sat_weaken (rebuildRenderPass_resourceOp w _ _)
      (isResourceOp_mono (fun o ho => by
        simp only [Bool.and_eq_true] at ho
        simp [rebuildAllowed, ho.1, ho.2])) (fun _ _ => trivial)) (fun _ _ => ?_)
    refine sat_bind (R := fun _ => True) (sat_weaken (rebuildTargets_resourceOp w _ _)
      (isResourceOp_mono (fun o ho => by
        simp only [Bool.and_eq_true] at ho
        simp [rebuildAllowed, ho.1, ho.2])) (fun _ _ => trivial)) (fun _ _ => ?_)
    refine sat_bind (R := fun _ => True) (sat_weaken (rebuildFramebuffers_resourceOp w _)
      (isResourceOp_mono (fun o ho => by simp [rebuildAllowed, ho])) (fun _ _ => trivial)) (fun _ _ => ?_)
    refine sat_bind (R := fun _ => True) (sat_weaken (rebuildPipelines_resourceOp w _ _)
      (isResourceOp_mono (fun o ho => by
        simp only [Bool.and_eq_true] at ho
        simp [rebuildAllowed, ho.1, ho.2])) (fun _ _ => trivial)) (fun _ _ => ?_)
    exact sat_pure trivial
  exact fun e he => hall e (List.mem_cons_of_mem _ he)

/-! ### The driver state only grows along a rebuild -/

theorem afterRebuildFramebuffers_grows (v : MainVars) (d : Device) :
    d.Grows (afterRebuildFramebuffers v d).2 := by
  unfold afterRebuildFramebuffers
  exact grows_trans (grows_alloc _ _) (grows_trans (grows_free _ _)
    (grows_trans (grows_alloc _ _) (grows_trans (grows_free _ _)
    (grows_trans (grows_alloc _ _) (grows_trans (grows_free _ _)
    (grows_trans (grows_alloc _ _) (grows_trans (grows_free _ _)
    (grows_trans (grows_frees _ _) (grows_trans (grows_allocs _ _)
    (grows_trans (grows_write _ _) (grows_trans (grows_write _ _)
    (grows_trans (grows_write _ _) (grows_write _ _)))))))))))))

theorem afterPipeline_grows (w : World) (d : Device) (win : VulkanWindow) (vp fp : String)
    (b a : Nat) (c : VkFlags) (rp pl old : Handle) :
    d.Grows (afterPipeline w d win vp fp b a c rp pl old) := by
  unfold afterPipeline
  exact grows_trans (grows_alloc _ _) (grows_trans (grows_alloc _ _) (grows_trans (grows_alloc _ _)
    (grows_trans (grows_free _ _) (grows_trans (grows_free _ _) (grows_free _ _)))))

theorem afterPipeline_nextHandle (w : World) (d : Device) (win : VulkanWindow) (vp fp : String)
    (b a : Nat) (c : VkFlags) (rp pl old : Handle) :
    (afterPipeline w d win vp fp b a c rp pl old).nextHandle = d.nextHandle + 3 := by
  simp [afterPipeline]

theorem afterPipeline_descriptorWrites (w : World) (d : Device) (win : VulkanWindow) (vp fp : String)
    (b a : Nat) (c : VkFlags) (rp pl old : Handle) :
    (afterPipeline w d win vp fp b a c rp pl old).descriptorWrites = d.descriptorWrites := by
  simp [afterPipeline]

theorem afterPipeline_objects (w : World) (d : Device) (win : VulkanWindow) (vp fp : String)
    (b a : Nat) (c : VkFlags) (rp pl old : Handle) :
    (afterPipeline w d win vp fp b a c rp pl old).object d.nextHandle =
      some (.shaderModule vp (shaderBytes w vp)) ∧
    (afterPipeline w d win vp fp b a c rp pl old).object (d.nextHandle + 1) =
      some (.shaderModule fp (shaderBytes w fp)) ∧
    (afterPipeline w d win vp fp b a c rp pl old).object (d.nextHandle + 2) =
      some (.pipeline (pipelineInfo win d.nextHandle (d.nextHandle + 1) b a c rp pl)) := by
  simp [afterPipeline, object_alloc, Nat.add_assoc]

theorem afterPipeline_destroyed (w : World) (d : Device) (win : VulkanWindow) (vp fp : String)
    (b a : Nat) (c : VkFlags) (rp pl old : Handle) (h : old ≠ 0) :
    old ∈ (afterPipeline w d win vp fp b a c rp pl old).destroyed := by
  unfold afterPipeline
  exact (mem_destroyed_free _ _ _).2 (Or.inl ⟨rfl, h⟩)

theorem afterRebuildPipelines_grows (w : World) (c : SwapChanges) (v : MainVars) (d : Device) :
    d.Grows (afterRebuildPipelines w c v d).2 := by
  unfold afterRebuildPipelines
  split
  · exact grows_trans (afterPipeline_grows _ _ _ _ _ _ _ _ _ _ _)
      (grows_trans (afterPipeline_grows _ _ _ _ _ _ _ _ _ _ _)
      (grows_trans (afterPipeline_grows _ _ _ _ _ _ _ _ _ _ _)
      (grows_trans (afterPipeline_grows _ _ _ _ _ _ _ _ _ _ _)
        (afterPipeline_grows _ _ _ _ _ _ _ _ _ _ _))))
  · exact grows_refl d

theorem afterRebuildPipelines_descriptorWrites (w : World) (c : SwapChanges) (v : MainVars) (d : Device) :
    (afterRebuildPipelines w c v d).2.descriptorWrites = d.descriptorWrites := by
  unfold afterRebuildPipelines
  split
  · simp [afterPipeline_descriptorWrites]
  · rfl

theorem stageSwapchain_grows (w : World) (v : MainVars) (d : Device) : d.Grows (stageSwapchain w v d).2 :=
  afterRecreateSwapchain_grows w v.window d

theorem stageRenderPass_grows (w : World) (v : MainVars) (d : Device) :
    (stageSwapchain w v d).2.Grows (stageRenderPass w v d).2 :=
  afterRebuildRenderPass_grows _ _ _

theorem stageTargets_grows (w : World) (v : MainVars) (d : Device) :
    (stageRenderPass w v d).2.Grows (stageTargets w v d).2 :=
  afterRebuildTargets_grows _ _ _

theorem stageFramebuffers_grows (w : World) (v : MainVars) (d : Device) :
    (stageTargets w v d).2.Grows (stageFramebuffers w v d).2 :=
  afterRebuildFramebuffers_grows _ _

theorem stagePipelines_grows (w : World) (v : MainVars) (d : Device) :
    (stageFramebuffers w v d).2.Grows (stagePipelines w v d).2 :=
  afterRebuildPipelines_grows _ _ _ _

/-- The driver state after a rebuild comes after the one before it. -/
theorem afterRebuild_grows (w : World) (v : MainVars) (d : Device) : d.Grows (afterRebuild w v d).2 := by
  rw [afterRebuild_device]
  exact grows_trans (stageSwapchain_grows w v d) (grows_trans (stageRenderPass_grows w v d)
    (grows_trans (stageTargets_grows w v d) (grows_trans (stageFramebuffers_grows w v d)
      (stagePipelines_grows w v d))))

/-! ### From a stage of the rebuild to its end -/

theorem grows_object {d d1 : Device} (h : d.Grows d1) {k : Handle} (hk : k < d.nextHandle) :
    d1.object k = d.object k := h.2.1 k hk

theorem grows_destroyed {d d1 : Device} (h : d.Grows d1) {k : Handle} (hk : k ∈ d.destroyed) :
    k ∈ d1.destroyed := h.2.2.1 k hk

theorem grows_nextHandle {d d1 : Device} (h : d.Grows d1) : d.nextHandle ≤ d1.nextHandle := h.1

theorem stageRenderPass_to_end (w : World) (v : MainVars) (d : Device) :
    (stageRenderPass w v d).2.Grows (afterRebuild w v d).2 := by
  rw [afterRebuild_device]
  exact grows_trans (stageTargets_grows w v d) (grows_trans (stageFramebuffers_grows w v d)
    (stagePipelines_grows w v d))

theorem stageTargets_to_end (w : World) (v : MainVars) (d : Device) :
    (stageTargets w v d).2.Grows (afterRebuild w v d).2 := by
  rw [afterRebuild_device]
  exact grows_trans (stageFramebuffers_grows w v d) (stagePipelines_grows w v d)

theorem stageFramebuffers_to_end (w : World) (v : MainVars) (d : Device) :
    (stageFramebuffers w v d).2.Grows (afterRebuild w v d).2 := by
  rw [afterRebuild_device]
  exact stagePipelines_grows w v d

theorem start_to_stageSwapchain (w : World) (v : MainVars) (d : Device) :
    d.nextHandle ≤ (stageSwapchain w v d).2.nextHandle := grows_nextHandle (stageSwapchain_grows w v d)

theorem start_to_stageRenderPass (w : World) (v : MainVars) (d : Device) :
    d.nextHandle ≤ (stageRenderPass w v d).2.nextHandle :=
  Nat.le_trans (start_to_stageSwapchain w v d) (grows_nextHandle (stageRenderPass_grows w v d))

theorem start_to_stageTargets (w : World) (v : MainVars) (d : Device) :
    d.nextHandle ≤ (stageTargets w v d).2.nextHandle :=
  Nat.le_trans (start_to_stageRenderPass w v d) (grows_nextHandle (stageTargets_grows w v d))

theorem start_to_stageFramebuffers (w : World) (v : MainVars) (d : Device) :
    d.nextHandle ≤ (stageFramebuffers w v d).2.nextHandle :=
  Nat.le_trans (start_to_stageTargets w v d) (grows_nextHandle (stageFramebuffers_grows w v d))

/-! ### The variables at the end of a rebuild -/

theorem afterRebuild_window (w : World) (v : MainVars) (d : Device) :
    (afterRebuild w v d).1.window = (stageSwapchain w v d).1.window := by
  by_cases he : w.swapchainExtent = v.window.swapchainExtent <;>
  by_cases hf : w.swapchainFormat = v.window.swapchainFormat <;>
  simp [afterRebuild, afterRebuildPipelines, afterRebuildFramebuffers, afterRebuildTargets,
    afterRebuildRenderPass, afterRecreateSwapchain, stageSwapchain, he, hf]

theorem afterRebuild_renderPass_eq (w : World) (v : MainVars) (d : Device) :
    (afterRebuild w v d).1.renderPass = (stageRenderPass w v d).1.renderPass := by
  by_cases he : w.swapchainExtent = v.window.swapchainExtent <;>
  by_cases hf : w.swapchainFormat = v.window.swapchainFormat <;>
  simp [afterRebuild, afterRebuildPipelines, afterRebuildFramebuffers, afterRebuildTargets,
    afterRebuildRenderPass, afterRecreateSwapchain, stageRenderPass, stageSwapchain, reportedChanges,
    he, hf]

theorem stageRenderPass_changed (w : World) (v : MainVars) (d : Device)
    (hf : (reportedChanges w v).changedFormat = true) :
    (stageRenderPass w v d).1.renderPass = (stageSwapchain w v d).2.nextHandle ∧
    (stageRenderPass w v d).2.nextHandle = (stageSwapchain w v d).2.nextHandle + 1 ∧
    (stageRenderPass w v d).2.object (stageSwapchain w v d).2.nextHandle =
      some (.renderPass (presentPassInfo (stageSwapchain w v d).1.window)) ∧
    (v.renderPass ≠ 0 → v.renderPass ∈ (stageRenderPass w v d).2.destroyed) := by
  unfold stageRenderPass afterRebuildRenderPass
  rw [if_pos hf]
  refine ⟨rfl, by simp, by simp, fun h => ?_⟩
  exact (mem_destroyed_free _ _ _).2 (Or.inl ⟨rfl, h⟩)

theorem stageRenderPass_unchanged (w : World) (v : MainVars) (d : Device)
    (hf : (reportedChanges w v).changedFormat = false) :
    (stageRenderPass w v d).1.renderPass = v.renderPass := by
  unfold stageRenderPass afterRebuildRenderPass
  simp [hf, stageSwapchain]

/-- C11: whatever its outcome, the rebuild block starts with
`vkDeviceWaitIdle` followed by `recreate_swapchain`, and every later event is a
creation, a destruction, a descriptor write or a shader file access (so no
creation or replacement precedes the wait); a render pass is created only if
`recreate_swapchain` reported `changedFormat`; and whenever the block returns,
the present render pass variable is unchanged if `changedFormat` was not
reported, and otherwise holds a handle created during the rebuild, behind which
is a render pass made by `create_render_pass` for the new window, the render
pass it replaced being destroyed. -/
theorem rebuild_waits_idle_first_and_remakes_render_pass_iff_format (w : World) (v : MainVars)
    (d : Device) :
    (∃ rest, (rebuild w v d).1 = .vkDeviceWaitIdle :: .recreate_swapchain :: rest ∧
      ∀ e ∈ rest, e.isResourceOp (fun _ => true) = true) ∧
    (∀ e ∈ (rebuild w v d).1, ∀ info res h, e = .create (.renderPass info) res h →
      (reportedChanges w v).changedFormat = true) ∧
    (∀ v2 d2, (rebuild w v d).2 = .done v2 d2 →
      ((reportedChanges w v).changedFormat = false → v2.renderPass = v.renderPass) ∧
      ((reportedChanges w v).changedFormat = true →
        d.nextHandle ≤ v2.renderPass ∧
        d2.object v2.renderPass = some (.renderPass (presentPassInfo v2.window)) ∧
        (v.renderPass ≠ 0 → v.renderPass ∈ d2.destroyed))) := by
  obtain ⟨rest, hrest, hall⟩ := rebuild_census w v d
  refine ⟨⟨rest, hrest, fun e he => isResourceOp_mono (fun _ _ => rfl) e (hall e he)⟩, ?_, ?_⟩
  · intro e he info res h heq
    subst heq
    rw [hrest] at he
    simp only [List.mem_cons] at he
    rcases he with he | he | he
    · cases he
    · cases he
    · have := hall _ he
      simp only [Event.isResourceOp, rebuildAllowed, Object.isSwapchainPart, Object.isFramebuffer,
        Object.isRenderPass, Object.isTarget, Object.isPipelinePart, Bool.false_or, Bool.and_true,
        Bool.or_self, Bool.and_false, Bool.or_false] at this
      exact this
  · intro v2 d2 hdone
    obtain ⟨rfl, rfl⟩ := rebuild_post w v d v2 d2 hdone
    refine ⟨fun hf => ?_, fun hf => ?_⟩
    · rw [afterRebuild_renderPass_eq, stageRenderPass_unchanged w v d hf]
    · obtain ⟨h1, h2, h3, h4⟩ := stageRenderPass_changed w v d hf
      rw [afterRebuild_renderPass_eq, afterRebuild_window, h1]
      refine ⟨start_to_stageSwapchain w v d, ?_, fun hne => ?_⟩
      · rw [grows_object (stageRenderPass_to_end w v d) (by rw [h2]; exact Nat.lt_succ_self _)]
        exact h3
      · exact grows_destroyed (stageRenderPass_to_end w v d) (h4 hne)

theorem rebuild_waits_idle_first_and_remakes_render_pass_iff_format_witness :
    ∃ v2 d2, (rebuild World.newFormat sampleVars sampleDevice).2 = .done v2 d2 ∧
      (reportedChanges World.newFormat sampleVars).changedFormat = true ∧
      100 ≤ v2.renderPass ∧
      d2.object v2.renderPass = some (.renderPass (presentPassInfo v2.window)) ∧
      sampleVars.renderPass ∈ d2.destroyed := by
  have hdone := rebuild_outcome World.newFormat allOk_creationSucceeds sampleVars sampleDevice
  have h := (rebuild_waits_idle_first_and_remakes_render_pass_iff_format World.newFormat sampleVars
    sampleDevice).2.2 _ _ hdone
  have hf : (reportedChanges World.newFormat sampleVars).changedFormat = true := by decide
  obtain ⟨h1, h2, h3⟩ := h.2 hf
  exact ⟨_, _, hdone, hf, h1, h2, h3 (by decide)⟩

theorem afterRebuildTargets_changed (c : SwapChanges) (v : MainVars) (d : Device)
    (hs : c.changedSize = true) :
    (afterRebuildTargets c v d).1 =
      { v with
        depthBuffer := d.nextHandle
        depthBufferView := d.nextHandle + 1
        backBuffer := d.nextHandle + 2
        backBufferView := d.nextHandle + 3
        backFrameBuffer := d.nextHandle + 4
        backFrameBufferView := d.nextHandle + 5
        backBufferHorizontal := d.nextHandle + 6
        backBufferViewHorizontal := d.nextHandle + 7
        backBufferVertical := d.nextHandle + 8
        backBufferViewVertical := d.nextHandle + 9 } ∧
    (afterRebuildTargets c v d).2.nextHandle = d.nextHandle + 10 ∧
    (afterRebuildTargets c v d).2.object d.nextHandle = some (.image (depthImageInfo v.window)) ∧
    (afterRebuildTargets c v d).2.object (d.nextHandle + 1) =
      some (.imageView { image := d.nextHandle, format := kDepthFormat,
                         aspectMask := VK_IMAGE_ASPECT_DEPTH_BIT }) ∧
    (∀ k : Nat, k < 4 →
      (afterRebuildTargets c v d).2.object (d.nextHandle + 2 + 2 * k) =
        some (.image (offscreenImageInfo v.window)) ∧
      (afterRebuildTargets c v d).2.object (d.nextHandle + 2 + 2 * k + 1) =
        some (.imageView { image := d.nextHandle + 2 + 2 * k, format := v.window.swapchainFormat,
                           aspectMask := VK_IMAGE_ASPECT_COLOR_BIT })) ∧
    (∀ old ∈ [v.depthBuffer, v.depthBufferView, v.backBuffer, v.backBufferView, v.backFrameBuffer,
        v.backFrameBufferView, v.backBufferHorizontal, v.backBufferViewHorizontal,
        v.backBufferVertical, v.backBufferViewVertical],
      old ≠ 0 → old ∈ (afterRebuildTargets c v d).2.destroyed) := by
  unfold afterRebuildTargets
  rw [if_pos hs]
  refine ⟨rfl, ?_, ?_, ?_, ?_, ?_⟩
  · simp [afterImagePair, Nat.add_assoc]
  · simp [afterImagePair, object_alloc, Nat.add_assoc, depthImageInfo]
  · simp [afterImagePair, object_alloc, Nat.add_assoc, depthImageInfo]
  · intro k hk
    have : k = 0 ∨ k = 1 ∨ k = 2 ∨ k = 3 := by omega
    rcases this with rfl | rfl | rfl | rfl <;>
      simp [afterImagePair, object_alloc, Nat.add_assoc, offscreenImageInfo, depthImageInfo]
  · intro old hold hne
    simp only [List.mem_cons, List.mem_singleton, List.not_mem_nil, or_false] at hold
    simp only [afterImagePair, mem_destroyed_free, destroyed_alloc]
    rcases hold with h | h | h | h | h | h | h | h | h | h <;> subst h <;> simp [hne]

theorem stageTargets_vars (w : World) (v : MainVars) (d : Device) :
    (stageTargets w v d).1 =
      if (reportedChanges w v).changedSize then
        { (stageRenderPass w v d).1 with
          depthBuffer := (stageRenderPass w v d).2.nextHandle
          depthBufferView := (stageRenderPass w v d).2.nextHandle + 1
          backBuffer := (stageRenderPass w v d).2.nextHandle + 2
          backBufferView := (stageRenderPass w v d).2.nextHandle + 3
          backFrameBuffer := (stageRenderPass w v d).2.nextHandle + 4
          backFrameBufferView := (stageRenderPass w v d).2.nextHandle + 5
          backBufferHorizontal := (stageRenderPass w v d).2.nextHandle + 6
          backBufferViewHorizontal := (stageRenderPass w v d).2.nextHandle + 7
          backBufferVertical := (stageRenderPass w v d).2.nextHandle + 8
          backBufferViewVertical := (stageRenderPass w v d).2.nextHandle + 9 }
      else (stageRenderPass w v d).1 := by
  unfold stageTargets afterRebuildTargets
  split <;> rfl

theorem stageFramebuffers_vars (w : World) (v : MainVars) (d : Device) :
    (stageFramebuffers w v d).1 =
      { (stageTargets w v d).1 with
        backFramebuffer := (stageTargets w v d).2.nextHandle
        temp_framebuffer := (stageTargets w v d).2.nextHandle + 1
        temp_framebuffer_horizontal := (stageTargets w v d).2.nextHandle + 2
        temp_framebuffer_vertical := (stageTargets w v d).2.nextHandle + 3
        framebuffers := List.range' ((stageTargets w v d).2.nextHandle + 4)
          (stageTargets w v d).1.window.swapViews.length } := rfl

theorem stagePipelines_vars (w : World) (v : MainVars) (d : Device) :
    (stagePipelines w v d).1 =
      if (reportedChanges w v).changedSize then
        { (stageFramebuffers w v d).1 with
          pipe := (stageFramebuffers w v d).2.nextHandle + 2
          pipe_filter_bright := (stageFramebuffers w v d).2.nextHandle + 5
          postPipe := (stageFramebuffers w v d).2.nextHandle + 8
          filterHorizontalPipe := (stageFramebuffers w v d).2.nextHandle + 11
          filterVerticalPipe := (stageFramebuffers w v d).2.nextHandle + 14 }
      else (stageFramebuffers w v d).1 := by
  unfold stagePipelines afterRebuildPipelines
  split <;> rfl

theorem afterRebuild_vars (w : World) (v : MainVars) (d : Device) :
    (afterRebuild w v d).1 = { (stagePipelines w v d).1 with recreateSwapchain := false } := by
  rw [afterRebuild_eq]

theorem afterRebuildPipelines_changed (w : World) (c : SwapChanges) (v : MainVars) (d : Device)
    (hs : c.changedSize = true) :
    (afterRebuildPipelines w c v d).2.HasPipeline w (d.nextHandle + 2) v.window cfg.kVertShaderPath
      cfg.kFragShaderPath 5 5 VK_CULL_MODE_BACK_BIT v.offlineRenderPass v.pipeLayout ∧
    (afterRebuildPipelines w c v d).2.HasPipeline w (d.nextHandle + 5) v.window
      cfg.kfilterBrightVertPath cfg.kfilterBrightFragPath 5 5 VK_CULL_MODE_BACK_BIT
      v.offlineRenderPass v.pipeLayout ∧
    (afterRebuildPipelines w c v d).2.HasPipeline w (d.nextHandle + 8) v.window
      cfg.kPostProcessinVertgPath cfg.kPostProcessingFragPath 0 0 VK_CULL_MODE_FRONT_BIT
      v.renderPass v.postPipeLayout ∧
    (afterRebuildPipelines w c v d).2.HasPipeline w (d.nextHandle + 11) v.window
      cfg.kHorizontalFilterVertPath cfg.kHorizontalFilterFragPath 0 0 VK_CULL_MODE_FRONT_BIT
      v.renderPass v.postPipeLayout ∧
    (afterRebuildPipelines w c v d).2.HasPipeline w (d.nextHandle + 14) v.window
      cfg.kVerticalFilterVertPath cfg.kVerticalFilterFragPath 0 0 VK_CULL_MODE_FRONT_BIT
      v.renderPass v.postPipeLayout ∧
    (∀ old ∈ [v.pipe, v.pipe_filter_bright, v.postPipe, v.filterHorizontalPipe,
        v.filterVerticalPipe], old ≠ 0 → old ∈ (afterRebuildPipelines w c v d).2.destroyed) := by
  unfold afterRebuildPipelines
  rw [if_pos hs]
  refine ⟨⟨d.nextHandle, d.nextHandle + 1, ?_⟩, ⟨d.nextHandle + 3, d.nextHandle + 4, ?_⟩,
    ⟨d.nextHandle + 6, d.nextHandle + 7, ?_⟩, ⟨d.nextHandle + 9, d.nextHandle + 10, ?_⟩,
    ⟨d.nextHandle + 12, d.nextHandle + 13, ?_⟩, ?_⟩
  · simp [afterPipeline, object_alloc, Nat.add_assoc]
  · simp [afterPipeline, object_alloc, Nat.add_assoc]
  · simp [afterPipeline, object_alloc, Nat.add_assoc]
  · simp [afterPipeline, object_alloc, Nat.add_assoc]
  · simp [afterPipeline, object_alloc, Nat.add_assoc]
  · intro old hold hne
    simp only [List.mem_cons, List.mem_singleton, List.not_mem_nil, or_false] at hold
    simp only [afterPipeline, mem_destroyed_free, destroyed_alloc]
    rcases hold with h | h | h | h | h <;> subst h <;> simp [hne]

theorem stageRenderPass_old_targets (w : World) (v : MainVars) (d : Device) :
    [(stageRenderPass w v d).1.depthBuffer, (stageRenderPass w v d).1.depthBufferView,
      (stageRenderPass w v d).1.backBuffer, (stageRenderPass w v d).1.backBufferView,
      (stageRenderPass w v d).1.backFrameBuffer, (stageRenderPass w v d).1.backFrameBufferView,
      (stageRenderPass w v d).1.backBufferHorizontal,
      (stageRenderPass w v d).1.backBufferViewHorizontal,
      (stageRenderPass w v d).1.backBufferVertical,
      (stageRenderPass w v d).1.backBufferViewVertical] =
    [v.depthBuffer, v.depthBufferView, v.backBuffer, v.backBufferView, v.backFrameBuffer,
      v.backFrameBufferView, v.backBufferHorizontal, v.backBufferViewHorizontal,
      v.backBufferVertical, v.backBufferViewVertical] := by
  simp [stageRenderPass_vars, stageSwapchain_vars]

theorem stageFramebuffers_old_pipelines (w : World) (v : MainVars) (d : Device) :
    [(stageFramebuffers w v d).1.pipe, (stageFramebuffers w v d).1.pipe_filter_bright,
      (stageFramebuffers w v d).1.postPipe, (stageFramebuffers w v d).1.filterHorizontalPipe,
      (stageFramebuffers w v d).1.filterVerticalPipe] =
    [v.pipe, v.pipe_filter_bright, v.postPipe, v.filterHorizontalPipe, v.filterVerticalPipe] := by
  rw [stageFramebuffers_vars, stageTargets_vars]
  split <;> simp [stageRenderPass_vars, stageSwapchain_vars]

theorem stageFramebuffers_inputs (w : World) (v : MainVars) (d : Device) :
    (stageFramebuffers w v d).1.window = (afterRebuild w v d).1.window ∧
    (stageFramebuffers w v d).1.offlineRenderPass = (afterRebuild w v d).1.offlineRenderPass ∧
    (stageFramebuffers w v d).1.pipeLayout = (afterRebuild w v d).1.pipeLayout ∧
    (stageFramebuffers w v d).1.postPipeLayout = (afterRebuild w v d).1.postPipeLayout ∧
    (stageFramebuffers w v d).1.renderPass = (afterRebuild w v d).1.renderPass := by
  rw [afterRebuild_vars, stagePipelines_vars]
  split <;> simp

theorem stageRenderPass_window (w : World) (v : MainVars) (d : Device) :
    (stageRenderPass w v d).1.window = (afterRebuild w v d).1.window := by
  rw [afterRebuild_window, stageRenderPass_vars]

theorem afterRebuild_sizeDependent_changed (w : World) (v : MainVars) (d : Device)
    (hs : (reportedChanges w v).changedSize = true) :
    (afterRebuild w v d).1.sizeDependent =
      (List.range' (stageRenderPass w v d).2.nextHandle 10) ++
        [(stageFramebuffers w v d).2.nextHandle + 2, (stageFramebuffers w v d).2.nextHandle + 5,
         (stageFramebuffers w v d).2.nextHandle + 8, (stageFramebuffers w v d).2.nextHandle + 11,
         (stageFramebuffers w v d).2.nextHandle + 14] := by
  simp [MainVars.sizeDependent, afterRebuild_vars, stagePipelines_vars, stageFramebuffers_vars,
    stageTargets_vars, hs, List.range', Nat.add_assoc]

theorem afterRebuild_sizeDependent_unchanged (w : World) (v : MainVars) (d : Device)
    (hs : (reportedChanges w v).changedSize = false) :
    (afterRebuild w v d).1.sizeDependent = v.sizeDependent := by
  simp [MainVars.sizeDependent, afterRebuild_vars, stagePipelines_vars, stageFramebuffers_vars,
    stageTargets_vars, hs, stageRenderPass_vars, stageSwapchain_vars]

theorem stageTargets_changed (w : World) (v : MainVars) (d : Device)
    (hs : (reportedChanges w v).changedSize = true) :
    (stageTargets w v d).2.object (stageRenderPass w v d).2.nextHandle =
      some (.image (depthImageInfo (afterRebuild w v d).1.window)) ∧
    (stageTargets w v d).2.object ((stageRenderPass w v d).2.nextHandle + 1) =
      some (.imageView { image := (stageRenderPass w v d).2.nextHandle, format := kDepthFormat,
                         aspectMask := VK_IMAGE_ASPECT_DEPTH_BIT }) ∧
    (∀ k : Nat, k < 4 →
      (stageTargets w v d).2.object ((stageRenderPass w v d).2.nextHandle + 2 + 2 * k) =
        some (.image (offscreenImageInfo (afterRebuild w v d).1.window)) ∧
      (stageTargets w v d).2.object ((stageRenderPass w v d).2.nextHandle + 2 + 2 * k + 1) =
        some (.imageView { image := (stageRenderPass w v d).2.nextHandle + 2 + 2 * k,
                           format := (afterRebuild w v d).1.window.swapchainFormat,
                           aspectMask := VK_IMAGE_ASPECT_COLOR_BIT })) ∧
    (∀ old ∈ [v.depthBuffer, v.depthBufferView, v.backBuffer, v.backBufferView, v.backFrameBuffer,
        v.backFrameBufferView, v.backBufferHorizontal, v.backBufferViewHorizontal,
        v.backBufferVertical, v.backBufferViewVertical],
      old ≠ 0 → old ∈ (stageTargets w v d).2.destroyed) := by
  obtain ⟨_, _, t1, t2, t3, t4⟩ :=
    afterRebuildTargets_changed (reportedChanges w v) (stageRenderPass w v d).1
      (stageRenderPass w v d).2 hs
  rw [stageRenderPass_old_targets] at t4
  rw [stageRenderPass_window] at t1 t3
  exact ⟨t1, t2, t3, t4⟩

theorem stagePipelines_changed (w : World) (v : MainVars) (d : Device)
    (hs : (reportedChanges w v).changedSize = true) :
    (afterRebuild w v d).2.HasPipeline w ((stageFramebuffers w v d).2.nextHandle + 2)
      (afterRebuild w v d).1.window cfg.kVertShaderPath
      cfg.kFragShaderPath 5 5 VK_CULL_MODE_BACK_BIT (afterRebuild w v d).1.offlineRenderPass
      (afterRebuild w v d).1.pipeLayout ∧
    (afterRebuild w v d).2.HasPipeline w ((stageFramebuffers w v d).2.nextHandle + 5)
      (afterRebuild w v d).1.window
      cfg.kfilterBrightVertPath cfg.kfilterBrightFragPath 5 5 VK_CULL_MODE_BACK_BIT
      (afterRebuild w v d).1.offlineRenderPass (afterRebuild w v d).1.pipeLayout ∧
    (afterRebuild w v d).2.HasPipeline w ((stageFramebuffers w v d).2.nextHandle + 8)
      (afterRebuild w v d).1.window
      cfg.kPostProcessinVertgPath cfg.kPostProcessingFragPath 0 0 VK_CULL_MODE_FRONT_BIT
      (afterRebuild w v d).1.renderPass (afterRebuild w v d).1.postPipeLayout ∧
    (afterRebuild w v d).2.HasPipeline w ((stageFramebuffers w v d).2.nextHandle + 11)
      (afterRebuild w v d).1.window
      cfg.kHorizontalFilterVertPath cfg.kHorizontalFilterFragPath 0 0 VK_CULL_MODE_FRONT_BIT
      (afterRebuild w v d).1.renderPass (afterRebuild w v d).1.postPipeLayout ∧
    (afterRebuild w v d).2.HasPipeline w ((stageFramebuffers w v d).2.nextHandle + 14)
      (afterRebuild w v d).1.window
      cfg.kVerticalFilterVertPath cfg.kVerticalFilterFragPath 0 0 VK_CULL_MODE_FRONT_BIT
      (afterRebuild w v d).1.renderPass (afterRebuild w v d).1.postPipeLayout ∧
    (∀ old ∈ [v.pipe, v.pipe_filter_bright, v.postPipe, v.filterHorizontalPipe,
        v.filterVerticalPipe], old ≠ 0 → old ∈ (afterRebuild w v d).2.destroyed) := by
  obtain ⟨p1, p2, p3, p4, p5, p6⟩ :=
    afterRebuildPipelines_changed w (reportedChanges w v) (stageFramebuffers w v d).1
      (stageFramebuffers w v d).2 hs
  obtain ⟨i1, i2, i3, i4, i5⟩ := stageFramebuffers_inputs w v d
  rw [stageFramebuffers_old_pipelines] at p6
  rw [i1, i2, i3] at p1 p2
  rw [i1, i4, i5] at p3 p4 p5
  rw [afterRebuild_device]
  exact ⟨p1, p2, p3, p4, p5, p6⟩

theorem fifteen_nodup (n p : Nat) (h : n + 14 ≤ p) :
    (List.range' n 10 ++ [p + 2, p + 5, p + 8, p + 11, p + 14]).Nodup := by
  rw [List.nodup_append]
  refine ⟨List.nodup_range' n 10, ?_, ?_⟩
  · simp
  · intro a ha hb
    rw [List.mem_range'_1] at ha
    simp only [List.mem_cons, List.mem_singleton, List.not_mem_nil, or_false] at hb
    omega

theorem fifteen_ge (m n p : Nat) (hm : m ≤ n) (h : n + 14 ≤ p) :
    ∀ x ∈ List.range' n 10 ++ [p + 2, p + 5, p + 8, p + 11, p + 14], m ≤ x := by
  intro x hx
  rw [List.mem_append, List.mem_range'_1] at hx
  simp only [List.mem_cons, List.mem_singleton, List.not_mem_nil, or_false] at hx
  omega

theorem afterRebuild_changedSize_vars (w : World) (v : MainVars) (d : Device)
    (hs : (reportedChanges w v).changedSize = true) :
    (afterRebuild w v d).1.depthBuffer = (stageRenderPass w v d).2.nextHandle ∧
    (afterRebuild w v d).1.depthBufferView = (stageRenderPass w v d).2.nextHandle + 1 ∧
    (afterRebuild w v d).1.backBuffer = (stageRenderPass w v d).2.nextHandle + 2 + 2 * 0 ∧
    (afterRebuild w v d).1.backBufferView = (stageRenderPass w v d).2.nextHandle + 2 + 2 * 0 + 1 ∧
    (afterRebuild w v d).1.backFrameBuffer = (stageRenderPass w v d).2.nextHandle + 2 + 2 * 1 ∧
    (afterRebuild w v d).1.backFrameBufferView =
      (stageRenderPass w v d).2.nextHandle + 2 + 2 * 1 + 1 ∧
    (afterRebuild w v d).1.backBufferHorizontal =
      (stageRenderPass w v d).2.nextHandle + 2 + 2 * 2 ∧
    (afterRebuild w v d).1.backBufferViewHorizontal =
      (stageRenderPass w v d).2.nextHandle + 2 + 2 * 2 + 1 ∧
    (afterRebuild w v d).1.backBufferVertical = (stageRenderPass w v d).2.nextHandle + 2 + 2 * 3 ∧
    (afterRebuild w v d).1.backBufferViewVertical =
      (stageRenderPass w v d).2.nextHandle + 2 + 2 * 3 + 1 ∧
    (afterRebuild w v d).1.pipe = (stageFramebuffers w v d).2.nextHandle + 2 ∧
    (afterRebuild w v d).1.pipe_filter_bright = (stageFramebuffers w v d).2.nextHandle + 5 ∧
    (afterRebuild w v d).1.postPipe = (stageFramebuffers w v d).2.nextHandle + 8 ∧
    (afterRebuild w v d).1.filterHorizontalPipe = (stageFramebuffers w v d).2.nextHandle + 11 ∧
    (afterRebuild w v d).1.filterVerticalPipe = (stageFramebuffers w v d).2.nextHandle + 14 := by
  simp [afterRebuild_vars, stagePipelines_vars, stageFramebuffers_vars,
    stageTargets_vars, hs, Nat.add_assoc]

/-- C12: whatever its outcome, the rebuild block creates an image, an image
view, a shader module or a pipeline only if `recreate_swapchain` reported
`changedSize`; whenever the block returns, the fifteen variables (depth buffer,
the four offscreen colour targets as image and view, the five pipelines) are
unchanged if `changedSize` was not reported, and otherwise hold fifteen
distinct handles created during the rebuild, behind which are the depth image
and view and the colour images and views of `create_depth_buffer` and
`create_offine_image_view` for the new window and the five pipelines of the
`create_*_pipeline` functions for the new window, every handle they replaced
being destroyed. -/
theorem rebuild_remakes_targets_and_pipelines_iff_size (w : World) (v : MainVars) (d : Device) :
    (∀ e ∈ (rebuild w v d).1, ∀ o res h, e = .create o res h →
      (o.isTarget || o.isPipelinePart) = true → (reportedChanges w v).changedSize = true) ∧
    (∀ v2 d2, (rebuild w v d).2 = .done v2 d2 →
      ((reportedChanges w v).changedSize = false → v2.sizeDependent = v.sizeDependent) ∧
      ((reportedChanges w v).changedSize = true →
        v2.sizeDependent.Nodup ∧ (∀ h ∈ v2.sizeDependent, d.nextHandle ≤ h) ∧
        (∀ old ∈ v.sizeDependent, old ≠ 0 → old ∈ d2.destroyed) ∧
        d2.object v2.depthBuffer = some (.image (depthImageInfo v2.window)) ∧
        d2.object v2.depthBufferView =
          some (.imageView { image := v2.depthBuffer, format := kDepthFormat,
                             aspectMask := VK_IMAGE_ASPECT_DEPTH_BIT }) ∧
        (∀ p ∈ [(v2.backBuffer, v2.backBufferView), (v2.backFrameBuffer, v2.backFrameBufferView),
            (v2.backBufferHorizontal, v2.backBufferViewHorizontal),
            (v2.backBufferVertical, v2.backBufferViewVertical)],
          d2.object p.1 = some (.image (offscreenImageInfo v2.window)) ∧
          d2.object p.2 =
            some (.imageView { image := p.1, format := v2.window.swapchainFormat,
                               aspectMask := VK_IMAGE_ASPECT_COLOR_BIT })) ∧
        d2.HasPipeline w v2.pipe v2.window cfg.kVertShaderPath cfg.kFragShaderPath 5 5
          VK_CULL_MODE_BACK_BIT v2.offlineRenderPass v2.pipeLayout ∧
        d2.HasPipeline w v2.pipe_filter_bright v2.window cfg.kfilterBrightVertPath
          cfg.kfilterBrightFragPath 5 5 VK_CULL_MODE_BACK_BIT v2.offlineRenderPass v2.pipeLayout ∧
        d2.HasPipeline w v2.postPipe v2.window cfg.kPostProcessinVertgPath
          cfg.kPostProcessingFragPath 0 0 VK_CULL_MODE_FRONT_BIT v2.renderPass v2.postPipeLayout ∧
        d2.HasPipeline w v2.filterHorizontalPipe v2.window cfg.kHorizontalFilterVertPath
          cfg.kHorizontalFilterFragPath 0 0 VK_CULL_MODE_FRONT_BIT v2.renderPass
          v2.postPipeLayout ∧
        d2.HasPipeline w v2.filterVerticalPipe v2.window cfg.kVerticalFilterVertPath
          cfg.kVerticalFilterFragPath 0 0 VK_CULL_MODE_FRONT_BIT v2.renderPass
          v2.postPipeLayout)) := by
  obtain ⟨rest, hrest, hall⟩ := rebuild_census w v d
  refine ⟨?_, ?_⟩
  · intro e he o res h heq ho
    subst heq
    rw [hrest] at he
    simp only [List.mem_cons] at he
    rcases he with he | he | he
    · cases he
    · cases he
    · have := hall _ he
      cases o <;>
        simp [Event.isResourceOp, rebuildAllowed, Object.isSwapchainPart, Object.isFramebuffer,
          Object.isRenderPass, Object.isTarget, Object.isPipelinePart] at this ho ⊢ <;>
        exact this
  · intro v2 d2 hdone
    obtain ⟨rfl, rfl⟩ := rebuild_post w v d v2 d2 hdone
    refine ⟨afterRebuild_sizeDependent_unchanged w v d, fun hs => ?_⟩
    have hn : (stageTargets w v d).2.nextHandle = (stageRenderPass w v d).2.nextHandle + 10 := by
      rw [stageTargets_nextHandle, if_pos hs]
    have hp : (stageRenderPass w v d).2.nextHandle + 14 ≤ (stageFramebuffers w v d).2.nextHandle := by
      rw [stageFramebuffers_nextHandle, hn]
      exact Nat.le_add_right _ _
    have h0 := start_to_stageRenderPass w v d
    obtain ⟨t1, t2, t3, t4⟩ := stageTargets_changed w v d hs
    obtain ⟨p1, p2, p3, p4, p5, p6⟩ := stagePipelines_changed w v d hs
    have hv := afterRebuild_sizeDependent_changed w v d hs
    have lift : ∀ k : Nat, k < 10 →
        (afterRebuild w v d).2.object ((stageRenderPass w v d).2.nextHandle + k) =
          (stageTargets w v d).2.object ((stageRenderPass w v d).2.nextHandle + k) :=
      fun k hk => grows_object (stageTargets_to_end w v d)
        (by rw [hn]; exact Nat.add_lt_add_left hk _)
    obtain ⟨e0, e1, e2, e3, e4, e5, e6, e7, e8, e9, e10, e11, e12, e13, e14⟩ :=
      afterRebuild_changedSize_vars w v d hs
    have l0 := lift 0 (by decide)
    have l1 := lift 1 (by decide)
    have q0 := t3 0 (by decide)
    have q1 := t3 1 (by decide)
    have q2 := t3 2 (by decide)
    have q3 := t3 3 (by decide)
    have l2 := lift (2 + 2 * 0) (by decide)
    have l3 := lift (2 + 2 * 0 + 1) (by decide)
    have l4 := lift (2 + 2 * 1) (by decide)
    have l5 := lift (2 + 2 * 1 + 1) (by decide)
    have l6 := lift (2 + 2 * 2) (by decide)
    have l7 := lift (2 + 2 * 2 + 1) (by decide)
    have l8 := lift (2 + 2 * 3) (by decide)
    have l9 := lift (2 + 2 * 3 + 1) (by decide)
    simp only [Nat.add_zero, ← Nat.add_assoc] at l0 l1 l2 l3 l4 l5 l6 l7 l8 l9
    refine ⟨?_, ?_, ?_, ?_, ?_, ?_, ?_, ?_, ?_, ?_, ?_⟩
    · rw [hv]
      exact fifteen_nodup _ _ hp
    · rw [hv]
      exact fifteen_ge _ _ _ h0 hp
    · intro old hold hne
      simp only [MainVars.sizeDependent, List.mem_cons, List.mem_singleton, List.not_mem_nil,
        or_false] at hold
      rcases hold with h | h | h | h | h | h | h | h | h | h | h | h | h | h | h
      · exact grows_destroyed (stageTargets_to_end w v d) (t4 old (by simp [h]) hne)
      · exact grows_destroyed (stageTargets_to_end w v d) (t4 old (by simp [h]) hne)
      · exact grows_destroyed (stageTargets_to_end w v d) (t4 old (by simp [h]) hne)
      · exact grows_destroyed (stageTargets_to_end w v d) (t4 old (by simp [h]) hne)
      · exact grows_destroyed (stageTargets_to_end w v d) (t4 old (by simp [h]) hne)
      · exact grows_destroyed (stageTargets_to_end w v d) (t4 old (by simp [h]) hne)
      · exact grows_destroyed (stageTargets_to_end w v d) (t4 old (by simp [h]) hne)
      · exact grows_destroyed (stageTargets_to_end w v d) (t4 old (by simp [h]) hne)
      · exact grows_destroyed (stageTargets_to_end w v d) (t4 old (by simp [h]) hne)
      · exact grows_destroyed (stageTargets_to_end w v d) (t4 old (by simp [h]) hne)
      · exact p6 old (by simp [h]) hne
      · exact p6 old (by simp [h]) hne
      · exact p6 old (by simp [h]) hne
      · exact p6 old (by simp [h]) hne
      · exact p6 old (by simp [h]) hne
    · rw [e0, l0]; exact t1
    · rw [e1, e0, l1]; exact t2
    · intro p hp2
      simp only [List.mem_cons, List.mem_singleton, List.not_mem_nil, or_false] at hp2
      rcases hp2 with rfl | rfl | rfl | rfl
      · simp only [e2, e3]
        rw [l2, l3]
        exact q0
      · simp only [e4, e5]
        rw [l4, l5]
        exact q1
      · simp only [e6, e7]
        rw [l6, l7]
        exact q2
      · simp only [e8, e9]
        rw [l8, l9]
        exact q3
    · rw [e10]; exact p1
    · rw [e11]; exact p2
    · rw [e12]; exact p3
    · rw [e13]; exact p4
    · rw [e14]; exact p5

theorem rebuild_remakes_targets_and_pipelines_iff_size_witness :
    ∃ v2 d2, (rebuild World.resized sampleVars sampleDevice).2 = .done v2 d2 ∧
      (reportedChanges World.resized sampleVars).changedSize = true ∧
      v2.sizeDependent.Nodup ∧ (∀ h ∈ v2.sizeDependent, 100 ≤ h) ∧
      (∀ old ∈ sampleVars.sizeDependent, old ∈ d2.destroyed) ∧
      d2.object v2.depthBuffer = some (.image (depthImageInfo v2.window)) := by
  have hdone := rebuild_outcome World.resized allOk_creationSucceeds sampleVars sampleDevice
  have h := (rebuild_remakes_targets_and_pipelines_iff_size World.resized sampleVars
    sampleDevice).2 _ _ hdone
  have hs : (reportedChanges World.resized sampleVars).changedSize = true := by decide
  obtain ⟨h1, h2, h3, h4, _⟩ := h.2 hs
  refine ⟨_, _, hdone, hs, h1, h2, fun old hold => h3 old hold ?_, h4⟩
  intro h0
  subst h0
  revert hold
  decide

theorem frame_slot_missing (w : World) (bd : BufferBarrierDefaults) (v : MainVars) (i : Nat)
    (d : Device) (h : v.cbfences.length ≤ i) :
    frame w bd v i d = ([], .fault (.assertion "std::size_t(imageIndex) < cbfences.size()")) := by
  have hb : decide (i < v.cbfences.length) = false := by
    simp only [decide_eq_false_iff_not, Nat.not_lt]
    exact h
  unfold frame
  simp only [Exec.bind_eq, hb]
  rfl

theorem afterRebuild_framebuffers_length (w : World) (v : MainVars) (d : Device) :
    (afterRebuild w v d).1.framebuffers.length = w.swapImageCount := by
  rw [afterRebuild_vars, stagePipelines_vars]
  split <;>
    simp [stageFramebuffers_vars, stageTargets_window, stageSwapchain_swapViews_length]

theorem afterRebuild_flag (w : World) (v : MainVars) (d : Device) :
    (afterRebuild w v d).1.recreateSwapchain = false := by
  rw [afterRebuild_vars]

/-- C15: in a rebuild in which `recreate_swapchain` reports a change of format
but not of size, no shader module and no pipeline is created, whatever the
outcome; and whenever the block returns, the five pipeline variables hold the
handles they held before, while the present render pass is a handle created
during the rebuild and the render pass the pipelines were built against is
destroyed. -/
theorem format_change_alone_rebuilds_no_pipeline (w : World) (v : MainVars) (d : Device)
    (hf : (reportedChanges w v).changedFormat = true)
    (hs : (reportedChanges w v).changedSize = false) :
    (∀ e ∈ (rebuild w v d).1, ∀ o res h, e = .create o res h → o.isPipelinePart = false) ∧
    (∀ v2 d2, (rebuild w v d).2 = .done v2 d2 →
      v2.pipe = v.pipe ∧ v2.pipe_filter_bright = v.pipe_filter_bright ∧
      v2.postPipe = v.postPipe ∧ v2.filterHorizontalPipe = v.filterHorizontalPipe ∧
      v2.filterVerticalPipe = v.filterVerticalPipe ∧
      d.nextHandle ≤ v2.renderPass ∧
      d2.object v2.renderPass = some (.renderPass (presentPassInfo v2.window)) ∧
      v2.window.swapchainFormat = w.swapchainFormat ∧
      w.swapchainFormat ≠ v.window.swapchainFormat ∧
      (v.renderPass ≠ 0 → v.renderPass ∈ d2.destroyed)) := by
  obtain ⟨rest, hrest, hall⟩ := rebuild_census w v d
  refine ⟨?_, ?_⟩
  · intro e he o res h heq
    subst heq
    rw [hrest] at he
    simp only [List.mem_cons] at he
    rcases he with he | he | he
    · cases he
    · cases he
    · have := hall _ he
      cases o <;>
        simp [Event.isResourceOp, rebuildAllowed, Object.isSwapchainPart, Object.isFramebuffer,
          Object.isRenderPass, Object.isTarget, Object.isPipelinePart, hs] at this ⊢
  · intro v2 d2 hdone
    obtain ⟨rfl, rfl⟩ := rebuild_post w v d v2 d2 hdone
    have hu := afterRebuild_sizeDependent_unchanged w v d hs
    simp only [MainVars.sizeDependent, List.cons.injEq, and_true] at hu
    obtain ⟨_, _, _, _, _, _, _, _, _, _, u1, u2, u3, u4, u5⟩ := hu
    obtain ⟨h1, h2, h3, h4⟩ := stageRenderPass_changed w v d hf
    refine ⟨u1, u2, u3, u4, u5, ?_, ?_, ?_, ?_, fun hne => ?_⟩
    · rw [afterRebuild_renderPass_eq, h1]
      exact start_to_stageSwapchain w v d
    · rw [afterRebuild_renderPass_eq, afterRebuild_window, h1,
        grows_object (stageRenderPass_to_end w v d) (by rw [h2]; exact Nat.lt_succ_self _)]
      exact h3
    · rw [afterRebuild_window, stageSwapchain_vars]
    · simpa [reportedChanges] using hf
    · exact grows_destroyed (stageRenderPass_to_end w v d) (h4 hne)

theorem format_change_alone_rebuilds_no_pipeline_witness :
    ∃ v2 d2, (rebuild World.newFormat sampleVars sampleDevice).2 = .done v2 d2 ∧
      v2.postPipe = sampleVars.postPipe ∧ 100 ≤ v2.renderPass ∧
      sampleVars.renderPass ∈ d2.destroyed := by
  have hdone := rebuild_outcome World.newFormat allOk_creationSucceeds sampleVars sampleDevice
  have h := (format_change_alone_rebuilds_no_pipeline World.newFormat sampleVars sampleDevice
    (by decide) (by decide)).2 _ _ hdone
  exact ⟨_, _, hdone, h.2.2.1, h.2.2.2.2.2.1, h.2.2.2.2.2.2.2.2.2 (by decide)⟩

/-- C16: a rebuild that returns leaves the vector of command buffers and the
vector of fences as they were, while the vector of swapchain framebuffers gets
one element per image of the new swapchain; so when the new swapchain has more
images than there are fences, the next iteration that acquires an image whose
index is not below the number of fences ends at the first index check, before
any call of the frame. -/
theorem rebuild_keeps_command_buffers_and_fences (w w2 : World) (bd : BufferBarrierDefaults)
    (v : MainVars) (d : Device) (v2 : MainVars) (d2 : Device)
    (hdone : (rebuild w v d).2 = .done v2 d2) :
    v2.cbuffers = v.cbuffers ∧ v2.cbfences = v.cbfences ∧
    v2.framebuffers.length = w.swapImageCount ∧
    (w2.result .vkAcquireNextImageKHR = VK_SUCCESS → v.cbfences.length ≤ w2.imageIndex →
      mainLoopBody w2 bd v2 d2 =
        (iterationHead w2 v2,
          .fault (.assertion "std::size_t(imageIndex) < cbfences.size()"))) := by
  obtain ⟨rfl, rfl⟩ := rebuild_post w v d v2 d2 hdone
  obtain ⟨h1, h2, _⟩ := afterRebuild_untouched w v d
  refine ⟨h1, h2, afterRebuild_framebuffers_length w v d, fun ha hi => ?_⟩
  rw [mainLoopBody_frame w2 bd _ _ (afterRebuild_flag w v d) ha,
    frame_slot_missing w2 bd _ _ _ (by rw [h2]; exact hi)]
  simp

/-- With two fences and a new swapchain of three images, acquiring the third
image ends the iteration at the first index check. -/
theorem rebuild_keeps_command_buffers_and_fences_witness :
    ∃ v2 d2, (rebuild World.threeImages sampleVars sampleDevice).2 = .done v2 d2 ∧
      v2.cbfences.length = 2 ∧ v2.cbuffers.length = 2 ∧ v2.framebuffers.length = 3 ∧
      (mainLoopBody { World.allOk with imageIndex := 2 } sampleDefaults v2 d2).2 =
        .fault (.assertion "std::size_t(imageIndex) < cbfences.size()") := by
  have hdone := rebuild_outcome World.threeImages allOk_creationSucceeds sampleVars sampleDevice
  obtain ⟨h1, h2, h3, h4⟩ := rebuild_keeps_command_buffers_and_fences World.threeImages
    { World.allOk with imageIndex := 2 } sampleDefaults sampleVars sampleDevice _ _ hdone
  refine ⟨_, _, hdone, by rw [h2]; rfl, by rw [h1]; rfl, h3, ?_⟩
  rw [h4 rfl (by decide)]

theorem afterRebuildFramebuffers_wired (v : MainVars) (d : Device) :
    (afterRebuildFramebuffers v d).2.attachments d.nextHandle =
      some [v.backFrameBufferView, v.depthBufferView] ∧
    (afterRebuildFramebuffers v d).2.attachments (d.nextHandle + 1) =
      some [v.backBufferView, v.depthBufferView] ∧
    (afterRebuildFramebuffers v d).2.attachments (d.nextHandle + 2) =
      some [v.backBufferViewHorizontal, v.depthBufferView] ∧
    (afterRebuildFramebuffers v d).2.attachments (d.nextHandle + 3) =
      some [v.backBufferViewVertical, v.depthBufferView] ∧
    (∀ i : Nat, i < v.window.swapViews.length →
      (afterRebuildFramebuffers v d).2.attachments (d.nextHandle + 4 + i) =
        some [v.window.swapViews.getD i 0, v.depthBufferView]) ∧
    (afterRebuildFramebuffers v d).2.descriptorWrites =
      [textureWrite v.backBufferBrightVertical v.backBufferViewVertical v.filterSampler,
       textureWrite v.backBufferBrightHorizontal v.backBufferViewHorizontal v.filterSampler,
       textureWrite v.backBufferDescriptor v.backBufferView v.filterSampler,
       textureWrite v.backFrameBufferDescriptor v.backFrameBufferView v.filterSampler] ++
      d.descriptorWrites := by
  unfold afterRebuildFramebuffers
  refine ⟨?_, ?_, ?_, ?_, ?_, ?_⟩
  · simp only [Device.attachments, object_write]
    rw [object_allocs_lt _ _ _ (by simp [Nat.add_assoc])]
    simp [object_alloc, Nat.add_assoc, framebufferInfo]
  · simp only [Device.attachments, object_write]
    rw [object_allocs_lt _ _ _ (by simp [Nat.add_assoc])]
    simp [object_alloc, Nat.add_assoc, framebufferInfo]
  · simp only [Device.attachments, object_write]
    rw [object_allocs_lt _ _ _ (by simp [Nat.add_assoc])]
    simp [object_alloc, Nat.add_assoc, framebufferInfo]
  · simp only [Device.attachments, object_write]
    rw [object_allocs_lt _ _ _ (by simp [Nat.add_assoc])]
    simp [object_alloc, Nat.add_assoc, framebufferInfo]
  · intro i hi
    have hget : ((List.range' 0 v.window.swapViews.length).map (fun i =>
        Object.framebuffer (framebufferInfo v.window v.renderPass (v.window.swapViews.getD i 0)
          v.depthBufferView))).get? i =
        some (Object.framebuffer (framebufferInfo v.window v.renderPass
          (v.window.swapViews.getD i 0) v.depthBufferView)) := by
      simp [List.getElem?_range', hi]
    have := object_allocs_new _ (((((((((d.alloc (.framebuffer (framebufferInfo v.window
      v.offlineRenderPass v.backFrameBufferView v.depthBufferView))).free v.backFramebuffer).alloc
      (.framebuffer (framebufferInfo v.window v.offlineRenderPass v.backBufferView
      v.depthBufferView))).free v.temp_framebuffer).alloc (.framebuffer (framebufferInfo v.window
      v.offlineRenderPass v.backBufferViewHorizontal v.depthBufferView))).free
      v.temp_framebuffer_horizontal).alloc (.framebuffer (framebufferInfo v.window
      v.offlineRenderPass v.backBufferViewVertical v.depthBufferView))).free
      v.temp_framebuffer_vertical).frees v.framebuffers) i _ hget
    simp only [nextHandle_frees, nextHandle_free, nextHandle_alloc, Nat.add_assoc,
      Nat.reduceAdd] at this
    simp only [Device.attachments, object_write, Nat.add_assoc, this]
    simp [framebufferInfo]
  · simp [descriptorWrites_write]

theorem stageTargets_descriptorWrites (w : World) (v : MainVars) (d : Device) :
    (stageTargets w v d).2.descriptorWrites = d.descriptorWrites := by
  unfold stageTargets afterRebuildTargets stageRenderPass afterRebuildRenderPass stageSwapchain
    afterRecreateSwapchain
  split <;> split <;> simp [afterImagePair]

theorem stageTargets_bindings (w : World) (v : MainVars) (d : Device) :
    (stageTargets w v d).1.backFrameBufferDescriptor = v.backFrameBufferDescriptor ∧
    (stageTargets w v d).1.backBufferDescriptor = v.backBufferDescriptor ∧
    (stageTargets w v d).1.backBufferBrightHorizontal = v.backBufferBrightHorizontal ∧
    (stageTargets w v d).1.backBufferBrightVertical = v.backBufferBrightVertical ∧
    (stageTargets w v d).1.filterSampler = v.filterSampler := by
  rw [stageTargets_vars]
  split <;> simp [stageRenderPass_vars, stageSwapchain_vars]

theorem afterRebuild_wiring_vars (w : World) (v : MainVars) (d : Device) :
    (afterRebuild w v d).1.depthBufferView = (stageTargets w v d).1.depthBufferView ∧
    (afterRebuild w v d).1.backFrameBufferView = (stageTargets w v d).1.backFrameBufferView ∧
    (afterRebuild w v d).1.backBufferView = (stageTargets w v d).1.backBufferView ∧
    (afterRebuild w v d).1.backBufferViewHorizontal =
      (stageTargets w v d).1.backBufferViewHorizontal ∧
    (afterRebuild w v d).1.backBufferViewVertical =
      (stageTargets w v d).1.backBufferViewVertical ∧
    (afterRebuild w v d).1.window = (stageTargets w v d).1.window ∧
    (afterRebuild w v d).1.backFramebuffer = (stageTargets w v d).2.nextHandle ∧
    (afterRebuild w v d).1.temp_framebuffer = (stageTargets w v d).2.nextHandle + 1 ∧
    (afterRebuild w v d).1.temp_framebuffer_horizontal = (stageTargets w v d).2.nextHandle + 2 ∧
    (afterRebuild w v d).1.temp_framebuffer_vertical = (stageTargets w v d).2.nextHandle + 3 ∧
    (afterRebuild w v d).1.framebuffers =
      List.range' ((stageTargets w v d).2.nextHandle + 4)
        (stageTargets w v d).1.window.swapViews.length := by
  rw [afterRebuild_vars, stagePipelines_vars]
  split <;> simp [stageFramebuffers_vars]

theorem sampledView_of_writes (d : Device) (s1 s2 s3 s4 v1 v2 v3 v4 sampler : Handle)
    (rest : List VkWriteDescriptorSet)
    (hw : d.descriptorWrites =
      [textureWrite s4 v4 sampler, textureWrite s3 v3 sampler, textureWrite s2 v2 sampler,
       textureWrite s1 v1 sampler] ++ rest)
    (hnd : [s1, s2, s3, s4].Nodup) :
    d.sampledView s1 = some v1 ∧ d.sampledView s2 = some v2 ∧ d.sampledView s3 = some v3 ∧
      d.sampledView s4 = some v4 := by
  simp only [List.nodup_cons, List.mem_cons, List.mem_singleton, List.not_mem_nil, or_false,
    not_or, List.nodup_nil, and_true, not_false_eq_true] at hnd
  obtain ⟨⟨h12, h13, h14⟩, ⟨h23, h24⟩, h34⟩ := hnd
  have h21 : ¬ s2 = s1 := fun h => h12 h.symm
  have h31 : ¬ s3 = s1 := fun h => h13 h.symm
  have h41 : ¬ s4 = s1 := fun h => h14 h.symm
  have h32 : ¬ s3 = s2 := fun h => h23 h.symm
  have h42 : ¬ s4 = s2 := fun h => h24 h.symm
  have h43 : ¬ s4 = s3 := fun h => h34 h.symm
  unfold Device.sampledView
  rw [hw]
  refine ⟨?_, ?_, ?_, ?_⟩ <;>
    simp [textureWrite, List.find?, h12, h13, h14, h23, h24, h34, h21, h31, h41, h32, h42, h43]

theorem attachments_grows {d d1 : Device} (hg : d.Grows d1) {k : Handle} (hk : k < d.nextHandle) :
    d1.attachments k = d.attachments k := by
  unfold Device.attachments
  rw [grows_object hg hk]

theorem stageFramebuffers_wired (w : World) (v : MainVars) (d : Device) :
    (stageFramebuffers w v d).2.attachments (stageTargets w v d).2.nextHandle =
      some [(stageTargets w v d).1.backFrameBufferView, (stageTargets w v d).1.depthBufferView] ∧
    (stageFramebuffers w v d).2.attachments ((stageTargets w v d).2.nextHandle + 1) =
      some [(stageTargets w v d).1.backBufferView, (stageTargets w v d).1.depthBufferView] ∧
    (stageFramebuffers w v d).2.attachments ((stageTargets w v d).2.nextHandle + 2) =
      some [(stageTargets w v d).1.backBufferViewHorizontal,
        (stageTargets w v d).1.depthBufferView] ∧
    (stageFramebuffers w v d).2.attachments ((stageTargets w v d).2.nextHandle + 3) =
      some [(stageTargets w v d).1.backBufferViewVertical,
        (stageTargets w v d).1.depthBufferView] ∧
    (∀ i : Nat, i < (stageTargets w v d).1.window.swapViews.length →
      (stageFramebuffers w v d).2.attachments ((stageTargets w v d).2.nextHandle + 4 + i) =
        some [(stageTargets w v d).1.window.swapViews.getD i 0,
          (stageTargets w v d).1.depthBufferView]) ∧
    (stageFramebuffers w v d).2.descriptorWrites =
      [textureWrite (stageTargets w v d).1.backBufferBrightVertical
         (stageTargets w v d).1.backBufferViewVertical (stageTargets w v d).1.filterSampler,
       textureWrite (stageTargets w v d).1.backBufferBrightHorizontal
         (stageTargets w v d).1.backBufferViewHorizontal (stageTargets w v d).1.filterSampler,
       textureWrite (stageTargets w v d).1.backBufferDescriptor
         (stageTargets w v d).1.backBufferView (stageTargets w v d).1.filterSampler,
       textureWrite (stageTargets w v d).1.backFrameBufferDescriptor
         (stageTargets w v d).1.backFrameBufferView (stageTargets w v d).1.filterSampler] ++
      (stageTargets w v d).2.descriptorWrites :=
  afterRebuildFramebuffers_wired (stageTargets w v d).1 (stageTargets w v d).2

theorem afterRebuild_descriptorWrites_eq (w : World) (v : MainVars) (d : Device) :
    (afterRebuild w v d).2.descriptorWrites = (stageFramebuffers w v d).2.descriptorWrites := by
  rw [afterRebuild_device]
  exact afterRebuildPipelines_descriptorWrites _ _ _ _

/-- The wiring at the end of a rebuild, on the variables and the driver state
it leaves. -/
theorem afterRebuild_wired (w : World) (v : MainVars) (d : Device) :
    (afterRebuild w v d).2.descriptorWrites =
      [textureWrite (afterRebuild w v d).1.backBufferBrightVertical
         (afterRebuild w v d).1.backBufferViewVertical (afterRebuild w v d).1.filterSampler,
       textureWrite (afterRebuild w v d).1.backBufferBrightHorizontal
         (afterRebuild w v d).1.backBufferViewHorizontal (afterRebuild w v d).1.filterSampler,
       textureWrite (afterRebuild w v d).1.backBufferDescriptor
         (afterRebuild w v d).1.backBufferView (afterRebuild w v d).1.filterSampler,
       textureWrite (afterRebuild w v d).1.backFrameBufferDescriptor
         (afterRebuild w v d).1.backFrameBufferView (afterRebuild w v d).1.filterSampler] ++
      d.descriptorWrites ∧
    (afterRebuild w v d).2.attachments (afterRebuild w v d).1.backFramebuffer =
      some [(afterRebuild w v d).1.backFrameBufferView, (afterRebuild w v d).1.depthBufferView] ∧
    (afterRebuild w v d).2.attachments (afterRebuild w v d).1.temp_framebuffer =
      some [(afterRebuild w v d).1.backBufferView, (afterRebuild w v d).1.depthBufferView] ∧
    (afterRebuild w v d).2.attachments (afterRebuild w v d).1.temp_framebuffer_horizontal =
      some [(afterRebuild w v d).1.backBufferViewHorizontal,
        (afterRebuild w v d).1.depthBufferView] ∧
    (afterRebuild w v d).2.attachments (afterRebuild w v d).1.temp_framebuffer_vertical =
      some [(afterRebuild w v d).1.backBufferViewVertical,
        (afterRebuild w v d).1.depthBufferView] ∧
    (afterRebuild w v d).1.framebuffers.length = (afterRebuild w v d).1.window.swapViews.length ∧
    (∀ i : Nat, i < (afterRebuild w v d).1.window.swapViews.length →
      (afterRebuild w v d).2.attachments ((afterRebuild w v d).1.framebuffers.getD i 0) =
        some [(afterRebuild w v d).1.window.swapViews.getD i 0,
          (afterRebuild w v d).1.depthBufferView]) := by
  obtain ⟨a1, a2, a3, a4, a5, a6⟩ := stageFramebuffers_wired w v d
  obtain ⟨e1, e2, e3, e4, e5, e6, e7, e8, e9, e10, e11⟩ := afterRebuild_wiring_vars w v d
  obtain ⟨b1, b2, b3, b4, b5⟩ := stageTargets_bindings w v d
  obtain ⟨_, _, u1, u2, u3, u4, _, u5, _⟩ := afterRebuild_untouched w v d
  have hnext := stageFramebuffers_nextHandle w v d
  have lift : ∀ k : Nat, k < 4 + (stageTargets w v d).1.window.swapViews.length →
      (afterRebuild w v d).2.attachments ((stageTargets w v d).2.nextHandle + k) =
        (stageFramebuffers w v d).2.attachments ((stageTargets w v d).2.nextHandle + k) :=
    fun k hk => attachments_grows (stageFramebuffers_to_end w v d)
      (by rw [hnext, Nat.add_assoc]; exact Nat.add_lt_add_left hk _)
  have l0 := lift 0 (Nat.lt_of_lt_of_le (by decide) (Nat.le_add_right _ _))
  have l1 := lift 1 (Nat.lt_of_lt_of_le (by decide) (Nat.le_add_right _ _))
  have l2 := lift 2 (Nat.lt_of_lt_of_le (by decide) (Nat.le_add_right _ _))
  have l3 := lift 3 (Nat.lt_of_lt_of_le (by decide) (Nat.le_add_right _ _))
  rw [Nat.add_zero] at l0
  refine ⟨?_, ?_, ?_, ?_, ?_, ?_, ?_⟩
  · rw [afterRebuild_descriptorWrites_eq, a6, stageTargets_descriptorWrites, e2, e3, e4, e5,
      u1, u2, u3, u4, u5, b1, b2, b3, b4, b5]
  · rw [e7, e1, e2, l0]; exact a1
  · rw [e8, e1, e3, l1]; exact a2
  · rw [e9, e1, e4, l2]; exact a3
  · rw [e10, e1, e5, l3]; exact a4
  · rw [e11, e6, List.length_range']
  · intro i hi
    rw [e6] at hi
    have hget : (List.range' ((stageTargets w v d).2.nextHandle + 4)
        (stageTargets w v d).1.window.swapViews.length).getD i 0 =
        (stageTargets w v d).2.nextHandle + 4 + i := by
      simp [List.getD, List.getElem?_range', hi]
    rw [e11, e1, e6, hget, Nat.add_assoc, lift (4 + i) (Nat.add_lt_add_left hi _), ← Nat.add_assoc]
    exact a5 i hi

theorem afterRebuild_views_unchanged (w : World) (v : MainVars) (d : Device)
    (hs : (reportedChanges w v).changedSize = false) :
    [(afterRebuild w v d).1.depthBufferView, (afterRebuild w v d).1.backFrameBufferView,
      (afterRebuild w v d).1.backBufferView, (afterRebuild w v d).1.backBufferViewHorizontal,
      (afterRebuild w v d).1.backBufferViewVertical] =
    [v.depthBufferView, v.backFrameBufferView, v.backBufferView, v.backBufferViewHorizontal,
      v.backBufferViewVertical] := by
  have hu := afterRebuild_sizeDependent_unchanged w v d hs
  simp only [MainVars.sizeDependent, List.cons.injEq, and_true] at hu
  obtain ⟨_, h1, _, h2, _, h3, _, h4, _, h5, _⟩ := hu
  rw [h1, h2, h3, h4, h5]

theorem afterRebuild_views_fresh (w : World) (v : MainVars) (d : Device)
    (hs : (reportedChanges w v).changedSize = true) :
    ∀ h ∈ [(afterRebuild w v d).1.depthBufferView, (afterRebuild w v d).1.backFrameBufferView,
      (afterRebuild w v d).1.backBufferView, (afterRebuild w v d).1.backBufferViewHorizontal,
      (afterRebuild w v d).1.backBufferViewVertical], d.nextHandle ≤ h := by
  obtain ⟨_, e1, _, e3, _, e5, _, e7, _, e9, _⟩ := afterRebuild_changedSize_vars w v d hs
  have h0 := start_to_stageRenderPass w v d
  intro h hh
  simp only [List.mem_cons, List.mem_singleton, List.not_mem_nil, or_false] at hh
  have ge : ∀ a b c : Handle, a ≤ b → a ≤ b + 2 + c + 1 := fun a b c hab =>
    Nat.le_trans hab (Nat.le_trans (Nat.le_add_right b 2)
      (Nat.le_trans (Nat.le_add_right (b + 2) c) (Nat.le_add_right (b + 2 + c) 1)))
  rcases hh with rfl | rfl | rfl | rfl | rfl
  · rw [e1]; exact Nat.le_trans h0 (Nat.le_add_right _ _)
  · rw [e5]; exact ge _ _ (2 * 1) h0
  · rw [e3]; exact ge _ _ (2 * 0) h0
  · rw [e7]; exact ge _ _ (2 * 2) h0
  · rw [e9]; exact ge _ _ (2 * 3) h0

theorem afterRebuild_framebuffers_fresh (w : World) (v : MainVars) (d : Device) :
    ∀ h ∈ [(afterRebuild w v d).1.backFramebuffer, (afterRebuild w v d).1.temp_framebuffer,
      (afterRebuild w v d).1.temp_framebuffer_horizontal,
      (afterRebuild w v d).1.temp_framebuffer_vertical] ++ (afterRebuild w v d).1.framebuffers ++
      (afterRebuild w v d).1.window.swapViews, d.nextHandle ≤ h := by
  obtain ⟨_, _, _, _, _, _, e7, e8, e9, e10, e11⟩ := afterRebuild_wiring_vars w v d
  have h0 := start_to_stageTargets w v d
  intro h hh
  rw [e7, e8, e9, e10, e11, afterRebuild_window, stageSwapchain_vars] at hh
  simp only [List.mem_append, List.mem_cons, List.mem_singleton, List.not_mem_nil, or_false,
    List.mem_range'_1] at hh
  rcases hh with (((rfl | rfl | rfl | rfl) | hh) | hh)
  · exact h0
  · exact Nat.le_trans h0 (Nat.le_add_right _ _)
  · exact Nat.le_trans h0 (Nat.le_add_right _ _)
  · exact Nat.le_trans h0 (Nat.le_add_right _ _)
  · exact Nat.le_trans h0 (Nat.le_trans (Nat.le_add_right _ _) hh.1)
  · exact Nat.le_trans (Nat.le_add_right _ _) hh.1

/-- C13: whenever the rebuild block returns, whatever `recreate_swapchain`
reported: the four texture descriptor set variables hold the handles they held
before; the block has written, to exactly these four sets, the current view of
the offscreen target of each (so each set, the four being distinct, refers to
that view); behind each of the four offscreen framebuffer variables is a
framebuffer whose attachments are the current view of its target and the
current depth view; the swapchain framebuffer vector has one element per
swapchain image view, element `i` attached to view `i` and the current depth
view; every framebuffer and swapchain view was created during this rebuild, and
the offscreen and depth views referred to are the ones created during this
rebuild if the size changed and the views of before otherwise. -/
theorem rebuild_rewires_descriptor_sets_and_framebuffers (w : World) (v : MainVars) (d : Device)
    (v2 : MainVars) (d2 : Device) (hdone : (rebuild w v d).2 = .done v2 d2) :
    (v2.backFrameBufferDescriptor = v.backFrameBufferDescriptor ∧
      v2.backBufferDescriptor = v.backBufferDescriptor ∧
      v2.backBufferBrightHorizontal = v.backBufferBrightHorizontal ∧
      v2.backBufferBrightVertical = v.backBufferBrightVertical) ∧
    d2.descriptorWrites =
      [textureWrite v2.backBufferBrightVertical v2.backBufferViewVertical v2.filterSampler,
       textureWrite v2.backBufferBrightHorizontal v2.backBufferViewHorizontal v2.filterSampler,
       textureWrite v2.backBufferDescriptor v2.backBufferView v2.filterSampler,
       textureWrite v2.backFrameBufferDescriptor v2.backFrameBufferView v2.filterSampler] ++
      d.descriptorWrites ∧
    ([v2.backFrameBufferDescriptor, v2.backBufferDescriptor, v2.backBufferBrightHorizontal,
        v2.backBufferBrightVertical].Nodup →
      d2.sampledView v2.backFrameBufferDescriptor = some v2.backFrameBufferView ∧
      d2.sampledView v2.backBufferDescriptor = some v2.backBufferView ∧
      d2.sampledView v2.backBufferBrightHorizontal = some v2.backBufferViewHorizontal ∧
      d2.sampledView v2.backBufferBrightVertical = some v2.backBufferViewVertical) ∧
    d2.attachments v2.backFramebuffer = some [v2.backFrameBufferView, v2.depthBufferView] ∧
    d2.attachments v2.temp_framebuffer = some [v2.backBufferView, v2.depthBufferView] ∧
    d2.attachments v2.temp_framebuffer_horizontal =
      some [v2.backBufferViewHorizontal, v2.depthBufferView] ∧
    d2.attachments v2.temp_framebuffer_vertical =
      some [v2.backBufferViewVertical, v2.depthBufferView] ∧
    v2.framebuffers.length = v2.window.swapViews.length ∧
    (∀ i : Nat, i < v2.window.swapViews.length →
      d2.attachments (v2.framebuffers.getD i 0) =
        some [v2.window.swapViews.getD i 0, v2.depthBufferView]) ∧
    (∀ h ∈ [v2.backFramebuffer, v2.temp_framebuffer, v2.temp_framebuffer_horizontal,
      v2.temp_framebuffer_vertical] ++ v2.framebuffers ++ v2.window.swapViews,
      d.nextHandle ≤ h) ∧
    ((reportedChanges w v).changedSize = true →
      ∀ h ∈ [v2.depthBufferView, v2.backFrameBufferView, v2.backBufferView,
        v2.backBufferViewHorizontal, v2.backBufferViewVertical], d.nextHandle ≤ h) ∧
    ((reportedChanges w v).changedSize = false →
      [v2.depthBufferView, v2.backFrameBufferView, v2.backBufferView,
        v2.backBufferViewHorizontal, v2.backBufferViewVertical] =
      [v.depthBufferView, v.backFrameBufferView, v.backBufferView, v.backBufferViewHorizontal,
        v.backBufferViewVertical]) := by
  obtain ⟨rfl, rfl⟩ := rebuild_post w v d v2 d2 hdone
  obtain ⟨_, _, u1, u2, u3, u4, _⟩ := afterRebuild_untouched w v d
  obtain ⟨w1, w2, w3, w4, w5, w6, w7⟩ := afterRebuild_wired w v d
  exact ⟨⟨u1, u2, u3, u4⟩, w1, fun hnd => sampledView_of_writes _ _ _ _ _ _ _ _ _ _ _ w1 hnd,
    w2, w3, w4, w5, w6, w7, afterRebuild_framebuffers_fresh w v d,
    afterRebuild_views_fresh w v d, afterRebuild_views_unchanged w v d⟩

theorem rebuild_rewires_descriptor_sets_and_framebuffers_witness :
    ∃ v2 d2, (rebuild World.resized sampleVars sampleDevice).2 = .done v2 d2 ∧
      d2.sampledView v2.backBufferDescriptor = some v2.backBufferView ∧
      d2.attachments v2.temp_framebuffer = some [v2.backBufferView, v2.depthBufferView] ∧
      v2.framebuffers.length = 2 ∧ 100 ≤ v2.backBufferView := by
  have hdone := rebuild_outcome World.resized allOk_creationSucceeds sampleVars sampleDevice
  obtain ⟨⟨u1, u2, u3, u4⟩, _, h3, _, h5, _, _, h8, _, _, h11, _⟩ :=
    rebuild_rewires_descriptor_sets_and_framebuffers World.resized sampleVars sampleDevice _ _ hdone
  refine ⟨_, _, hdone, (h3 ?_).2.1, h5, ?_, h11 (by decide) _ (by simp)⟩
  · rw [u1, u2, u3, u4]; decide
  · rw [h8, afterRebuild_window, stageSwapchain_vars]; rfl

/-! ### Steps of the driver state -/

theorem step_alloc (d : Device) (o : Object) : d.Step (d.alloc o) [] := by
  refine ⟨grows_alloc d o, fun h h1 h2 => ?_, fun h => by simp⟩
  have hh : h = d.nextHandle := Nat.le_antisymm (Nat.lt_succ_iff.1 h2) h1
  rw [hh, object_alloc_self]
  rfl

theorem step_free (d : Device) (k : Handle) : d.Step (d.free k) [k] := by
  refine ⟨grows_free d k, fun h h1 h2 => ?_, fun h => ?_⟩
  · rw [nextHandle_free] at h2
    exact absurd h2 (Nat.not_lt.2 h1)
  · rw [mem_destroyed_free]
    constructor
    · rintro (⟨rfl, hk⟩ | hd)
      · exact Or.inr ⟨List.mem_singleton.2 rfl, hk⟩
      · exact Or.inl hd
    · rintro (hd | ⟨hm, hk⟩)
      · exact Or.inr hd
      · have := List.mem_singleton.1 hm
        subst this
        exact Or.inl ⟨rfl, hk⟩

theorem step_write (d : Device) (ws : List VkWriteDescriptorSet) : d.Step (d.write ws) [] := by
  refine ⟨grows_write d ws, fun h h1 h2 => ?_, fun h => by simp⟩
  rw [nextHandle_write] at h2
  exact absurd h2 (Nat.not_lt.2 h1)

theorem step_refl (d : Device) : d.Step d [] :=
  ⟨grows_refl d, fun h h1 h2 => absurd h2 (Nat.not_lt.2 h1), fun h => by simp⟩

theorem step_trans {d d1 d2 : Device} {fs gs : List Handle} (h1 : d.Step d1 fs)
    (h2 : d1.Step d2 gs) : d.Step d2 (fs ++ gs) := by
  obtain ⟨g1, n1, x1⟩ := h1
  obtain ⟨g2, n2, x2⟩ := h2
  refine ⟨grows_trans g1 g2, fun h hl hu => ?_, fun h => ?_⟩
  · by_cases hlt : h < d1.nextHandle
    · rw [grows_object g2 hlt]
      exact n1 h hl hlt
    · exact n2 h (Nat.not_lt.1 hlt) hu
  · rw [x2, x1, List.mem_append]
    tauto

theorem step_allocs : ∀ (os : List Object) (d : Device), d.Step (d.allocs os) [] := by
  intro os
  induction os with
  | nil => intro d; exact step_refl d
  | cons o os ih =>
    intro d
    exact step_trans (step_alloc d o) (ih (d.alloc o))

theorem step_frees : ∀ (ks : List Handle) (d : Device), d.Step (d.frees ks) ks := by
  intro ks
  induction ks with
  | nil => intro d; exact step_refl d
  | cons k ks ih =>
    intro d
    exact step_trans (step_free d k) (ih (d.free k))

theorem step_of_eq {d d1 : Device} {fs gs : List Handle} (h : d.Step d1 fs) (he : fs = gs) :
    d.Step d1 gs := he ▸ h

theorem afterRecreateSwapchain_step (w : World) (win : VulkanWindow) (d : Device) :
    d.Step (afterRecreateSwapchain w win d).2 (win.swapViews ++ [win.swapchain]) := by
  unfold afterRecreateSwapchain
  exact step_of_eq (step_trans (step_alloc _ _) (step_trans (step_allocs _ _)
    (step_trans (step_frees _ _) (step_free _ _)))) (by simp)

theorem afterRebuildFramebuffers_step (v : MainVars) (d : Device) :
    d.Step (afterRebuildFramebuffers v d).2
      ([v.backFramebuffer, v.temp_framebuffer, v.temp_framebuffer_horizontal,
        v.temp_framebuffer_vertical] ++ v.framebuffers) := by
  unfold afterRebuildFramebuffers
  exact step_of_eq (step_trans (step_alloc _ _) (step_trans (step_free _ _)
    (step_trans (step_alloc _ _) (step_trans (step_free _ _)
    (step_trans (step_alloc _ _) (step_trans (step_free _ _)
    (step_trans (step_alloc _ _) (step_trans (step_free _ _)
    (step_trans (step_frees _ _) (step_trans (step_allocs _ _)
    (step_trans (step_write _ _) (step_trans (step_write _ _)
    (step_trans (step_write _ _) (step_write _ _)))))))))))))) (by simp)

/-! ### Live resources along a step -/

theorem mem_live (d : Device) (h : Handle) :
    h ∈ d.live ↔ h < d.nextHandle ∧ (d.object h).isSome = true ∧ h ∉ d.destroyed := by
  unfold Device.live
  rw [Finset.mem_filter, Finset.mem_range]

theorem step_mem_live {d d1 : Device} {fs : List Handle} (hst : d.Step d1 fs) (hs : d.Sound)
    (hfs : ∀ h ∈ fs, h ≠ 0 ∧ h < d.nextHandle) (h : Handle) :
    h ∈ d1.live ↔ (h ∈ d.live ∧ h ∉ fs) ∨ (d.nextHandle ≤ h ∧ h < d1.nextHandle) := by
  obtain ⟨g, dense, dest⟩ := hst
  rw [mem_live, mem_live, dest]
  by_cases hlt : h < d.nextHandle
  · rw [grows_object g hlt]
    constructor
    · rintro ⟨_, ho, hd⟩
      refine Or.inl ⟨⟨hlt, ho, fun hm => hd (Or.inl hm)⟩, fun hm => hd (Or.inr ⟨hm, (hfs h hm).1⟩)⟩
    · rintro (⟨⟨_, ho, hd⟩, hn⟩ | ⟨hge, _⟩)
      · exact ⟨Nat.lt_of_lt_of_le hlt g.1, ho, fun hm => hm.elim hd (fun hx => hn hx.1)⟩
      · exact absurd hlt (Nat.not_lt.2 hge)
  · have hge := Nat.not_lt.1 hlt
    constructor
    · rintro ⟨hu, _, _⟩
      exact Or.inr ⟨hge, hu⟩
    · rintro (⟨⟨hl, _⟩, _⟩ | ⟨_, hu⟩)
      · exact absurd hl hlt
      · refine ⟨hu, dense h hge hu, fun hm => ?_⟩
        rcases hm with hm | hm
        · exact hlt (hs.2 h hm)
        · exact hlt (hfs h hm.1).2

theorem step_sound {d d1 : Device} {fs : List Handle} (hst : d.Step d1 fs) (hs : d.Sound)
    (hfs : ∀ h ∈ fs, h ≠ 0 ∧ h < d.nextHandle) : d1.Sound := by
  obtain ⟨g, _, dest⟩ := hst
  refine ⟨Nat.lt_of_lt_of_le hs.1 g.1, fun h hm => ?_⟩
  rcases (dest h).1 hm with hm | hm
  · exact Nat.lt_of_lt_of_le (hs.2 h hm) g.1
  · exact Nat.lt_of_lt_of_le (hfs h hm.1).2 g.1

/-- Along a step that destroys distinct live resources, the number of live
resources changes by the number of handles handed out less the number destroyed. -/
theorem step_live_card {d d1 : Device} {fs : List Handle} (hst : d.Step d1 fs) (hs : d.Sound)
    (hnd : fs.Nodup) (hfs : ∀ h ∈ fs, h ≠ 0 ∧ h ∈ d.live) :
    d1.live.card + fs.length = d.live.card + (d1.nextHandle - d.nextHandle) := by
  have hlt : ∀ h ∈ fs, h ≠ 0 ∧ h < d.nextHandle :=
    fun h hm => ⟨(hfs h hm).1, ((mem_live d h).1 (hfs h hm).2).1⟩
  have heq : d1.live = (d.live \ fs.toFinset) ∪ Finset.Ico d.nextHandle d1.nextHandle := by
    ext h
    rw [step_mem_live hst hs hlt, Finset.mem_union, Finset.mem_sdiff, List.mem_toFinset,
      Finset.mem_Ico]
  have hdisj : Disjoint (d.live \ fs.toFinset) (Finset.Ico d.nextHandle d1.nextHandle) := by
    rw [Finset.disjoint_left]
    intro h h1 h2
    rw [Finset.mem_sdiff, mem_live] at h1
    rw [Finset.mem_Ico] at h2
    exact absurd h1.1.1 (Nat.not_lt.2 h2.1)
  have hsub : fs.toFinset ⊆ d.live := by
    intro h hm
    exact (hfs h (List.mem_toFinset.1 hm)).2
  have hc := Finset.card_sdiff hsub
  have hle := Finset.card_le_card hsub
  rw [List.toFinset_card_of_nodup hnd] at hc hle
  rw [heq, Finset.card_union_of_disjoint hdisj, hc, Nat.card_Ico]
  omega

/-! ### A rebuild in which nothing changed -/

theorem stagePipelines_nochange (w : World) (v : MainVars) (d : Device)
    (hs : (reportedChanges w v).changedSize = false)
    (hf : (reportedChanges w v).changedFormat = false) :
    stagePipelines w v d =
      afterRebuildFramebuffers (stageSwapchain w v d).1 (stageSwapchain w v d).2 := by
  unfold stagePipelines afterRebuildPipelines
  rw [hs]
  unfold stageFramebuffers stageTargets afterRebuildTargets
  rw [hs]
  unfold stageRenderPass afterRebuildRenderPass
  rw [hf]
  rfl

theorem afterRebuild_nochange_step (w : World) (v : MainVars) (d : Device)
    (hs : (reportedChanges w v).changedSize = false)
    (hf : (reportedChanges w v).changedFormat = false) :
    d.Step (afterRebuild w v d).2 v.alwaysReplaced := by
  rw [afterRebuild_device, stagePipelines_nochange w v d hs hf]
  exact step_of_eq (step_trans (afterRecreateSwapchain_step w v.window d)
    (afterRebuildFramebuffers_step (stageSwapchain w v d).1 (stageSwapchain w v d).2))
    (by simp [MainVars.alwaysReplaced, stageSwapchain_vars])

theorem afterRebuild_nochange_nextHandle (w : World) (v : MainVars) (d : Device)
    (hs : (reportedChanges w v).changedSize = false)
    (hf : (reportedChanges w v).changedFormat = false) :
    (afterRebuild w v d).2.nextHandle =
      d.nextHandle + 1 + w.swapImageCount + 4 + w.swapImageCount := by
  rw [afterRebuild_device, stagePipelines_nochange w v d hs hf]
  unfold afterRebuildFramebuffers
  simp [stageSwapchain_nextHandle, stageSwapchain_vars]

theorem afterRebuild_nochange_replaced (w : World) (v : MainVars) (d : Device)
    (hs : (reportedChanges w v).changedSize = false)
    (hf : (reportedChanges w v).changedFormat = false) :
    (afterRebuild w v d).1.alwaysReplaced =
      List.range' (d.nextHandle + 1) w.swapImageCount ++ [d.nextHandle] ++
        [d.nextHandle + 1 + w.swapImageCount, d.nextHandle + 1 + w.swapImageCount + 1,
         d.nextHandle + 1 + w.swapImageCount + 2, d.nextHandle + 1 + w.swapImageCount + 3] ++
        List.range' (d.nextHandle + 1 + w.swapImageCount + 4) w.swapImageCount := by
  rw [afterRebuild_vars, stagePipelines_nochange w v d hs hf]
  unfold afterRebuildFramebuffers
  simp [MainVars.alwaysReplaced, stageSwapchain_nextHandle, stageSwapchain_vars]

theorem layout_nodup (n c : Nat) :
    (List.range' (n + 1) c ++ [n] ++ [n + 1 + c, n + 1 + c + 1, n + 1 + c + 2, n + 1 + c + 3] ++
      List.range' (n + 1 + c + 4) c).Nodup := by
  rw [List.nodup_append]
  refine ⟨?_, List.nodup_range' _ _, ?_⟩
  · rw [List.nodup_append]
    refine ⟨?_, by simp, ?_⟩
    · rw [List.nodup_append]
      refine ⟨List.nodup_range' _ _, by simp, ?_⟩
      intro a ha hb
      rw [List.mem_range'_1] at ha
      simp only [List.mem_singleton] at hb
      omega
    · intro a ha hb
      simp only [List.mem_append, List.mem_range'_1, List.mem_singleton] at ha
      simp only [List.mem_cons, List.mem_singleton, List.not_mem_nil, or_false] at hb
      omega
  · intro a ha hb
    simp only [List.mem_append, List.mem_range'_1, List.mem_singleton, List.mem_cons,
      List.not_mem_nil, or_false] at ha
    rw [List.mem_range'_1] at hb
    omega

theorem layout_bounds (n c h : Nat)
    (hm : h ∈ List.range' (n + 1) c ++ [n] ++
      [n + 1 + c, n + 1 + c + 1, n + 1 + c + 2, n + 1 + c + 3] ++
      List.range' (n + 1 + c + 4) c) :
    n ≤ h ∧ h < n + 1 + c + 4 + c := by
  simp only [List.mem_append, List.mem_range'_1, List.mem_singleton, List.mem_cons,
    List.not_mem_nil, or_false] at hm
  omega

/-- What a rebuild in which neither size nor format changed does to ownership:
it destroys exactly the handles it always replaces, and the handles it puts in
their place are distinct live resources created during the rebuild. -/
theorem afterRebuild_nochange_owned (w : World) (v : MainVars) (d : Device)
    (hs : (reportedChanges w v).changedSize = false)
    (hf : (reportedChanges w v).changedFormat = false)
    (hd : d.Sound) (hold : ∀ h ∈ v.alwaysReplaced, h ≠ 0 ∧ h < d.nextHandle) :
    (afterRebuild w v d).1.OwnedBy (afterRebuild w v d).2 ∧
    (∀ h ∈ (afterRebuild w v d).1.alwaysReplaced, d.nextHandle ≤ h) ∧
    (∀ h ∈ v.alwaysReplaced, h ∈ (afterRebuild w v d).2.destroyed) ∧
    (∀ h ∈ d.live, h ∉ v.alwaysReplaced → h ∈ (afterRebuild w v d).2.live) := by
  have hst := afterRebuild_nochange_step w v d hs hf
  have hnext := afterRebuild_nochange_nextHandle w v d hs hf
  have hrep := afterRebuild_nochange_replaced w v d hs hf
  refine ⟨⟨step_sound hst hd hold, ?_, ?_, ?_⟩, ?_, ?_, ?_⟩
  · rw [hrep]
    exact layout_nodup _ _
  · intro h hm
    rw [hrep] at hm
    have hb := layout_bounds _ _ _ hm
    refine ⟨Nat.ne_of_gt (Nat.lt_of_lt_of_le hd.1 hb.1), ?_⟩
    rw [step_mem_live hst hd hold, hnext]
    exact Or.inr hb
  · rw [afterRebuild_framebuffers_length, afterRebuild_window, stageSwapchain_swapViews_length]
  · intro h hm
    rw [hrep] at hm
    exact (layout_bounds _ _ _ hm).1
  · intro h hm
    exact (hst.2.2 h).2 (Or.inr ⟨hm, (hold h hm).1⟩)
  · intro h hl hn
    rw [step_mem_live hst hd hold]
    exact Or.inl ⟨hl, hn⟩

theorem ownedBy_below {v : MainVars} {d : Device} (h : v.OwnedBy d) :
    ∀ k ∈ v.alwaysReplaced, k ≠ 0 ∧ k < d.nextHandle :=
  fun k hk => ⟨(h.2.2.1 k hk).1, ((mem_live d k).1 (h.2.2.1 k hk).2).1⟩

/-- A rebuild in which neither size nor format changed and the swapchain has as
many images as before leaves as many live resources as there were. -/
theorem afterRebuild_nochange_card (w : World) (v : MainVars) (d : Device)
    (hs : (reportedChanges w v).changedSize = false)
    (hf : (reportedChanges w v).changedFormat = false)
    (hown : v.OwnedBy d) (hn : w.swapImageCount = v.window.swapViews.length) :
    (afterRebuild w v d).2.live.card = d.live.card := by
  have hst := afterRebuild_nochange_step w v d hs hf
  have hc := step_live_card hst hown.1 hown.2.1 hown.2.2.1
  have hlen : v.alwaysReplaced.length = w.swapImageCount + 1 + 4 + w.swapImageCount := by
    simp only [MainVars.alwaysReplaced, List.length_append, List.length_cons, List.length_nil,
      hown.2.2.2, hn]
  have hnext : (afterRebuild w v d).2.nextHandle - d.nextHandle =
      w.swapImageCount + 1 + 4 + w.swapImageCount := by
    rw [afterRebuild_nochange_nextHandle w v d hs hf]
    have : ∀ a b : Nat, a + 1 + b + 4 + b - a = b + 1 + 4 + b := by
      intro a b
      omega
    exact this _ _
  rw [hlen, hnext] at hc
  exact Nat.add_right_cancel hc

theorem reportedChanges_after (w w2 : World) (v : MainVars) (d : Device)
    (he : w2.swapchainExtent = w.swapchainExtent) (hf : w2.swapchainFormat = w.swapchainFormat) :
    (reportedChanges w2 (afterRebuild w v d).1).changedSize = false ∧
    (reportedChanges w2 (afterRebuild w v d).1).changedFormat = false := by
  unfold reportedChanges
  rw [afterRebuild_window, stageSwapchain_vars]
  simp [he, hf]

theorem afterRebuild_swapViews_length (w : World) (v : MainVars) (d : Device) :
    (afterRebuild w v d).1.window.swapViews.length = w.swapImageCount := by
  rw [afterRebuild_window, stageSwapchain_swapViews_length]

theorem afterRebuild_nochange_vars (w : World) (v : MainVars) (d : Device)
    (hs : (reportedChanges w v).changedSize = false)
    (hf : (reportedChanges w v).changedFormat = false) :
    (afterRebuild w v d).1.sizeDependent = v.sizeDependent ∧
    (afterRebuild w v d).1.renderPass = v.renderPass ∧
    (afterRebuild w v d).1.offlineRenderPass = v.offlineRenderPass ∧
    (afterRebuild w v d).1.backFrameBufferDescriptor = v.backFrameBufferDescriptor ∧
    (afterRebuild w v d).1.backBufferDescriptor = v.backBufferDescriptor ∧
    (afterRebuild w v d).1.backBufferBrightHorizontal = v.backBufferBrightHorizontal ∧
    (afterRebuild w v d).1.backBufferBrightVertical = v.backBufferBrightVertical := by
  obtain ⟨_, _, u1, u2, u3, u4, u5, _⟩ := afterRebuild_untouched w v d
  refine ⟨afterRebuild_sizeDependent_unchanged w v d hs, ?_, u5, u1, u2, u3, u4⟩
  rw [afterRebuild_renderPass_eq, stageRenderPass_unchanged w v d hf]

theorem ownedVars_ownedBy : ownedVars.OwnedBy ownedDevice :=
  (afterRebuild_nochange_owned World.allOk sampleVars sampleDevice (by decide) (by decide)
    ⟨by decide, fun h hm => by simp [sampleDevice] at hm⟩ (by decide)).1

/-- C14: from a state in which the variables hold distinct live resources, two
rebuilds in a row that return, in each of which `recreate_swapchain` reports
neither a change of size nor of format and hands back as many images as
before, leave as many live resources as there were: every live resource other
than the swapchain, its views and the framebuffers is still live, the
variables of the images, views, render passes, pipelines and texture
descriptor sets hold the handles they held, there are as many swapchain
framebuffers as before, every swapchain, view and framebuffer that either
rebuild replaced is destroyed, and the ones now in the variables are distinct
live resources. -/
theorem rebuild_twice_without_change_keeps_live_resources (w1 w2 : World) (v : MainVars)
    (d : Device) (v1 : MainVars) (d1 : Device) (v2 : MainVars) (d2 : Device)
    (hown : v.OwnedBy d)
    (h1 : (rebuild w1 v d).2 = .done v1 d1) (h2 : (rebuild w2 v1 d1).2 = .done v2 d2)
    (hs1 : (reportedChanges w1 v).changedSize = false)
    (hf1 : (reportedChanges w1 v).changedFormat = false)
    (hs2 : (reportedChanges w2 v1).changedSize = false)
    (hf2 : (reportedChanges w2 v1).changedFormat = false)
    (hn1 : w1.swapImageCount = v.window.swapViews.length)
    (hn2 : w2.swapImageCount = v1.window.swapViews.length) :
    d2.live.card = d.live.card ∧
    (∀ h ∈ d.live, h ∉ v.alwaysReplaced → h ∈ d2.live) ∧
    v2.sizeDependent = v.sizeDependent ∧ v2.renderPass = v.renderPass ∧
    v2.offlineRenderPass = v.offlineRenderPass ∧
    v2.backFrameBufferDescriptor = v.backFrameBufferDescriptor ∧
    v2.backBufferDescriptor = v.backBufferDescriptor ∧
    v2.backBufferBrightHorizontal = v.backBufferBrightHorizontal ∧
    v2.backBufferBrightVertical = v.backBufferBrightVertical ∧
    v2.framebuffers.length = v.framebuffers.length ∧
    v2.framebuffers.length = v2.window.swapViews.length ∧
    (∀ h ∈ v.alwaysReplaced ++ v1.alwaysReplaced, h ∈ d2.destroyed) ∧
    v2.OwnedBy d2 := by
  obtain ⟨rfl, rfl⟩ := rebuild_post w1 v d v1 d1 h1
  obtain ⟨rfl, rfl⟩ := rebuild_post w2 _ _ v2 d2 h2
  obtain ⟨o1, g1, x1, l1⟩ := afterRebuild_nochange_owned w1 v d hs1 hf1 hown.1 (ownedBy_below hown)
  obtain ⟨o2, g2, x2, l2⟩ := afterRebuild_nochange_owned w2 _ _ hs2 hf2 o1.1 (ownedBy_below o1)
  obtain ⟨a1, a2, a3, a4, a5, a6, a7⟩ := afterRebuild_nochange_vars w1 v d hs1 hf1
  obtain ⟨b1, b2, b3, b4, b5, b6, b7⟩ := afterRebuild_nochange_vars w2 _ _ hs2 hf2
  refine ⟨?_, ?_, b1.trans a1, b2.trans a2, b3.trans a3, b4.trans a4, b5.trans a5, b6.trans a6,
    b7.trans a7, ?_, ?_, ?_, o2⟩
  · rw [afterRebuild_nochange_card w2 _ _ hs2 hf2 o1 hn2,
      afterRebuild_nochange_card w1 v d hs1 hf1 hown hn1]
  · intro h hl hn
    refine l2 h (l1 h hl hn) (fun hm => ?_)
    exact absurd ((mem_live d h).1 hl).1 (Nat.not_lt.2 (g1 h hm))
  · rw [afterRebuild_framebuffers_length, hn2, o1.2.2.2.symm, afterRebuild_framebuffers_length,
      hn1, hown.2.2.2]
  · exact o2.2.2.2
  · intro h hm
    rcases List.mem_append.1 hm with hm | hm
    · exact grows_destroyed (afterRebuild_grows w2 _ _) (x1 h hm)
    · exact x2 h hm

theorem rebuild_twice_without_change_keeps_live_resources_witness :
    ∃ v1 d1 v2 d2, ownedVars.OwnedBy ownedDevice ∧
      (rebuild World.allOk ownedVars ownedDevice).2 = .done v1 d1 ∧
      (rebuild World.allOk v1 d1).2 = .done v2 d2 ∧
      d2.live.card = ownedDevice.live.card ∧ v2.OwnedBy d2 := by
  have h1 := rebuild_outcome World.allOk allOk_creationSucceeds ownedVars ownedDevice
  have h2 := rebuild_outcome World.allOk allOk_creationSucceeds
    (afterRebuild World.allOk ownedVars ownedDevice).1
    (afterRebuild World.allOk ownedVars ownedDevice).2
  have c1 := reportedChanges_after World.allOk World.allOk sampleVars sampleDevice rfl rfl
  have c2 := reportedChanges_after World.allOk World.allOk ownedVars ownedDevice rfl rfl
  have n1 := afterRebuild_swapViews_length World.allOk sampleVars sampleDevice
  have n2 := afterRebuild_swapViews_length World.allOk ownedVars ownedDevice
  have h := rebuild_twice_without_change_keeps_live_resources World.allOk World.allOk ownedVars
    ownedDevice _ _ _ _ ownedVars_ownedBy h1 h2 c1.1 c1.2 c2.1 c2.2 n1.symm n2.symm
  exact ⟨_, _, _, _, ownedVars_ownedBy, h1, h2, h.1, h.2.2.2.2.2.2.2.2.2.2.2.2⟩

/-! ### What the passes of a frame sample -/

theorem sampledBy_blurPassBody (d : Device) (a : RecordArgs) (pipeline descriptor view : Handle)
    (h : d.sampledView descriptor = some view) :
    sampledBy d (blurPassBody a pipeline descriptor) = [(0, view)] := by
  simp [sampledBy, blurPassBody, h]

theorem sampledBy_compositePassBody (d : Device) (a : RecordArgs) (x y : Handle)
    (hx : d.sampledView a.aFilterVerticalDescriptor = some x)
    (hy : d.sampledView a.aBackFrameBufferDescriptor = some y) :
    sampledBy d (compositePassBody a) = [(0, x), (1, y)] := by
  simp [sampledBy, compositePassBody, hx, hy]

theorem sampledBy_meshPassBody (d : Device) (a : RecordArgs) (pipeline : Handle)
    (hin : a.InBounds) (hs : d.sampledView a.aSceneDesctipror = none)
    (hm : ∀ s ∈ a.aMaterialDescriptor, d.sampledView s = none)
    (hp : ∀ s ∈ a.aMaterialPBRDescriptor, d.sampledView s = none) :
    sampledBy d (meshPassBody a pipeline) = [] := by
  obtain ⟨_, _, _, _, _, _, _, _, _, _, hidx⟩ := hin
  unfold sampledBy
  rw [List.flatMap_eq_nil_iff]
  intro c hc
  unfold meshPassBody at hc
  rcases List.mem_cons.1 hc with rfl | hc
  · simp [hs]
  · rw [List.mem_flatMap] at hc
    obtain ⟨i, hi, hc⟩ := hc
    rw [List.mem_range'_1] at hi
    obtain ⟨_, h1, h2⟩ := hidx i (by omega)
    have e1 : d.sampledView
        (a.aMaterialDescriptor.getD (a.car.materialIndex.getD i 0).toNat 0) = none := by
      apply hm
      rw [List.getD_eq_getElem _ _ h1]
      exact List.getElem_mem _
    have e2 : d.sampledView
        (a.aMaterialPBRDescriptor.getD (a.car.materialIndex.getD i 0).toNat 0) = none := by
      apply hp
      rw [List.getD_eq_getElem _ _ h2]
      exact List.getElem_mem _
    simp only [drawCmds, List.mem_cons, List.mem_singleton, List.not_mem_nil, or_false] at hc
    rcases hc with rfl | rfl | rfl | rfl | rfl
    · simpa using e1
    · simpa using e2
    · simp
    · simp
    · simp

theorem afterRebuild_frame_vars (w : World) (v : MainVars) (d : Device) :
    (afterRebuild w v d).1.sceneDescriptor = v.sceneDescriptor ∧
    (afterRebuild w v d).1.materialDescriptors = v.materialDescriptors ∧
    (afterRebuild w v d).1.materialPBRDescriptors = v.materialPBRDescriptors ∧
    (afterRebuild w v d).1.materialUBO = v.materialUBO ∧
    (afterRebuild w v d).1.materialPBRUBO = v.materialPBRUBO ∧
    (afterRebuild w v d).1.carModel = v.carModel ∧
    (afterRebuild w v d).1.loadedModel = v.loadedModel := by
  rw [afterRebuild_vars, stagePipelines_vars, stageFramebuffers_vars, stageTargets_vars]
  split <;> simp [stageRenderPass_vars, stageSwapchain_vars]

theorem afterRebuild_frameInBounds (w : World) (v : MainVars) (d : Device) (i : Nat)
    (h : v.FrameInBounds i) (hi : i < w.swapImageCount) :
    (afterRebuild w v d).1.FrameInBounds i := by
  obtain ⟨e1, e2, e3, e4, e5, e6, e7⟩ := afterRebuild_frame_vars w v d
  obtain ⟨u1, u2, _⟩ := afterRebuild_untouched w v d
  unfold MainVars.FrameInBounds
  rw [e2, e3, e4, e5, e6, e7, u1, u2, afterRebuild_framebuffers_length]
  exact ⟨h.1, h.2.1, hi, h.2.2.2⟩

theorem sampledView_of_writes_other (d d0 : Device) (s1 s2 s3 s4 v1 v2 v3 v4 sampler s : Handle)
    (hw : d.descriptorWrites =
      [textureWrite s4 v4 sampler, textureWrite s3 v3 sampler, textureWrite s2 v2 sampler,
       textureWrite s1 v1 sampler] ++ d0.descriptorWrites)
    (hs : s ∉ [s1, s2, s3, s4]) :
    d.sampledView s = d0.sampledView s := by
  simp only [List.mem_cons, List.mem_singleton, List.not_mem_nil, or_false, not_or] at hs
  obtain ⟨h1, h2, h3, h4⟩ := hs
  have h1b : ¬ s1 = s := fun h => h1 h.symm
  have h2b : ¬ s2 = s := fun h => h2 h.symm
  have h3b : ¬ s3 = s := fun h => h3 h.symm
  have h4b : ¬ s4 = s := fun h => h4 h.symm
  have hfind : d.descriptorWrites.find? (fun wr => wr.dstSet = s ∧ wr.dstBinding = 0) =
      d0.descriptorWrites.find? (fun wr => wr.dstSet = s ∧ wr.dstBinding = 0) := by
    rw [hw]
    simp [textureWrite, List.find?, h1b, h2b, h3b, h4b]
  unfold Device.sampledView
  rw [hfind]

theorem views_nodup_fresh (a b c e n : Handle) (sv : List Handle)
    (hold : [a, b, c, e].Nodup) (hlt : ∀ x ∈ [a, b, c, e], x < n) (hsv : sv.Nodup)
    (hge : ∀ x ∈ sv, n ≤ x) : ([a, b, c, e] ++ sv).Nodup := by
  rw [List.nodup_append]
  refine ⟨hold, hsv, fun x hx hy => ?_⟩
  exact absurd (hlt x hx) (Nat.not_lt.2 (hge x hy))

/-- The rebuild block establishes the wiring: from a state whose four texture
descriptor sets are distinct from each other and from the scene and material
descriptor sets, the latter referring to no image view, and whose four target
views are distinct handles handed out before, a rebuild leaves a wired state. -/
theorem afterRebuild_establishes_wiring (w : World) (v : MainVars) (d : Device)
    (hfour : [v.backFrameBufferDescriptor, v.backBufferDescriptor, v.backBufferBrightHorizontal,
      v.backBufferBrightVertical].Nodup)
    (hbuf : ∀ s ∈ v.sceneDescriptor :: (v.materialDescriptors ++ v.materialPBRDescriptors),
      d.sampledView s = none ∧
      s ∉ [v.backFrameBufferDescriptor, v.backBufferDescriptor, v.backBufferBrightHorizontal,
        v.backBufferBrightVertical])
    (hviews : [v.backBufferView, v.backBufferViewHorizontal, v.backBufferViewVertical,
      v.backFrameBufferView].Nodup)
    (hlt : ∀ x ∈ [v.backBufferView, v.backBufferViewHorizontal, v.backBufferViewVertical,
      v.backFrameBufferView], x < d.nextHandle) :
    (afterRebuild w v d).1.Wired (afterRebuild w v d).2 := by
  obtain ⟨w1, w2, w3, w4, w5, w6, w7⟩ := afterRebuild_wired w v d
  obtain ⟨_, _, u1, u2, u3, u4, _⟩ := afterRebuild_untouched w v d
  obtain ⟨e1, e2, e3, _⟩ := afterRebuild_frame_vars w v d
  have hfour2 : [(afterRebuild w v d).1.backFrameBufferDescriptor,
      (afterRebuild w v d).1.backBufferDescriptor,
      (afterRebuild w v d).1.backBufferBrightHorizontal,
      (afterRebuild w v d).1.backBufferBrightVertical].Nodup := by
    rw [u1, u2, u3, u4]
    exact hfour
  obtain ⟨s1, s2, s3, s4⟩ := sampledView_of_writes _ _ _ _ _ _ _ _ _ _ _ w1 hfour2
  refine ⟨w3, w4, w5, w2, ?_, w6, s2, s3, s4, s1, ?_, ?_⟩
  · intro i hi
    rw [w6] at hi
    exact w7 i hi
  · intro s hs
    rw [e1, e2, e3] at hs
    obtain ⟨hn, hs4⟩ := hbuf s hs
    rw [sampledView_of_writes_other _ d _ _ _ _ _ _ _ _ _ s w1 (by rw [u1, u2, u3, u4]; exact hs4)]
    exact hn
  · have hsv : (afterRebuild w v d).1.window.swapViews =
        List.range' (d.nextHandle + 1) w.swapImageCount := by
      rw [afterRebuild_window, stageSwapchain_vars]
    rw [hsv]
    by_cases hs : (reportedChanges w v).changedSize = true
    · obtain ⟨_, _, _, c3, _, c5, _, c7, _, c9, _⟩ := afterRebuild_changedSize_vars w v d hs
      have hn : d.nextHandle + 1 + w.swapImageCount ≤ (stageRenderPass w v d).2.nextHandle := by
        rw [← stageSwapchain_nextHandle]
        exact grows_nextHandle (stageRenderPass_grows w v d)
      rw [c3, c5, c7, c9]
      generalize (stageRenderPass w v d).2.nextHandle = n at hn
      have key : ∀ a c n : Nat, a + 1 + c ≤ n →
          ([n + 2 + 2 * 0 + 1, n + 2 + 2 * 2 + 1, n + 2 + 2 * 3 + 1, n + 2 + 2 * 1 + 1] ++
            List.range' (a + 1) c).Nodup := by
        intro a c n h
        rw [List.nodup_append]
        refine ⟨by simp, List.nodup_range' _ _, fun x hx hy => ?_⟩
        rw [List.mem_range'_1] at hy
        simp only [List.mem_cons, List.mem_singleton, List.not_mem_nil, or_false] at hx
        omega
      exact key _ _ _ hn
    · have hs2 : (reportedChanges w v).changedSize = false := by
        cases hc : (reportedChanges w v).changedSize
        · rfl
        · exact absurd hc hs
      have hu := afterRebuild_sizeDependent_unchanged w v d hs2
      simp only [MainVars.sizeDependent, List.cons.injEq, and_true] at hu
      obtain ⟨_, _, _, c3, _, c5, _, c7, _, c9, _⟩ := hu
      rw [c3, c5, c7, c9]
      refine views_nodup_fresh _ _ _ _ d.nextHandle _ hviews hlt (List.nodup_range' _ _)
        (fun x hx => ?_)
      rw [List.mem_range'_1] at hx
      exact Nat.le_trans (Nat.le_succ _) hx.1

theorem ownedVars_wired : ownedVars.Wired ownedDevice :=
  afterRebuild_establishes_wiring World.allOk sampleVars sampleDevice (by decide)
    (fun s hs => ⟨rfl, by revert s; decide⟩) (by decide) (by decide)

/-! ### `countl_zero_` and `compute_mip_level_count` -/

theorem and_high_mask_eq_zero (x k : Nat) (hk : k ≤ 32) (hx : x < 2 ^ 32) :
    x &&& ((2 ^ (32 - k) - 1) <<< k) = 0 ↔ x < 2 ^ k := by
  constructor
  · intro h
    apply Nat.lt_pow_two_of_testBit
    intro i hi
    by_cases h32 : i < 32
    · have hb := congrArg (fun y => Nat.testBit y i) h
      simp only [Nat.testBit_and, Nat.testBit_shiftLeft, Nat.testBit_two_pow_sub_one,
        Nat.zero_testBit] at hb
      have h1 : decide (i ≥ k) = true := by simpa using hi
      have h2 : decide (i - k < 32 - k) = true := by
        simp only [decide_eq_true_eq]
        omega
      rw [h1, h2] at hb
      simpa using hb
    · exact Nat.testBit_lt_two_pow (Nat.lt_of_lt_of_le hx
        (Nat.pow_le_pow_right (by decide) (Nat.not_lt.1 h32)))
  · intro h
    apply Nat.eq_of_testBit_eq
    intro i
    simp only [Nat.testBit_and, Nat.testBit_shiftLeft, Nat.testBit_two_pow_sub_one,
      Nat.zero_testBit]
    by_cases hi : k ≤ i
    · rw [Nat.testBit_lt_two_pow (Nat.lt_of_lt_of_le h (Nat.pow_le_pow_right (by decide) hi))]
      rfl
    · have : decide (i ≥ k) = false := by simpa using hi
      rw [this]
      simp

theorem shift_step (x k j : Nat) (hx : x ≠ 0) (hlt : x < 2 ^ k) (hkj : k + j = 32) :
    (x <<< j) % 2 ^ 32 = x <<< j ∧ x <<< j < 2 ^ 32 ∧ (x <<< j).size = x.size + j ∧
      x <<< j ≠ 0 := by
  have h1 : x <<< j < 2 ^ 32 := by
    rw [Nat.shiftLeft_eq, ← hkj, Nat.pow_add]
    exact Nat.mul_lt_mul_of_lt_of_le hlt (Nat.le_refl _) (Nat.two_pow_pos _)
  refine ⟨Nat.mod_eq_of_lt h1, h1, Nat.size_shiftLeft hx j, ?_⟩
  rw [Nat.shiftLeft_eq]
  exact Nat.mul_ne_zero hx (Nat.pos_iff_ne_zero.1 (Nat.two_pow_pos _))

theorem countl_zero_eq (x : Nat) (hx : x < 2 ^ 32) : countl_zero_ x = 32 - x.size := by
  unfold countl_zero_
  by_cases h0 : x = 0
  · subst h0
    simp
  rw [if_neg h0]
  have m16 : (0xffff0000 : Nat) = (2 ^ (32 - 16) - 1) <<< 16 := by decide
  have m8 : (0xff000000 : Nat) = (2 ^ (32 - 24) - 1) <<< 24 := by decide
  have m4 : (0xf0000000 : Nat) = (2 ^ (32 - 28) - 1) <<< 28 := by decide
  have m2 : (0xc0000000 : Nat) = (2 ^ (32 - 30) - 1) <<< 30 := by decide
  have m1 : (0x80000000 : Nat) = (2 ^ (32 - 31) - 1) <<< 31 := by decide
  have key : ∀ (r y : Nat), y ≠ 0 → y < 2 ^ 32 → r + (32 - y.size) = 32 - x.size →
      ∀ (k j : Nat) (mask : Nat), mask = (2 ^ (32 - k) - 1) <<< k → k ≤ 32 → k + j = 32 →
      j ≤ k → 2 ^ (k - j) ≤ y ∨ k = j →
      ∃ r2 y2, (if y &&& mask = 0 then (r + j, (y <<< j) % 2 ^ 32) else (r, y)) = (r2, y2) ∧
        y2 ≠ 0 ∧ y2 < 2 ^ 32 ∧ r2 + (32 - y2.size) = 32 - x.size ∧ 2 ^ k ≤ y2 := by
    intro r y hy hy32 hr k j mask hm hk hkj hjk hlow
    have hiff := and_high_mask_eq_zero y k hk hy32
    rw [← hm] at hiff
    have hsz : y.size ≤ 32 := Nat.size_le.2 hy32
    by_cases hz : y &&& mask = 0
    · rw [if_pos hz]
      have hlt := hiff.1 hz
      obtain ⟨s1, s2, s3, s4⟩ := shift_step y k j hy hlt hkj
      refine ⟨_, _, rfl, by rw [s1]; exact s4, by rw [s1]; exact s2, ?_, ?_⟩
      · rw [s1, s3]
        have : y.size ≤ k := Nat.size_le.2 hlt
        omega
      · rw [s1, Nat.shiftLeft_eq]
        rcases hlow with hlow | hlow
        · calc 2 ^ k = 2 ^ (k - j) * 2 ^ j := by
                rw [← Nat.pow_add, Nat.sub_add_cancel hjk]
            _ ≤ y * 2 ^ j := Nat.mul_le_mul_right _ hlow
        · subst hlow
          calc 2 ^ k = 1 * 2 ^ k := (Nat.one_mul _).symm
            _ ≤ y * 2 ^ k := Nat.mul_le_mul_right _ (Nat.pos_of_ne_zero hy)
    · rw [if_neg hz]
      exact ⟨_, _, rfl, hy, hy32, hr, Nat.not_lt.1 (fun hlt => hz (hiff.2 hlt))⟩
  obtain ⟨r1, y1, e1, a1, b1, c1, d1⟩ := key 0 x h0 hx (by simp) 16 16 _ m16 (by decide) rfl
    (by decide) (Or.inr rfl)
  obtain ⟨r2, y2, e2, a2, b2, c2, d2⟩ := key r1 y1 a1 b1 c1 24 8 _ m8 (by decide) rfl
    (by decide) (Or.inl d1)
  obtain ⟨r3, y3, e3, a3, b3, c3, d3⟩ := key r2 y2 a2 b2 c2 28 4 _ m4 (by decide) rfl
    (by decide) (Or.inl d2)
  obtain ⟨r4, y4, e4, a4, b4, c4, d4⟩ := key r3 y3 a3 b3 c3 30 2 _ m2 (by decide) rfl
    (by decide) (Or.inl (Nat.le_trans (by decide) d3))
  simp only [Nat.zero_add] at e1
  simp only [e1, e2, e3, e4]
  have hiff := and_high_mask_eq_zero y4 31 (by decide) b4
  rw [← m1] at hiff
  have hsz : y4.size ≤ 32 := Nat.size_le.2 b4
  by_cases hz : y4 &&& 0x80000000 = 0
  · rw [if_pos hz]
    have h1 : y4.size ≤ 31 := Nat.size_le.2 (hiff.1 hz)
    have h2 : 30 < y4.size := Nat.lt_size.2 d4
    omega
  · rw [if_neg hz]
    have h2 : 31 < y4.size := Nat.lt_size.2 (Nat.not_lt.1 (fun hlt => hz (hiff.2 hlt)))
    omega

theorem size_eq_log2_succ (n : Nat) (h : n ≠ 0) : n.size = n.log2 + 1 := by
  apply Nat.le_antisymm
  · rw [Nat.size_le]
    exact Nat.lt_log2_self
  · rw [Nat.succ_le_iff, Nat.lt_size]
    exact Nat.log2_self_le h

theorem size_one_eq : (1 : Nat).size = 1 := by
  apply Nat.le_antisymm
  · rw [Nat.size_le]
    decide
  · rw [Nat.succ_le_iff, Nat.lt_size]
    decide

theorem size_or (x y : Nat) : (x ||| y).size = max x.size y.size := by
  apply Nat.le_antisymm
  · rw [Nat.size_le]
    exact Nat.or_lt_two_pow
      (Nat.lt_of_lt_of_le (Nat.lt_size_self x) (Nat.pow_le_pow_right (by decide) (le_max_left _ _)))
      (Nat.lt_of_lt_of_le (Nat.lt_size_self y) (Nat.pow_le_pow_right (by decide) (le_max_right _ _)))
  · have hbit : ∀ z : Nat, (∀ i, z.testBit i = true → (x ||| y).testBit i = true) →
        z.size ≤ (x ||| y).size := by
      intro z hz
      rw [Nat.size_le]
      apply Nat.lt_pow_two_of_testBit
      intro i hi
      have h1 : (x ||| y).testBit i = false :=
        Nat.testBit_lt_two_pow (Nat.lt_of_lt_of_le (Nat.lt_size_self _)
          (Nat.pow_le_pow_right (by decide) hi))
      cases hb : z.testBit i
      · rfl
      · rw [hz i hb] at h1
        cases h1
    apply max_le
    · exact hbit x (fun i hi => by simp [Nat.testBit_or, hi])
    · exact hbit y (fun i hi => by simp [Nat.testBit_or, hi])

theorem size_max (x y : Nat) : (max x y).size = max x.size y.size := by
  rcases Nat.le_total x y with h | h
  · rw [max_eq_right h, max_eq_right (Nat.size_le_size h)]
  · rw [max_eq_left h, max_eq_left (Nat.size_le_size h)]

theorem compute_mip_level_count_eq_size (aWidth aHeight : Nat) (hw : aWidth < 2 ^ 32)
    (hh : aHeight < 2 ^ 32) :
    compute_mip_level_count aWidth aHeight = (max aWidth aHeight).size := by
  have hb : aWidth ||| aHeight < 2 ^ 32 := Nat.or_lt_two_pow hw hh
  have hs : (aWidth ||| aHeight).size ≤ 32 := Nat.size_le.2 hb
  unfold compute_mip_level_count
  simp only []
  rw [countl_zero_eq _ hb, size_max, ← size_or]
  have : 32 + 2 ^ 32 - (32 - (aWidth ||| aHeight).size) = 2 ^ 32 + (aWidth ||| aHeight).size := by
    omega
  rw [this, Nat.add_mod_left]
  exact Nat.mod_eq_of_lt (Nat.lt_of_le_of_lt hs (by decide))

theorem size_half (n : Nat) (h : 2 ≤ n) : (n / 2).size + 1 = n.size := by
  apply Nat.le_antisymm
  · rw [Nat.succ_le_iff, Nat.lt_size]
    have h1 : 2 ^ ((n / 2).size - 1) ≤ n / 2 := by
      have hpos : 0 < (n / 2).size := Nat.size_pos.2 (Nat.div_pos h (by decide))
      exact Nat.lt_size.1 (Nat.sub_lt hpos (by decide))
    have hpos : 0 < (n / 2).size := Nat.size_pos.2 (Nat.div_pos h (by decide))
    have h2 : 2 ^ (n / 2).size = 2 ^ ((n / 2).size - 1) * 2 := by
      rw [← Nat.pow_succ, Nat.succ_eq_add_one, Nat.sub_add_cancel hpos]
    rw [h2]
    calc 2 ^ ((n / 2).size - 1) * 2 ≤ n / 2 * 2 := Nat.mul_le_mul_right _ h1
      _ ≤ n := Nat.div_mul_le_self n 2
  · have h1 : n / 2 < 2 ^ (n / 2).size := Nat.lt_size_self _
    rw [Nat.size_le, Nat.pow_succ]
    omega

theorem halvingChainLevels_eq : ∀ (fuel w h : Nat), 1 ≤ w → 1 ≤ h → (max w h).size ≤ fuel + 1 →
    halvingChainLevels fuel (w, h) = (max w h).size := by
  intro fuel
  induction fuel with
  | zero =>
    intro w h hw hh hs
    have h0 : max w h ≠ 0 := by
      have : w ≤ max w h := le_max_left _ _
      omega
    have : 0 < (max w h).size := Nat.size_pos.2 (Nat.pos_of_ne_zero h0)
    unfold halvingChainLevels
    omega
  | succ fuel ih =>
    intro w h hw hh hs
    unfold halvingChainLevels
    by_cases h11 : (w, h) = (1, 1)
    · rw [if_pos h11]
      simp only [Prod.mk.injEq] at h11
      rw [h11.1, h11.2, max_self]
      exact size_one_eq.symm
    · rw [if_neg h11]
      have hne : ¬ (w = 1 ∧ h = 1) := fun hc => h11 (by rw [hc.1, hc.2])
      have h2 : 2 ≤ max w h := by
        rcases Nat.lt_or_ge 1 w with hw1 | hw1
        · exact Nat.le_trans hw1 (le_max_left _ _)
        · rcases Nat.lt_or_ge 1 h with hh1 | hh1
          · exact Nat.le_trans hh1 (le_max_right _ _)
          · exact absurd ⟨Nat.le_antisymm hw1 hw, Nat.le_antisymm hh1 hh⟩ hne
      have hmax : max (if w > 1 then w / 2 else 1) (if h > 1 then h / 2 else 1) = max w h / 2 := by
        rcases Nat.le_total w h with hwh | hwh
        · rw [max_eq_right hwh] at h2 ⊢
          have hh1 : h > 1 := h2
          rw [if_pos hh1]
          apply max_eq_right
          split
          · exact Nat.div_le_div_right hwh
          · exact Nat.div_pos h2 (by decide)
        · rw [max_eq_left hwh] at h2 ⊢
          have hw1 : w > 1 := h2
          rw [if_pos hw1]
          apply max_eq_left
          split
          · exact Nat.div_le_div_right hwh
          · exact Nat.div_pos h2 (by decide)
      have hw2 : 1 ≤ (if w > 1 then w / 2 else 1) := by
        split
        · rename_i hgt
          exact Nat.div_pos hgt (by decide)
        · exact Nat.le_refl 1
      have hh2 : 1 ≤ (if h > 1 then h / 2 else 1) := by
        split
        · rename_i hgt
          exact Nat.div_pos hgt (by decide)
        · exact Nat.le_refl 1
      have hsz := size_half (max w h) h2
      unfold nextMipExtent
      simp only []
      rw [ih _ _ hw2 hh2 (by rw [hmax]; omega), hmax]
      omega

theorem halveExtent_eq (w h : Nat) (hw : 1 ≤ w) (hh : 1 ≤ h) :
    halveExtent (w, h) = nextMipExtent (w, h) := by
  unfold halveExtent nextMipExtent
  have e1 : (if w > 1 then w / 2 else w) = (if w > 1 then w / 2 else 1) := by
    split
    · rfl
    · omega
  have e2 : (if h > 1 then h / 2 else h) = (if h > 1 then h / 2 else 1) := by
    split
    · rfl
    · omega
  simp only [e1, e2]

theorem nextMipExtent_size (w h : Nat) (hw : 1 ≤ w) (hh : 1 ≤ h) (h2 : 2 ≤ max w h) :
    1 ≤ (nextMipExtent (w, h)).1 ∧ 1 ≤ (nextMipExtent (w, h)).2 ∧
    (max (nextMipExtent (w, h)).1 (nextMipExtent (w, h)).2).size + 1 = (max w h).size := by
  have hmax : max (if w > 1 then w / 2 else 1) (if h > 1 then h / 2 else 1) = max w h / 2 := by
    rcases Nat.le_total w h with hwh | hwh
    · rw [max_eq_right hwh] at h2 ⊢
      have hh1 : h > 1 := h2
      rw [if_pos hh1]
      apply max_eq_right
      split
      · exact Nat.div_le_div_right hwh
      · exact Nat.div_pos h2 (by decide)
    · rw [max_eq_left hwh] at h2 ⊢
      have hw1 : w > 1 := h2
      rw [if_pos hw1]
      apply max_eq_left
      split
      · exact Nat.div_le_div_right hwh
      · exact Nat.div_pos h2 (by decide)
  have hw2 : 1 ≤ (if w > 1 then w / 2 else 1) := by
    split
    · rename_i hgt
      exact Nat.div_pos hgt (by decide)
    · exact Nat.le_refl 1
  have hh2 : 1 ≤ (if h > 1 then h / 2 else 1) := by
    split
    · rename_i hgt
      exact Nat.div_pos hgt (by decide)
    · exact Nat.le_refl 1
  refine ⟨hw2, hh2, ?_⟩
  show (max (if w > 1 then w / 2 else 1) (if h > 1 then h / 2 else 1)).size + 1 = _
  rw [hmax]
  exact size_half (max w h) h2

/-- The mip loop on a base image of at least 1 by 1, run for one iteration less
than the bit length of the larger dimension: every blit halves its source level
(never below 1), no source level is 1 by 1, and the last level is 1 by 1. -/
theorem mipBlitsFrom_chain : ∀ (n level w h : Nat), 1 ≤ level → 1 ≤ w → 1 ≤ h →
    (max w h).size = n + 1 →
    (mipBlitsFrom n level (w, h)).length = n ∧
    (∀ b ∈ mipBlitsFrom n level (w, h),
      b.srcExtent ≠ (1, 1) ∧ b.dstExtent = nextMipExtent b.srcExtent ∧
      b.dstMipLevel = b.srcMipLevel + 1) ∧
    List.Chain' (fun a b : Nat × Nat => b = nextMipExtent a)
      ((w, h) :: (mipBlitsFrom n level (w, h)).map (fun b => b.dstExtent)) ∧
    ((w, h) :: (mipBlitsFrom n level (w, h)).map (fun b => b.dstExtent)).getLast? =
      some (1, 1) := by
  intro n
  induction n with
  | zero =>
    intro level w h hl hw hh hs
    have h1 : max w h < 2 ^ 1 := Nat.size_le.1 (by omega)
    have hwl : w ≤ max w h := le_max_left _ _
    have hhl : h ≤ max w h := le_max_right _ _
    have ew : w = 1 := by omega
    have eh : h = 1 := by omega
    subst ew
    subst eh
    refine ⟨rfl, fun b hb => ?_, ?_, rfl⟩
    · simp [mipBlitsFrom] at hb
    · simp [mipBlitsFrom]
  | succ n ih =>
    intro level w h hl hw hh hs
    have h2 : 2 ≤ max w h := by
      have : 2 ^ 1 ≤ max w h := Nat.lt_size.1 (by omega)
      simpa using this
    obtain ⟨a1, a2, a3⟩ := nextMipExtent_size w h hw hh h2
    have hne : ((w, h) : Nat × Nat) ≠ (1, 1) := by
      intro hc
      simp only [Prod.mk.injEq] at hc
      rw [hc.1, hc.2] at h2
      simp at h2
    have hrec := ih (level + 1) (nextMipExtent (w, h)).1 (nextMipExtent (w, h)).2 (by omega) a1 a2
      (by omega)
    have hstep : mipBlitsFrom (n + 1) level (w, h) =
        { srcMipLevel := level - 1, srcExtent := (w, h), dstMipLevel := level
          dstExtent := nextMipExtent (w, h) } ::
          mipBlitsFrom n (level + 1) ((nextMipExtent (w, h)).1, (nextMipExtent (w, h)).2) := by
      show _ :: mipBlitsFrom n (level + 1) (halveExtent (w, h)) = _
      rw [halveExtent_eq w h hw hh]
    obtain ⟨r1, r2, r3, r4⟩ := hrec
    rw [hstep]
    refine ⟨by simp [r1], fun b hb => ?_, ?_, ?_⟩
    · rcases List.mem_cons.mp hb with rfl | hb
      · exact ⟨hne, rfl, by show level = level - 1 + 1; omega⟩
      · exact r2 b hb
    · rw [List.map_cons, List.chain'_cons]
      exact ⟨rfl, r3⟩
    · rw [List.map_cons, List.getLast?_cons_cons]
      exact r4

/-- C30 (what holds): for 32-bit `aWidth` and `aHeight`, `countl_zero_` is the
number of leading zero bits (32 for 0, and for `x > 0` the highest set bit of
`x` is bit `31 - countl_zero_ x`), `compute_mip_level_count` returns 32 minus
that count for `aWidth | aHeight`, which is 0 when both are 0 and
`floor(log2(max(aWidth, aHeight))) + 1` otherwise.  When both are at least 1
this is the number of levels of the chain obtained by halving each dimension
(rounding down, never below 1) until the level is 1 by 1, which 32 halvings (or
any larger bound) reach; and the mip loop of `load_image_texture2d_with_mipmap`
then leaves that many levels: each blit goes from a level that is not 1 by 1 to
the next mip level, of half the extent, and the last level is 1 by 1. -/
theorem compute_mip_level_count_is_bit_length (aWidth aHeight : Nat) (hw : aWidth < 2 ^ 32)
    (hh : aHeight < 2 ^ 32) :
    countl_zero_ 0 = 32 ∧
    (∀ x, 0 < x → x < 2 ^ 32 →
      countl_zero_ x ≤ 31 ∧ 2 ^ (31 - countl_zero_ x) ≤ x ∧ x < 2 ^ (32 - countl_zero_ x)) ∧
    compute_mip_level_count aWidth aHeight = 32 - countl_zero_ (aWidth ||| aHeight) ∧
    (aWidth = 0 → aHeight = 0 → compute_mip_level_count aWidth aHeight = 0) ∧
    (¬ (aWidth = 0 ∧ aHeight = 0) →
      compute_mip_level_count aWidth aHeight = Nat.log2 (max aWidth aHeight) + 1) ∧
    (1 ≤ aWidth → 1 ≤ aHeight →
      (∀ fuel, 32 ≤ fuel →
        compute_mip_level_count aWidth aHeight = halvingChainLevels fuel (aWidth, aHeight)) ∧
      (mipLevelExtents aWidth aHeight).length = compute_mip_level_count aWidth aHeight ∧
      (∀ b ∈ mipBlits aWidth aHeight,
        b.srcExtent ≠ (1, 1) ∧ b.dstExtent = nextMipExtent b.srcExtent ∧
        b.dstMipLevel = b.srcMipLevel + 1) ∧
      List.Chain' (fun a b : Nat × Nat => b = nextMipExtent a) (mipLevelExtents aWidth aHeight) ∧
      (mipLevelExtents aWidth aHeight).getLast? = some (1, 1)) := by
  have hb : aWidth ||| aHeight < 2 ^ 32 := Nat.or_lt_two_pow hw hh
  have hmax : max aWidth aHeight < 2 ^ 32 := max_lt hw hh
  have hsz : (max aWidth aHeight).size ≤ 32 := Nat.size_le.2 hmax
  have hc := compute_mip_level_count_eq_size aWidth aHeight hw hh
  refine ⟨rfl, ?_, ?_, ?_, ?_, ?_⟩
  · intro x hx hx32
    rw [countl_zero_eq x hx32]
    have h1 : 0 < x.size := Nat.size_pos.2 hx
    have h2 : x.size ≤ 32 := Nat.size_le.2 hx32
    have e1 : 31 - (32 - x.size) = x.size - 1 := by omega
    have e2 : 32 - (32 - x.size) = x.size := by omega
    rw [e1, e2]
    exact ⟨by omega, Nat.lt_size.1 (Nat.sub_lt h1 (by decide)), Nat.lt_size_self x⟩
  · rw [hc, countl_zero_eq _ hb, size_max, ← size_or]
    have : (aWidth ||| aHeight).size ≤ 32 := Nat.size_le.2 hb
    omega
  · intro h1 h2
    rw [hc, h1, h2, max_self, Nat.size_zero]
  · intro hne
    rw [hc]
    apply size_eq_log2_succ
    intro h0
    have h1 : aWidth ≤ max aWidth aHeight := le_max_left _ _
    have h2 : aHeight ≤ max aWidth aHeight := le_max_right _ _
    exact hne ⟨by omega, by omega⟩
  · intro h1 h2
    have hpos : 0 < (max aWidth aHeight).size := by
      apply Nat.size_pos.2
      have : aWidth ≤ max aWidth aHeight := le_max_left _ _
      omega
    obtain ⟨c1, c2, c3, c4⟩ := mipBlitsFrom_chain ((max aWidth aHeight).size - 1) 1 aWidth aHeight
      (Nat.le_refl 1) h1 h2 (by omega)
    refine ⟨fun fuel hf => ?_, ?_, ?_, ?_, ?_⟩
    · rw [hc, halvingChainLevels_eq fuel _ _ h1 h2 (by omega)]
    · unfold mipLevelExtents mipBlits
      rw [hc, List.length_cons, List.length_map, c1]
      omega
    · unfold mipBlits
      rw [hc]
      exact c2
    · unfold mipLevelExtents mipBlits
      rw [hc]
      exact c3
    · unfold mipLevelExtents mipBlits
      rw [hc]
      exact c4

theorem compute_mip_level_count_is_bit_length_witness :
    compute_mip_level_count 800 600 = 32 - countl_zero_ (800 ||| 600) ∧
    compute_mip_level_count 800 600 = Nat.log2 (max 800 600) + 1 ∧
    compute_mip_level_count 800 600 = halvingChainLevels 32 (800, 600) ∧
    (mipLevelExtents 800 600).length = compute_mip_level_count 800 600 ∧
    (mipLevelExtents 800 600).getLast? = some (1, 1) := by
  have h := compute_mip_level_count_is_bit_length 800 600 (by decide) (by decide)
  have h6 := h.2.2.2.2.2 (by decide) (by decide)
  exact ⟨h.2.2.1, h.2.2.2.2.1 (by decide), h6.1 32 (Nat.le_refl _), h6.2.1, h6.2.2.2.2⟩

/-- C30 (what fails): for a width of 0 and a height of 1 the function returns
1 and the mip loop makes no blit, so the one level there is measures 0 by 1;
the chain obtained by halving each dimension (rounding down, never below 1)
until the level is 1 by 1 has two levels from 0 by 1, namely 0 by 1 and 1 by 1. -/
theorem mip_level_count_of_0_by_1_is_short_of_the_halving_chain :
    compute_mip_level_count 0 1 = 1 ∧ mipBlits 0 1 = [] ∧ mipLevelExtents 0 1 = [(0, 1)] ∧
    halvingChainLevels 32 (0, 1) = 2 ∧
    ¬ (compute_mip_level_count 0 1 = halvingChainLevels 32 (0, 1)) := by
  decide

/-! ### `load_shader_module` -/

/-- The read loop from `offset`, with at least as many iterations allowed as
words remain: either every read returns a positive count, the counts add up to
the words that remained and the loop is left by its exit condition; or, after
reads with positive counts that leave words unread, a read returns 0, the file
is closed and "Error reading" is thrown. -/
theorem readWords_run (p : String) (f : ShaderFile) (words : Nat) :
    ∀ (fuel offset : Nat) (d : Device), offset ≤ words → words - offset ≤ fuel →
      ∃ ns : List Nat, (∀ n ∈ ns, 0 < n) ∧
        ((offset + ns.sum = words ∧
          readWords p f words fuel offset d = (freadsFrom p words offset ns, .done () d)) ∨
         (offset + ns.sum < words ∧
          readWords p f words fuel offset d =
            (freadsFrom p words offset ns ++
              [.fread p (offset + ns.sum) (words - (offset + ns.sum)) 0, .fclose p],
             .fault (.error "Error reading" 0)))) := by
  intro fuel
  induction fuel with
  | zero =>
    intro offset d ho hf
    refine ⟨[], fun _ h => by simp at h, Or.inl ⟨?_, rfl⟩⟩
    simp only [List.sum_nil, Nat.add_zero]
    omega
  | succ fuel ih =>
    intro offset d ho hf
    unfold readWords
    by_cases he : offset = words
    · rw [if_pos he]
      exact ⟨[], fun _ h => by simp at h, Or.inl ⟨by simpa using he, rfl⟩⟩
    · rw [if_neg he]
      by_cases hz : min (f.fread offset (words - offset)) (words - offset) = 0
      · refine ⟨[], fun _ h => by simp at h, Or.inr ⟨?_, ?_⟩⟩
        · simp only [List.sum_nil, Nat.add_zero]
          omega
        · rw [hz]
          simp [Exec.bind_apply, freadsFrom]
      · have hpos : 0 < min (f.fread offset (words - offset)) (words - offset) :=
          Nat.pos_of_ne_zero hz
        have hle : min (f.fread offset (words - offset)) (words - offset) ≤ words - offset :=
          Nat.min_le_right _ _
        obtain ⟨ns, hns, hrun⟩ := ih
          (offset + min (f.fread offset (words - offset)) (words - offset)) d (by omega) (by omega)
        refine ⟨min (f.fread offset (words - offset)) (words - offset) :: ns, ?_, ?_⟩
        · intro n hn
          rcases List.mem_cons.1 hn with rfl | hn
          · exact hpos
          · exact hns n hn
        · rcases hrun with ⟨hs, hr⟩ | ⟨hs, hr⟩
          · refine Or.inl ⟨by rw [List.sum_cons, ← Nat.add_assoc]; exact hs, ?_⟩
            simp [Exec.bind_apply, hz, hr, freadsFrom]
          · refine Or.inr ⟨by rw [List.sum_cons, ← Nat.add_assoc]; exact hs, ?_⟩
            simp [Exec.bind_apply, hz, hr, freadsFrom, List.sum_cons, Nat.add_assoc]

/-- A file that opens and whose length is not a multiple of four fails the
`assert` of `load_shader_module` before any read. -/
theorem load_shader_module_odd_length (w : World) (p : String) (f : ShaderFile)
    (hf : w.files p = some f) (h4 : f.bytes % 4 ≠ 0) (d : Device) :
    load_shader_module w p d = ([.fopen p true], .fault (.assertion "0 == bytes % 4")) := by
  have hassert : decide (0 = f.bytes % 4) = false := by
    simp only [decide_eq_false_iff_not]
    omega
  unfold load_shader_module
  rw [hf]
  simp [Exec.bind_apply, Exec.assert, hassert]


/-- C22 (what holds): `load_shader_module` throws "Cannot open for reading"
when the file cannot be opened.  On a file that opens and whose length is not a
multiple of four it fails `assert(0 == bytes % 4)` before any read.  On a file
whose length is a multiple of four, its read loop
asks each time for the words that remain, starting where the read before
stopped; either every read returns a positive count, the counts add up to
`bytes / 4`, the file is closed and the shader module is created with
`codeSize = bytes` (the function returning it if the creation succeeds,
throwing otherwise); or a read returns 0 while words remain, and the function
closes the file and throws "Error reading". -/
theorem load_shader_module_reads_every_word (w : World) (p : String) (d : Device) :
    (w.files p = none →
      load_shader_module w p d = ([.fopen p false], .fault (.error "Cannot open for reading" 0))) ∧
    (∀ f, w.files p = some f → f.bytes % 4 = 0 →
      ∃ ns : List Nat, (∀ n ∈ ns, 0 < n) ∧
        ((ns.sum = f.bytes / 4 ∧
          (load_shader_module w p d).1 =
            [.fopen p true] ++ freadsFrom p (f.bytes / 4) 0 ns ++
              [.fclose p, .create (.shaderModule p f.bytes) (w.createResult d.nextHandle)
                (if w.createResult d.nextHandle = VK_SUCCESS then d.nextHandle else 0)] ∧
          (w.createResult d.nextHandle = VK_SUCCESS →
            (load_shader_module w p d).2 =
              .done d.nextHandle (d.alloc (.shaderModule p f.bytes))) ∧
          (w.createResult d.nextHandle ≠ VK_SUCCESS →
            (load_shader_module w p d).2 =
              .fault (.error "Unable to create shader module" (w.createResult d.nextHandle)))) ∨
         (ns.sum < f.bytes / 4 ∧
          load_shader_module w p d =
            ([.fopen p true] ++ freadsFrom p (f.bytes / 4) 0 ns ++
              [.fread p ns.sum (f.bytes / 4 - ns.sum) 0, .fclose p],
             .fault (.error "Error reading" 0))))) ∧
    (∀ f, w.files p = some f → f.bytes % 4 ≠ 0 →
      load_shader_module w p d = ([.fopen p true], .fault (.assertion "0 == bytes % 4"))) := by
  refine ⟨fun hnone => ?_, fun f hf h4 => ?_,
    fun f hf h4 => load_shader_module_odd_length w p f hf h4 d⟩
  · unfold load_shader_module
    rw [hnone]
    rfl
  · obtain ⟨ns, hns, hrun⟩ := readWords_run p f (f.bytes / 4) (f.bytes / 4) 0 d (Nat.zero_le _)
      (Nat.le_refl _)
    have hassert : decide (0 = f.bytes % 4) = true := by simp [h4]
    refine ⟨ns, hns, ?_⟩
    rcases hrun with ⟨hs, hr⟩ | ⟨hs, hr⟩
    · rw [Nat.zero_add] at hs
      refine Or.inl ⟨hs, ?_, ?_, ?_⟩
      · unfold load_shader_module
        rw [hf]
        by_cases hc : w.createResult d.nextHandle = VK_SUCCESS
        · simp [Exec.bind_apply, Exec.assert, hassert, hr, Exec.create, hc]
        · simp [Exec.bind_apply, Exec.assert, hassert, hr, Exec.create, hc]
      · intro hc
        unfold load_shader_module
        rw [hf]
        simp [Exec.bind_apply, Exec.assert, hassert, hr, Exec.create, hc, Device.alloc]
      · intro hc
        unfold load_shader_module
        rw [hf]
        simp [Exec.bind_apply, Exec.assert, hassert, hr, Exec.create, hc]
    · rw [Nat.zero_add] at hs
      refine Or.inr ⟨hs, ?_⟩
      unfold load_shader_module
      rw [hf]
      simp [Exec.bind_apply, Exec.assert, hassert, hr]

theorem load_shader_module_reads_every_word_witness :
    World.allOk.files cfg.kVertShaderPath = some okFile ∧ okFile.bytes % 4 = 0 ∧
    ∃ ns : List Nat, (∀ n ∈ ns, 0 < n) ∧ ns.sum = okFile.bytes / 4 ∧
      (load_shader_module World.allOk cfg.kVertShaderPath sampleDevice).2 =
        .done 100 (sampleDevice.alloc (.shaderModule cfg.kVertShaderPath okFile.bytes)) := by
  obtain ⟨ns, hns, h⟩ := (load_shader_module_reads_every_word World.allOk cfg.kVertShaderPath
    sampleDevice).2.1 okFile rfl (by decide)
  refine ⟨rfl, by decide, ns, hns, ?_⟩
  rcases h with ⟨hs, _, hd, _⟩ | ⟨_, hr⟩
  · exact ⟨hs, hd rfl⟩
  · have h2 := load_shader_module_outcome World.allOk allOk_creationSucceeds cfg.kVertShaderPath
      sampleDevice
    rw [hr] at h2
    cases h2

/-- C22, where it fails: a shader file of six bytes opens, and `load_shader_module`
stops at `assert(0 == bytes % 4)`: it performs no read, throws no `lut::Error`
and creates no shader module. -/
theorem load_shader_module_asserts_on_six_bytes :
    World.sixByteFiles.files cfg.kVertShaderPath = some sixByteFile ∧ sixByteFile.bytes = 6 ∧
    load_shader_module World.sixByteFiles cfg.kVertShaderPath sampleDevice =
      ([.fopen cfg.kVertShaderPath true], .fault (.assertion "0 == bytes % 4")) ∧
    (∀ off req n, Event.fread cfg.kVertShaderPath off req n ∉
      (load_shader_module World.sixByteFiles cfg.kVertShaderPath sampleDevice).1) ∧
    (∀ what res, (load_shader_module World.sixByteFiles cfg.kVertShaderPath sampleDevice).2 ≠
      .fault (.error what res)) ∧
    (∀ h d1, (load_shader_module World.sixByteFiles cfg.kVertShaderPath sampleDevice).2 ≠
      .done h d1) := by
  have h := load_shader_module_odd_length World.sixByteFiles cfg.kVertShaderPath sixByteFile rfl
    (by decide) sampleDevice
  refine ⟨rfl, rfl, h, ?_, ?_, ?_⟩
  · intro off req n hm
    rw [h] at hm
    simp at hm
  · intro what res hc
    rw [h] at hc
    cases hc
  · intro k d1 hc
    rw [h] at hc
    cases hc

/-! ### The loops of start-up -/

theorem write_alloc (d : Device) (ws : List VkWriteDescriptorSet) (o : Object) :
    (d.write ws).alloc o = (d.alloc o).write ws := rfl

theorem write_allocs : ∀ (os : List Object) (d : Device) (ws : List VkWriteDescriptorSet),
    (d.write ws).allocs os = (d.allocs os).write ws := by
  intro os
  induction os with
  | nil => intro d ws; rfl
  | cons o os ih =>
    intro d ws
    show ((d.write ws).alloc o).allocs os = ((d.alloc o).allocs os).write ws
    rw [write_alloc, ih]

theorem write_write (d : Device) (a b : List VkWriteDescriptorSet) :
    (d.write a).write b = d.write (a ++ b) := by
  simp [Device.write]

theorem free_zero (d : Device) : d.free 0 = d := by
  simp [Device.free]

theorem allocs_cons (d : Device) (o : Object) (os : List Object) :
    d.allocs (o :: os) = (d.alloc o).allocs os := rfl

theorem allocs_append (d : Device) (xs ys : List Object) :
    d.allocs (xs ++ ys) = (d.allocs xs).allocs ys := by
  simp [Device.allocs, List.foldl_append]

theorem range'_map_shift {α : Type} (f : Nat → α) (s k : Nat) :
    (List.range' (s + 1) k).map f = (List.range' s k).map (fun j => f (j + 1)) := by
  induction k generalizing s with
  | zero => rfl
  | succ k ih =>
    simp only [List.range'_succ, List.map_cons]
    rw [ih]

namespace Exec

/-- A loop that creates two objects per iteration and collects the pairs of handles. -/
theorem post_collectFrom_pairs (body : Nat → Exec (Handle × Handle)) (a b : Object)
    (hb : ∀ j, Post (body j) (fun d x d1 =>
      x = (d.nextHandle, d.nextHandle + 1) ∧ d1 = (d.alloc a).alloc b)) :
    ∀ (k s : Nat), Post (Exec.collectFrom body s k) (fun d xs d1 =>
      xs = (List.range' 0 k).map (fun i => (d.nextHandle + 2 * i, d.nextHandle + 2 * i + 1)) ∧
      d1 = d.allocs ((List.range' s k).flatMap (fun _ => [a, b]))) := by
  intro k
  induction k with
  | zero =>
    intro s d xs d1 h
    simp only [Exec.collectFrom, pure_apply, Outcome.done.injEq] at h
    exact ⟨h.1.symm, h.2.symm⟩
  | succ k ih =>
    intro s
    unfold Exec.collectFrom
    refine post_weaken (post_bind (hb s) (fun x =>
      post_bind (ih (s + 1)) (fun xs => post_pure _))) ?_
    rintro d xs d1 ⟨x, d2, ⟨rfl, rfl⟩, ys, d3, ⟨rfl, rfl⟩, rfl, rfl⟩
    refine ⟨?_, ?_⟩
    · rw [List.range'_succ, List.map_cons, range'_map_shift]
      simp only [nextHandle_alloc, Nat.mul_zero, Nat.add_zero, List.cons.injEq, true_and]
      apply List.map_congr_left
      intro i _
      simp only [Prod.mk.injEq]
      constructor <;> (unfold Handle at *; omega)
    · rw [List.range'_succ, List.flatMap_cons, allocs_append]
      rfl

theorem post_descriptor_body (w : World) (dpool layout : Handle) (ubos : List Handle) (i : Nat) :
    Post (do
        let set ← alloc_desc_set w dpool layout
        let ubo ← Exec.index ubos i "materialUBO[i]"
        writeUniformBufferDescriptor set ubo
        pure set)
      (fun d a d1 => a = d.nextHandle ∧
        d1 = (d.alloc (.descriptorSet dpool layout)).write
          [uniformWrite d.nextHandle (ubos.getD i 0)]) := by
  intro d
  simp only [bind_eq, pure_eq]
  unfold alloc_desc_set writeUniformBufferDescriptor
  refine post_step (post_create _ _ _) (fun _ d1 h => ?_)
  obtain ⟨rfl, rfl⟩ := h
  refine post_step (post_index _ _ _) (fun ubo d1 h => ?_)
  obtain ⟨rfl, hu⟩ := h
  refine post_step (post_vkUpdateDescriptorSets _) (fun _ d1 h => ?_)
  subst h
  refine post_done ⟨rfl, ?_⟩
  have : ubos.getD i 0 = ubo := by
    rw [List.getD_eq_getElem?_getD, ← List.get?_eq_getElem?, hu]
    rfl
  rw [this]
  rfl

/-- A loop that allocates one descriptor set per iteration and points it at the
buffer of the same index. -/
theorem post_collectFrom_descriptors (w : World) (dpool layout : Handle) (ubos : List Handle) :
    ∀ (k s : Nat), Post
      (Exec.collectFrom (fun i => do
        let set ← alloc_desc_set w dpool layout
        let ubo ← Exec.index ubos i "materialUBO[i]"
        writeUniformBufferDescriptor set ubo
        pure set) s k)
      (fun d xs d1 =>
        xs = List.range' d.nextHandle k ∧
        d1 = (d.allocs ((List.range' s k).map (fun _ => .descriptorSet dpool layout))).write
          ((List.range' 0 k).map (fun j => uniformWrite (d.nextHandle + j) (ubos.getD (s + j) 0)))) := by
  intro k
  induction k with
  | zero =>
    intro s d xs d1 h
    simp only [Exec.collectFrom, pure_apply, Outcome.done.injEq] at h
    exact ⟨h.1.symm, by rw [← h.2]; rfl⟩
  | succ k ih =>
    intro s
    unfold Exec.collectFrom
    refine post_weaken (post_bind (post_descriptor_body w dpool layout ubos s) (fun x =>
      post_bind (ih (s + 1)) (fun xs => post_pure _))) ?_
    rintro d xs d1 ⟨x, d2, ⟨rfl, rfl⟩, ys, d3, ⟨rfl, rfl⟩, rfl, rfl⟩
    refine ⟨?_, ?_⟩
    · simp [List.range'_succ]
    · rw [List.range'_succ, List.map_cons, allocs_cons, write_allocs, write_write,
        List.range'_succ, List.map_cons]
      simp only [nextHandle_write, nextHandle_alloc, Nat.add_zero, List.singleton_append]
      congr 2
      rw [range'_map_shift]
      apply List.map_congr_left
      intro j _
      have e1 : d.nextHandle + 1 + j = d.nextHandle + (j + 1) := by
        unfold Handle at *
        omega
      have e2 : s + 1 + j = s + (j + 1) := by omega
      rw [e1, e2]

end Exec

/-! ### Start-up, for every run that returns -/

open Exec in
theorem make_vulkan_window_post (w : World) :
    Post (make_vulkan_window w) (fun d r d1 =>
      r = (afterMakeWindow w d).1 ∧ d1 = (afterMakeWindow w d).2) := by
  intro d
  unfold make_vulkan_window createSwapViews Exec.collect
  simp only [bind_eq, pure_eq]
  refine post_step (post_create _ _ _) (fun _ d1 h => ?_)
  obtain ⟨rfl, rfl⟩ := h
  refine post_step (post_create _ _ _) (fun _ d1 h => ?_)
  obtain ⟨rfl, rfl⟩ := h
  refine post_step (post_create _ _ _) (fun _ d1 h => ?_)
  obtain ⟨rfl, rfl⟩ := h
  refine post_step (post_create _ _ _) (fun _ d1 h => ?_)
  obtain ⟨rfl, rfl⟩ := h
  refine post_step (post_create _ _ _) (fun sc d1 h => ?_)
  obtain ⟨rfl, rfl⟩ := h
  refine post_step (post_collectFrom_create _ (fun i => .swapView _ i) _ 0
    (fun j _ _ => post_create _ _ _)) (fun _ d1 h => ?_)
  obtain ⟨rfl, rfl⟩ := h
  exact post_done ⟨rfl, rfl⟩

open Exec in
theorem allocFrameSlots_post (w : World) (cpool : Handle) (n : Nat) :
    Post (allocFrameSlots w cpool n) (fun d xs d1 =>
      xs = (List.range' 0 n).map (fun i => (d.nextHandle + 2 * i, d.nextHandle + 2 * i + 1)) ∧
      d1 = d.allocs ((List.range' 0 n).flatMap (fun _ =>
        [.commandBuffer cpool, .fence VK_FENCE_CREATE_SIGNALED_BIT]))) := by
  unfold allocFrameSlots Exec.collect
  refine post_collectFrom_pairs _ _ _ (fun j d => ?_) n 0
  unfold alloc_command_buffer create_fence
  simp only [bind_eq, pure_eq]
  refine post_step (post_create _ _ _) (fun _ d1 h => ?_)
  obtain ⟨rfl, rfl⟩ := h
  refine post_step (post_create _ _ _) (fun _ d1 h => ?_)
  obtain ⟨rfl, rfl⟩ := h
  exact post_done ⟨rfl, rfl⟩

open Exec in
theorem createMaterialBuffers_post (w : World) (n size : Nat) :
    Post (createMaterialBuffers w n size) (fun d xs d1 =>
      xs = List.range' d.nextHandle n ∧
      d1 = d.allocs ((List.range' 0 n).map (fun _ => .buffer size
        (VK_BUFFER_USAGE_UNIFORM_BUFFER_BIT ||| VK_BUFFER_USAGE_TRANSFER_DST_BIT)))) := by
  unfold createMaterialBuffers Exec.collect
  refine post_collectFrom_create _ _ n 0 (fun j _ _ d => ?_)
  unfold create_buffer
  simp only [bind_eq]
  refine post_step (post_create _ _ _) (fun _ d1 h => ?_)
  obtain ⟨rfl, rfl⟩ := h
  intro a d2 h2
  obtain ⟨rfl, rfl⟩ := assign_post _ _ _ _ _ h2
  exact ⟨rfl, free_zero _⟩

open Exec in
theorem createMaterialDescriptors_post (w : World) (dpool layout : Handle) (ubos : List Handle)
    (n : Nat) :
    Post (createMaterialDescriptors w dpool layout ubos n) (fun d xs d1 =>
      xs = List.range' d.nextHandle n ∧ d1 = afterMaterialDescriptors d dpool layout ubos n) := by
  unfold createMaterialDescriptors Exec.collect afterMaterialDescriptors
  refine post_weaken (post_collectFrom_descriptors w dpool layout ubos n 0) ?_
  rintro d xs d1 ⟨rfl, rfl⟩
  refine ⟨rfl, ?_⟩
  simp only [Nat.zero_add]

open Exec in
theorem main_init_post (w : World) (boot : Boot) :
    Post (main_init w boot) (fun d v d1 =>
      v = (afterMainInit w boot d).1 ∧ d1 = (afterMainInit w boot d).2) := by
  intro d
  unfold main_init
  simp only [bind_eq, pure_eq]
  refine post_step (make_vulkan_window_post w) (fun window d1 h => ?_)
  obtain ⟨rfl, rfl⟩ := h
  refine post_step (post_create _ _ _) (fun _ d1 h => ?_)
  obtain ⟨rfl, rfl⟩ := h
  refine post_step (post_create _ _ _) (fun _ d1 h => ?_)
  obtain ⟨rfl, rfl⟩ := h
  refine post_step (post_create _ _ _) (fun _ d1 h => ?_)
  obtain ⟨rfl, rfl⟩ := h
  refine post_step (post_create _ _ _) (fun _ d1 h => ?_)
  obtain ⟨rfl, rfl⟩ := h
  refine post_step (post_create _ _ _) (fun _ d1 h => ?_)
  obtain ⟨rfl, rfl⟩ := h
  refine post_step (post_create _ _ _) (fun _ d1 h => ?_)
  obtain ⟨rfl, rfl⟩ := h
  refine post_step (post_create _ _ _) (fun _ d1 h => ?_)
  obtain ⟨rfl, rfl⟩ := h
  refine post_step (createGraphicsPipeline_post _ _ _ _ _ _ _ _ _) (fun _ d1 h => ?_)
  obtain ⟨rfl, rfl⟩ := h
  refine post_step (createGraphicsPipeline_post _ _ _ _ _ _ _ _ _) (fun _ d1 h => ?_)
  obtain ⟨rfl, rfl⟩ := h
  refine post_step (post_create _ _ _) (fun _ d1 h => ?_)
  obtain ⟨rfl, rfl⟩ := h
  refine post_step (post_create _ _ _) (fun _ d1 h => ?_)
  obtain ⟨rfl, rfl⟩ := h
  refine post_step (createGraphicsPipeline_post _ _ _ _ _ _ _ _ _) (fun _ d1 h => ?_)
  obtain ⟨rfl, rfl⟩ := h
  refine post_step (createGraphicsPipeline_post _ _ _ _ _ _ _ _ _) (fun _ d1 h => ?_)
  obtain ⟨rfl, rfl⟩ := h
  refine post_step (createGraphicsPipeline_post _ _ _ _ _ _ _ _ _) (fun _ d1 h => ?_)
  obtain ⟨rfl, rfl⟩ := h
  refine post_step (create_depth_buffer_post _ _) (fun _ d1 h => ?_)
  obtain ⟨rfl, rfl⟩ := h
  refine post_step (create_offine_image_view_post _ _) (fun _ d1 h => ?_)
  obtain ⟨rfl, rfl⟩ := h
  refine post_step (create_offine_image_view_post _ _) (fun _ d1 h => ?_)
  obtain ⟨rfl, rfl⟩ := h
  refine post_step (create_offine_image_view_post _ _) (fun _ d1 h => ?_)
  obtain ⟨rfl, rfl⟩ := h
  refine post_step (create_offine_image_view_post _ _) (fun _ d1 h => ?_)
  obtain ⟨rfl, rfl⟩ := h
  refine post_step (create_swapchain_framebuffers_post _ _ _ _) (fun _ d1 h => ?_)
  obtain ⟨rfl, rfl⟩ := h
  refine post_step (post_create _ _ _) (fun _ d1 h => ?_)
  obtain ⟨rfl, rfl⟩ := h
  simp only [List.length_range']
  refine post_step (allocFrameSlots_post _ _ _) (fun _ d1 h => ?_)
  obtain ⟨rfl, rfl⟩ := h
  refine post_step (post_create _ _ _) (fun _ d1 h => ?_)
  obtain ⟨rfl, rfl⟩ := h
  refine post_step (post_create _ _ _) (fun _ d1 h => ?_)
  obtain ⟨rfl, rfl⟩ := h
  refine post_step (post_create _ _ _) (fun _ d1 h => ?_)
  obtain ⟨rfl, rfl⟩ := h
  refine post_step (create_framebuffer_post _ _ _ _ _ _) (fun _ d1 h => ?_)
  obtain ⟨rfl, rfl⟩ := h
  refine post_step (create_framebuffer_post _ _ _ _ _ _) (fun _ d1 h => ?_)
  obtain ⟨rfl, rfl⟩ := h
  refine post_step (create_framebuffer_post _ _ _ _ _ _) (fun _ d1 h => ?_)
  obtain ⟨rfl, rfl⟩ := h
  refine post_step (create_framebuffer_post _ _ _ _ _ _) (fun _ d1 h => ?_)
  obtain ⟨rfl, rfl⟩ := h
  refine post_step (post_create _ _ _) (fun _ d1 h => ?_)
  obtain ⟨rfl, rfl⟩ := h
  refine post_step (post_create _ _ _) (fun _ d1 h => ?_)
  obtain ⟨rfl, rfl⟩ := h
  refine post_step (post_vkUpdateDescriptorSets _) (fun _ d1 h => ?_)
  subst h
  refine post_step (post_create _ _ _) (fun _ d1 h => ?_)
  obtain ⟨rfl, rfl⟩ := h
  refine post_step (post_create _ _ _) (fun _ d1 h => ?_)
  obtain ⟨rfl, rfl⟩ := h
  refine post_step (post_vkUpdateDescriptorSets _) (fun _ d1 h => ?_)
  subst h
  refine post_step (post_create _ _ _) (fun _ d1 h => ?_)
  obtain ⟨rfl, rfl⟩ := h
  refine post_step (post_vkUpdateDescriptorSets _) (fun _ d1 h => ?_)
  subst h
  refine post_step (post_create _ _ _) (fun _ d1 h => ?_)
  obtain ⟨rfl, rfl⟩ := h
  refine post_step (post_vkUpdateDescriptorSets _) (fun _ d1 h => ?_)
  subst h
  refine post_step (post_create _ _ _) (fun _ d1 h => ?_)
  obtain ⟨rfl, rfl⟩ := h
  refine post_step (post_vkUpdateDescriptorSets _) (fun _ d1 h => ?_)
  subst h
  refine post_step (createMaterialBuffers_post _ _ _) (fun _ d1 h => ?_)
  obtain ⟨rfl, rfl⟩ := h
  refine post_step (createMaterialDescriptors_post _ _ _ _ _) (fun _ d1 h => ?_)
  obtain ⟨rfl, rfl⟩ := h
  refine post_step (createMaterialBuffers_post _ _ _) (fun _ d1 h => ?_)
  obtain ⟨rfl, rfl⟩ := h
  refine post_step (createMaterialDescriptors_post _ _ _ _ _) (fun _ d1 h => ?_)
  obtain ⟨rfl, rfl⟩ := h
  refine post_done ?_
  simp only [afterMainInit, initMaterials, initWiring, initSlots, initTargets, initPipelines,
    initLayouts, initWindow, MainVars.blank]
  exact ⟨rfl, rfl⟩

/-! ### Start-up completes when every creation succeeds -/

open Exec in
theorem make_vulkan_window_total (w : World) (hw : w.CreationSucceeds) :
    Total (fun _ => True) (make_vulkan_window w) := by
  unfold make_vulkan_window createSwapViews
  simp only [bind_eq, pure_eq]
  refine total_bind (R := fun _ => True) (total_create hw.1) (fun _ _ => ?_)
  refine total_bind (R := fun _ => True) (total_create hw.1) (fun _ _ => ?_)
  refine total_bind (R := fun _ => True) (total_create hw.1) (fun _ _ => ?_)
  refine total_bind (R := fun _ => True) (total_create hw.1) (fun _ _ => ?_)
  refine total_bind (R := fun _ => True) (total_create hw.1) (fun _ _ => ?_)
  refine total_bind (R := fun _ => True)
    (total_true (total_collect _ (fun _ _ => total_create hw.1))) (fun _ _ => ?_)
  exact total_pure trivial

open Exec in
theorem allocFrameSlots_total (w : World) (hw : w.CreationSucceeds) (cpool : Handle) (n : Nat) :
    Total (fun _ => True) (allocFrameSlots w cpool n) := by
  unfold allocFrameSlots
  refine total_true (total_collect _ (fun _ _ => ?_))
  unfold alloc_command_buffer create_fence
  simp only [bind_eq, pure_eq]
  refine total_bind (R := fun _ => True) (total_create hw.1) (fun _ _ => ?_)
  refine total_bind (R := fun _ => True) (total_create hw.1) (fun _ _ => ?_)
  exact total_pure trivial

open Exec in
theorem createMaterialBuffers_total (w : World) (hw : w.CreationSucceeds) (n size : Nat) :
    Total (fun xs => xs.length = n) (createMaterialBuffers w n size) := by
  unfold createMaterialBuffers
  refine total_collect _ (fun _ _ => ?_)
  unfold create_buffer
  simp only [bind_eq]
  exact total_bind (R := fun _ => True) (total_create hw.1) (fun _ _ => assign_total _ _)

open Exec in
theorem createMaterialDescriptors_total (w : World) (hw : w.CreationSucceeds)
    (dpool layout : Handle) (ubos : List Handle) (n : Nat) (hn : n ≤ ubos.length) :
    Total (fun _ => True) (createMaterialDescriptors w dpool layout ubos n) := by
  unfold createMaterialDescriptors
  refine total_true (total_collect _ (fun j hj => ?_))
  unfold alloc_desc_set writeUniformBufferDescriptor
  simp only [bind_eq, pure_eq]
  refine total_bind (R := fun _ => True) (total_create hw.1) (fun _ _ => ?_)
  refine total_bind (R := fun _ => True) (total_true (total_index (by omega))) (fun _ _ => ?_)
  refine total_bind (R := fun _ => True) total_vkUpdateDescriptorSets (fun _ _ => ?_)
  exact total_pure trivial

open Exec in
theorem main_init_total (w : World) (hw : w.CreationSucceeds) (boot : Boot) :
    Total (fun _ => True) (main_init w boot) := by
  have hp := create_image_pair_total w hw
  unfold main_init
  simp only [bind_eq, pure_eq]
  refine total_bind (R := fun _ => True) (make_vulkan_window_total w hw) (fun _ _ => ?_)
  refine total_bind (R := fun _ => True) (total_create hw.1) (fun _ _ => ?_)
  refine total_bind (R := fun _ => True) (total_create hw.1) (fun _ _ => ?_)
  refine total_bind (R := fun _ => True) (total_create hw.1) (fun _ _ => ?_)
  refine total_bind (R := fun _ => True) (total_create hw.1) (fun _ _ => ?_)
  refine total_bind (R := fun _ => True) (total_create hw.1) (fun _ _ => ?_)
  refine total_bind (R := fun _ => True) (total_create hw.1) (fun _ _ => ?_)
  refine total_bind (R := fun _ => True) (total_create hw.1) (fun _ _ => ?_)
  refine total_bind (R := fun _ => True) (createGraphicsPipeline_total w hw _ _ _ _ _ _ _ _)
    (fun _ _ => ?_)
  refine total_bind (R := fun _ => True) (createGraphicsPipeline_total w hw _ _ _ _ _ _ _ _)
    (fun _ _ => ?_)
  refine total_bind (R := fun _ => True) (total_create hw.1) (fun _ _ => ?_)
  refine total_bind (R := fun _ => True) (total_create hw.1) (fun _ _ => ?_)
  refine total_bind (R := fun _ => True) (createGraphicsPipeline_total w hw _ _ _ _ _ _ _ _)
    (fun _ _ => ?_)
  refine total_bind (R := fun _ => True) (createGraphicsPipeline_total w hw _ _ _ _ _ _ _ _)
    (fun _ _ => ?_)
  refine total_bind (R := fun _ => True) (createGraphicsPipeline_total w hw _ _ _ _ _ _ _ _)
    (fun _ _ => ?_)
  refine total_bind (R := fun _ => True) (hp _).2 (fun _ _ => ?_)
  refine total_bind (R := fun _ => True) (hp _).1 (fun _ _ => ?_)
  refine total_bind (R := fun _ => True) (hp _).1 (fun _ _ => ?_)
  refine total_bind (R := fun _ => True) (hp _).1 (fun _ _ => ?_)
  refine total_bind (R := fun _ => True) (hp _).1 (fun _ _ => ?_)
  refine total_bind (R := fun _ => True)
    (total_true (create_swapchain_framebuffers_total w hw _ _ _)) (fun _ _ => ?_)
  refine total_bind (R := fun _ => True) (total_create hw.1) (fun _ _ => ?_)
  refine total_bind (R := fun _ => True) (allocFrameSlots_total w hw _ _) (fun _ _ => ?_)
  refine total_bind (R := fun _ => True) (total_create hw.1) (fun _ _ => ?_)
  refine total_bind (R := fun _ => True) (total_create hw.1) (fun _ _ => ?_)
  refine total_bind (R := fun _ => True) (total_create hw.1) (fun _ _ => ?_)
  refine total_bind (R := fun _ => True) (create_framebuffer_total w hw _ _ _ _ _) (fun _ _ => ?_)
  refine total_bind (R := fun _ => True) (create_framebuffer_total w hw _ _ _ _ _) (fun _ _ => ?_)
  refine total_bind (R := fun _ => True) (create_framebuffer_total w hw _ _ _ _ _) (fun _ _ => ?_)
  refine total_bind (R := fun _ => True) (create_framebuffer_total w hw _ _ _ _ _) (fun _ _ => ?_)
  refine total_bind (R := fun _ => True) (total_create hw.1) (fun _ _ => ?_)
  refine total_bind (R := fun _ => True) (total_create hw.1) (fun _ _ => ?_)
  refine total_bind (R := fun _ => True) total_vkUpdateDescriptorSets (fun _ _ => ?_)
  refine total_bind (R := fun _ => True) (total_create hw.1) (fun _ _ => ?_)
  refine total_bind (R := fun _ => True) (total_create hw.1) (fun _ _ => ?_)
  refine total_bind (R := fun _ => True) total_vkUpdateDescriptorSets (fun _ _ => ?_)
  refine total_bind (R := fun _ => True) (total_create hw.1) (fun _ _ => ?_)
  refine total_bind (R := fun _ => True) total_vkUpdateDescriptorSets (fun _ _ => ?_)
  refine total_bind (R := fun _ => True) (total_create hw.1) (fun _ _ => ?_)
  refine total_bind (R := fun _ => True) total_vkUpdateDescriptorSets (fun _ _ => ?_)
  refine total_bind (R := fun _ => True) (total_create hw.1) (fun _ _ => ?_)
  refine total_bind (R := fun _ => True) total_vkUpdateDescriptorSets (fun _ _ => ?_)
  refine total_bind (createMaterialBuffers_total w hw _ _) (fun ubos hu => ?_)
  refine total_bind (R := fun _ => True)
    (createMaterialDescriptors_total w hw _ _ _ _ (Nat.le_of_eq hu.symm)) (fun _ _ => ?_)
  refine total_bind (createMaterialBuffers_total w hw _ _) (fun ubos2 hu2 => ?_)
  refine total_bind (R := fun _ => True)
    (createMaterialDescriptors_total w hw _ _ _ _ (Nat.le_of_eq hu2.symm)) (fun _ _ => ?_)
  exact total_pure trivial

/-- When every creation succeeds and every shader file is read, `main` reaches
its loop, in the state `afterMainInit`. -/
theorem main_init_done (w : World) (hw : w.CreationSucceeds) (boot : Boot) (d : Device) :
    (main_init w boot d).2 = .done (afterMainInit w boot d).1 (afterMainInit w boot d).2 := by
  obtain ⟨v, d1, h, _⟩ := main_init_total w hw boot d
  obtain ⟨rfl, rfl⟩ := main_init_post w boot d v d1 h
  exact h

/-! ### A frame leaves the driver's objects alone -/

namespace Exec

theorem keep_bind {α β : Type} {x : Exec α} {f : α → Exec β} {Q : β → Prop}
    (hx : Post x (fun d _ d1 => d1 = d)) (hf : ∀ a, Post (f a) (fun d b d1 => d1 = d ∧ Q b)) :
    Post (Exec.bind x f) (fun d b d1 => d1 = d ∧ Q b) := by
  refine post_weaken (post_bind hx hf) ?_
  rintro d b d2 ⟨a, d1, rfl, rfl, hq⟩
  exact ⟨rfl, hq⟩

theorem keep_of {α : Type} {x : Exec α} {Q : α → Prop}
    (hx : Post x (fun d b d1 => d1 = d ∧ Q b)) : Post x (fun d _ d1 => d1 = d) :=
  post_weaken hx (fun _ _ _ h => h.1)

theorem keep_pure {α : Type} {Q : α → Prop} {a : α} (h : Q a) :
    Post (Exec.pure a) (fun d b d1 => d1 = d ∧ Q b) :=
  post_weaken (post_pure a) (fun _ _ _ hb => ⟨hb.2, hb.1 ▸ h⟩)

theorem keep_call (res : VkResult) (e : Event) (what : String) :
    Post (Exec.call res e what) (fun d _ d1 => d1 = d) := by
  intro d a d1 h
  unfold Exec.call at h
  split at h
  · simp only [Outcome.done.injEq] at h
    exact h.2.symm
  · simp at h

theorem keep_assert (c : Bool) (what : String) :
    Post (Exec.assert c what) (fun d _ d1 => d1 = d) :=
  post_weaken (post_assert c what) (fun _ _ _ h => h.1)

theorem keep_index {α : Type} (xs : List α) (i : Nat) (what : String) :
    Post (Exec.index xs i what) (fun d _ d1 => d1 = d) :=
  post_weaken (post_index xs i what) (fun _ _ _ h => h.1)

theorem keep_forLoopFrom (body : Nat → Exec Unit)
    (hb : ∀ j, Post (body j) (fun d _ d1 => d1 = d)) :
    ∀ k i, Post (Exec.forLoopFrom body i k) (fun d _ d1 => d1 = d) := by
  intro k
  induction k with
  | zero => intro i; exact keep_of (keep_pure (Q := fun _ => True) trivial)
  | succ k ih =>
    intro i
    unfold Exec.forLoopFrom
    exact keep_of (keep_bind (Q := fun _ => True) (hb i)
      (fun _ => post_weaken (ih (i + 1)) (fun _ _ _ h => ⟨h, trivial⟩)))

theorem keep_then {α β : Type} {x : Exec α} {f : α → Exec β}
    (hx : Post x (fun d _ d1 => d1 = d)) (hf : ∀ a, Post (f a) (fun d _ d1 => d1 = d)) :
    Post (Exec.bind x f) (fun d _ d1 => d1 = d) :=
  keep_of (keep_bind (Q := fun _ => True) hx
    (fun a => post_weaken (hf a) (fun _ _ _ h => ⟨h, trivial⟩)))

theorem keep_done {α : Type} (a : α) : Post (Exec.pure a) (fun d _ d1 => d1 = d) :=
  post_weaken (post_pure a) (fun _ _ _ h => h.2)

end Exec

open Exec in
theorem indexInt_keep {α : Type} (xs : List α) (z : Int) (what : String) :
    Post (indexInt xs z what) (fun d _ d1 => d1 = d) := by
  unfold indexInt
  split
  · exact post_raise _ _
  · exact keep_index _ _ _

open Exec in
theorem buffer_barrier6_keep (bd : BufferBarrierDefaults) (cb b : Handle) (a1 a2 s1 s2 : VkFlags) :
    Post (buffer_barrier6 bd cb b a1 a2 s1 s2) (fun d _ d1 => d1 = d) :=
  post_emit _

open Exec in
theorem uploadMaterial_keep (bd : BufferBarrierDefaults) (a : RecordArgs) (i : Nat) :
    Post (uploadMaterial bd a i) (fun d _ d1 => d1 = d) := by
  unfold uploadMaterial
  simp only [bind_eq, pure_eq]
  refine keep_then (keep_index _ _ _) (fun _ => ?_)
  refine keep_then (buffer_barrier6_keep _ _ _ _ _ _ _) (fun _ => ?_)
  refine keep_then (keep_index _ _ _) (fun _ => ?_)
  refine keep_then (post_emit _) (fun _ => ?_)
  refine keep_then (buffer_barrier6_keep _ _ _ _ _ _ _) (fun _ => ?_)
  refine keep_then (keep_index _ _ _) (fun _ => ?_)
  refine keep_then (buffer_barrier6_keep _ _ _ _ _ _ _) (fun _ => ?_)
  refine keep_then (keep_index _ _ _) (fun _ => ?_)
  refine keep_then (post_emit _) (fun _ => ?_)
  exact buffer_barrier6_keep _ _ _ _ _ _ _

open Exec in
theorem drawSubmesh_keep (a : RecordArgs) (p : Handle) (i : Nat) :
    Post (drawSubmesh a p i) (fun d _ d1 => d1 = d) := by
  unfold drawSubmesh
  simp only [bind_eq, pure_eq]
  refine keep_then (keep_index _ _ _) (fun _ => ?_)
  refine keep_then (indexInt_keep _ _ _) (fun _ => ?_)
  refine keep_then (post_emit _) (fun _ => ?_)
  refine keep_then (keep_index _ _ _) (fun _ => ?_)
  refine keep_then (indexInt_keep _ _ _) (fun _ => ?_)
  refine keep_then (post_emit _) (fun _ => ?_)
  refine keep_then (post_emit _) (fun _ => ?_)
  refine keep_then (keep_index _ _ _) (fun _ => ?_)
  refine keep_then (keep_index _ _ _) (fun _ => ?_)
  refine keep_then (keep_index _ _ _) (fun _ => ?_)
  refine keep_then (keep_index _ _ _) (fun _ => ?_)
  refine keep_then (keep_index _ _ _) (fun _ => ?_)
  refine keep_then (post_emit _) (fun _ => ?_)
  refine keep_then (keep_index _ _ _) (fun _ => ?_)
  exact post_emit _

open Exec in
theorem record_commands_keep (w : World) (bd : BufferBarrierDefaults) (a : RecordArgs) :
    Post (record_commands w bd a) (fun d _ d1 => d1 = d) := by
  unfold record_commands Exec.forLoop
  simp only [bind_eq, pure_eq]
  refine keep_then (keep_call _ _ _) (fun _ => ?_)
  refine keep_then (buffer_barrier6_keep _ _ _ _ _ _ _) (fun _ => ?_)
  refine keep_then (post_emit _) (fun _ => ?_)
  refine keep_then (buffer_barrier6_keep _ _ _ _ _ _ _) (fun _ => ?_)
  refine keep_then (keep_forLoopFrom _ (uploadMaterial_keep bd a) _ _) (fun _ => ?_)
  refine keep_then (post_emit _) (fun _ => ?_)
  refine keep_then (post_emit _) (fun _ => ?_)
  refine keep_then (keep_forLoopFrom _ (drawSubmesh_keep a _) _ _) (fun _ => ?_)
  refine keep_then (post_emit _) (fun _ => ?_)
  refine keep_then (post_emit _) (fun _ => ?_)
  refine keep_then (post_emit _) (fun _ => ?_)
  refine keep_then (post_emit _) (fun _ => ?_)
  refine keep_then (post_emit _) (fun _ => ?_)
  refine keep_then (post_emit _) (fun _ => ?_)
  refine keep_then (post_emit _) (fun _ => ?_)
  refine keep_then (post_emit _) (fun _ => ?_)
  refine keep_then (post_emit _) (fun _ => ?_)
  refine keep_then (post_emit _) (fun _ => ?_)
  refine keep_then (post_emit _) (fun _ => ?_)
  refine keep_then (post_emit _) (fun _ => ?_)
  refine keep_then (post_emit _) (fun _ => ?_)
  refine keep_then (keep_forLoopFrom _ (drawSubmesh_keep a _) _ _) (fun _ => ?_)
  refine keep_then (post_emit _) (fun _ => ?_)
  refine keep_then (post_emit _) (fun _ => ?_)
  refine keep_then (post_emit _) (fun _ => ?_)
  refine keep_then (post_emit _) (fun _ => ?_)
  refine keep_then (post_emit _) (fun _ => ?_)
  refine keep_then (post_emit _) (fun _ => ?_)
  refine keep_then (post_emit _) (fun _ => ?_)
  exact keep_call _ _ _

open Exec in
theorem updateUniformsFrom_keep (ms : List MaterialInfo) (numLight : Int) :
    ∀ k i acc, Post (updateUniformsFrom ms numLight i k acc) (fun d _ d1 => d1 = d) := by
  intro k
  induction k with
  | zero => intro i acc; exact keep_done _
  | succ k ih =>
    rintro i ⟨mu, pbr⟩
    unfold updateUniformsFrom
    refine keep_then (keep_index _ _ _) (fun _ => ?_)
    refine keep_then (keep_index _ _ _) (fun _ => ?_)
    refine keep_then (keep_index _ _ _) (fun _ => ?_)
    exact ih _ _

open Exec in
/-- A frame creates and destroys nothing; it returns the variables as they
were, or with the rebuild flag set. -/
theorem frame_post (w : World) (bd : BufferBarrierDefaults) (v : MainVars) (i : Nat) :
    Post (frame w bd v i) (fun d v1 d1 =>
      d1 = d ∧ (v1 = v ∨ v1 = { v with recreateSwapchain := true })) := by
  unfold frame submit_commands
  simp only [bind_eq, pure_eq]
  refine keep_bind (keep_assert _ _) (fun _ => ?_)
  refine keep_bind (keep_index _ _ _) (fun _ => ?_)
  refine keep_bind (keep_call _ _ _) (fun _ => ?_)
  refine keep_bind (keep_index _ _ _) (fun _ => ?_)
  refine keep_bind (keep_call _ _ _) (fun _ => ?_)
  refine keep_bind (keep_assert _ _) (fun _ => ?_)
  refine keep_bind (keep_assert _ _) (fun _ => ?_)
  refine keep_bind (updateUniformsFrom_keep _ _ _ _ _) (fun _ => ?_)
  refine keep_bind (keep_index _ _ _) (fun _ => ?_)
  refine keep_bind (keep_index _ _ _) (fun _ => ?_)
  refine keep_bind (record_commands_keep _ _ _) (fun _ => ?_)
  refine keep_bind (keep_index _ _ _) (fun _ => ?_)
  refine keep_bind (keep_index _ _ _) (fun _ => ?_)
  refine keep_bind (keep_call _ _ _) (fun _ => ?_)
  refine keep_bind (post_emit _) (fun _ => ?_)
  split
  · exact keep_pure (Or.inr rfl)
  · split
    · exact post_raise _ _
    · exact keep_pure (Or.inl rfl)

open Exec in
/-- An iteration of the loop of `main` that returns either ran the rebuild
block, or left the driver's objects alone and changed at most the rebuild flag. -/
theorem mainLoopBody_post (w : World) (bd : BufferBarrierDefaults) (v : MainVars) :
    Post (mainLoopBody w bd v) (fun d v1 d1 =>
      (v.recreateSwapchain = true ∧ v1 = (afterRebuild w v d).1 ∧ d1 = (afterRebuild w v d).2) ∨
      (d1 = d ∧ (v1 = v ∨ v1 = { v with recreateSwapchain := true }))) := by
  unfold mainLoopBody
  simp only [bind_eq, pure_eq]
  intro d
  refine post_step (post_emit _) (fun _ d1 h => ?_)
  rw [h]
  refine post_step (post_emit _) (fun _ d1 h => ?_)
  rw [h]
  refine post_step (post_emit _) (fun _ d1 h => ?_)
  rw [h]
  refine post_step (post_emit _) (fun _ d1 h => ?_)
  rw [h]
  split
  · rename_i hflag
    intro v1 d1 h
    obtain ⟨rfl, rfl⟩ := rebuild_post w v d v1 d1 h
    exact Or.inl ⟨hflag, rfl, rfl⟩
  · refine post_step (post_emit _) (fun _ d1 h => ?_)
    rw [h]
    split
    · exact post_done (Or.inr ⟨rfl, Or.inr rfl⟩)
    · split
      · intro v1 d1 h
        simp at h
      · intro v1 d1 h
        exact Or.inr (frame_post w bd v _ d v1 d1 h)

/-! ### The parts of start-up -/

theorem afterMakeWindow_grows (w : World) (d : Device) : d.Grows (afterMakeWindow w d).2 := by
  unfold afterMakeWindow
  dsimp only
  repeat (first
    | refine grows_trans ?_ (grows_alloc _ _)
    | refine grows_trans ?_ (grows_allocs _ _)
    | exact grows_refl _)

theorem initWindow_grows (w : World) (r : MainVars × Device) : r.2.Grows (initWindow w r).2 :=
  afterMakeWindow_grows w r.2

theorem initLayouts_grows (r : MainVars × Device) : r.2.Grows (initLayouts r).2 := by
  unfold initLayouts
  dsimp only
  repeat (first
    | refine grows_trans ?_ (grows_alloc _ _)
    | exact grows_refl _)

theorem afterCreatePipeline_grows (w : World) (d : Device) (win : VulkanWindow) (vp fp : String)
    (b a : Nat) (c : VkFlags) (rp pl : Handle) :
    d.Grows (afterCreatePipeline w d win vp fp b a c rp pl) := by
  unfold afterCreatePipeline
  repeat (first
    | refine grows_trans ?_ (grows_alloc _ _)
    | refine grows_trans ?_ (grows_free _ _)
    | exact grows_refl _)

@[simp] theorem afterCreatePipeline_nextHandle (w : World) (d : Device) (win : VulkanWindow)
    (vp fp : String) (b a : Nat) (c : VkFlags) (rp pl : Handle) :
    (afterCreatePipeline w d win vp fp b a c rp pl).nextHandle = d.nextHandle + 3 := by
  simp [afterCreatePipeline]

theorem afterCreatePipeline_object (w : World) (d : Device) (win : VulkanWindow) (vp fp : String)
    (b a : Nat) (c : VkFlags) (rp pl : Handle) :
    (afterCreatePipeline w d win vp fp b a c rp pl).HasPipeline w (d.nextHandle + 2) win vp fp b a c
      rp pl := by
  refine ⟨d.nextHandle, d.nextHandle + 1, ?_⟩
  simp [afterCreatePipeline, object_alloc, Nat.add_assoc]

theorem initPipelines_grows (w : World) (r : MainVars × Device) :
    r.2.Grows (initPipelines w r).2 := by
  unfold initPipelines
  dsimp only
  repeat (first
    | refine grows_trans ?_ (afterCreatePipeline_grows _ _ _ _ _ _ _ _ _ _)
    | refine grows_trans ?_ (grows_alloc _ _)
    | exact grows_refl _)

theorem afterCreateImagePair_grows (d : Device) (info : VkImageCreateInfo) (m : VkFlags) :
    d.Grows (afterCreateImagePair d info m) :=
  grows_trans (grows_alloc _ _) (grows_alloc _ _)

@[simp] theorem afterCreateImagePair_nextHandle (d : Device) (info : VkImageCreateInfo)
    (m : VkFlags) : (afterCreateImagePair d info m).nextHandle = d.nextHandle + 2 := rfl

theorem initTargets_grows (r : MainVars × Device) : r.2.Grows (initTargets r).2 := by
  unfold initTargets
  dsimp only
  repeat (first
    | refine grows_trans ?_ (afterCreateImagePair_grows _ _ _)
    | exact grows_refl _)

theorem initSlots_grows (r : MainVars × Device) : r.2.Grows (initSlots r).2 := by
  unfold initSlots
  dsimp only
  repeat (first
    | refine grows_trans ?_ (grows_alloc _ _)
    | refine grows_trans ?_ (grows_allocs _ _)
    | exact grows_refl _)

theorem initWiring_grows (r : MainVars × Device) : r.2.Grows (initWiring r).2 := by
  unfold initWiring
  dsimp only
  repeat (first
    | refine grows_trans ?_ (grows_alloc _ _)
    | refine grows_trans ?_ (grows_free _ _)
    | refine grows_trans ?_ (grows_write _ _)
    | exact grows_refl _)

theorem afterMaterialDescriptors_grows (d : Device) (dpool layout : Handle) (ubos : List Handle)
    (n : Nat) : d.Grows (afterMaterialDescriptors d dpool layout ubos n) :=
  grows_trans (grows_allocs _ _) (grows_write _ _)

@[simp] theorem afterMaterialDescriptors_nextHandle (d : Device) (dpool layout : Handle)
    (ubos : List Handle) (n : Nat) :
    (afterMaterialDescriptors d dpool layout ubos n).nextHandle = d.nextHandle + n := by
  simp [afterMaterialDescriptors]

theorem initMaterials_grows (r : MainVars × Device) : r.2.Grows (initMaterials r).2 := by
  unfold initMaterials
  dsimp only
  repeat (first
    | refine grows_trans ?_ (afterMaterialDescriptors_grows _ _ _ _ _)
    | refine grows_trans ?_ (grows_allocs _ _)
    | exact grows_refl _)

/-! ### What start-up leaves -/

theorem afterMainInit_materials (w : World) (boot : Boot) (d : Device) :
    (afterMainInit w boot d).1.carModel = boot.carModel ∧
    (afterMainInit w boot d).1.loadedModel = boot.loadedModel ∧
    (afterMainInit w boot d).1.recreateSwapchain = false ∧
    (afterMainInit w boot d).1.materialUBO.length = boot.carModel.materials.length ∧
    (afterMainInit w boot d).1.materialDescriptors.length = boot.carModel.materials.length ∧
    (afterMainInit w boot d).1.materialPBRUBO.length = boot.carModel.materials.length ∧
    (afterMainInit w boot d).1.materialPBRDescriptors.length = boot.carModel.materials.length := by
  refine ⟨rfl, rfl, rfl, ?_, ?_, ?_, ?_⟩ <;>
    simp [afterMainInit, initMaterials, initWiring, initSlots, initTargets, initPipelines, initLayouts,
      initWindow, MainVars.blank]

theorem bufferSize_grows {d d1 : Device} (hg : d.Grows d1) {k : Handle} (hk : k < d.nextHandle) :
    d1.bufferSize k = d.bufferSize k := by
  unfold Device.bufferSize
  rw [grows_object hg hk]

theorem pipelineRenderPass_grows {d d1 : Device} (hg : d.Grows d1) {k : Handle}
    (hk : k < d.nextHandle) : d1.pipelineRenderPass k = d.pipelineRenderPass k := by
  unfold Device.pipelineRenderPass
  rw [grows_object hg hk]

theorem colourFormat_grows {d d1 : Device} (hg : d.Grows d1) {k : Handle} (hk : k < d.nextHandle) :
    d1.colourFormat k = d.colourFormat k := by
  unfold Device.colourFormat
  rw [grows_object hg hk]

theorem imageFormat_grows {d d1 : Device} (hg : d.Grows d1) {k : Handle} (hk : k < d.nextHandle) :
    d1.imageFormat k = d.imageFormat k := by
  unfold Device.imageFormat
  rw [grows_object hg hk]

theorem viewFormat_grows {d d1 : Device} (hg : d.Grows d1) {k : Handle} (hk : k < d.nextHandle) :
    d1.viewFormat k = d.viewFormat k := by
  unfold Device.viewFormat
  rw [grows_object hg hk]

theorem bufferSize_allocs_buffers (d : Device) (n size : Nat) (u : VkFlags) (h : Handle)
    (hh : h ∈ List.range' d.nextHandle n) :
    h < (d.allocs ((List.range' 0 n).map (fun _ => Object.buffer size u))).nextHandle ∧
    (d.allocs ((List.range' 0 n).map (fun _ => Object.buffer size u))).bufferSize h = some size := by
  rw [List.mem_range'_1] at hh
  obtain ⟨h1, h2⟩ := hh
  obtain ⟨i, rfl⟩ : ∃ i : Nat, h = d.nextHandle + i := ⟨h - d.nextHandle, by
    unfold Handle at *; omega⟩
  have hi : i < n := by unfold Handle at *; omega
  refine ⟨by simp; unfold Handle at *; omega, ?_⟩
  unfold Device.bufferSize
  rw [object_allocs_new _ d i (.buffer size u)]
  simp [List.get?_eq_getElem?, hi]

theorem initWiring_sceneUBO (r : MainVars × Device) :
    (initWiring r).1.sceneUBO < (initWiring r).2.nextHandle ∧
    (initWiring r).2.bufferSize (initWiring r).1.sceneUBO = some sizeof_SceneUniform := by
  constructor
  · simp [initWiring]
  · simp [initWiring, Device.bufferSize, object_alloc, Nat.add_assoc]

theorem initMaterials_uniformsSized (r : MainVars × Device)
    (hs : r.1.sceneUBO < r.2.nextHandle ∧ r.2.bufferSize r.1.sceneUBO = some sizeof_SceneUniform) :
    (initMaterials r).1.UniformsSized (initMaterials r).2 := by
  have hg := initMaterials_grows r
  refine ⟨Nat.lt_of_lt_of_le hs.1 hg.1, ?_, ?_, ?_, ?_, ?_, ?_, ?_⟩
  · show (initMaterials r).2.bufferSize r.1.sceneUBO = _
    rw [bufferSize_grows hg hs.1]
    exact hs.2
  · intro h hh
    have h1 := bufferSize_allocs_buffers r.2 r.1.carModel.materials.length sizeof_MaterialUniform
      (VK_BUFFER_USAGE_UNIFORM_BUFFER_BIT ||| VK_BUFFER_USAGE_TRANSFER_DST_BIT) h hh
    have hg2 : (r.2.allocs ((List.range' 0 r.1.carModel.materials.length).map (fun _ =>
        Object.buffer sizeof_MaterialUniform
          (VK_BUFFER_USAGE_UNIFORM_BUFFER_BIT ||| VK_BUFFER_USAGE_TRANSFER_DST_BIT)))).Grows
        (initMaterials r).2 := by
      unfold initMaterials
      dsimp only
      exact grows_trans (afterMaterialDescriptors_grows _ _ _ _ _)
        (grows_trans (grows_allocs _ _) (afterMaterialDescriptors_grows _ _ _ _ _))
    exact ⟨Nat.lt_of_lt_of_le h1.1 hg2.1, by rw [bufferSize_grows hg2 h1.1]; exact h1.2⟩
  · intro h hh
    have h1 := bufferSize_allocs_buffers
      (afterMaterialDescriptors (r.2.allocs ((List.range' 0 r.1.carModel.materials.length).map
        (fun _ => Object.buffer sizeof_MaterialUniform
          (VK_BUFFER_USAGE_UNIFORM_BUFFER_BIT ||| VK_BUFFER_USAGE_TRANSFER_DST_BIT))))
        r.1.dpool r.1.materialLayout (List.range' r.2.nextHandle r.1.carModel.materials.length)
        r.1.carModel.materials.length)
      r.1.carModel.materials.length sizeof_MaterialPBRUniform
      (VK_BUFFER_USAGE_UNIFORM_BUFFER_BIT ||| VK_BUFFER_USAGE_TRANSFER_DST_BIT) h hh
    have hg2 := afterMaterialDescriptors_grows
      ((afterMaterialDescriptors (r.2.allocs ((List.range' 0 r.1.carModel.materials.length).map
        (fun _ => Object.buffer sizeof_MaterialUniform
          (VK_BUFFER_USAGE_UNIFORM_BUFFER_BIT ||| VK_BUFFER_USAGE_TRANSFER_DST_BIT))))
        r.1.dpool r.1.materialLayout (List.range' r.2.nextHandle r.1.carModel.materials.length)
        r.1.carModel.materials.length).allocs ((List.range' 0 r.1.carModel.materials.length).map
          (fun _ => Object.buffer sizeof_MaterialPBRUniform
            (VK_BUFFER_USAGE_UNIFORM_BUFFER_BIT ||| VK_BUFFER_USAGE_TRANSFER_DST_BIT))))
      r.1.dpool r.1.materialLayout
      (List.range' (afterMaterialDescriptors (r.2.allocs
        ((List.range' 0 r.1.carModel.materials.length).map
        (fun _ => Object.buffer sizeof_MaterialUniform
          (VK_BUFFER_USAGE_UNIFORM_BUFFER_BIT ||| VK_BUFFER_USAGE_TRANSFER_DST_BIT))))
        r.1.dpool r.1.materialLayout (List.range' r.2.nextHandle r.1.carModel.materials.length)
        r.1.carModel.materials.length).nextHandle r.1.carModel.materials.length)
      r.1.carModel.materials.length
    exact ⟨Nat.lt_of_lt_of_le h1.1 hg2.1, by
      show (initMaterials r).2.bufferSize h = _
      exact (bufferSize_grows hg2 h1.1).trans h1.2⟩
  · simp [initMaterials]
  · simp [initMaterials]
  · simp [initMaterials]
  · simp [initMaterials]

theorem afterMainInit_uniformsSized (w : World) (boot : Boot) (d : Device) :
    (afterMainInit w boot d).1.UniformsSized (afterMainInit w boot d).2 :=
  initMaterials_uniformsSized _ (initWiring_sceneUBO _)

/-! ### What holds at every head of the loop -/

theorem afterRebuild_sceneUBO (w : World) (v : MainVars) (d : Device) :
    (afterRebuild w v d).1.sceneUBO = v.sceneUBO := by
  rw [afterRebuild_vars, stagePipelines_vars, stageFramebuffers_vars, stageTargets_vars]
  split <;> simp [stageRenderPass_vars, stageSwapchain_vars]

theorem uniformsSized_rebuild (w : World) (v : MainVars) (d : Device) (h : v.UniformsSized d) :
    (afterRebuild w v d).1.UniformsSized (afterRebuild w v d).2 := by
  obtain ⟨_, e2, e3, e4, e5, e6, _⟩ := afterRebuild_frame_vars w v d
  have hg := afterRebuild_grows w v d
  obtain ⟨h1, h2, h3, h4, h5, h6, h7, h8⟩ := h
  unfold MainVars.UniformsSized
  rw [afterRebuild_sceneUBO, e2, e3, e4, e5, e6, bufferSize_grows hg h1]
  refine ⟨Nat.lt_of_lt_of_le h1 hg.1, h2, fun k hk => ?_, fun k hk => ?_, h5, h6, h7, h8⟩
  · exact ⟨Nat.lt_of_lt_of_le (h3 k hk).1 hg.1, by rw [bufferSize_grows hg (h3 k hk).1]; exact (h3 k hk).2⟩
  · exact ⟨Nat.lt_of_lt_of_le (h4 k hk).1 hg.1, by rw [bufferSize_grows hg (h4 k hk).1]; exact (h4 k hk).2⟩

theorem atLoopHead_uniformsSized {w0 : World} {boot : Boot} {d0 : Device}
    {bd : BufferBarrierDefaults} {v : MainVars} {d : Device}
    (h : AtLoopHead w0 boot d0 bd v d) :
    v.UniformsSized d ∧ v.carModel = boot.carModel ∧ v.loadedModel = boot.loadedModel := by
  induction h with
  | start hs =>
    obtain ⟨rfl, rfl⟩ := main_init_post w0 boot d0 _ _ hs
    exact ⟨afterMainInit_uniformsSized w0 boot d0, rfl, rfl⟩
  | @next w v v1 d d1 _ hstep ih =>
    obtain ⟨hu, hc, hl⟩ := ih
    rcases mainLoopBody_post w bd v d v1 d1 hstep with ⟨_, rfl, rfl⟩ | ⟨rfl, rfl | rfl⟩
    · obtain ⟨_, _, _, _, _, e6, e7⟩ := afterRebuild_frame_vars w v d
      exact ⟨uniformsSized_rebuild w v d hu, e6.trans hc, e7.trans hl⟩
    · exact ⟨hu, hc, hl⟩
    · exact ⟨hu, hc, hl⟩

theorem afterMainInit_slots (w : World) (boot : Boot) (d : Device) :
    (afterMainInit w boot d).1.cbfences.length = w.swapImageCount ∧
    (afterMainInit w boot d).1.cbuffers.length = w.swapImageCount ∧
    (afterMainInit w boot d).1.framebuffers.length = w.swapImageCount ∧
    (afterMainInit w boot d).1.window.swapViews.length = w.swapImageCount := by
  refine ⟨?_, ?_, ?_, ?_⟩ <;>
    simp [afterMainInit, initMaterials, initWiring, initSlots, initTargets, initPipelines, initLayouts,
      initWindow, MainVars.blank, afterMakeWindow]

theorem sampleBoot_meshInBounds : sampleBoot.MeshInBounds := by
  refine ⟨by decide, by decide, by decide, by decide, by decide, by decide, ?_⟩
  intro j hj
  have : j = 0 ∨ j = 1 := by
    have : j < 2 := hj
    omega
  rcases this with rfl | rfl <;> decide

/-- With the rebuild flag and the slot index aside, a frame indexes every vector
inside its bounds at every head of the loop, when the uploaded mesh is in bounds. -/
theorem uniformsSized_frameInBounds {boot : Boot} {v : MainVars} {d : Device} (i : Nat)
    (hu : v.UniformsSized d) (hc : v.carModel = boot.carModel)
    (hl : v.loadedModel = boot.loadedModel) (hm : boot.MeshInBounds)
    (h1 : i < v.cbfences.length) (h2 : i < v.cbuffers.length) (h3 : i < v.framebuffers.length) :
    v.FrameInBounds i := by
  obtain ⟨_, _, _, _, u1, u2, u3, u4⟩ := hu
  obtain ⟨m1, m2, m3, m4, m5, m6, m7⟩ := hm
  unfold MainVars.FrameInBounds
  rw [hl, u1, u2, u3, u4, hc]
  exact ⟨h1, h2, h3, Nat.le_refl _, Nat.le_refl _, Nat.le_refl _, Nat.le_refl _, m1, m2, m3, m4,
    m5, m6, fun j hj => ⟨(m7 j hj).1, (m7 j hj).2, (m7 j hj).2⟩⟩

/-! ### The content of the uniform buffers after the updates of a frame -/

theorem executeCmds_cons (host : UniformSource → Option UniformValue) (m : BufferMemory)
    (c : Cmd) (cs : List Cmd) :
    executeCmds host m (c :: cs) = executeCmds host (Cmd.execute host m c) cs := rfl

theorem execute_other (host : UniformSource → Option UniformValue) (m : BufferMemory) (c : Cmd)
    (hu : c.isUpdate = false) (hc : c.isCopy = false) : Cmd.execute host m c = m := by
  cases c with
  | vkCmdUpdateBuffer => simp [Cmd.isUpdate] at hu
  | vkCmdCopyBuffer => simp [Cmd.isCopy] at hc
  | _ => rfl

/-- A byte that every update of a command list leaves alone keeps its value. -/
theorem executeCmds_untouched (host : UniformSource → Option UniformValue) (b : Handle) (k : Nat) :
    ∀ (cs : List Cmd) (m : BufferMemory), (∀ c ∈ cs, c.isCopy = false) →
      (∀ b1 off n src, Cmd.vkCmdUpdateBuffer b1 off n src ∈ cs →
        ¬ (b = b1 ∧ off ≤ k ∧ k < off + n)) →
      executeCmds host m cs b k = m b k := by
  intro cs
  induction cs with
  | nil => intro m _ _; rfl
  | cons c cs ih =>
    intro m hcopy hup
    rw [executeCmds_cons, ih _ (fun x hx => hcopy x (List.mem_cons_of_mem _ hx))
      (fun b1 off n src hm => hup b1 off n src (List.mem_cons_of_mem _ hm))]
    by_cases hu : c.isUpdate = true
    · cases c <;> simp [Cmd.isUpdate] at hu
      rename_i b1 off n src
      have := hup b1 off n src (List.mem_cons_self _ _)
      simp only [Cmd.execute]
      rw [if_neg this]
    · rw [execute_other host m c (by simpa using hu) (hcopy c (List.mem_cons_self _ _))]

/-- When every update of a command list that names the buffer `b` is the update
of its first `n` bytes from `src`, and there is one, the first `n` bytes of `b`
are those of `src` afterwards. -/
theorem executeCmds_holds (host : UniformSource → Option UniformValue) (b : Handle) (n : Nat)
    (src : UniformSource) (k : Nat) (hk : k < n) :
    ∀ (cs : List Cmd) (m : BufferMemory), (∀ c ∈ cs, c.isCopy = false) →
      (∀ off1 n1 src1, Cmd.vkCmdUpdateBuffer b off1 n1 src1 ∈ cs →
        off1 = 0 ∧ n1 = n ∧ src1 = src) →
      Cmd.vkCmdUpdateBuffer b 0 n src ∈ cs →
      executeCmds host m cs b k = (host src).map (fun v => { value := v, index := k }) := by
  intro cs
  induction cs with
  | nil => intro m _ _ hm; simp at hm
  | cons c cs ih =>
    intro m hcopy hall hmem
    rw [executeCmds_cons]
    by_cases hin : Cmd.vkCmdUpdateBuffer b 0 n src ∈ cs
    · exact ih _ (fun x hx => hcopy x (List.mem_cons_of_mem _ hx))
        (fun off1 n1 src1 hm => hall off1 n1 src1 (List.mem_cons_of_mem _ hm)) hin
    · have hc : c = Cmd.vkCmdUpdateBuffer b 0 n src := by
        rcases List.mem_cons.mp hmem with h | h
        · exact h.symm
        · exact absurd h hin
      rw [executeCmds_untouched host b k cs _ (fun x hx => hcopy x (List.mem_cons_of_mem _ hx))
        (fun b1 off1 n1 src1 hm hc1 => by
          obtain ⟨rfl, _, _⟩ := hc1
          obtain ⟨rfl, rfl, rfl⟩ := hall off1 n1 src1 (List.mem_cons_of_mem _ hm)
          exact hin hm)]
      rw [hc]
      simp [Cmd.execute, hk]

theorem expectedCmds_noCopy (bd : BufferBarrierDefaults) (a : RecordArgs) :
    ∀ c ∈ expectedCmds bd a, c.isCopy = false := by
  intro c hc
  rw [expectedCmds, List.mem_append] at hc
  rcases hc with hc | hc
  · simp only [uploadsCmds, uploadCmds, materialCmds, List.mem_append, List.mem_flatMap,
      List.mem_cons, List.mem_singleton, List.not_mem_nil, or_false] at hc
    rcases hc with (rfl | rfl | rfl) | ⟨i, _, (rfl | rfl | rfl) | (rfl | rfl | rfl)⟩ <;> rfl
  · simp only [passesCmds, passCmds, beginCmd, meshPassBody, blurPassBody, compositePassBody,
      drawCmds, List.mem_append, List.mem_cons, List.mem_flatMap, List.mem_singleton,
      List.not_mem_nil, or_false] at hc
    rcases hc with (rfl | (rfl | ⟨i, _, rfl | rfl | rfl | rfl | rfl⟩) | rfl) |
      (rfl | (rfl | rfl | rfl) | rfl) | (rfl | (rfl | rfl | rfl) | rfl) |
      (rfl | (rfl | ⟨i, _, rfl | rfl | rfl | rfl | rfl⟩) | rfl) |
      (rfl | (rfl | rfl | rfl | rfl) | rfl) <;> rfl

/-- The updates among the commands `record_commands` records. -/
theorem mem_expectedCmds_update (bd : BufferBarrierDefaults) (a : RecordArgs) (b : Handle)
    (off n : Nat) (src : UniformSource)
    (h : Cmd.vkCmdUpdateBuffer b off n src ∈ expectedCmds bd a) :
    (b = a.aSceneUBO ∧ off = 0 ∧ n = sizeof_SceneUniform ∧ src = .aSceneUniform) ∨
    ∃ j, j < a.aMaterialDescriptor.length ∧
      ((b = a.aMaterialUBOs.getD j 0 ∧ off = 0 ∧ n = sizeof_MaterialUniform ∧
          src = .aMaterialUniforms j) ∨
        (b = a.aMaterialPBRUBOs.getD j 0 ∧ off = 0 ∧ n = sizeof_MaterialPBRUniform ∧
          src = .aMaterialPBRUniforms j)) := by
  rw [expectedCmds, List.mem_append] at h
  rcases h with h | h
  · simp only [uploadsCmds, uploadCmds, materialCmds, barrierCmd, List.mem_append,
      List.mem_flatMap, List.mem_cons, List.mem_singleton, List.not_mem_nil, or_false,
      List.mem_range'_1, reduceCtorEq, false_or, Cmd.vkCmdUpdateBuffer.injEq] at h
    rcases h with ⟨rfl, rfl, rfl, rfl⟩ | ⟨j, hj, ⟨rfl, rfl, rfl, rfl⟩ | ⟨rfl, rfl, rfl, rfl⟩⟩
    · exact Or.inl ⟨rfl, rfl, rfl, rfl⟩
    · exact Or.inr ⟨j, by omega, Or.inl ⟨rfl, rfl, rfl, rfl⟩⟩
    · exact Or.inr ⟨j, by omega, Or.inr ⟨rfl, rfl, rfl, rfl⟩⟩
  · have := (passesCmds_plain _ _ h).1
    simp [Cmd.isUpdate] at this

theorem afterMainInit_uniformsDistinct (w : World) (boot : Boot) (d : Device) :
    (afterMainInit w boot d).1.materialUBO.Nodup ∧
    (afterMainInit w boot d).1.materialPBRUBO.Nodup :=
  ⟨List.nodup_range' _ _, List.nodup_range' _ _⟩

/-- At every head of the loop of `main` the material uniform buffers are
distinct, and so are the PBR-material uniform buffers. -/
theorem atLoopHead_uniformsDistinct {w0 : World} {boot : Boot} {d0 : Device}
    {bd : BufferBarrierDefaults} {v : MainVars} {d : Device}
    (h : AtLoopHead w0 boot d0 bd v d) :
    v.materialUBO.Nodup ∧ v.materialPBRUBO.Nodup := by
  induction h with
  | start hs =>
    obtain ⟨rfl, rfl⟩ := main_init_post w0 boot d0 _ _ hs
    exact afterMainInit_uniformsDistinct w0 boot d0
  | @next w v v1 d d1 _ hstep ih =>
    rcases mainLoopBody_post w bd v d v1 d1 hstep with ⟨_, rfl, rfl⟩ | ⟨rfl, rfl | rfl⟩
    · obtain ⟨_, _, _, e4, e5, _, _⟩ := afterRebuild_frame_vars w v d
      rw [e4, e5]
      exact ih
    · exact ih
    · exact ih

theorem getD_inj_of_nodup {xs : List Handle} (hn : xs.Nodup) {i j : Nat} (hi : i < xs.length)
    (hj : j < xs.length) (h : xs.getD i 0 = xs.getD j 0) : i = j := by
  rw [List.getD_eq_getElem _ _ hi, List.getD_eq_getElem _ _ hj] at h
  exact (List.Nodup.getElem_inj_iff hn).1 h

/-- C21: at every head of the loop of `main`, in an iteration whose frame
reaches recording: every `vkCmdUpdateBuffer` in the command buffer of the frame
writes at offset 0 exactly as many bytes as the buffer it names was created
with; the scene uniform buffer is updated with the `sizeof(glsl::SceneUniform)`
bytes of the scene uniform struct of the frame, and for every material `j` the
material buffer `j` and the PBR-material buffer `j` are updated with the bytes
of element `j` of the two uniform vectors of the frame, whatever the light count
is.  When the commands of the command buffer are executed, from whatever the
buffers held: the whole content of the scene uniform buffer is, byte for byte,
the scene uniform struct passed to `record_commands` for the frame, the whole
content of material buffer `j` and of PBR-material buffer `j` is element `j` of
the two uniform vectors passed for the frame, and no byte that is not a byte of
a buffer, at an offset below the size it was created with, is changed. -/
theorem uniform_updates_cover_their_buffers (w0 : World) (boot : Boot) (d0 : Device)
    (bd : BufferBarrierDefaults) (v : MainVars) (d : Device)
    (hat : AtLoopHead w0 boot d0 bd v d) (w : World)
    (hflag : v.recreateSwapchain = false)
    (hacq : w.result .vkAcquireNextImageKHR = VK_SUCCESS)
    (hin : v.FrameInBounds w.imageIndex)
    (hw : w.result .vkWaitForFences = VK_SUCCESS) (hr : w.result .vkResetFences = VK_SUCCESS)
    (hb : w.result .vkBeginCommandBuffer = VK_SUCCESS) :
    ∃ cb, v.cbuffers.get? w.imageIndex = some cb ∧
      (∀ b off n src, Cmd.vkCmdUpdateBuffer b off n src ∈ recorded cb (mainLoopBody w bd v d).1 →
        off = 0 ∧ d.bufferSize b = some n) ∧
      Cmd.vkCmdUpdateBuffer v.sceneUBO 0 sizeof_SceneUniform .aSceneUniform ∈
        recorded cb (mainLoopBody w bd v d).1 ∧
      d.bufferSize v.sceneUBO = some sizeof_SceneUniform ∧
      (∀ j, j < boot.carModel.materials.length →
        Cmd.vkCmdUpdateBuffer (v.materialUBO.getD j 0) 0 sizeof_MaterialUniform
          (.aMaterialUniforms j) ∈ recorded cb (mainLoopBody w bd v d).1 ∧
        d.bufferSize (v.materialUBO.getD j 0) = some sizeof_MaterialUniform ∧
        Cmd.vkCmdUpdateBuffer (v.materialPBRUBO.getD j 0) 0 sizeof_MaterialPBRUniform
          (.aMaterialPBRUniforms j) ∈ recorded cb (mainLoopBody w bd v d).1 ∧
        d.bufferSize (v.materialPBRUBO.getD j 0) = some sizeof_MaterialPBRUniform) ∧
      ∀ m0 : BufferMemory,
        (executeCmds (frameRecordArgs w v w.imageIndex).pointee m0
          (recorded cb (mainLoopBody w bd v d).1)).Holds v.sceneUBO sizeof_SceneUniform
            (.scene (frameRecordArgs w v w.imageIndex).aSceneUniform) ∧
        (∀ j, j < boot.carModel.materials.length →
          ∃ u p, (frameRecordArgs w v w.imageIndex).aMaterialUniforms.get? j = some u ∧
            (frameRecordArgs w v w.imageIndex).aMaterialPBRUniforms.get? j = some p ∧
            (executeCmds (frameRecordArgs w v w.imageIndex).pointee m0
              (recorded cb (mainLoopBody w bd v d).1)).Holds (v.materialUBO.getD j 0)
                sizeof_MaterialUniform (.material u) ∧
            (executeCmds (frameRecordArgs w v w.imageIndex).pointee m0
              (recorded cb (mainLoopBody w bd v d).1)).Holds (v.materialPBRUBO.getD j 0)
                sizeof_MaterialPBRUniform (.materialPBR p)) ∧
        ∀ b k, (∀ s, d.bufferSize b = some s → s ≤ k) →
          executeCmds (frameRecordArgs w v w.imageIndex).pointee m0
            (recorded cb (mainLoopBody w bd v d).1) b k = m0 b k := by
  obtain ⟨⟨_, u2, u3, u4, u5, u6, u7, u8⟩, hc, _⟩ := atLoopHead_uniformsSized hat
  obtain ⟨hnd, hndp⟩ := atLoopHead_uniformsDistinct hat
  have ht : (mainLoopBody w bd v d).1 = iterationHead w v ++ frameEvents w bd v w.imageIndex := by
    rw [mainLoopBody_frame w bd v d hflag hacq, frame_apply w bd v _ d hin hw hr hb]
  have hrec : recorded (v.cbuffers.getD w.imageIndex 0) (mainLoopBody w bd v d).1 =
      expectedCmds bd (frameRecordArgs w v w.imageIndex) := by
    rw [ht, recorded_append, recorded_iterationHead, recorded_frameEvents, List.nil_append]
  have hcb : v.cbuffers.get? w.imageIndex = some (v.cbuffers.getD w.imageIndex 0) := by
    rw [List.get?_eq_getElem?, List.getD_eq_getElem?_getD, List.getElem?_eq_getElem hin.2.1]
    rfl
  have hmU : ∀ j, j < v.materialDescriptors.length → v.materialUBO.getD j 0 ∈ v.materialUBO := by
    intro j hj
    rw [List.getD_eq_getElem _ _ (by omega)]
    exact List.getElem_mem _
  have hmP : ∀ j, j < v.materialDescriptors.length →
      v.materialPBRUBO.getD j 0 ∈ v.materialPBRUBO := by
    intro j hj
    rw [List.getD_eq_getElem _ _ (by omega)]
    exact List.getElem_mem _
  have hlen : (frameRecordArgs w v w.imageIndex).aMaterialDescriptor.length =
      v.materialDescriptors.length := rfl
  have hsU : ∀ j, j < v.materialDescriptors.length →
      d.bufferSize (v.materialUBO.getD j 0) = some sizeof_MaterialUniform :=
    fun j hj => (u3 _ (hmU j hj)).2
  have hsP : ∀ j, j < v.materialDescriptors.length →
      d.bufferSize (v.materialPBRUBO.getD j 0) = some sizeof_MaterialPBRUniform :=
    fun j hj => (u4 _ (hmP j hj)).2
  have hall : ∀ b off n src, Cmd.vkCmdUpdateBuffer b off n src ∈
      expectedCmds bd (frameRecordArgs w v w.imageIndex) →
      (b = v.sceneUBO ∧ off = 0 ∧ n = sizeof_SceneUniform ∧ src = .aSceneUniform) ∨
      ∃ j, j < v.materialDescriptors.length ∧
        ((b = v.materialUBO.getD j 0 ∧ off = 0 ∧ n = sizeof_MaterialUniform ∧
            src = .aMaterialUniforms j) ∨
          (b = v.materialPBRUBO.getD j 0 ∧ off = 0 ∧ n = sizeof_MaterialPBRUniform ∧
            src = .aMaterialPBRUniforms j)) :=
    fun b off n src hm => mem_expectedCmds_update bd _ b off n src hm
  have hsize : ∀ b off n src, Cmd.vkCmdUpdateBuffer b off n src ∈
      expectedCmds bd (frameRecordArgs w v w.imageIndex) → off = 0 ∧ d.bufferSize b = some n := by
    intro b off n src hm
    rcases hall b off n src hm with ⟨rfl, rfl, rfl, _⟩ | ⟨j, hj, ⟨rfl, rfl, rfl, _⟩ | ⟨rfl, rfl, rfl, _⟩⟩
    · exact ⟨rfl, u2⟩
    · exact ⟨rfl, hsU j hj⟩
    · exact ⟨rfl, hsP j hj⟩
  have hscene : Cmd.vkCmdUpdateBuffer v.sceneUBO 0 sizeof_SceneUniform .aSceneUniform ∈
      expectedCmds bd (frameRecordArgs w v w.imageIndex) := by
    rw [expectedCmds, uploadsCmds, uploadCmds]
    simp [frameRecordArgs, recordArgs]
  have hmat : ∀ j, j < v.materialDescriptors.length →
      Cmd.vkCmdUpdateBuffer (v.materialUBO.getD j 0) 0 sizeof_MaterialUniform
        (.aMaterialUniforms j) ∈ expectedCmds bd (frameRecordArgs w v w.imageIndex) ∧
      Cmd.vkCmdUpdateBuffer (v.materialPBRUBO.getD j 0) 0 sizeof_MaterialPBRUniform
        (.aMaterialPBRUniforms j) ∈ expectedCmds bd (frameRecordArgs w v w.imageIndex) := by
    intro j hj2
    constructor
    · rw [expectedCmds, uploadsCmds]
      refine List.mem_append_left _ (List.mem_append_right _ ?_)
      rw [List.mem_flatMap]
      refine ⟨j, by rw [List.mem_range'_1]; exact ⟨Nat.zero_le _, by
        simpa [frameRecordArgs, recordArgs] using hj2⟩, ?_⟩
      simp [materialCmds, uploadCmds, frameRecordArgs, recordArgs]
    · rw [expectedCmds, uploadsCmds]
      refine List.mem_append_left _ (List.mem_append_right _ ?_)
      rw [List.mem_flatMap]
      refine ⟨j, by rw [List.mem_range'_1]; exact ⟨Nat.zero_le _, by
        simpa [frameRecordArgs, recordArgs] using hj2⟩, ?_⟩
      simp [materialCmds, uploadCmds, frameRecordArgs, recordArgs]
  have hne1 : sizeof_SceneUniform ≠ sizeof_MaterialUniform := by decide
  have hne2 : sizeof_SceneUniform ≠ sizeof_MaterialPBRUniform := by decide
  have hne3 : sizeof_MaterialUniform ≠ sizeof_MaterialPBRUniform := by decide
  have hcopy := expectedCmds_noCopy bd (frameRecordArgs w v w.imageIndex)
  obtain ⟨l1, l2⟩ := frameMaterialUniforms_length w v
  refine ⟨_, hcb, ?_, ?_, u2, ?_, ?_⟩
  · rw [hrec]
    exact hsize
  · rw [hrec]
    exact hscene
  · intro j hj
    have hj2 : j < v.materialDescriptors.length := by rw [u6, hc]; exact hj
    rw [hrec]
    exact ⟨(hmat j hj2).1, hsU j hj2, (hmat j hj2).2, hsP j hj2⟩
  · intro m0
    rw [hrec]
    refine ⟨fun k hk => ?_, fun j hj => ?_, fun b k hout => ?_⟩
    · rw [executeCmds_holds _ v.sceneUBO sizeof_SceneUniform .aSceneUniform k hk _ m0 hcopy ?_
        hscene]
      · rfl
      · intro off1 n1 src1 hm
        rcases hall _ off1 n1 src1 hm with ⟨_, rfl, rfl, rfl⟩ | ⟨j, hj, ⟨e, _⟩ | ⟨e, _⟩⟩
        · exact ⟨rfl, rfl, rfl⟩
        · have := hsU j hj
          rw [← e, u2] at this
          exact absurd (Option.some.inj this) hne1
        · have := hsP j hj
          rw [← e, u2] at this
          exact absurd (Option.some.inj this) hne2
    · have hj2 : j < v.materialDescriptors.length := by rw [u6, hc]; exact hj
      have hju : j < (frameMaterialUniforms w v).1.length := by omega
      have hjp : j < (frameMaterialUniforms w v).2.length := by omega
      refine ⟨(frameMaterialUniforms w v).1.get ⟨j, hju⟩, (frameMaterialUniforms w v).2.get ⟨j, hjp⟩,
        List.get?_eq_get hju, List.get?_eq_get hjp, fun k hk => ?_, fun k hk => ?_⟩
      · rw [executeCmds_holds _ (v.materialUBO.getD j 0) sizeof_MaterialUniform
          (.aMaterialUniforms j) k hk _ m0 hcopy ?_ (hmat j hj2).1]
        · show Option.map _ (Option.map UniformValue.material
            ((frameMaterialUniforms w v).1.get? j)) = _
          rw [List.get?_eq_get hju]
          rfl
        · intro off1 n1 src1 hm
          rcases hall _ off1 n1 src1 hm with ⟨e, _⟩ | ⟨i, hi, ⟨e, rfl, rfl, rfl⟩ | ⟨e, _⟩⟩
          · have := hsU j hj2
            rw [e, u2] at this
            exact absurd (Option.some.inj this) hne1
          · have := getD_inj_of_nodup hnd (by omega) (by omega) e
            subst this
            exact ⟨rfl, rfl, rfl⟩
          · have := hsP i hi
            rw [← e, hsU j hj2] at this
            exact absurd (Option.some.inj this) hne3
      · rw [executeCmds_holds _ (v.materialPBRUBO.getD j 0) sizeof_MaterialPBRUniform
          (.aMaterialPBRUniforms j) k hk _ m0 hcopy ?_ (hmat j hj2).2]
        · show Option.map _ (Option.map UniformValue.materialPBR
            ((frameMaterialUniforms w v).2.get? j)) = _
          rw [List.get?_eq_get hjp]
          rfl
        · intro off1 n1 src1 hm
          rcases hall _ off1 n1 src1 hm with ⟨e, _⟩ | ⟨i, hi, ⟨e, _⟩ | ⟨e, rfl, rfl, rfl⟩⟩
          · have := hsP j hj2
            rw [e, u2] at this
            exact absurd (Option.some.inj this) hne2
          · have := hsU i hi
            rw [← e, hsP j hj2] at this
            exact absurd (Option.some.inj this.symm) hne3
          · have := getD_inj_of_nodup hndp (by omega) (by omega) e
            subst this
            exact ⟨rfl, rfl, rfl⟩
    · refine executeCmds_untouched _ b k _ m0 hcopy (fun b1 off n src hm hc1 => ?_)
      obtain ⟨rfl, h1, h2⟩ := hc1
      obtain ⟨rfl, hs⟩ := hsize _ _ _ _ hm
      have := hout n hs
      omega

theorem afterMainInit_frameInBounds (w : World) (boot : Boot) (d : Device) (i : Nat)
    (hm : boot.MeshInBounds) (hi : i < w.swapImageCount) :
    (afterMainInit w boot d).1.FrameInBounds i := by
  obtain ⟨s1, s2, s3, _⟩ := afterMainInit_slots w boot d
  obtain ⟨c1, c2, _⟩ := afterMainInit_materials w boot d
  exact uniformsSized_frameInBounds i (afterMainInit_uniformsSized w boot d) c1 c2 hm
    (by rw [s1]; exact hi) (by rw [s2]; exact hi) (by rw [s3]; exact hi)

theorem uniform_updates_cover_their_buffers_witness :
    AtLoopHead World.allOk sampleBoot Device.initial sampleDefaults
      (afterMainInit World.allOk sampleBoot Device.initial).1
      (afterMainInit World.allOk sampleBoot Device.initial).2 ∧
    (afterMainInit World.allOk sampleBoot Device.initial).1.FrameInBounds World.allOk.imageIndex ∧
    ∃ cb,
      (afterMainInit World.allOk sampleBoot Device.initial).1.cbuffers.get? World.allOk.imageIndex =
        some cb ∧
      (∀ b off n src, Cmd.vkCmdUpdateBuffer b off n src ∈
          recorded cb (mainLoopBody World.allOk sampleDefaults
            (afterMainInit World.allOk sampleBoot Device.initial).1
            (afterMainInit World.allOk sampleBoot Device.initial).2).1 →
        off = 0 ∧ (afterMainInit World.allOk sampleBoot Device.initial).2.bufferSize b = some n) ∧
      ∀ m0 : BufferMemory,
        (executeCmds
          (frameRecordArgs World.allOk (afterMainInit World.allOk sampleBoot Device.initial).1
            World.allOk.imageIndex).pointee m0
          (recorded cb (mainLoopBody World.allOk sampleDefaults
            (afterMainInit World.allOk sampleBoot Device.initial).1
            (afterMainInit World.allOk sampleBoot Device.initial).2).1)).Holds
          (afterMainInit World.allOk sampleBoot Device.initial).1.sceneUBO sizeof_SceneUniform
          (.scene (frameRecordArgs World.allOk
            (afterMainInit World.allOk sampleBoot Device.initial).1
            World.allOk.imageIndex).aSceneUniform) := by
  have hat : AtLoopHead World.allOk sampleBoot Device.initial sampleDefaults
      (afterMainInit World.allOk sampleBoot Device.initial).1
      (afterMainInit World.allOk sampleBoot Device.initial).2 :=
    AtLoopHead.start (main_init_done World.allOk allOk_creationSucceeds sampleBoot Device.initial)
  have hin : (afterMainInit World.allOk sampleBoot Device.initial).1.FrameInBounds
      World.allOk.imageIndex :=
    afterMainInit_frameInBounds World.allOk sampleBoot Device.initial _ sampleBoot_meshInBounds
      (by decide)
  obtain ⟨cb, h1, h2, _, _, _, h6⟩ := uniform_updates_cover_their_buffers World.allOk sampleBoot
    Device.initial sampleDefaults _ _ hat World.allOk
    (afterMainInit_materials World.allOk sampleBoot Device.initial).2.2.1 rfl hin rfl rfl rfl
  exact ⟨hat, hin, cb, h1, h2, fun m0 => (h6 m0).1⟩

/-- C25 (the code diverges): when every index is in range and the command buffer could be
begun, for every material `j` the barrier recorded before the update of
material buffer `j`, and of PBR-material buffer `j`, has the vertex shader
stage as its source stage mask and the barrier recorded after the update has
the vertex shader stage as its destination stage mask; and no barrier of the
command buffer has the fragment shader stage in its source or destination
stage mask, although `create_material_descriptor_layout` declares the buffer
for the fragment stage alone. -/
theorem material_barriers_name_the_vertex_shader_stage (w : World) (bd : BufferBarrierDefaults)
    (a : RecordArgs) (d : Device) (h : a.InBounds)
    (hb : w.result .vkBeginCommandBuffer = VK_SUCCESS) :
    (∀ j, j < a.aMaterialDescriptor.length →
      ∀ buf ∈ [a.aMaterialUBOs.getD j 0, a.aMaterialPBRUBOs.getD j 0],
        Cmd.vkCmdPipelineBarrier VK_PIPELINE_STAGE_VERTEX_SHADER_BIT VK_PIPELINE_STAGE_TRANSFER_BIT 0 0
          [ { srcAccessMask := VK_ACCESS_UNIFORM_READ_BIT
              dstAccessMask := VK_ACCESS_TRANSFER_WRITE_BIT
              buffer := buf
              size := bd.aSize
              offset := bd.aOffset
              srcQueueFamilyIndex := bd.aSrcQueueFamilyIndex
              dstQueueFamilyIndex := bd.aDstQueueFamilyIndex } ] 0 ∈
          recorded a.aCmdBuff (record_commands w bd a d).1 ∧
        Cmd.vkCmdPipelineBarrier VK_PIPELINE_STAGE_TRANSFER_BIT VK_PIPELINE_STAGE_VERTEX_SHADER_BIT 0 0
          [ { srcAccessMask := VK_ACCESS_TRANSFER_WRITE_BIT
              dstAccessMask := VK_ACCESS_UNIFORM_READ_BIT
              buffer := buf
              size := bd.aSize
              offset := bd.aOffset
              srcQueueFamilyIndex := bd.aSrcQueueFamilyIndex
              dstQueueFamilyIndex := bd.aDstQueueFamilyIndex } ] 0 ∈
          recorded a.aCmdBuff (record_commands w bd a d).1) ∧
    (∀ src dst flags n bs m,
      Cmd.vkCmdPipelineBarrier src dst flags n bs m ∈
        recorded a.aCmdBuff (record_commands w bd a d).1 →
      src &&& VK_PIPELINE_STAGE_FRAGMENT_SHADER_BIT = 0 ∧
      dst &&& VK_PIPELINE_STAGE_FRAGMENT_SHADER_BIT = 0) ∧
    (∀ d1 o res k, Event.create o res k ∈ (create_material_descriptor_layout w d1).1 →
      o = .descriptorSetLayout
        [ { binding := 0, descriptorType := VK_DESCRIPTOR_TYPE_UNIFORM_BUFFER, descriptorCount := 1
            stageFlags := VK_SHADER_STAGE_FRAGMENT_BIT } ]) := by
  rw [recorded_record_commands w bd a h hb d]
  refine ⟨fun j hj buf hbuf => ?_, fun src dst flags n bs m hmem => ?_, fun d1 o res k hmem => ?_⟩
  · have hmat : ∀ c ∈ materialCmds bd a j, c ∈ expectedCmds bd a := by
      intro c hc
      rw [expectedCmds, uploadsCmds]
      refine List.mem_append_left _ (List.mem_append_right _ ?_)
      rw [List.mem_flatMap]
      exact ⟨j, by rw [List.mem_range'_1]; exact ⟨Nat.zero_le _, by simpa using hj⟩, hc⟩
    have e1 : ∀ b : Handle,
        Cmd.vkCmdPipelineBarrier VK_PIPELINE_STAGE_VERTEX_SHADER_BIT VK_PIPELINE_STAGE_TRANSFER_BIT 0 0
          [ { srcAccessMask := VK_ACCESS_UNIFORM_READ_BIT
              dstAccessMask := VK_ACCESS_TRANSFER_WRITE_BIT
              buffer := b
              size := bd.aSize
              offset := bd.aOffset
              srcQueueFamilyIndex := bd.aSrcQueueFamilyIndex
              dstQueueFamilyIndex := bd.aDstQueueFamilyIndex } ] 0 =
        barrierCmd bd b VK_ACCESS_UNIFORM_READ_BIT VK_ACCESS_TRANSFER_WRITE_BIT := fun _ => rfl
    have e2 : ∀ b : Handle,
        Cmd.vkCmdPipelineBarrier VK_PIPELINE_STAGE_TRANSFER_BIT VK_PIPELINE_STAGE_VERTEX_SHADER_BIT 0 0
          [ { srcAccessMask := VK_ACCESS_TRANSFER_WRITE_BIT
              dstAccessMask := VK_ACCESS_UNIFORM_READ_BIT
              buffer := b
              size := bd.aSize
              offset := bd.aOffset
              srcQueueFamilyIndex := bd.aSrcQueueFamilyIndex
              dstQueueFamilyIndex := bd.aDstQueueFamilyIndex } ] 0 =
        barrierCmd bd b VK_ACCESS_TRANSFER_WRITE_BIT VK_ACCESS_UNIFORM_READ_BIT := fun _ => rfl
    rw [e1, e2]
    simp only [List.mem_cons, List.mem_singleton, List.not_mem_nil, or_false] at hbuf
    rcases hbuf with rfl | rfl
    · exact ⟨hmat _ (List.mem_append_left _ (List.mem_cons_self _ _)),
        hmat _ (List.mem_append_left _
          (List.mem_cons_of_mem _ (List.mem_cons_of_mem _ (List.mem_cons_self _ _))))⟩
    · exact ⟨hmat _ (List.mem_append_right _ (List.mem_cons_self _ _)),
        hmat _ (List.mem_append_right _
          (List.mem_cons_of_mem _ (List.mem_cons_of_mem _ (List.mem_cons_self _ _))))⟩
  · rw [expectedCmds, List.mem_append] at hmem
    rcases hmem with hmem | hmem
    · simp only [uploadsCmds, uploadCmds, materialCmds, barrierCmd, List.mem_append,
        List.mem_flatMap, List.mem_cons, List.mem_singleton, List.not_mem_nil, or_false,
        reduceCtorEq, false_or, or_false, Cmd.vkCmdPipelineBarrier.injEq] at hmem
      rcases hmem with (⟨rfl, rfl, _⟩ | ⟨rfl, rfl, _⟩) |
        ⟨_, _, (⟨rfl, rfl, _⟩ | ⟨rfl, rfl, _⟩) | (⟨rfl, rfl, _⟩ | ⟨rfl, rfl, _⟩)⟩ <;> decide
    · have := (passesCmds_plain _ _ hmem).2
      simp [Cmd.isBarrier] at this
  · unfold create_material_descriptor_layout Exec.create at hmem
    split at hmem <;>
    · simp only [List.mem_singleton, Event.create.injEq] at hmem
      exact hmem.1

theorem material_barriers_name_the_vertex_shader_stage_witness :
    sampleArgs.InBounds ∧ World.allOk.result .vkBeginCommandBuffer = VK_SUCCESS ∧
    ∀ src dst flags n bs m,
      Cmd.vkCmdPipelineBarrier src dst flags n bs m ∈
        recorded sampleArgs.aCmdBuff
          (record_commands World.allOk sampleDefaults sampleArgs Device.initial).1 →
      src &&& VK_PIPELINE_STAGE_FRAGMENT_SHADER_BIT = 0 ∧
      dst &&& VK_PIPELINE_STAGE_FRAGMENT_SHADER_BIT = 0 :=
  ⟨sampleArgs_inBounds, rfl,
    (material_barriers_name_the_vertex_shader_stage World.allOk sampleDefaults sampleArgs
      Device.initial sampleArgs_inBounds rfl).2.1⟩

/-! ### The pipelines and render passes of start-up -/

theorem initPipelines_renderPasses (w : World) (r : MainVars × Device) :
    ((initPipelines w r).1.pipe < (initPipelines w r).2.nextHandle ∧
      (initPipelines w r).1.pipe_filter_bright < (initPipelines w r).2.nextHandle ∧
      (initPipelines w r).1.postPipe < (initPipelines w r).2.nextHandle ∧
      (initPipelines w r).1.filterHorizontalPipe < (initPipelines w r).2.nextHandle ∧
      (initPipelines w r).1.filterVerticalPipe < (initPipelines w r).2.nextHandle) ∧
    (initPipelines w r).2.pipelineRenderPass (initPipelines w r).1.pipe =
      some r.1.offlineRenderPass ∧
    (initPipelines w r).2.pipelineRenderPass (initPipelines w r).1.pipe_filter_bright =
      some r.1.offlineRenderPass ∧
    (initPipelines w r).2.pipelineRenderPass (initPipelines w r).1.postPipe =
      some r.1.renderPass ∧
    (initPipelines w r).2.pipelineRenderPass (initPipelines w r).1.filterHorizontalPipe =
      some r.1.renderPass ∧
    (initPipelines w r).2.pipelineRenderPass (initPipelines w r).1.filterVerticalPipe =
      some r.1.renderPass := by
  refine ⟨?_, ?_, ?_, ?_, ?_, ?_⟩
  · simp only [initPipelines, afterCreatePipeline_nextHandle, nextHandle_alloc]
    unfold Handle
    omega
  all_goals
    simp [initPipelines, afterCreatePipeline, Device.pipelineRenderPass, object_alloc, pipelineInfo,
      Nat.add_assoc]

theorem afterMainInit_pipelines (w : World) (boot : Boot) (d : Device) :
    (afterMainInit w boot d).1.renderPass ≠ (afterMainInit w boot d).1.offlineRenderPass ∧
    (afterMainInit w boot d).2.pipelineRenderPass (afterMainInit w boot d).1.pipe =
      some (afterMainInit w boot d).1.offlineRenderPass ∧
    (afterMainInit w boot d).2.pipelineRenderPass (afterMainInit w boot d).1.pipe_filter_bright =
      some (afterMainInit w boot d).1.offlineRenderPass ∧
    (afterMainInit w boot d).2.pipelineRenderPass (afterMainInit w boot d).1.postPipe =
      some (afterMainInit w boot d).1.renderPass ∧
    (afterMainInit w boot d).2.pipelineRenderPass (afterMainInit w boot d).1.filterHorizontalPipe =
      some (afterMainInit w boot d).1.renderPass ∧
    (afterMainInit w boot d).2.pipelineRenderPass (afterMainInit w boot d).1.filterVerticalPipe =
      some (afterMainInit w boot d).1.renderPass := by
  obtain ⟨hlt, p1, p2, p3, p4, p5⟩ :=
    initPipelines_renderPasses w (initLayouts (initWindow w (MainVars.blank boot, d)))
  have hg : (initPipelines w (initLayouts (initWindow w (MainVars.blank boot, d)))).2.Grows
      (afterMainInit w boot d).2 :=
    grows_trans (initTargets_grows _) (grows_trans (initSlots_grows _)
      (grows_trans (initWiring_grows _) (initMaterials_grows _)))
  refine ⟨?_, ?_, ?_, ?_, ?_, ?_⟩
  · show (initLayouts (initWindow w (MainVars.blank boot, d))).1.renderPass ≠
      (initLayouts (initWindow w (MainVars.blank boot, d))).1.offlineRenderPass
    simp [initLayouts]
  · exact (pipelineRenderPass_grows hg hlt.1).trans p1
  · exact (pipelineRenderPass_grows hg hlt.2.1).trans p2
  · exact (pipelineRenderPass_grows hg hlt.2.2.1).trans p3
  · exact (pipelineRenderPass_grows hg hlt.2.2.2.1).trans p4
  · exact (pipelineRenderPass_grows hg hlt.2.2.2.2).trans p5

theorem bindPipeline_mem_meshPassBody (a : RecordArgs) (p q : Handle)
    (h : Cmd.vkCmdBindPipeline q ∈ meshPassBody a p) : q = p := by
  simp only [meshPassBody, drawCmds, List.mem_cons, List.mem_flatMap, List.mem_singleton,
    List.not_mem_nil, or_false, reduceCtorEq, false_or, Cmd.vkCmdBindPipeline.injEq] at h
  obtain ⟨_, _, h⟩ := h
  exact h

/-- C26 (the code diverges): when `main` has reached its loop and a frame records its command
buffer, the first and the fourth render pass instance run in the offscreen
render pass and bind no pipeline but the bright-filter and the lit pipeline,
which were created against the offscreen render pass, and the fifth runs in
the present render pass and binds the composite pipeline, created against the
present render pass; but the second and the third instance run in the
offscreen render pass and bind the horizontal-blur and the vertical-blur
pipeline, which were created against the present render pass, an object other
than the offscreen render pass. -/
theorem blur_pipelines_are_created_against_the_present_render_pass (w0 : World) (boot : Boot)
    (d0 : Device) (v : MainVars) (d : Device) (hinit : (main_init w0 boot d0).2 = .done v d)
    (w : World) (bd : BufferBarrierDefaults) (i : Nat)
    (hin : (frameRecordArgs w v i).InBounds)
    (hb : w.result .vkBeginCommandBuffer = VK_SUCCESS) :
    ∃ p1 p2 p3 p4 p5 : PassInstance,
      passInstances none (recorded (frameRecordArgs w v i).aCmdBuff
        (record_commands w bd (frameRecordArgs w v i) d).1) = some [p1, p2, p3, p4, p5] ∧
      (p1.renderPass = v.offlineRenderPass ∧
        (∀ q, Cmd.vkCmdBindPipeline q ∈ p1.body → q = v.pipe_filter_bright) ∧
        d.pipelineRenderPass v.pipe_filter_bright = some v.offlineRenderPass) ∧
      (p4.renderPass = v.offlineRenderPass ∧
        (∀ q, Cmd.vkCmdBindPipeline q ∈ p4.body → q = v.pipe) ∧
        d.pipelineRenderPass v.pipe = some v.offlineRenderPass) ∧
      (p5.renderPass = v.renderPass ∧ Cmd.vkCmdBindPipeline v.postPipe ∈ p5.body ∧
        d.pipelineRenderPass v.postPipe = some v.renderPass) ∧
      (p2.renderPass = v.offlineRenderPass ∧
        Cmd.vkCmdBindPipeline v.filterHorizontalPipe ∈ p2.body ∧
        d.pipelineRenderPass v.filterHorizontalPipe = some v.renderPass) ∧
      (p3.renderPass = v.offlineRenderPass ∧
        Cmd.vkCmdBindPipeline v.filterVerticalPipe ∈ p3.body ∧
        d.pipelineRenderPass v.filterVerticalPipe = some v.renderPass) ∧
      v.renderPass ≠ v.offlineRenderPass := by
  obtain ⟨rfl, rfl⟩ := main_init_post w0 boot d0 v d hinit
  obtain ⟨hne, q1, q2, q3, q4, q5⟩ := afterMainInit_pipelines w0 boot d0
  rw [recorded_record_commands w bd _ hin hb]
  exact ⟨_, _, _, _, _, passInstances_expectedCmds _ _,
    ⟨rfl, fun q hq => bindPipeline_mem_meshPassBody _ _ _ hq, q2⟩,
    ⟨rfl, fun q hq => bindPipeline_mem_meshPassBody _ _ _ hq, q1⟩,
    ⟨rfl, List.mem_cons_self _ _, q3⟩, ⟨rfl, List.mem_cons_self _ _, q4⟩,
    ⟨rfl, List.mem_cons_self _ _, q5⟩, hne⟩

theorem blur_pipelines_are_created_against_the_present_render_pass_witness :
    (main_init World.allOk sampleBoot Device.initial).2 =
      .done (afterMainInit World.allOk sampleBoot Device.initial).1
        (afterMainInit World.allOk sampleBoot Device.initial).2 ∧
    (frameRecordArgs World.allOk (afterMainInit World.allOk sampleBoot Device.initial).1
      0).InBounds ∧
    (afterMainInit World.allOk sampleBoot Device.initial).2.pipelineRenderPass
        (afterMainInit World.allOk sampleBoot Device.initial).1.filterHorizontalPipe =
      some (afterMainInit World.allOk sampleBoot Device.initial).1.renderPass ∧
    (afterMainInit World.allOk sampleBoot Device.initial).1.renderPass ≠
      (afterMainInit World.allOk sampleBoot Device.initial).1.offlineRenderPass := by
  have hinit := main_init_done World.allOk allOk_creationSucceeds sampleBoot Device.initial
  have hin := frameRecordArgs_inBounds World.allOk _ 0
    (afterMainInit_frameInBounds World.allOk sampleBoot Device.initial 0 sampleBoot_meshInBounds
      (by decide))
  obtain ⟨_, _, _, _, _, _, _, _, _, h2, _, hne⟩ :=
    blur_pipelines_are_created_against_the_present_render_pass World.allOk sampleBoot
      Device.initial _ _ hinit World.allOk sampleDefaults 0 hin rfl
  exact ⟨hinit, hin, h2.2.2, hne⟩

/-! ### Formats at start-up and after a rebuild -/

theorem initLayouts_formats (r : MainVars × Device) :
    (initLayouts r).1.renderPass < (initLayouts r).2.nextHandle ∧
    (initLayouts r).1.offlineRenderPass < (initLayouts r).2.nextHandle ∧
    (initLayouts r).2.colourFormat (initLayouts r).1.renderPass = some r.1.window.swapchainFormat ∧
    (initLayouts r).2.colourFormat (initLayouts r).1.offlineRenderPass =
      some r.1.window.swapchainFormat := by
  refine ⟨?_, ?_, ?_, ?_⟩
  · simp only [initLayouts, nextHandle_alloc]
    unfold Handle
    omega
  · simp only [initLayouts, nextHandle_alloc]
    unfold Handle
    omega
  · simp [initLayouts, Device.colourFormat, object_alloc, presentPassInfo, Nat.add_assoc]
  · simp [initLayouts, Device.colourFormat, object_alloc, offlinePassInfo, Nat.add_assoc]

theorem initTargets_formats (r : MainVars × Device) :
    ∀ p ∈ [((initTargets r).1.backBuffer, (initTargets r).1.backBufferView),
        ((initTargets r).1.backFrameBuffer, (initTargets r).1.backFrameBufferView),
        ((initTargets r).1.backBufferHorizontal, (initTargets r).1.backBufferViewHorizontal),
        ((initTargets r).1.backBufferVertical, (initTargets r).1.backBufferViewVertical)],
      p.1 < (initTargets r).2.nextHandle ∧ p.2 < (initTargets r).2.nextHandle ∧
      (initTargets r).2.imageFormat p.1 = some r.1.window.swapchainFormat ∧
      (initTargets r).2.viewFormat p.2 = some r.1.window.swapchainFormat := by
  intro p hp
  simp only [List.mem_cons, List.mem_singleton, List.not_mem_nil, or_false] at hp
  rcases hp with rfl | rfl | rfl | rfl
  all_goals
    refine ⟨?_, ?_, ?_, ?_⟩
    · simp only [initTargets, afterCreateImagePair_nextHandle]
      unfold Handle
      omega
    · simp only [initTargets, afterCreateImagePair_nextHandle]
      unfold Handle
      omega
    · simp [initTargets, afterCreateImagePair, Device.imageFormat, object_alloc, offscreenImageInfo,
        Nat.add_assoc]
    · simp [initTargets, afterCreateImagePair, Device.viewFormat, object_alloc, offscreenImageInfo,
        Nat.add_assoc]

theorem afterMainInit_formats (w : World) (boot : Boot) (d : Device) :
    (afterMainInit w boot d).1.window.swapchainFormat = w.swapchainFormat ∧
    (afterMainInit w boot d).1.window.swapchainExtent = w.swapchainExtent ∧
    (afterMainInit w boot d).1.renderPass < (afterMainInit w boot d).2.nextHandle ∧
    (afterMainInit w boot d).1.offlineRenderPass < (afterMainInit w boot d).2.nextHandle ∧
    (afterMainInit w boot d).2.colourFormat (afterMainInit w boot d).1.renderPass =
      some w.swapchainFormat ∧
    (afterMainInit w boot d).2.colourFormat (afterMainInit w boot d).1.offlineRenderPass =
      some w.swapchainFormat ∧
    ∀ p ∈ [((afterMainInit w boot d).1.backBuffer, (afterMainInit w boot d).1.backBufferView),
        ((afterMainInit w boot d).1.backFrameBuffer, (afterMainInit w boot d).1.backFrameBufferView),
        ((afterMainInit w boot d).1.backBufferHorizontal,
          (afterMainInit w boot d).1.backBufferViewHorizontal),
        ((afterMainInit w boot d).1.backBufferVertical,
          (afterMainInit w boot d).1.backBufferViewVertical)],
      p.1 < (afterMainInit w boot d).2.nextHandle ∧ p.2 < (afterMainInit w boot d).2.nextHandle ∧
      (afterMainInit w boot d).2.imageFormat p.1 = some w.swapchainFormat ∧
      (afterMainInit w boot d).2.viewFormat p.2 = some w.swapchainFormat := by
  obtain ⟨l1, l2, l3, l4⟩ := initLayouts_formats (initWindow w (MainVars.blank boot, d))
  have ht := initTargets_formats
    (initPipelines w (initLayouts (initWindow w (MainVars.blank boot, d))))
  have hgT : (initTargets (initPipelines w (initLayouts
      (initWindow w (MainVars.blank boot, d))))).2.Grows (afterMainInit w boot d).2 :=
    grows_trans (initSlots_grows _) (grows_trans (initWiring_grows _) (initMaterials_grows _))
  have hgL : (initLayouts (initWindow w (MainVars.blank boot, d))).2.Grows
      (afterMainInit w boot d).2 :=
    grows_trans (initPipelines_grows w _) (grows_trans (initTargets_grows _) hgT)
  refine ⟨rfl, rfl, Nat.lt_of_lt_of_le l1 hgL.1, Nat.lt_of_lt_of_le l2 hgL.1,
    (colourFormat_grows hgL l1).trans l3, (colourFormat_grows hgL l2).trans l4, fun p hp => ?_⟩
  obtain ⟨t1, t2, t3, t4⟩ := ht p hp
  exact ⟨Nat.lt_of_lt_of_le t1 hgT.1, Nat.lt_of_lt_of_le t2 hgT.1,
    (imageFormat_grows hgT t1).trans t3, (viewFormat_grows hgT t2).trans t4⟩

/-- C27 (the code diverges): when the first rebuild after start-up is handed a swapchain of
another format, it leaves a window of the new format and a present render pass
whose colour attachment has the new format, but the offscreen render pass is
still the one start-up created, whose colour attachment has the old format; and
when the extent is the same as at start-up, the four offscreen colour images and
their views are still those of start-up, of the old format. -/
theorem format_change_leaves_offscreen_formats_stale (w0 : World) (boot : Boot) (d0 : Device)
    (v : MainVars) (d : Device) (hinit : (main_init w0 boot d0).2 = .done v d)
    (w : World) (v1 : MainVars) (d1 : Device) (hre : (rebuild w v d).2 = .done v1 d1)
    (hf : w.swapchainFormat ≠ w0.swapchainFormat) :
    v1.window.swapchainFormat = w.swapchainFormat ∧
    d1.colourFormat v1.renderPass = some w.swapchainFormat ∧
    d1.colourFormat v1.offlineRenderPass = some w0.swapchainFormat ∧
    d1.colourFormat v1.offlineRenderPass ≠ some v1.window.swapchainFormat ∧
    (w.swapchainExtent = w0.swapchainExtent →
      ∀ p ∈ [(v1.backBuffer, v1.backBufferView), (v1.backFrameBuffer, v1.backFrameBufferView),
          (v1.backBufferHorizontal, v1.backBufferViewHorizontal),
          (v1.backBufferVertical, v1.backBufferViewVertical)],
        d1.imageFormat p.1 = some w0.swapchainFormat ∧
        d1.viewFormat p.2 = some w0.swapchainFormat) := by
  obtain ⟨rfl, rfl⟩ := main_init_post w0 boot d0 v d hinit
  obtain ⟨rfl, rfl⟩ := rebuild_post w _ _ v1 d1 hre
  obtain ⟨f1, f2, f3, f4, f5, f6, f7⟩ := afterMainInit_formats w0 boot d0
  have hg := afterRebuild_grows w (afterMainInit w0 boot d0).1 (afterMainInit w0 boot d0).2
  have hcf : (reportedChanges w (afterMainInit w0 boot d0).1).changedFormat = true := by
    simp [reportedChanges, f1, hf]
  have hwin : (afterRebuild w (afterMainInit w0 boot d0).1
      (afterMainInit w0 boot d0).2).1.window.swapchainFormat = w.swapchainFormat := by
    rw [afterRebuild_window]
    rfl
  have hoff := (afterRebuild_untouched w (afterMainInit w0 boot d0).1
    (afterMainInit w0 boot d0).2).2.2.2.2.2.2.1
  have hstale : (afterRebuild w (afterMainInit w0 boot d0).1
      (afterMainInit w0 boot d0).2).2.colourFormat
        (afterRebuild w (afterMainInit w0 boot d0).1
          (afterMainInit w0 boot d0).2).1.offlineRenderPass = some w0.swapchainFormat := by
    rw [hoff, colourFormat_grows hg f4]
    exact f6
  refine ⟨hwin, ?_, hstale, ?_, fun he p hp => ?_⟩
  · obtain ⟨h1, h2, h3, _⟩ := stageRenderPass_changed w (afterMainInit w0 boot d0).1
      (afterMainInit w0 boot d0).2 hcf
    rw [afterRebuild_renderPass_eq, h1,
      colourFormat_grows (stageRenderPass_to_end w _ _) (by rw [h2]; exact Nat.lt_succ_self _)]
    unfold Device.colourFormat
    rw [h3]
    rfl
  · rw [hstale, hwin]
    intro h
    exact hf (Option.some.inj h).symm
  · have hs : (reportedChanges w (afterMainInit w0 boot d0).1).changedSize = false := by
      simp [reportedChanges, f2, he]
    have hu := afterRebuild_sizeDependent_unchanged w (afterMainInit w0 boot d0).1
      (afterMainInit w0 boot d0).2 hs
    simp only [MainVars.sizeDependent, List.cons.injEq, and_true] at hu
    obtain ⟨_, _, c3, c4, c5, c6, c7, c8, c9, c10, _⟩ := hu
    rw [c3, c4, c5, c6, c7, c8, c9, c10] at hp
    obtain ⟨t1, t2, t3, t4⟩ := f7 p hp
    exact ⟨(imageFormat_grows hg t1).trans t3, (viewFormat_grows hg t2).trans t4⟩

theorem format_change_leaves_offscreen_formats_stale_witness :
    (main_init World.allOk sampleBoot Device.initial).2 =
      .done (afterMainInit World.allOk sampleBoot Device.initial).1
        (afterMainInit World.allOk sampleBoot Device.initial).2 ∧
    World.newFormat.swapchainFormat ≠ World.allOk.swapchainFormat ∧
    ∃ v1 d1,
      (rebuild World.newFormat (afterMainInit World.allOk sampleBoot Device.initial).1
        (afterMainInit World.allOk sampleBoot Device.initial).2).2 = .done v1 d1 ∧
      d1.colourFormat v1.offlineRenderPass = some 50 ∧ v1.window.swapchainFormat = 44 := by
  have hinit := main_init_done World.allOk allOk_creationSucceeds sampleBoot Device.initial
  have hre := rebuild_outcome World.newFormat allOk_creationSucceeds
    (afterMainInit World.allOk sampleBoot Device.initial).1
    (afterMainInit World.allOk sampleBoot Device.initial).2
  have h := format_change_leaves_offscreen_formats_stale World.allOk sampleBoot Device.initial
    _ _ hinit World.newFormat _ _ hre (by decide)
  exact ⟨hinit, by decide, _, _, hre, h.2.2.1, h.1⟩

/-! ### `load_obj_model` -/

theorem atInt_eq {α : Type} (xs : List α) (i : Int) (h0 : 0 ≤ i) (h1 : i < xs.length)
    (h2 : i < 2 ^ 31) : ∃ x, atInt xs i = some x := by
  unfold atInt
  rw [if_neg (by omega)]
  have : i.toNat < xs.length := by omega
  exact ⟨xs[i.toNat], by simp [List.get?_eq_getElem?, this]⟩

theorem readVertex_isSome (attrib : attrib_t) (objIdx : index_t) (h : objIdx.InRange attrib) :
    ∃ r, readVertex attrib objIdx = some r := by
  obtain ⟨v0, v1, v2, n0, n1, n2, t⟩ := h
  obtain ⟨p0, hp0⟩ := atInt_eq attrib.vertices (objIdx.vertex_index * 3 + 0) (by omega) (by omega)
    (by omega)
  obtain ⟨p1, hp1⟩ := atInt_eq attrib.vertices (objIdx.vertex_index * 3 + 1) (by omega) (by omega)
    (by omega)
  obtain ⟨p2, hp2⟩ := atInt_eq attrib.vertices (objIdx.vertex_index * 3 + 2) (by omega) (by omega)
    (by omega)
  obtain ⟨q0, hq0⟩ := atInt_eq attrib.normals (objIdx.normal_index * 3 + 0) (by omega) (by omega)
    (by omega)
  obtain ⟨q1, hq1⟩ := atInt_eq attrib.normals (objIdx.normal_index * 3 + 1) (by omega) (by omega)
    (by omega)
  obtain ⟨q2, hq2⟩ := atInt_eq attrib.normals (objIdx.normal_index * 3 + 2) (by omega) (by omega)
    (by omega)
  unfold readVertex
  simp only [hp0, hp1, hp2, hq0, hq1, hq2, Option.bind_eq_bind, Option.some_bind,
    if_neg (not_lt.mpr n0)]
  by_cases ht : objIdx.texcoord_index ≥ 0
  · obtain ⟨t1, t2⟩ := t ht
    obtain ⟨u0, hu0⟩ := atInt_eq attrib.texcoords (objIdx.texcoord_index * 2 + 0) (by omega)
      (by omega) (by omega)
    obtain ⟨u1, hu1⟩ := atInt_eq attrib.texcoords (objIdx.texcoord_index * 2 + 1) (by omega)
      (by omega) (by omega)
    simp only [if_pos ht, hu0, hu1, Option.some_bind]
    exact ⟨_, rfl⟩
  · simp only [if_neg ht]
    exact ⟨_, rfl⟩

theorem emitMesh_eq (s : shape_t) (model : ModelData) (c : Int) (ci k : Nat) (h0 : 0 ≤ c)
    (h1 : c.toNat < model.materials.length) :
    emitMesh s model c ci k =
      some { model with meshes := model.meshes ++ meshesOfRuns s model.materials ci [(c, k)] } := by
  unfold emitMesh
  rw [if_neg (not_lt.mpr h0)]
  have hg : model.materials.get? c.toNat = some model.materials[c.toNat] := by
    simp [List.get?_eq_getElem?, h1]
  rw [hg]
  simp [meshesOfRuns, List.get?_eq_getElem?, List.getElem?_eq_getElem h1]

theorem meshesOfRuns_append (s : shape_t) (materials : List MaterialInfo) :
    ∀ (rs qs : List (Int × Nat)) (start : Nat),
      meshesOfRuns s materials start (rs ++ qs) =
        meshesOfRuns s materials start rs ++
          meshesOfRuns s materials (start + (rs.map (fun r => r.2)).sum) qs := by
  intro rs
  induction rs with
  | nil => intro qs start; simp [meshesOfRuns]
  | cons r rs ih =>
    intro qs start
    show _ :: meshesOfRuns s materials (start + r.2) (rs ++ qs) = _
    rw [ih]
    simp [meshesOfRuns, Nat.add_assoc]

/-- The loop over the indices of a shape followed by the block after it: from a
state whose pending run is of a material that exists, over indices that refer
to data that exists and faces that have a material that exists, it returns, and
the records it appends are those of `pendingRuns`. -/
theorem loadIndices_finish (attrib : attrib_t) (s : shape_t) :
    ∀ (rest : List index_t) (st : ShapeLoop),
      st.vert < 3 →
      3 * st.face + st.vert + rest.length ≤ 3 * s.mesh.material_ids.length →
      (∀ id ∈ s.mesh.material_ids, 0 ≤ id ∧ id.toNat < st.model.materials.length) →
      (st.indices ≠ 0 →
        0 ≤ st.currentMaterial ∧ st.currentMaterial.toNat < st.model.materials.length) →
      (∀ objIdx ∈ rest, objIdx.InRange attrib) →
      ∃ st1 model1, loadIndices attrib s st rest = some st1 ∧
        finishShape s st1 = some (model1, st.currentIndex + st.indices + rest.length) ∧
        model1.materials = st.model.materials ∧
        model1.meshes = st.model.meshes ++
          meshesOfRuns s st.model.materials st.currentIndex
            (pendingRuns st.currentMaterial st.indices
              (readIds s.mesh.material_ids st.face st.vert rest.length)) ∧
        model1.vertexPositions.length = st.model.vertexPositions.length + rest.length ∧
        model1.vertexNormals.length = st.model.vertexNormals.length + rest.length ∧
        model1.vertexTextureCoords.length = st.model.vertexTextureCoords.length + rest.length := by
  intro rest
  induction rest with
  | nil =>
    intro st _ _ _ hp _
    refine ⟨st, ?_⟩
    by_cases hk : st.indices = 0
    · refine ⟨st.model, rfl, ?_, rfl, ?_, rfl, rfl, rfl⟩
      · simp [finishShape, hk]
      · simp [pendingRuns, readIds, hk, meshesOfRuns]
    · obtain ⟨h0, h1⟩ := hp hk
      refine ⟨{ st.model with meshes := (st.model.meshes ++
        meshesOfRuns s st.model.materials st.currentIndex [(st.currentMaterial, st.indices)]) },
        rfl, ?_, rfl, ?_, rfl, rfl, rfl⟩
      · simp only [finishShape, if_pos hk, emitMesh_eq s st.model _ _ _ h0 h1, List.length_nil,
          Nat.add_zero]
      · simp [pendingRuns, readIds, hk]
  | cons objIdx rest ih =>
    intro st hv hb hids hp hr
    have hface : st.face < s.mesh.material_ids.length := by
      simp only [List.length_cons] at hb
      omega
    have hget : s.mesh.material_ids.get? st.face = some (s.mesh.material_ids.getD st.face 0) := by
      simp [List.get?_eq_getElem?, List.getD_eq_getElem?_getD, hface]
    have hmem : s.mesh.material_ids.getD st.face 0 ∈ s.mesh.material_ids := by
      rw [List.getD_eq_getElem _ _ hface]
      exact List.getElem_mem _
    obtain ⟨hm0, hm1⟩ := hids _ hmem
    obtain ⟨⟨position, normal, texCoord⟩, hread⟩ :=
      readVertex_isSome attrib objIdx (hr _ (List.mem_cons_self _ _))
    have hr2 : ∀ o ∈ rest, o.InRange attrib := fun o ho => hr o (List.mem_cons_of_mem _ ho)
    have hb2 : 3 * (if st.vert + 1 = 3 then st.face + 1 else st.face) +
        (if st.vert + 1 = 3 then 0 else st.vert + 1) + rest.length ≤
          3 * s.mesh.material_ids.length := by
      simp only [List.length_cons] at hb
      split <;> omega
    have hv2 : (if st.vert + 1 = 3 then 0 else st.vert + 1) < 3 := by
      split <;> omega
    by_cases hne : s.mesh.material_ids.getD st.face 0 ≠ st.currentMaterial
    · by_cases hk : st.indices = 0
      · have hcheck : checkMaterial s st = some { st with
            currentIndex := st.currentIndex + st.indices
            currentMaterial := s.mesh.material_ids.getD st.face 0
            indices := 0 } := by
          unfold checkMaterial
          rw [hget]
          dsimp only
          rw [if_pos hne, if_neg (not_not.mpr hk)]
        obtain ⟨st1, model1, e1, e2, e3, e4, e5, e6, e7⟩ := ih
          { st with
            model :=
              { st.model with
                vertexPositions := st.model.vertexPositions ++ [position]
                vertexNormals := st.model.vertexNormals ++ [normal]
                vertexTextureCoords := st.model.vertexTextureCoords ++ [texCoord] }
            currentIndex := st.currentIndex + st.indices
            currentMaterial := s.mesh.material_ids.getD st.face 0
            indices := 0 + 1
            face := if st.vert + 1 = 3 then st.face + 1 else st.face
            vert := if st.vert + 1 = 3 then 0 else st.vert + 1 }
          hv2 hb2 hids (fun _ => ⟨hm0, hm1⟩) hr2
        refine ⟨st1, model1, ?_, ?_, e3, ?_, ?_, ?_, ?_⟩
        · simp only [loadIndices, loadIndex, hcheck, hread]
          exact e1
        · rw [e2]
          simp only [List.length_cons, hk]
          congr 2
          omega
        · rw [e4]
          simp only [List.length_cons, readIds, pendingRuns, if_pos hne, if_pos hk, hk,
            Nat.add_zero, Nat.zero_add]
          split <;> rfl
        · rw [e5]; simp only [List.length_append, List.length_cons, List.length_nil]; omega
        · rw [e6]; simp only [List.length_append, List.length_cons, List.length_nil]; omega
        · rw [e7]; simp only [List.length_append, List.length_cons, List.length_nil]; omega
      · obtain ⟨h0, h1⟩ := hp hk
        have hcheck : checkMaterial s st = some { st with
            model := { st.model with meshes := (st.model.meshes ++
              meshesOfRuns s st.model.materials st.currentIndex
                [(st.currentMaterial, st.indices)]) }
            currentIndex := st.currentIndex + st.indices
            currentMaterial := s.mesh.material_ids.getD st.face 0
            indices := 0 } := by
          unfold checkMaterial
          rw [hget]
          dsimp only
          rw [if_pos hne, if_pos hk, emitMesh_eq s st.model _ _ _ h0 h1]
        obtain ⟨st1, model1, e1, e2, e3, e4, e5, e6, e7⟩ := ih
          { st with
            model :=
              { st.model with
                meshes := (st.model.meshes ++
                  meshesOfRuns s st.model.materials st.currentIndex
                    [(st.currentMaterial, st.indices)])
                vertexPositions := st.model.vertexPositions ++ [position]
                vertexNormals := st.model.vertexNormals ++ [normal]
                vertexTextureCoords := st.model.vertexTextureCoords ++ [texCoord] }
            currentIndex := st.currentIndex + st.indices
            currentMaterial := s.mesh.material_ids.getD st.face 0
            indices := 0 + 1
            face := if st.vert + 1 = 3 then st.face + 1 else st.face
            vert := if st.vert + 1 = 3 then 0 else st.vert + 1 }
          hv2 hb2 hids (fun _ => ⟨hm0, hm1⟩) hr2
        refine ⟨st1, model1, ?_, ?_, e3, ?_, ?_, ?_, ?_⟩
        · simp only [loadIndices, loadIndex, hcheck, hread]
          exact e1
        · rw [e2]
          simp only [List.length_cons]
          congr 2
          omega
        · rw [e4]
          simp only [List.length_cons, readIds, pendingRuns, if_pos hne, if_neg hk,
            Nat.zero_add, List.append_assoc, meshesOfRuns, List.singleton_append]
          split <;> rfl
        · rw [e5]; simp only [List.length_append, List.length_cons, List.length_nil]; omega
        · rw [e6]; simp only [List.length_append, List.length_cons, List.length_nil]; omega
        · rw [e7]; simp only [List.length_append, List.length_cons, List.length_nil]; omega
    · have heq : s.mesh.material_ids.getD st.face 0 = st.currentMaterial := not_not.mp hne
      have hcheck : checkMaterial s st = some st := by
        unfold checkMaterial
        rw [hget]
        dsimp only
        rw [if_neg hne]
      obtain ⟨st1, model1, e1, e2, e3, e4, e5, e6, e7⟩ := ih
        { st with
          model :=
            { st.model with
              vertexPositions := st.model.vertexPositions ++ [position]
              vertexNormals := st.model.vertexNormals ++ [normal]
              vertexTextureCoords := st.model.vertexTextureCoords ++ [texCoord] }
          indices := st.indices + 1
          face := if st.vert + 1 = 3 then st.face + 1 else st.face
          vert := if st.vert + 1 = 3 then 0 else st.vert + 1 }
        hv2 hb2 hids (fun _ => ⟨heq ▸ hm0, heq ▸ hm1⟩) hr2
      refine ⟨st1, model1, ?_, ?_, e3, ?_, ?_, ?_, ?_⟩
      · simp only [loadIndices, loadIndex, hcheck, hread]
        exact e1
      · rw [e2]
        simp only [List.length_cons]
        congr 2
        omega
      · rw [e4]
        simp only [List.length_cons, readIds, pendingRuns, heq, ne_eq, not_true_eq_false,
          if_false]
        split <;> rfl
      · rw [e5]; simp only [List.length_append, List.length_cons, List.length_nil]; omega
      · rw [e6]; simp only [List.length_append, List.length_cons, List.length_nil]; omega
      · rw [e7]; simp only [List.length_append, List.length_cons, List.length_nil]; omega

/-! ### Runs -/

theorem runs_cons (x : Int) (xs : List Int) :
    runs (x :: xs) =
      match runs xs with
      | [] => [(x, 1)]
      | (y, c) :: rest => if x = y then (x, c + 1) :: rest else (x, 1) :: (y, c) :: rest := by
  rw [runs]

theorem pendingRuns_pos : ∀ (ms : List Int) (c : Int) (k : Nat), 0 < k →
    pendingRuns c k ms =
      match runs ms with
      | [] => [(c, k)]
      | (y, n) :: rest => if c = y then (c, n + k) :: rest else (c, k) :: (y, n) :: rest := by
  intro ms
  induction ms with
  | nil =>
    intro c k hk
    simp [pendingRuns, runs, Nat.pos_iff_ne_zero.mp hk]
  | cons m ms ih =>
    intro c k hk
    have hk0 : k ≠ 0 := Nat.pos_iff_ne_zero.mp hk
    by_cases hne : m ≠ c
    · rw [pendingRuns, if_pos hne, if_neg hk0, ih m 1 Nat.one_pos, runs_cons]
      have hcm : ¬ c = m := fun h => hne h.symm
      cases hr : runs ms with
      | nil => simp [hcm]
      | cons r rest =>
        obtain ⟨y, n⟩ := r
        by_cases hmy : m = y
        · subst hmy
          simp [hcm]
        · simp [hmy, hcm]
    · have heq : m = c := not_not.mp hne
      subst heq
      rw [pendingRuns, if_neg hne, ih m (k + 1) (Nat.succ_pos _), runs_cons]
      cases hr : runs ms with
      | nil => simp [Nat.add_comm]
      | cons r rest =>
        obtain ⟨y, n⟩ := r
        by_cases hmy : m = y
        · subst hmy
          simp
          omega
        · simp [hmy, Nat.add_comm]

theorem pendingRuns_start (ms : List Int) (h : ∀ m ∈ ms, 0 ≤ m) :
    pendingRuns (-1) 0 ms = runs ms := by
  cases ms with
  | nil => simp [pendingRuns, runs]
  | cons m ms =>
    have hm : m ≠ -1 := by
      have := h m (List.mem_cons_self _ _)
      omega
    rw [pendingRuns, if_pos hm, if_pos rfl, pendingRuns_pos ms m 1 Nat.one_pos, runs_cons]

theorem runs_triple : ∀ l : List Int,
    runs (l.flatMap (fun x => [x, x, x])) = (runs l).map (fun r => (r.1, 3 * r.2)) := by
  intro l
  induction l with
  | nil => simp [runs]
  | cons x l ih =>
    simp only [List.flatMap_cons, List.cons_append, List.nil_append]
    rw [runs_cons, runs_cons, runs_cons, ih, runs_cons]
    cases hr : runs l with
    | nil => simp
    | cons r rest =>
      obtain ⟨y, n⟩ := r
      by_cases hxy : x = y
      · simp [hxy]
        omega
      · simp [hxy]

theorem runs_pos : ∀ (l : List Int), ∀ r ∈ runs l, 0 < r.2 := by
  intro l
  induction l with
  | nil => simp [runs]
  | cons x l ih =>
    intro r hr
    rw [runs_cons] at hr
    cases hl : runs l with
    | nil =>
      rw [hl] at hr
      simp at hr
      subst hr
      exact Nat.one_pos
    | cons q rest =>
      obtain ⟨y, n⟩ := q
      rw [hl] at hr ih
      by_cases hxy : x = y
      · simp [hxy] at hr
        rcases hr with rfl | hr
        · exact Nat.succ_pos _
        · exact ih r (List.mem_cons_of_mem _ hr)
      · simp [hxy] at hr
        rcases hr with rfl | rfl | hr
        · exact Nat.one_pos
        · exact ih _ (List.mem_cons_self _ _)
        · exact ih r (List.mem_cons_of_mem _ hr)

theorem runs_expand : ∀ (l : List Int),
    (runs l).flatMap (fun r => List.replicate r.2 r.1) = l := by
  intro l
  induction l with
  | nil => simp [runs]
  | cons x l ih =>
    rw [runs_cons]
    cases hl : runs l with
    | nil =>
      rw [hl] at ih
      simp at ih
      simp [← ih]
    | cons q rest =>
      obtain ⟨y, n⟩ := q
      rw [hl] at ih
      by_cases hxy : x = y
      · subst hxy
        simp only [if_true, List.flatMap_cons, List.replicate_succ, List.cons_append]
        simp only [List.flatMap_cons] at ih
        rw [ih]
      · simp only [if_neg hxy, List.flatMap_cons, List.replicate_succ, List.replicate_zero,
          List.cons_append, List.nil_append]
        simp only [List.flatMap_cons] at ih
        rw [ih]

theorem runs_chain : ∀ (l : List Int), List.Chain' (fun a b : Int × Nat => a.1 ≠ b.1) (runs l) := by
  intro l
  induction l with
  | nil => simp [runs]
  | cons x l ih =>
    rw [runs_cons]
    cases hl : runs l with
    | nil => simp
    | cons q rest =>
      obtain ⟨y, n⟩ := q
      rw [hl] at ih
      by_cases hxy : x = y
      · subst hxy
        simp only [if_true]
        cases rest with
        | nil => simp
        | cons q2 rest2 =>
          rw [List.chain'_cons] at ih ⊢
          exact ih
      · simp only [if_neg hxy]
        rw [List.chain'_cons]
        exact ⟨hxy, ih⟩

theorem runs_sum : ∀ (l : List Int), ((runs l).map (fun r => r.2)).sum = l.length := by
  intro l
  induction l with
  | nil => simp [runs]
  | cons x l ih =>
    rw [runs_cons]
    cases hl : runs l with
    | nil =>
      rw [hl] at ih
      simp at ih
      simp [← ih]
    | cons q rest =>
      obtain ⟨y, n⟩ := q
      rw [hl] at ih
      simp only [List.map_cons, List.sum_cons] at ih
      by_cases hxy : x = y
      · simp only [hxy, if_true, List.map_cons, List.sum_cons, List.length_cons]
        omega
      · simp only [if_neg hxy, List.map_cons, List.sum_cons, List.length_cons]
        omega

theorem runs_mem : ∀ (l : List Int), ∀ r ∈ runs l, r.1 ∈ l := by
  intro l r hr
  have h := runs_expand l
  have hp := runs_pos l r hr
  rw [← h, List.mem_flatMap]
  exact ⟨r, hr, by
    rw [List.mem_replicate]
    exact ⟨Nat.pos_iff_ne_zero.mp hp, rfl⟩⟩

theorem readIds_faces (ids : List Int) : ∀ (f face : Nat), face + f ≤ ids.length →
    readIds ids face 0 (3 * f) = ((ids.drop face).take f).flatMap (fun x => [x, x, x]) := by
  intro f
  induction f with
  | zero => intro face _; simp [readIds]
  | succ f ih =>
    intro face hb
    have hlt : face < ids.length := by omega
    have h3 : 3 * (f + 1) = 3 * f + 1 + 1 + 1 := by omega
    have e : readIds ids face 0 (3 * f + 1 + 1 + 1) =
        ids.getD face 0 :: ids.getD face 0 :: ids.getD face 0 :: readIds ids (face + 1) 0 (3 * f) := by
      simp [readIds]
    rw [h3, e, ih (face + 1) (by omega), List.drop_eq_getElem_cons hlt, List.take_succ_cons,
      List.flatMap_cons, List.getD_eq_getElem _ _ hlt]
    rfl

/-! ### The loops over the shapes -/

theorem all_three (l : List Nat) (h : ∀ x ∈ l, x = 3) :
    l.all (fun faceVerts => decide (3 = faceVerts)) = true := by
  rw [List.all_eq_true]
  intro x hx
  simp [h x hx]

theorem loadShape_eq (attrib : attrib_t) (acc : ModelData × Nat) (s : shape_t)
    (hT : ∀ faceVerts ∈ s.mesh.num_face_vertices, faceVerts = 3)
    (hN : s.mesh.indices.length = 3 * s.mesh.num_face_vertices.length)
    (hM : s.mesh.material_ids.length = s.mesh.num_face_vertices.length)
    (hI : ∀ id ∈ s.mesh.material_ids, 0 ≤ id ∧ id.toNat < acc.1.materials.length)
    (hR : ∀ objIdx ∈ s.mesh.indices, objIdx.InRange attrib) :
    ∃ model1, loadShape attrib acc s = some (model1, acc.2 + s.mesh.indices.length) ∧
      model1.materials = acc.1.materials ∧
      model1.meshes = acc.1.meshes ++ meshesOfRuns s acc.1.materials acc.2 (shapeRuns s) ∧
      model1.vertexPositions.length = acc.1.vertexPositions.length + s.mesh.indices.length ∧
      model1.vertexNormals.length = acc.1.vertexNormals.length + s.mesh.indices.length ∧
      model1.vertexTextureCoords.length =
        acc.1.vertexTextureCoords.length + s.mesh.indices.length := by
  by_cases he : s.mesh.indices = []
  · refine ⟨acc.1, ?_, rfl, ?_, ?_, ?_, ?_⟩
    · simp [loadShape, he]
    · simp [shapeRuns, he, runs, meshesOfRuns]
    · simp [he]
    · simp [he]
    · simp [he]
  · have hpos : 0 < s.mesh.indices.length := List.length_pos.mpr he
    have hf : 0 < s.mesh.num_face_vertices.length := by omega
    have hids : s.mesh.material_ids ≠ [] := by
      intro h
      rw [h] at hM
      simp at hM
      omega
    obtain ⟨st1, model1, e1, e2, e3, e4, e5, e6, e7⟩ := loadIndices_finish attrib s s.mesh.indices
      { model := acc.1, currentIndex := acc.2, currentMaterial := -1, indices := 0
        face := 0, vert := 0 }
      (by show 0 < 3; omega) (by simp only [Nat.mul_zero, Nat.zero_add]; omega) hI
      (fun h => absurd rfl h) hR
    refine ⟨model1, ?_, e3, ?_, e5, e6, e7⟩
    · unfold loadShape
      rw [if_neg (by simpa using he), if_neg (by simpa using hids),
        if_neg (by simp only [ne_eq, not_not]; omega),
        if_neg (by simp only [not_not]; exact all_three _ hT), e1]
      simpa using e2
    · rw [e4]
      simp only [shapeRuns]
      rw [hN, readIds_faces _ _ 0 (by omega), List.drop_zero,
        pendingRuns_start _ (by
          intro m hm
          rw [List.mem_flatMap] at hm
          obtain ⟨x, hx, hmx⟩ := hm
          have hx2 := hI x (List.mem_of_mem_take hx)
          simp only [List.mem_cons, List.mem_singleton, List.not_mem_nil, or_false, or_self] at hmx
          rw [hmx]
          exact hx2.1),
        runs_triple, Nat.mul_div_cancel_left _ (by decide : 0 < 3)]

theorem loadShapes_eq (attrib : attrib_t) :
    ∀ (shapes : List shape_t) (acc : ModelData × Nat),
      (∀ s ∈ shapes,
        (∀ faceVerts ∈ s.mesh.num_face_vertices, faceVerts = 3) ∧
        s.mesh.indices.length = 3 * s.mesh.num_face_vertices.length ∧
        s.mesh.material_ids.length = s.mesh.num_face_vertices.length ∧
        (∀ id ∈ s.mesh.material_ids, 0 ≤ id ∧ id.toNat < acc.1.materials.length) ∧
        (∀ objIdx ∈ s.mesh.indices, objIdx.InRange attrib)) →
      ∃ model1,
        loadShapes attrib acc shapes =
          some (model1, acc.2 + (shapes.map (fun s => s.mesh.indices.length)).sum) ∧
        model1.materials = acc.1.materials ∧
        model1.meshes = acc.1.meshes ++ meshesOfShapes acc.1.materials acc.2 shapes ∧
        model1.vertexPositions.length =
          acc.1.vertexPositions.length + (shapes.map (fun s => s.mesh.indices.length)).sum ∧
        model1.vertexNormals.length =
          acc.1.vertexNormals.length + (shapes.map (fun s => s.mesh.indices.length)).sum ∧
        model1.vertexTextureCoords.length =
          acc.1.vertexTextureCoords.length +
            (shapes.map (fun s => s.mesh.indices.length)).sum := by
  intro shapes
  induction shapes with
  | nil =>
    intro acc _
    exact ⟨acc.1, by simp [loadShapes], rfl, by simp [meshesOfShapes], by simp, by simp, by simp⟩
  | cons s rest ih =>
    intro acc h
    obtain ⟨hT, hN, hM, hI, hR⟩ := h s (List.mem_cons_self _ _)
    obtain ⟨m1, a1, a2, a3, a4, a5, a6⟩ := loadShape_eq attrib acc s hT hN hM hI hR
    obtain ⟨m2, b1, b2, b3, b4, b5, b6⟩ := ih (m1, acc.2 + s.mesh.indices.length) (by
      intro s2 hs2
      obtain ⟨c1, c2, c3, c4, c5⟩ := h s2 (List.mem_cons_of_mem _ hs2)
      exact ⟨c1, c2, c3, by rw [a2]; exact c4, c5⟩)
    refine ⟨m2, ?_, b2.trans a2, ?_, ?_, ?_, ?_⟩
    · simp only [loadShapes, a1, b1, List.map_cons, List.sum_cons, Nat.add_assoc]
    · rw [b3, a3, a2]
      simp only [meshesOfShapes, List.append_assoc]
    · rw [b4, a4]; simp only [List.map_cons, List.sum_cons]; omega
    · rw [b5, a5]; simp only [List.map_cons, List.sum_cons]; omega
    · rw [b6, a6]; simp only [List.map_cons, List.sum_cons]; omega

/-- On what `tinyobj::LoadObj` hands over for a file in which every face has a
material, `load_obj_model` returns, with the materials in order, the `MeshInfo`
records of `meshesOfShapes` and one position, normal and texture coordinate
per index. -/
theorem load_obj_model_eq (attrib : attrib_t) (shapes : List shape_t)
    (materials : List material_t) (hp : Parsed attrib shapes materials)
    (ha : MaterialsAssigned shapes) :
    ∃ model, load_obj_model attrib shapes materials = some model ∧
      model.materials = materials.map (fun m => { materialName := m.name, color := m.diffuse }) ∧
      model.meshes =
        meshesOfShapes (materials.map (fun m => { materialName := m.name, color := m.diffuse }))
          0 shapes ∧
      model.vertexPositions.length = (shapes.map (fun s => s.mesh.indices.length)).sum ∧
      model.vertexNormals.length = (shapes.map (fun s => s.mesh.indices.length)).sum ∧
      model.vertexTextureCoords.length = (shapes.map (fun s => s.mesh.indices.length)).sum := by
  obtain ⟨m1, a1, a2, a3, a4, a5, a6⟩ := loadShapes_eq attrib shapes
    ({ materials := materials.map (fun m => { materialName := m.name, color := m.diffuse }) }, 0)
    (by
      intro s hs
      obtain ⟨c1, c2, c3, c4, c5⟩ := hp s hs
      refine ⟨c1, c2, c3, fun id hid => ?_, c5⟩
      have h0 := ha s hs id hid
      have h1 := (c4 id hid).2.1
      refine ⟨h0, ?_⟩
      simp only [List.length_map]
      omega)
  simp only [List.length_nil, Nat.zero_add, List.nil_append] at a3 a4 a5 a6
  refine ⟨m1, ?_, a2, a3, a4, a5, a6⟩
  unfold load_obj_model
  simp only [a1, Nat.zero_add]
  rw [if_pos ⟨a4, a5, a6⟩]

/-! ### The records of `meshesOfShapes` -/

theorem tilesFrom_append : ∀ (xs ys : List MeshInfo) (start : Nat),
    tilesFrom start (xs ++ ys) =
      (tilesFrom start xs &&
        tilesFrom (start + (xs.map (fun m => m.numberOfVertices)).sum) ys) := by
  intro xs
  induction xs with
  | nil => intro ys start; simp [tilesFrom]
  | cons x xs ih =>
    intro ys start
    show (decide (x.vertexStartIndex = start) &&
      tilesFrom (start + x.numberOfVertices) (xs ++ ys)) = _
    rw [ih]
    simp only [tilesFrom, List.map_cons, List.sum_cons, Bool.and_assoc, Nat.add_assoc]

theorem meshesOfRuns_counts (s : shape_t) (materials : List MaterialInfo) :
    ∀ (rs : List (Int × Nat)) (start : Nat),
      (meshesOfRuns s materials start rs).map (fun m => (m.materialIndex, m.numberOfVertices)) =
        rs.map (fun r => (r.1.toNat, r.2)) := by
  intro rs
  induction rs with
  | nil => intro start; rfl
  | cons r rs ih => intro start; simp [meshesOfRuns, ih]

theorem meshesOfRuns_sum (s : shape_t) (materials : List MaterialInfo) (rs : List (Int × Nat))
    (start : Nat) :
    ((meshesOfRuns s materials start rs).map (fun m => m.numberOfVertices)).sum =
      (rs.map (fun r => r.2)).sum := by
  have h := congrArg (List.map Prod.snd) (meshesOfRuns_counts s materials rs start)
  simp only [List.map_map] at h
  exact congrArg List.sum h

theorem meshesOfRuns_tiles (s : shape_t) (materials : List MaterialInfo) :
    ∀ (rs : List (Int × Nat)) (start : Nat),
      tilesFrom start (meshesOfRuns s materials start rs) = true := by
  intro rs
  induction rs with
  | nil => intro start; rfl
  | cons r rs ih => intro start; simp [meshesOfRuns, tilesFrom, ih]

theorem shapeRuns_of_faces (s : shape_t)
    (hN : s.mesh.indices.length = 3 * s.mesh.num_face_vertices.length)
    (hM : s.mesh.material_ids.length = s.mesh.num_face_vertices.length) :
    shapeRuns s = (runs s.mesh.material_ids).map (fun r => (r.1, 3 * r.2)) := by
  unfold shapeRuns
  rw [hN, Nat.mul_div_cancel_left _ (by decide : 0 < 3), ← hM, List.take_length]

theorem shapeRuns_sum (s : shape_t)
    (hN : s.mesh.indices.length = 3 * s.mesh.num_face_vertices.length)
    (hM : s.mesh.material_ids.length = s.mesh.num_face_vertices.length) :
    ((shapeRuns s).map (fun r => r.2)).sum = s.mesh.indices.length := by
  rw [shapeRuns_of_faces s hN hM, List.map_map, hN, ← hM, ← runs_sum s.mesh.material_ids]
  generalize runs s.mesh.material_ids = rs
  induction rs with
  | nil => rfl
  | cons r rs ih =>
    simp only [List.map_cons, List.sum_cons, Function.comp] at ih ⊢
    rw [ih]
    omega

theorem meshesOfShapes_sum (materials : List MaterialInfo) :
    ∀ (shapes : List shape_t) (start : Nat),
      (∀ s ∈ shapes, s.mesh.indices.length = 3 * s.mesh.num_face_vertices.length ∧
        s.mesh.material_ids.length = s.mesh.num_face_vertices.length) →
      ((meshesOfShapes materials start shapes).map (fun m => m.numberOfVertices)).sum =
        (shapes.map (fun s => s.mesh.indices.length)).sum := by
  intro shapes
  induction shapes with
  | nil => intro start _; rfl
  | cons s rest ih =>
    intro start h
    obtain ⟨hN, hM⟩ := h s (List.mem_cons_self _ _)
    simp only [meshesOfShapes, List.map_append, List.sum_append, List.map_cons, List.sum_cons,
      meshesOfRuns_sum, shapeRuns_sum s hN hM,
      ih _ (fun s2 hs2 => h s2 (List.mem_cons_of_mem _ hs2))]

theorem meshesOfShapes_tiles (materials : List MaterialInfo) :
    ∀ (shapes : List shape_t) (start : Nat),
      (∀ s ∈ shapes, s.mesh.indices.length = 3 * s.mesh.num_face_vertices.length ∧
        s.mesh.material_ids.length = s.mesh.num_face_vertices.length) →
      tilesFrom start (meshesOfShapes materials start shapes) = true := by
  intro shapes
  induction shapes with
  | nil => intro start _; rfl
  | cons s rest ih =>
    intro start h
    obtain ⟨hN, hM⟩ := h s (List.mem_cons_self _ _)
    simp only [meshesOfShapes, tilesFrom_append, meshesOfRuns_tiles, meshesOfRuns_sum,
      shapeRuns_sum s hN hM, Bool.true_and]
    exact ih _ (fun s2 hs2 => h s2 (List.mem_cons_of_mem _ hs2))

theorem meshesOfShapes_counts (materials : List MaterialInfo) :
    ∀ (shapes : List shape_t) (start : Nat),
      (meshesOfShapes materials start shapes).map (fun m => (m.materialIndex, m.numberOfVertices)) =
        shapes.flatMap (fun s => (shapeRuns s).map (fun r => (r.1.toNat, r.2))) := by
  intro shapes
  induction shapes with
  | nil => intro start; rfl
  | cons s rest ih =>
    intro start
    simp only [meshesOfShapes, List.map_append, meshesOfRuns_counts, ih, List.flatMap_cons]

/-- Reading `tilesFrom` index by index. -/
theorem tilesFrom_index : ∀ (ms : List MeshInfo) (start : Nat), tilesFrom start ms = true →
    (∀ m, ms.head? = some m → m.vertexStartIndex = start) ∧
    ∀ i (h : i + 1 < ms.length),
      (ms.get ⟨i + 1, h⟩).vertexStartIndex =
        (ms.get ⟨i, Nat.lt_of_succ_lt h⟩).vertexStartIndex +
          (ms.get ⟨i, Nat.lt_of_succ_lt h⟩).numberOfVertices := by
  intro ms
  induction ms with
  | nil =>
    intro start _
    exact ⟨fun m hm => by simp at hm, fun i h => by simp at h⟩
  | cons m ms ih =>
    intro start h
    simp only [tilesFrom, Bool.and_eq_true, decide_eq_true_eq] at h
    obtain ⟨h1, h2⟩ := h
    obtain ⟨ih1, ih2⟩ := ih _ h2
    refine ⟨fun x hx => ?_, fun i hi => ?_⟩
    · simp only [List.head?_cons, Option.some.injEq] at hx
      rw [← hx, h1]
    · cases i with
      | zero =>
        cases ms with
        | nil => simp at hi
        | cons m2 ms2 =>
          have := ih1 m2 rfl
          simp only [List.get_eq_getElem, List.getElem_cons_succ, List.getElem_cons_zero]
          rw [this, h1]
      | succ i =>
        have := ih2 i (by simpa using hi)
        simpa using this

theorem parsed_faces {attrib : attrib_t} {shapes : List shape_t} {materials : List material_t}
    (hp : Parsed attrib shapes materials) :
    ∀ s ∈ shapes, s.mesh.indices.length = 3 * s.mesh.num_face_vertices.length ∧
      s.mesh.material_ids.length = s.mesh.num_face_vertices.length :=
  fun s hs => ⟨(hp s hs).2.1, (hp s hs).2.2.1⟩

theorem sample_parsed : Parsed sampleAttrib sampleShapes sampleMaterials := by
  simp only [Parsed, index_t.InRange]
  decide

theorem sample_materialsAssigned : MaterialsAssigned sampleShapes := by
  unfold MaterialsAssigned
  decide

theorem meshesOfShapes_mem (materials : List MaterialInfo) (shapes : List shape_t) (start : Nat)
    (m : MeshInfo) (hm : m ∈ meshesOfShapes materials start shapes) :
    ∃ s ∈ shapes, ∃ r ∈ shapeRuns s, m.materialIndex = r.1.toNat ∧ m.numberOfVertices = r.2 := by
  have h := meshesOfShapes_counts materials shapes start
  have hmem : (m.materialIndex, m.numberOfVertices) ∈
      (meshesOfShapes materials start shapes).map (fun m => (m.materialIndex, m.numberOfVertices)) :=
    List.mem_map_of_mem _ hm
  rw [h, List.mem_flatMap] at hmem
  obtain ⟨s, hs, hr⟩ := hmem
  rw [List.mem_map] at hr
  obtain ⟨r, hr, he⟩ := hr
  simp only [Prod.mk.injEq] at he
  exact ⟨s, hs, r, hr, he.1.symm, he.2.symm⟩

theorem shapeRuns_mem (s : shape_t) (r : Int × Nat) (hr : r ∈ shapeRuns s) :
    r.1 ∈ s.mesh.material_ids ∧ 0 < r.2 ∧ r.2 % 3 = 0 := by
  unfold shapeRuns at hr
  rw [List.mem_map] at hr
  obtain ⟨q, hq, rfl⟩ := hr
  refine ⟨List.mem_of_mem_take (runs_mem _ q hq), ?_, ?_⟩
  · have := runs_pos _ q hq
    show 0 < 3 * q.2
    omega
  · show 3 * q.2 % 3 = 0
    omega

/-- C23 (what holds): on what `tinyobj::LoadObj` hands over for a file of
triangles in which every face has a material of the file and every vertex a
normal (`Parsed` and `MaterialsAssigned`), `load_obj_model` returns a model
whose `MeshInfo` records tile the flattened vertex arrays: the first starts at
vertex 0, each next one starts where the one before it ends, every record has
a positive number of vertices, and the numbers add up to the number of indices
of all shapes, which is the length of `vertexPositions`, of `vertexNormals` and
of `vertexTextureCoords`. -/
theorem load_obj_model_meshes_tile_the_vertex_arrays (attrib : attrib_t) (shapes : List shape_t)
    (materials : List material_t) (hp : Parsed attrib shapes materials)
    (ha : MaterialsAssigned shapes) :
    ∃ model, load_obj_model attrib shapes materials = some model ∧
      tilesFrom 0 model.meshes = true ∧
      (∀ m, model.meshes.head? = some m → m.vertexStartIndex = 0) ∧
      (∀ i (h : i + 1 < model.meshes.length),
        (model.meshes.get ⟨i + 1, h⟩).vertexStartIndex =
          (model.meshes.get ⟨i, Nat.lt_of_succ_lt h⟩).vertexStartIndex +
            (model.meshes.get ⟨i, Nat.lt_of_succ_lt h⟩).numberOfVertices) ∧
      (∀ m ∈ model.meshes, 0 < m.numberOfVertices) ∧
      (model.meshes.map (fun m => m.numberOfVertices)).sum =
        (shapes.map (fun s => s.mesh.indices.length)).sum ∧
      model.vertexPositions.length = (shapes.map (fun s => s.mesh.indices.length)).sum ∧
      model.vertexNormals.length = (shapes.map (fun s => s.mesh.indices.length)).sum ∧
      model.vertexTextureCoords.length = (shapes.map (fun s => s.mesh.indices.length)).sum := by
  obtain ⟨model, h1, _, h3, h4, h5, h6⟩ := load_obj_model_eq attrib shapes materials hp ha
  have ht : tilesFrom 0 model.meshes = true := by
    rw [h3]
    exact meshesOfShapes_tiles _ shapes 0 (parsed_faces hp)
  obtain ⟨t1, t2⟩ := tilesFrom_index model.meshes 0 ht
  refine ⟨model, h1, ht, t1, t2, fun m hm => ?_, ?_, h4, h5, h6⟩
  · rw [h3] at hm
    obtain ⟨s, _, r, hr, _, hn⟩ := meshesOfShapes_mem _ _ _ m hm
    rw [hn]
    exact (shapeRuns_mem s r hr).2.1
  · rw [h3]
    exact meshesOfShapes_sum _ shapes 0 (parsed_faces hp)

theorem load_obj_model_meshes_tile_the_vertex_arrays_witness :
    Parsed sampleAttrib sampleShapes sampleMaterials ∧ MaterialsAssigned sampleShapes ∧
    ∃ model, load_obj_model sampleAttrib sampleShapes sampleMaterials = some model ∧
      tilesFrom 0 model.meshes = true ∧
      (model.meshes.map (fun m => m.numberOfVertices)).sum = 12 ∧
      model.vertexPositions.length = 12 := by
  obtain ⟨model, h1, h2, _, _, _, h6, h7, _⟩ :=
    load_obj_model_meshes_tile_the_vertex_arrays sampleAttrib sampleShapes sampleMaterials
      sample_parsed sample_materialsAssigned
  exact ⟨sample_parsed, sample_materialsAssigned, model, h1, h2, h6, h7⟩

/-- C24 (what holds): on what `tinyobj::LoadObj` hands over for a file of
triangles in which every face has a material of the file and every vertex a
normal (`Parsed` and `MaterialsAssigned`), `load_obj_model` returns a model
whose `MeshInfo` records are, shape after shape and in face order, one record
per run of `runs` of the material ids of the faces of the shape, with the
material id of the run as `materialIndex` and three vertices per face of the
run (a shape without indices has no face and gives no record).  The runs of
`runs` are the maximal runs: they are not empty, two neighbours differ in
their material, and laid end to end they give back the list, so a material that
comes back after another one starts a new record.  Vertex by vertex, the
material of the record a vertex lies in is the material id of its face. -/
theorem load_obj_model_emits_one_mesh_per_material_run (attrib : attrib_t)
    (shapes : List shape_t) (materials : List material_t)
    (hp : Parsed attrib shapes materials) (ha : MaterialsAssigned shapes) :
    ∃ model, load_obj_model attrib shapes materials = some model ∧
      model.meshes.map (fun m => (m.materialIndex, m.numberOfVertices)) =
        shapes.flatMap (fun s =>
          (runs s.mesh.material_ids).map (fun r => (r.1.toNat, 3 * r.2))) ∧
      (∀ ids : List Int,
        (runs ids).flatMap (fun r => List.replicate r.2 r.1) = ids ∧
        (∀ r ∈ runs ids, 0 < r.2) ∧
        List.Chain' (fun a b : Int × Nat => a.1 ≠ b.1) (runs ids)) ∧
      model.meshes.flatMap (fun m => List.replicate m.numberOfVertices (m.materialIndex : Int)) =
        shapes.flatMap (fun s => s.mesh.material_ids.flatMap (fun id => [id, id, id])) := by
  obtain ⟨model, h1, _, h3, _, _, _⟩ := load_obj_model_eq attrib shapes materials hp ha
  have hcounts : model.meshes.map (fun m => (m.materialIndex, m.numberOfVertices)) =
      shapes.flatMap (fun s =>
        (runs s.mesh.material_ids).map (fun r => (r.1.toNat, 3 * r.2))) := by
    rw [h3, meshesOfShapes_counts]
    apply List.flatMap_congr
    intro s hs
    obtain ⟨hN, hM⟩ := parsed_faces hp s hs
    rw [shapeRuns_of_faces s hN hM, List.map_map]
    rfl
  refine ⟨model, h1, hcounts, fun ids => ⟨runs_expand ids, runs_pos ids, runs_chain ids⟩, ?_⟩
  have hflat : model.meshes.flatMap
      (fun m => List.replicate m.numberOfVertices (m.materialIndex : Int)) =
      (model.meshes.map (fun m => (m.materialIndex, m.numberOfVertices))).flatMap
        (fun p : Nat × Nat => List.replicate p.2 (p.1 : Int)) := by
    rw [List.flatMap_map]
  rw [hflat, hcounts, List.flatMap_assoc]
  apply List.flatMap_congr
  intro s hs
  have hnn : ∀ id ∈ s.mesh.material_ids, 0 ≤ id := ha s hs
  rw [List.flatMap_map]
  have hexp := runs_expand s.mesh.material_ids
  have hmem := runs_mem s.mesh.material_ids
  revert hexp hmem
  generalize runs s.mesh.material_ids = rs
  intro hexp hmem
  rw [← hexp, List.flatMap_assoc]
  apply List.flatMap_congr
  intro r hr
  have h0 : 0 ≤ r.1 := hnn _ (hmem r hr)
  have hcast : ((r.1.toNat : Nat) : Int) = r.1 := Int.toNat_of_nonneg h0
  simp only [hcast]
  generalize r.2 = n
  induction n with
  | zero => rfl
  | succ n ih =>
    have e : 3 * (n + 1) = (3 * n + 1 + 1) + 1 := by omega
    rw [e, List.replicate_succ, List.replicate_succ, List.replicate_succ, ih,
      List.replicate_succ, List.flatMap_cons]
    rfl

theorem load_obj_model_emits_one_mesh_per_material_run_witness :
    Parsed sampleAttrib sampleShapes sampleMaterials ∧ MaterialsAssigned sampleShapes ∧
    ∃ model, load_obj_model sampleAttrib sampleShapes sampleMaterials = some model ∧
      model.meshes.map (fun m => (m.materialIndex, m.numberOfVertices)) =
        [(0, 3), (1, 3), (0, 3), (1, 3)] := by
  obtain ⟨model, h1, h2, _⟩ :=
    load_obj_model_emits_one_mesh_per_material_run sampleAttrib sampleShapes sampleMaterials
      sample_parsed sample_materialsAssigned
  refine ⟨sample_parsed, sample_materialsAssigned, model, h1, ?_⟩
  rw [h2]
  decide

/-! ### The vectors of `create_loaded_mesh` -/

theorem copyFrom_eq {α : Type} (xs : List α) : ∀ (count j : Nat), j + count ≤ xs.length →
    copyFrom xs j count = some ((xs.drop j).take count) := by
  intro count
  induction count with
  | zero => intro j _; simp [copyFrom]
  | succ count ih =>
    intro j h
    have hj : j < xs.length := by omega
    rw [copyFrom, List.get?_eq_getElem?, List.getElem?_eq_getElem hj]
    simp only [ih (j + 1) (by omega)]
    rw [List.drop_eq_getElem_cons hj, List.take_succ_cons]

theorem copyRange_eq {α : Type} (xs : List α) (start n : Nat) (h : start + n ≤ xs.length)
    (hfit : xs.length < 2 ^ 64) :
    copyRange xs start n = some ((xs.drop start).take n) := by
  unfold copyRange
  rw [Nat.mod_eq_of_lt (by omega), Nat.add_sub_cancel_left]
  exact copyFrom_eq xs n start h

theorem surfaceNormalsFrom_eq (faceNormal : Vec3 → Vec3 → Vec3 → Vec3) (positions : List Vec3) :
    ∀ (t fuel j : Nat), j + 3 * t = positions.length → t < fuel →
      surfaceNormalsFrom faceNormal positions fuel j =
        some (faceNormalsOf faceNormal (positions.drop j)) := by
  intro t
  induction t with
  | zero =>
    intro fuel j hj hf
    obtain ⟨fuel, rfl⟩ : ∃ k, fuel = k + 1 := ⟨fuel - 1, by omega⟩
    rw [surfaceNormalsFrom, if_neg (by omega), List.drop_eq_nil_of_le (by omega)]
    rfl
  | succ t ih =>
    intro fuel j hj hf
    obtain ⟨fuel, rfl⟩ : ∃ k, fuel = k + 1 := ⟨fuel - 1, by omega⟩
    have h0 : j < positions.length := by omega
    have h1 : j + 1 < positions.length := by omega
    have h2 : j + 2 < positions.length := by omega
    rw [surfaceNormalsFrom, if_pos h0]
    simp only [List.get?_eq_getElem?, List.getElem?_eq_getElem h0, List.getElem?_eq_getElem h1,
      List.getElem?_eq_getElem h2, ih fuel (j + 3) (by omega) (by omega)]
    rw [List.drop_eq_getElem_cons h0, List.drop_eq_getElem_cons h1, List.drop_eq_getElem_cons h2]
    rfl

theorem faceNormalsOf_length (faceNormal : Vec3 → Vec3 → Vec3 → Vec3) :
    ∀ (t : Nat) (ps : List Vec3), ps.length = 3 * t →
      (faceNormalsOf faceNormal ps).length = ps.length := by
  intro t
  induction t with
  | zero =>
    intro ps h
    have : ps = [] := List.length_eq_zero.mp (by omega)
    subst this
    rfl
  | succ t ih =>
    intro ps h
    match ps, h with
    | p0 :: p1 :: p2 :: rest, h =>
      simp only [List.length_cons] at h
      simp only [faceNormalsOf, List.length_cons, ih rest (by omega)]

/-- The vectors of a submesh whose vertices lie inside the arrays of the model,
whose number of vertices is a multiple of three and whose material exists. -/
theorem meshVectors_eq (faceNormal : Vec3 → Vec3 → Vec3 → Vec3) (model : ModelData)
    (mesh : MeshInfo)
    (hp : mesh.vertexStartIndex + mesh.numberOfVertices ≤ model.vertexPositions.length)
    (hn : mesh.vertexStartIndex + mesh.numberOfVertices ≤ model.vertexNormals.length)
    (ht : mesh.vertexStartIndex + mesh.numberOfVertices ≤ model.vertexTextureCoords.length)
    (hfp : model.vertexPositions.length < 2 ^ 64) (hfn : model.vertexNormals.length < 2 ^ 64)
    (hft : model.vertexTextureCoords.length < 2 ^ 64)
    (h3 : mesh.numberOfVertices % 3 = 0) (hm : mesh.materialIndex < model.materials.length) :
    ∃ v, meshVectors faceNormal model mesh = some v ∧
      v.positions = (model.vertexPositions.drop mesh.vertexStartIndex).take mesh.numberOfVertices ∧
      v.positions.length = mesh.numberOfVertices ∧
      v.normals.length = mesh.numberOfVertices ∧
      v.texCoords.length = mesh.numberOfVertices ∧
      v.colour.length = mesh.numberOfVertices ∧
      v.surfaceNormals = faceNormalsOf faceNormal v.positions ∧
      v.surfaceNormals.length = mesh.numberOfVertices := by
  have hlen : ((model.vertexPositions.drop mesh.vertexStartIndex).take
      mesh.numberOfVertices).length = mesh.numberOfVertices := by
    rw [List.length_take, List.length_drop]
    omega
  have hcol : ∃ c, colourOf model mesh = some c ∧ c.length = mesh.numberOfVertices := by
    unfold colourOf
    by_cases h0 : mesh.numberOfVertices = 0
    · exact ⟨[], by rw [if_pos h0], by rw [h0]; rfl⟩
    · rw [if_neg h0, List.get?_eq_getElem?, List.getElem?_eq_getElem hm]
      exact ⟨_, rfl, List.length_replicate _ _⟩
  obtain ⟨c, hc, hcl⟩ := hcol
  have hsn := surfaceNormalsFrom_eq faceNormal
    ((model.vertexPositions.drop mesh.vertexStartIndex).take mesh.numberOfVertices)
    (mesh.numberOfVertices / 3)
    (((model.vertexPositions.drop mesh.vertexStartIndex).take mesh.numberOfVertices).length + 1) 0
    (by rw [hlen]; omega) (by rw [hlen]; omega)
  rw [List.drop_zero] at hsn
  refine ⟨{ positions := (model.vertexPositions.drop mesh.vertexStartIndex).take
              mesh.numberOfVertices
            normals := (model.vertexNormals.drop mesh.vertexStartIndex).take mesh.numberOfVertices
            texCoords := (model.vertexTextureCoords.drop mesh.vertexStartIndex).take
              mesh.numberOfVertices
            colour := c
            surfaceNormals := faceNormalsOf faceNormal
              ((model.vertexPositions.drop mesh.vertexStartIndex).take mesh.numberOfVertices) },
    ?_, rfl, hlen, ?_, ?_, hcl, rfl, ?_⟩
  · unfold meshVectors
    rw [copyRange_eq _ _ _ hp hfp, copyRange_eq _ _ _ hn hfn, copyRange_eq _ _ _ ht hft, hc]
    simp only [hsn]
  · show ((model.vertexNormals.drop mesh.vertexStartIndex).take mesh.numberOfVertices).length = _
    rw [List.length_take, List.length_drop]
    omega
  · show ((model.vertexTextureCoords.drop mesh.vertexStartIndex).take
      mesh.numberOfVertices).length = _
    rw [List.length_take, List.length_drop]
    omega
  · show (faceNormalsOf faceNormal _).length = _
    rw [faceNormalsOf_length faceNormal (mesh.numberOfVertices / 3) _ (by rw [hlen]; omega), hlen]

theorem tilesFrom_bound : ∀ (ms : List MeshInfo) (start : Nat), tilesFrom start ms = true →
    ∀ m ∈ ms, m.vertexStartIndex + m.numberOfVertices ≤
      start + (ms.map (fun m => m.numberOfVertices)).sum := by
  intro ms
  induction ms with
  | nil => intro start _ m hm; simp at hm
  | cons x xs ih =>
    intro start h m hm
    simp only [tilesFrom, Bool.and_eq_true, decide_eq_true_eq] at h
    obtain ⟨h1, h2⟩ := h
    simp only [List.map_cons, List.sum_cons]
    rcases List.mem_cons.mp hm with rfl | hm
    · rw [h1]
      omega
    · have := ih _ h2 m hm
      omega

/-! ### `create_loaded_mesh` -/

open Exec in
theorem sat_trivial {α : Type} (x : Exec α) : Sat (fun _ => True) (fun _ => True) x :=
  fun _ => ⟨fun _ _ => trivial, fun _ _ _ => trivial⟩

open Exec in
theorem ofOption_sat {α : Type} (o : Option α) (what : String) :
    Sat (fun _ => True) (fun a => o = some a) (Exec.ofOption o what) := by
  cases o with
  | none => exact sat_raise
  | some a => exact sat_pure rfl

open Exec in
theorem stageVector_total (w : World) (hw : w.UploadSucceeds) (staging : Handle) (bytes : Nat) :
    Total (fun _ => True) (stageVector w staging bytes) := by
  unfold stageVector
  simp only [bind_eq, pure_eq]
  refine total_bind (R := fun _ => True) (total_call (hw.2 _)) (fun _ _ => ?_)
  refine total_bind (R := fun _ => True) total_emit (fun _ _ => ?_)
  exact total_emit

open Exec in
theorem copyVector_total (bd : BufferBarrierDefaults) (cb staging gpu : Handle) (bytes : Nat) :
    Total (fun _ => True) (copyVector bd cb staging gpu bytes) := by
  unfold copyVector
  simp only [bind_eq, pure_eq]
  refine total_bind (R := fun _ => True) total_emit (fun _ _ => ?_)
  exact total_emit

/-- One iteration of the loop of `create_loaded_mesh`, when it returns, has
appended one entry to each of the seven vectors, and no element access of the
iteration was out of range. -/
theorem loadMesh_sat (w : World) (bd : BufferBarrierDefaults) (ud : UploadDefaults)
    (faceNormal : Vec3 → Vec3 → Vec3 → Vec3) (aContext : VulkanWindow) (model : ModelData)
    (acc : LoadedMesh) (mesh : MeshInfo) :
    Exec.Sat (fun _ => True)
      (fun r => LoadedMesh.Grown acc r [mesh] ∧ (meshVectors faceNormal model mesh).isSome = true)
      (loadMesh w bd ud faceNormal aContext model acc mesh) := by
  unfold loadMesh
  simp only [Exec.bind_eq, Exec.pure_eq]
  refine Exec.sat_bind (ofOption_sat _ _) (fun v hv => ?_)
  iterate 34 refine Exec.sat_bind (R := fun _ => True) (sat_trivial _) (fun _ _ => ?_)
  refine Exec.sat_pure ⟨⟨rfl, rfl, ?_, ?_, ?_, ?_, ?_⟩, by rw [hv]; rfl⟩ <;>
    simp only [List.length_append, List.length_singleton]

/-- One iteration of the loop of `create_loaded_mesh` returns when every call
succeeds and every element access is in range. -/
theorem loadMesh_total (w : World) (hw : w.UploadSucceeds) (bd : BufferBarrierDefaults)
    (ud : UploadDefaults) (faceNormal : Vec3 → Vec3 → Vec3 → Vec3) (aContext : VulkanWindow)
    (model : ModelData) (acc : LoadedMesh) (mesh : MeshInfo)
    (hv : (meshVectors faceNormal model mesh).isSome = true) :
    Exec.Total (fun _ => True) (loadMesh w bd ud faceNormal aContext model acc mesh) := by
  obtain ⟨v, hv⟩ := Option.isSome_iff_exists.mp hv
  unfold loadMesh
  rw [hv]
  simp only [Exec.bind_eq, Exec.pure_eq, Exec.ofOption]
  refine Exec.total_bind (R := fun _ => True) (Exec.total_pure trivial) (fun _ _ => ?_)
  iterate 10 refine Exec.total_bind (R := fun _ => True) (Exec.total_create hw.1) (fun _ _ => ?_)
  iterate 5 refine Exec.total_bind (R := fun _ => True) (stageVector_total w hw _ _) (fun _ _ => ?_)
  iterate 3 refine Exec.total_bind (R := fun _ => True) (Exec.total_create hw.1) (fun _ _ => ?_)
  refine Exec.total_bind (R := fun _ => True) (Exec.total_call (hw.2 _)) (fun _ _ => ?_)
  iterate 5 refine Exec.total_bind (R := fun _ => True) (copyVector_total _ _ _ _ _) (fun _ _ => ?_)
  iterate 3 refine Exec.total_bind (R := fun _ => True) (Exec.total_call (hw.2 _)) (fun _ _ => ?_)
  iterate 7 refine Exec.total_bind (R := fun _ => True) Exec.total_destroy (fun _ _ => ?_)
  exact Exec.total_pure trivial

theorem loadMeshes_sat (w : World) (bd : BufferBarrierDefaults) (ud : UploadDefaults)
    (faceNormal : Vec3 → Vec3 → Vec3 → Vec3) (aContext : VulkanWindow) (model : ModelData) :
    ∀ (ms : List MeshInfo) (acc : LoadedMesh),
      Exec.Sat (fun _ => True)
        (fun r => LoadedMesh.Grown acc r ms ∧
          ∀ m ∈ ms, (meshVectors faceNormal model m).isSome = true)
        (loadMeshes w bd ud faceNormal aContext model acc ms) := by
  intro ms
  induction ms with
  | nil =>
    intro acc
    unfold loadMeshes
    refine Exec.sat_pure ⟨⟨?_, ?_, rfl, rfl, rfl, rfl, rfl⟩, fun m hm => by simp at hm⟩ <;> simp
  | cons m ms ih =>
    intro acc
    unfold loadMeshes
    refine Exec.sat_bind (loadMesh_sat w bd ud faceNormal aContext model acc m) (fun acc1 h1 => ?_)
    refine Exec.sat_weaken (ih acc1) (fun _ h => h) (fun r hr => ?_)
    obtain ⟨⟨a1, a2, a3, a4, a5, a6, a7⟩, hv⟩ := h1
    obtain ⟨⟨b1, b2, b3, b4, b5, b6, b7⟩, hvs⟩ := hr
    refine ⟨⟨?_, ?_, ?_, ?_, ?_, ?_, ?_⟩, ?_⟩
    · rw [b1, a1]; simp
    · rw [b2, a2]; simp
    · rw [b3, a3]; simp only [List.length_cons, List.length_nil]; omega
    · rw [b4, a4]; simp only [List.length_cons, List.length_nil]; omega
    · rw [b5, a5]; simp only [List.length_cons, List.length_nil]; omega
    · rw [b6, a6]; simp only [List.length_cons, List.length_nil]; omega
    · rw [b7, a7]; simp only [List.length_cons, List.length_nil]; omega
    · intro x hx
      rcases List.mem_cons.mp hx with rfl | hx
      · exact hv
      · exact hvs x hx

theorem loadMeshes_total (w : World) (hw : w.UploadSucceeds) (bd : BufferBarrierDefaults)
    (ud : UploadDefaults) (faceNormal : Vec3 → Vec3 → Vec3 → Vec3) (aContext : VulkanWindow)
    (model : ModelData) :
    ∀ (ms : List MeshInfo) (acc : LoadedMesh),
      (∀ m ∈ ms, (meshVectors faceNormal model m).isSome = true) →
      Exec.Total (fun _ => True) (loadMeshes w bd ud faceNormal aContext model acc ms) := by
  intro ms
  induction ms with
  | nil =>
    intro acc _
    unfold loadMeshes
    exact Exec.total_pure trivial
  | cons m ms ih =>
    intro acc h
    unfold loadMeshes
    exact Exec.total_bind (R := fun _ => True)
      (loadMesh_total w hw bd ud faceNormal aContext model acc m (h m (List.mem_cons_self _ _)))
      (fun acc1 _ => ih acc1 (fun x hx => h x (List.mem_cons_of_mem _ hx)))

/-- When `create_loaded_mesh` returns, each of the seven vectors of the result
has one entry per submesh of the model, `vertexCount` holds the numbers of
vertices as `std::uint32_t` and `materialIndex` the material indices as `int`,
and no element access was out of range. -/
theorem create_loaded_mesh_result (w : World) (bd : BufferBarrierDefaults) (ud : UploadDefaults)
    (faceNormal : Vec3 → Vec3 → Vec3 → Vec3) (aContext : VulkanWindow) (model : ModelData)
    (d : Device) (loaded : LoadedMesh) (d1 : Device)
    (h : (create_loaded_mesh w bd ud faceNormal aContext model d).2 = .done loaded d1) :
    loaded.vertexCount = model.meshes.map (fun m => m.numberOfVertices % 2 ^ 32) ∧
    loaded.materialIndex = model.meshes.map (fun m => toInt32 m.materialIndex) ∧
    loaded.positions.length = model.meshes.length ∧
    loaded.normals.length = model.meshes.length ∧
    loaded.texCorods.length = model.meshes.length ∧
    loaded.colors.length = model.meshes.length ∧
    loaded.surfaceNormals.length = model.meshes.length ∧
    ∀ m ∈ model.meshes, (meshVectors faceNormal model m).isSome = true := by
  obtain ⟨⟨a1, a2, a3, a4, a5, a6, a7⟩, hv⟩ :=
    (loadMeshes_sat w bd ud faceNormal aContext model model.meshes _ d).2 loaded d1 h
  refine ⟨by simpa using a1, by simpa using a2, by simpa using a3, by simpa using a4,
    by simpa using a5, by simpa using a6, by simpa using a7, hv⟩

/-- The function `create_loaded_mesh` returns when every call succeeds and every
element access is in range. -/
theorem create_loaded_mesh_returns (w : World) (hw : w.UploadSucceeds)
    (bd : BufferBarrierDefaults) (ud : UploadDefaults)
    (faceNormal : Vec3 → Vec3 → Vec3 → Vec3) (aContext : VulkanWindow) (model : ModelData)
    (hv : ∀ m ∈ model.meshes, (meshVectors faceNormal model m).isSome = true) (d : Device) :
    ∃ loaded d1, (create_loaded_mesh w bd ud faceNormal aContext model d).2 = .done loaded d1 := by
  obtain ⟨loaded, d1, h, _⟩ :=
    loadMeshes_total w hw bd ud faceNormal aContext model model.meshes _ hv d
  exact ⟨loaded, d1, h⟩

/-! ### From `load_obj_model` to `create_loaded_mesh` -/

theorem toInt32_eq (n : Nat) (h : n < 2 ^ 31) : toInt32 n = (n : Int) := by
  unfold toInt32
  have h1 : n % 2 ^ 32 = n := Nat.mod_eq_of_lt (by omega)
  rw [h1, if_pos h]

/-- The submeshes of a loaded model: whole triangles of a material of the
model, inside the flattened vertex arrays. -/
theorem load_obj_model_meshes (attrib : attrib_t) (shapes : List shape_t)
    (materials : List material_t) (hp : Parsed attrib shapes materials)
    (ha : MaterialsAssigned shapes) :
    ∃ model, load_obj_model attrib shapes materials = some model ∧
      model.materials.length = materials.length ∧
      model.vertexPositions.length = (shapes.map (fun s => s.mesh.indices.length)).sum ∧
      model.vertexNormals.length = (shapes.map (fun s => s.mesh.indices.length)).sum ∧
      model.vertexTextureCoords.length = (shapes.map (fun s => s.mesh.indices.length)).sum ∧
      ∀ m ∈ model.meshes,
        m.numberOfVertices % 3 = 0 ∧ m.materialIndex < materials.length ∧
        m.materialIndex < 2 ^ 31 ∧
        m.vertexStartIndex + m.numberOfVertices ≤
          (shapes.map (fun s => s.mesh.indices.length)).sum := by
  obtain ⟨model, h1, h2, h3, h4, h5, h6⟩ := load_obj_model_eq attrib shapes materials hp ha
  refine ⟨model, h1, by rw [h2, List.length_map], h4, h5, h6, fun m hm => ?_⟩
  have ht : tilesFrom 0 model.meshes = true := by
    rw [h3]
    exact meshesOfShapes_tiles _ shapes 0 (parsed_faces hp)
  have hs : (model.meshes.map (fun m => m.numberOfVertices)).sum =
      (shapes.map (fun s => s.mesh.indices.length)).sum := by
    rw [h3]
    exact meshesOfShapes_sum _ shapes 0 (parsed_faces hp)
  have hb := tilesFrom_bound model.meshes 0 ht m hm
  rw [hs, Nat.zero_add] at hb
  rw [h3] at hm
  obtain ⟨s, hs1, r, hr, hi, hn⟩ := meshesOfShapes_mem _ _ _ m hm
  obtain ⟨r1, _, r3⟩ := shapeRuns_mem s r hr
  obtain ⟨_, hlt, h31⟩ := (hp s hs1).2.2.2.1 r.1 r1
  have h0 := ha s hs1 r.1 r1
  have hcast : ((r.1.toNat : Nat) : Int) = r.1 := Int.toNat_of_nonneg h0
  refine ⟨by rw [hn]; exact r3, ?_, ?_, hb⟩
  · rw [hi]
    omega
  · rw [hi]
    omega

/-- In `create_loaded_mesh` on a loaded model whose vertex arrays fit a
`std::vector`, every element access of an iteration is in range. -/
theorem load_obj_model_vectors (attrib : attrib_t) (shapes : List shape_t)
    (materials : List material_t) (hp : Parsed attrib shapes materials)
    (ha : MaterialsAssigned shapes)
    (hfit : (shapes.map (fun s => s.mesh.indices.length)).sum < 2 ^ 64)
    (faceNormal : Vec3 → Vec3 → Vec3 → Vec3) :
    ∃ model, load_obj_model attrib shapes materials = some model ∧
      ∀ m ∈ model.meshes, m.numberOfVertices % 3 = 0 ∧
        ∃ v, meshVectors faceNormal model m = some v ∧
          v.positions =
            (model.vertexPositions.drop m.vertexStartIndex).take m.numberOfVertices ∧
          v.positions.length = m.numberOfVertices ∧
          v.surfaceNormals = faceNormalsOf faceNormal v.positions ∧
          v.surfaceNormals.length = m.numberOfVertices := by
  obtain ⟨model, h1, h2, h3, h4, h5, h6⟩ := load_obj_model_meshes attrib shapes materials hp ha
  refine ⟨model, h1, fun m hm => ?_⟩
  obtain ⟨m3, mi, _, mb⟩ := h6 m hm
  obtain ⟨v, e1, e2, e3, _, _, _, e7, e8⟩ := meshVectors_eq faceNormal model m
    (by rw [h3]; exact mb) (by rw [h4]; exact mb) (by rw [h5]; exact mb)
    (by rw [h3]; exact hfit) (by rw [h4]; exact hfit) (by rw [h5]; exact hfit) m3
    (by rw [h2]; exact mi)
  exact ⟨m3, v, e1, e2, e3, e7, e8⟩

/-- C28: on what `tinyobj::LoadObj` hands over for a file in which every face
has a material (and every vertex a normal), with fewer than 2^64 indices in
all: every `MeshInfo` of the model `load_obj_model` returns has a number of
vertices divisible by 3; in `create_loaded_mesh` the vectors of each submesh are
built without an element access out of range, `positions` has
`numberOfVertices` entries, and the face-normal loop produces three equal
normals per triangle of `positions`, `numberOfVertices` in all.  When
`create_loaded_mesh` returns, the recorded `vertexCount` of a submesh is
`numberOfVertices` reduced modulo 2^32, which is `numberOfVertices` when every
submesh has fewer than 2^32 vertices; and it returns when every call of the
upload succeeds. -/
theorem create_loaded_mesh_face_normals_and_vertex_counts (attrib : attrib_t)
    (shapes : List shape_t) (materials : List material_t)
    (hp : Parsed attrib shapes materials) (ha : MaterialsAssigned shapes)
    (hfit : (shapes.map (fun s => s.mesh.indices.length)).sum < 2 ^ 64)
    (faceNormal : Vec3 → Vec3 → Vec3 → Vec3) :
    ∃ model, load_obj_model attrib shapes materials = some model ∧
      (∀ m ∈ model.meshes, m.numberOfVertices % 3 = 0 ∧
        ∃ v, meshVectors faceNormal model m = some v ∧
          v.positions.length = m.numberOfVertices ∧
          v.surfaceNormals = faceNormalsOf faceNormal v.positions ∧
          v.surfaceNormals.length = m.numberOfVertices) ∧
      (∀ w bd ud aContext d loaded d1,
        (create_loaded_mesh w bd ud faceNormal aContext model d).2 = .done loaded d1 →
        loaded.vertexCount = model.meshes.map (fun m => m.numberOfVertices % 2 ^ 32) ∧
        ((∀ m ∈ model.meshes, m.numberOfVertices < 2 ^ 32) →
          loaded.vertexCount = model.meshes.map (fun m => m.numberOfVertices))) ∧
      ∀ w bd ud aContext d, w.UploadSucceeds →
        ∃ loaded d1,
          (create_loaded_mesh w bd ud faceNormal aContext model d).2 = .done loaded d1 := by
  obtain ⟨model, h1, h2⟩ := load_obj_model_vectors attrib shapes materials hp ha hfit faceNormal
  refine ⟨model, h1, fun m hm => ?_, fun w bd ud aContext d loaded d1 h => ?_,
    fun w bd ud aContext d hw => ?_⟩
  · obtain ⟨m3, v, e1, _, e3, e4, e5⟩ := h2 m hm
    exact ⟨m3, v, e1, e3, e4, e5⟩
  · obtain ⟨c1, _⟩ := create_loaded_mesh_result w bd ud faceNormal aContext model d loaded d1 h
    refine ⟨c1, fun hs => ?_⟩
    rw [c1]
    exact List.map_congr_left (fun m hm => Nat.mod_eq_of_lt (hs m hm))
  · refine create_loaded_mesh_returns w hw bd ud faceNormal aContext model (fun m hm => ?_) d
    obtain ⟨_, v, e1, _⟩ := h2 m hm
    rw [e1]
    rfl

theorem allOk_uploadSucceeds : World.allOk.UploadSucceeds :=
  ⟨fun _ => rfl, fun _ => rfl⟩

theorem sample_fits : (sampleShapes.map (fun s => s.mesh.indices.length)).sum < 2 ^ 64 := by
  have : (sampleShapes.map (fun s => s.mesh.indices.length)).sum = 12 := rfl
  rw [this]
  norm_num

theorem create_loaded_mesh_face_normals_and_vertex_counts_witness :
    Parsed sampleAttrib sampleShapes sampleMaterials ∧ MaterialsAssigned sampleShapes ∧
    (sampleShapes.map (fun s => s.mesh.indices.length)).sum < 2 ^ 64 ∧
    ∃ model, load_obj_model sampleAttrib sampleShapes sampleMaterials = some model ∧
      (∀ m ∈ model.meshes, m.numberOfVertices % 3 = 0 ∧
        ∃ v, meshVectors sampleFaceNormal model m = some v ∧
          v.positions.length = m.numberOfVertices ∧
          v.surfaceNormals = faceNormalsOf sampleFaceNormal v.positions ∧
          v.surfaceNormals.length = m.numberOfVertices) ∧
      (∀ w bd ud aContext d loaded d1,
        (create_loaded_mesh w bd ud sampleFaceNormal aContext model d).2 = .done loaded d1 →
        loaded.vertexCount = model.meshes.map (fun m => m.numberOfVertices % 2 ^ 32) ∧
        ((∀ m ∈ model.meshes, m.numberOfVertices < 2 ^ 32) →
          loaded.vertexCount = model.meshes.map (fun m => m.numberOfVertices))) ∧
      ∀ w bd ud aContext d, w.UploadSucceeds →
        ∃ loaded d1,
          (create_loaded_mesh w bd ud sampleFaceNormal aContext model d).2 =
            .done loaded d1 :=
  ⟨sample_parsed, sample_materialsAssigned, sample_fits,
    create_loaded_mesh_face_normals_and_vertex_counts sampleAttrib sampleShapes sampleMaterials
      sample_parsed sample_materialsAssigned sample_fits sampleFaceNormal⟩

/-! ### A submesh of more vertices than a `std::uint32_t` counts -/

theorem runs_replicate (a : Int) : ∀ (n : Nat), 0 < n → runs (List.replicate n a) = [(a, n)] := by
  intro n
  induction n with
  | zero => intro h; omega
  | succ k ih =>
    intro _
    rw [List.replicate_succ, runs_cons]
    rcases Nat.eq_zero_or_pos k with rfl | hk
    · rfl
    · rw [ih hk]
      simp

theorem manyFaces_parsed (n : Nat) : Parsed sampleAttrib (manyFaces n) sampleMaterials := by
  intro s hs
  rw [manyFaces, List.mem_singleton] at hs
  subst hs
  refine ⟨fun f hf => List.eq_of_mem_replicate hf, ?_, ?_, fun id hid => ?_, fun i hi => ?_⟩
  · show (List.replicate (3 * n) _).length = 3 * (List.replicate n 3).length
    rw [List.length_replicate, List.length_replicate]
  · show (List.replicate n (0 : Int)).length = (List.replicate n 3).length
    rw [List.length_replicate, List.length_replicate]
  · have hid : id = 0 := List.eq_of_mem_replicate hid
    subst hid
    exact ⟨by decide, by decide, by norm_num⟩
  · have hi : i = { vertex_index := 0, normal_index := 0, texcoord_index := -1 } :=
      List.eq_of_mem_replicate hi
    subst hi
    simp only [index_t.InRange]
    decide

theorem manyFaces_assigned (n : Nat) : MaterialsAssigned (manyFaces n) := by
  intro s hs id hid
  rw [manyFaces, List.mem_singleton] at hs
  subst hs
  have hid : id = 0 := List.eq_of_mem_replicate hid
  omega

theorem manyFaces_total (n : Nat) :
    ((manyFaces n).map (fun s => s.mesh.indices.length)).sum = 3 * n := by
  show (List.replicate (3 * n) _).length + 0 = 3 * n
  rw [List.length_replicate, Nat.add_zero]

/-- A shape of `n` triangles of one material gives one submesh of `3 * n`
vertices, and `create_loaded_mesh` records `3 * n` modulo 2^32 as its vertex
count. -/
theorem manyFaces_vertexCount (n : Nat) (hn : 0 < n) (hfit : 3 * n < 2 ^ 64) :
    ∃ model, load_obj_model sampleAttrib (manyFaces n) sampleMaterials = some model ∧
      model.meshes.map (fun m => m.numberOfVertices) = [3 * n] ∧
      ∃ loaded d1,
        (create_loaded_mesh World.allOk sampleDefaults sampleUpload sampleFaceNormal
          sampleVars.window model Device.initial).2 = .done loaded d1 ∧
        loaded.vertexCount = [3 * n % 2 ^ 32] := by
  obtain ⟨model, h1, _, h3, _, _, _⟩ := load_obj_model_eq sampleAttrib (manyFaces n)
    sampleMaterials (manyFaces_parsed n) (manyFaces_assigned n)
  obtain ⟨model1, g1, g2⟩ := load_obj_model_vectors sampleAttrib (manyFaces n)
    sampleMaterials (manyFaces_parsed n) (manyFaces_assigned n)
    (by rw [manyFaces_total]; exact hfit) sampleFaceNormal
  rw [h1] at g1
  cases g1
  have hc : model.meshes.map (fun m => m.numberOfVertices) = [3 * n] := by
    have e : model.meshes.map (fun m => m.numberOfVertices) =
        (model.meshes.map (fun m => (m.materialIndex, m.numberOfVertices))).map Prod.snd := by
      rw [List.map_map]
      rfl
    rw [e, h3, meshesOfShapes_counts]
    obtain ⟨hN, hM⟩ := parsed_faces (manyFaces_parsed n) _ (List.mem_singleton_self _)
    show (((shapeRuns _).map _ ++ []).map Prod.snd) = _
    rw [shapeRuns_of_faces _ hN hM]
    show ((((runs (List.replicate n (0 : Int))).map _).map _ ++ []).map Prod.snd) = _
    rw [runs_replicate 0 n hn]
    rfl
  obtain ⟨loaded, d1, hd⟩ := create_loaded_mesh_returns World.allOk
    ⟨fun _ => rfl, fun _ => rfl⟩ sampleDefaults sampleUpload sampleFaceNormal sampleVars.window
    model (fun m hm => by obtain ⟨_, v, e1, _⟩ := g2 m hm; rw [e1]; rfl) Device.initial
  obtain ⟨c1, _⟩ := create_loaded_mesh_result _ _ _ _ _ _ _ loaded d1 hd
  refine ⟨model, h1, hc, loaded, d1, hd, ?_⟩
  have e : model.meshes.map (fun m => m.numberOfVertices % 2 ^ 32) =
      (model.meshes.map (fun m => m.numberOfVertices)).map (fun k => k % 2 ^ 32) := by
    rw [List.map_map]
    rfl
  rw [c1, e, hc]
  rfl

/-- C28, where it fails: a shape of 1431655766 triangles of one material gives
one submesh of 4294967298 vertices, and `create_loaded_mesh`, which returns,
records the vertex count 2 for it. -/
theorem vertex_count_of_large_submesh_wraps :
    ∃ model, load_obj_model sampleAttrib (manyFaces 1431655766) sampleMaterials = some model ∧
      model.meshes.map (fun m => m.numberOfVertices) = [4294967298] ∧
      ∃ loaded d1,
        (create_loaded_mesh World.allOk sampleDefaults sampleUpload sampleFaceNormal
          sampleVars.window model Device.initial).2 = .done loaded d1 ∧
        loaded.vertexCount = [2] :=
  manyFaces_vertexCount 1431655766 (by norm_num) (by norm_num)

/-! ### The uploaded mesh and the indices of `record_commands` -/

/-- With its indices in range, `record_commands` ends in no element access
outside a vector. -/
theorem record_commands_in_range (w : World) (bd : BufferBarrierDefaults) (a : RecordArgs)
    (h : a.InBounds) (d : Device) (what : String) :
    (record_commands w bd a d).2 ≠ .fault (.outOfRange what) := by
  by_cases hb : w.result .vkBeginCommandBuffer = VK_SUCCESS
  · rw [record_commands_apply w bd a h hb d]
    by_cases he : w.result .vkEndCommandBuffer = VK_SUCCESS
    · rw [if_pos he]
      intro hc
      cases hc
    · rw [if_neg he]
      intro hc
      cases hc
  · unfold record_commands
    simp only [Exec.bind_eq]
    rw [Exec.bind_fault (call_apply_failure hb _ _ d)]
    intro hc
    cases hc

/-- At a head of the loop of `main`, the arguments of `record_commands` are in
bounds when the uploaded mesh is. -/
theorem uniformsSized_recordInBounds {boot : Boot} {v : MainVars} {d : Device} (w : World)
    (i : Nat) (hu : v.UniformsSized d) (hc : v.carModel = boot.carModel)
    (hl : v.loadedModel = boot.loadedModel) (hm : boot.MeshInBounds) :
    (frameRecordArgs w v i).InBounds := by
  obtain ⟨_, _, _, _, u1, u2, u3, u4⟩ := hu
  obtain ⟨m1, m2, m3, m4, m5, m6, m7⟩ := hm
  obtain ⟨l1, l2⟩ := frameMaterialUniforms_length w v
  refine ⟨?_, ?_, ?_, ?_, ?_, ?_, ?_, ?_, ?_, ?_, ?_⟩
  · show v.materialDescriptors.length ≤ v.materialUBO.length
    omega
  · show v.materialDescriptors.length ≤ (frameMaterialUniforms w v).1.length
    omega
  · show v.materialDescriptors.length ≤ v.materialPBRUBO.length
    omega
  · show v.materialDescriptors.length ≤ (frameMaterialUniforms w v).2.length
    omega
  · show v.loadedModel.positions.length ≤ v.loadedModel.normals.length
    rw [hl]; exact m1
  · show v.loadedModel.positions.length ≤ v.loadedModel.texCorods.length
    rw [hl]; exact m2
  · show v.loadedModel.positions.length ≤ v.loadedModel.colors.length
    rw [hl]; exact m3
  · show v.loadedModel.positions.length ≤ v.loadedModel.surfaceNormals.length
    rw [hl]; exact m4
  · show v.loadedModel.positions.length ≤ v.loadedModel.vertexCount.length
    rw [hl]; exact m5
  · show v.loadedModel.positions.length ≤ v.loadedModel.materialIndex.length
    rw [hl]; exact m6
  · show ∀ j, j < v.loadedModel.positions.length →
      0 ≤ v.loadedModel.materialIndex.getD j 0 ∧
      (v.loadedModel.materialIndex.getD j 0).toNat < v.materialDescriptors.length ∧
      (v.loadedModel.materialIndex.getD j 0).toNat < v.materialPBRDescriptors.length
    rw [hl, u2, u4, hc]
    exact fun j hj => ⟨(m7 j hj).1, (m7 j hj).2, (m7 j hj).2⟩

/-- The mesh `create_loaded_mesh` returns for a loaded model is in bounds. -/
theorem create_loaded_mesh_meshInBounds (attrib : attrib_t) (shapes : List shape_t)
    (materials : List material_t) (hp : Parsed attrib shapes materials)
    (ha : MaterialsAssigned shapes) :
    ∃ model, load_obj_model attrib shapes materials = some model ∧
      model.materials.length = materials.length ∧
      ∀ w bd ud faceNormal aContext d loaded d1,
        (create_loaded_mesh w bd ud faceNormal aContext model d).2 = .done loaded d1 →
        loaded.materialIndex = model.meshes.map (fun m => (m.materialIndex : Int)) ∧
        (∀ x ∈ loaded.materialIndex, 0 ≤ x ∧ x < (model.materials.length : Int)) ∧
        Boot.MeshInBounds { carModel := model, loadedModel := loaded } := by
  obtain ⟨model, h1, h2, _, _, _, h6⟩ := load_obj_model_meshes attrib shapes materials hp ha
  refine ⟨model, h1, h2, fun w bd ud faceNormal aContext d loaded d1 h => ?_⟩
  obtain ⟨_, c2, c3, c4, c5, c6, c7, _⟩ :=
    create_loaded_mesh_result w bd ud faceNormal aContext model d loaded d1 h
  have hc1 := (create_loaded_mesh_result w bd ud faceNormal aContext model d loaded d1 h).1
  have e2 : loaded.materialIndex = model.meshes.map (fun m => (m.materialIndex : Int)) := by
    rw [c2]
    exact List.map_congr_left (fun m hm => toInt32_eq _ (h6 m hm).2.2.1)
  have hx : ∀ x ∈ loaded.materialIndex, 0 ≤ x ∧ x < (model.materials.length : Int) := by
    intro x hx
    rw [e2, List.mem_map] at hx
    obtain ⟨m, hm, rfl⟩ := hx
    have := (h6 m hm).2.1
    omega
  refine ⟨e2, hx, ?_⟩
  have hvc : loaded.vertexCount.length = model.meshes.length := by
    rw [hc1, List.length_map]
  have hmi : loaded.materialIndex.length = model.meshes.length := by
    rw [e2, List.length_map]
  refine ⟨?_, ?_, ?_, ?_, ?_, ?_, fun j hj => ?_⟩
  · show loaded.positions.length ≤ loaded.normals.length
    omega
  · show loaded.positions.length ≤ loaded.texCorods.length
    omega
  · show loaded.positions.length ≤ loaded.colors.length
    omega
  · show loaded.positions.length ≤ loaded.surfaceNormals.length
    omega
  · show loaded.positions.length ≤ loaded.vertexCount.length
    omega
  · show loaded.positions.length ≤ loaded.materialIndex.length
    omega
  · have hj : j < loaded.materialIndex.length := by
      have : j < loaded.positions.length := hj
      omega
    have hmem : loaded.materialIndex.getD j 0 ∈ loaded.materialIndex := by
      rw [List.getD_eq_getElem _ _ hj]
      exact List.getElem_mem _
    obtain ⟨x0, x1⟩ := hx _ hmem
    refine ⟨x0, ?_⟩
    show (loaded.materialIndex.getD j 0).toNat < model.materials.length
    omega

/-- C29: on what `tinyobj::LoadObj` hands over for a file in which every face
has a material of the file (and every vertex a normal), `load_obj_model`
returns a model with one `MaterialInfo` per material of the file, for which
`create_loaded_mesh` returns when the file has fewer than 2^64 indices and every
call of the upload succeeds, and whenever `create_loaded_mesh` returns for it: every entry of `materialIndex` is the
material index of its submesh, not negative and smaller than the number of
materials; the five buffer vectors, `vertexCount` and `materialIndex` have one
entry per submesh; and with this model and this mesh, at every head of the loop
of `main`, for every image index the arguments of `record_commands` are in
bounds and `record_commands` ends in no element access outside a vector. -/
theorem uploaded_mesh_keeps_record_commands_in_bounds (attrib : attrib_t)
    (shapes : List shape_t) (materials : List material_t)
    (hp : Parsed attrib shapes materials) (ha : MaterialsAssigned shapes) :
    ∃ model, load_obj_model attrib shapes materials = some model ∧
      model.materials.length = materials.length ∧
      ((shapes.map (fun s => s.mesh.indices.length)).sum < 2 ^ 64 →
        ∀ w bd ud faceNormal aContext d, w.UploadSucceeds →
          ∃ loaded d1,
            (create_loaded_mesh w bd ud faceNormal aContext model d).2 = .done loaded d1) ∧
      ∀ w bd ud faceNormal aContext d loaded d1,
        (create_loaded_mesh w bd ud faceNormal aContext model d).2 = .done loaded d1 →
        loaded.materialIndex = model.meshes.map (fun m => (m.materialIndex : Int)) ∧
        (∀ x ∈ loaded.materialIndex, 0 ≤ x ∧ x < (model.materials.length : Int)) ∧
        loaded.positions.length = model.meshes.length ∧
        loaded.normals.length = model.meshes.length ∧
        loaded.texCorods.length = model.meshes.length ∧
        loaded.colors.length = model.meshes.length ∧
        loaded.surfaceNormals.length = model.meshes.length ∧
        loaded.vertexCount.length = model.meshes.length ∧
        loaded.materialIndex.length = model.meshes.length ∧
        ∀ w0 d0 bd0 v dd,
          AtLoopHead w0 { carModel := model, loadedModel := loaded } d0 bd0 v dd →
          ∀ w1 bd1 i what,
            (frameRecordArgs w1 v i).InBounds ∧
            (record_commands w1 bd1 (frameRecordArgs w1 v i) dd).2 ≠
              .fault (.outOfRange what) := by
  obtain ⟨model, h1, h2, h3⟩ := create_loaded_mesh_meshInBounds attrib shapes materials hp ha
  refine ⟨model, h1, h2, fun hfit w bd ud faceNormal aContext d hw => ?_,
    fun w bd ud faceNormal aContext d loaded d1 h => ?_⟩
  · obtain ⟨model1, g1, g2⟩ :=
      load_obj_model_vectors attrib shapes materials hp ha hfit faceNormal
    rw [h1] at g1
    cases g1
    refine create_loaded_mesh_returns w hw bd ud faceNormal aContext model (fun m hm => ?_) d
    obtain ⟨_, v, e1, _⟩ := g2 m hm
    rw [e1]
    rfl
  obtain ⟨e2, hx, hm⟩ := h3 w bd ud faceNormal aContext d loaded d1 h
  obtain ⟨c1, _, c3, c4, c5, c6, c7, _⟩ :=
    create_loaded_mesh_result w bd ud faceNormal aContext model d loaded d1 h
  refine ⟨e2, hx, c3, c4, c5, c6, c7, by rw [c1, List.length_map],
    by rw [e2, List.length_map], fun w0 d0 bd0 v dd hat w1 bd1 i what => ?_⟩
  obtain ⟨hu, hc, hl⟩ := atLoopHead_uniformsSized hat
  have hin := uniformsSized_recordInBounds w1 i hu hc hl hm
  exact ⟨hin, record_commands_in_range w1 bd1 _ hin dd what⟩

theorem uploaded_mesh_keeps_record_commands_in_bounds_witness :
    Parsed sampleAttrib sampleShapes sampleMaterials ∧ MaterialsAssigned sampleShapes ∧
    ∃ model, load_obj_model sampleAttrib sampleShapes sampleMaterials = some model ∧
      model.materials.length = sampleMaterials.length ∧
      ((sampleShapes.map (fun s => s.mesh.indices.length)).sum < 2 ^ 64 →
        ∀ w bd ud faceNormal aContext d, w.UploadSucceeds →
          ∃ loaded d1,
            (create_loaded_mesh w bd ud faceNormal aContext model d).2 = .done loaded d1) ∧
      ∀ w bd ud faceNormal aContext d loaded d1,
        (create_loaded_mesh w bd ud faceNormal aContext model d).2 = .done loaded d1 →
        loaded.materialIndex = model.meshes.map (fun m => (m.materialIndex : Int)) ∧
        (∀ x ∈ loaded.materialIndex, 0 ≤ x ∧ x < (model.materials.length : Int)) ∧
        loaded.positions.length = model.meshes.length ∧
        loaded.normals.length = model.meshes.length ∧
        loaded.texCorods.length = model.meshes.length ∧
        loaded.colors.length = model.meshes.length ∧
        loaded.surfaceNormals.length = model.meshes.length ∧
        loaded.vertexCount.length = model.meshes.length ∧
        loaded.materialIndex.length = model.meshes.length ∧
        ∀ w0 d0 bd0 v dd,
          AtLoopHead w0 { carModel := model, loadedModel := loaded } d0 bd0 v dd →
          ∀ w1 bd1 i what,
            (frameRecordArgs w1 v i).InBounds ∧
            (record_commands w1 bd1 (frameRecordArgs w1 v i) dd).2 ≠
              .fault (.outOfRange what) :=
  ⟨sample_parsed, sample_materialsAssigned,
    uploaded_mesh_keeps_record_commands_in_bounds sampleAttrib sampleShapes sampleMaterials
      sample_parsed sample_materialsAssigned⟩

/-! ### The wiring `main` does at start-up -/

theorem sampledView_skip {d d1 : Device} (ws : List VkWriteDescriptorSet) (s : Handle)
    (hw : d1.descriptorWrites = ws ++ d.descriptorWrites) (hs : ∀ wr ∈ ws, wr.dstSet ≠ s) :
    d1.sampledView s = d.sampledView s := by
  have hfind : d1.descriptorWrites.find? (fun wr => wr.dstSet = s ∧ wr.dstBinding = 0) =
      d.descriptorWrites.find? (fun wr => wr.dstSet = s ∧ wr.dstBinding = 0) := by
    rw [hw]
    clear hw
    induction ws with
    | nil => rfl
    | cons x xs ih =>
      have hx := hs x (List.mem_cons_self _ _)
      rw [List.cons_append, List.find?_cons_of_neg _ (by simp [hx])]
      exact ih (fun wr hwr => hs wr (List.mem_cons_of_mem _ hwr))
  unfold Device.sampledView
  rw [hfind]

theorem sampledView_uniform {d : Device} (ws rest : List VkWriteDescriptorSet) (s : Handle)
    (hw : d.descriptorWrites = ws ++ rest)
    (hall : ∀ wr ∈ ws, ∃ set buffer, wr = uniformWrite set buffer)
    (hs : ∃ wr ∈ ws, wr.dstSet = s) : d.sampledView s = none := by
  unfold Device.sampledView
  rw [hw]
  clear hw
  induction ws with
  | nil =>
    obtain ⟨wr, hwr, _⟩ := hs
    simp at hwr
  | cons x xs ih =>
    obtain ⟨set, buffer, rfl⟩ := hall _ (List.mem_cons_self _ _)
    by_cases hx : set = s
    · rw [List.cons_append, List.find?_cons_of_pos _ (by simp [uniformWrite, hx])]
      rfl
    · rw [List.cons_append, List.find?_cons_of_neg _ (by simp [uniformWrite, hx])]
      apply ih (fun wr hwr => hall wr (List.mem_cons_of_mem _ hwr))
      obtain ⟨wr, hwr, hd⟩ := hs
      rcases List.mem_cons.mp hwr with rfl | hwr
      · exact absurd hd hx
      · exact ⟨wr, hwr, hd⟩

theorem sampledView_grows_fresh {d d1 : Device} (s : Handle)
    (hw : ∃ ws, d1.descriptorWrites = ws ++ d.descriptorWrites ∧
      ∀ wr ∈ ws, d.nextHandle ≤ wr.dstSet) (hs : s < d.nextHandle) :
    d1.sampledView s = d.sampledView s := by
  obtain ⟨ws, h1, h2⟩ := hw
  refine sampledView_skip ws s h1 (fun wr hwr hc => ?_)
  have := h2 wr hwr
  rw [hc] at this
  exact absurd hs (Nat.not_lt.2 this)

theorem initTargets_views (r : MainVars × Device) :
    (initTargets r).1.depthBufferView = r.2.nextHandle + 1 ∧
    (initTargets r).1.backBufferView = r.2.nextHandle + 3 ∧
    (initTargets r).1.backFrameBufferView = r.2.nextHandle + 5 ∧
    (initTargets r).1.backBufferViewHorizontal = r.2.nextHandle + 7 ∧
    (initTargets r).1.backBufferViewVertical = r.2.nextHandle + 9 ∧
    (initTargets r).2.nextHandle = r.2.nextHandle + 10 ∧
    (initTargets r).1.window = r.1.window ∧
    (initTargets r).2.descriptorWrites = r.2.descriptorWrites := by
  refine ⟨rfl, ?_, ?_, ?_, ?_, ?_, rfl, ?_⟩ <;>
    simp [initTargets, afterCreateImagePair, Nat.add_assoc]

theorem initSlots_wired (r : MainVars × Device) :
    (initSlots r).1.framebuffers = List.range' r.2.nextHandle r.1.window.swapViews.length ∧
    (∀ i, i < r.1.window.swapViews.length →
      (initSlots r).2.attachments (r.2.nextHandle + i) =
        some [r.1.window.swapViews.getD i 0, r.1.depthBufferView]) ∧
    r.2.nextHandle + r.1.window.swapViews.length ≤ (initSlots r).2.nextHandle ∧
    (initSlots r).1.window = r.1.window ∧
    (initSlots r).1.depthBufferView = r.1.depthBufferView ∧
    (initSlots r).1.backBufferView = r.1.backBufferView ∧
    (initSlots r).1.backFrameBufferView = r.1.backFrameBufferView ∧
    (initSlots r).1.backBufferViewHorizontal = r.1.backBufferViewHorizontal ∧
    (initSlots r).1.backBufferViewVertical = r.1.backBufferViewVertical ∧
    (initSlots r).2.descriptorWrites = r.2.descriptorWrites := by
  refine ⟨rfl, fun i hi => ?_, ?_, rfl, rfl, rfl, rfl, rfl, rfl, ?_⟩
  · have hg : (r.2.allocs ((List.range' 0 r.1.window.swapViews.length).map (fun i =>
        Object.framebuffer (framebufferInfo r.1.window r.1.renderPass
          (r.1.window.swapViews.getD i 0) r.1.depthBufferView)))).Grows (initSlots r).2 := by
      unfold initSlots
      dsimp only
      exact grows_trans (grows_alloc _ _) (grows_trans (grows_allocs _ _)
        (grows_trans (grows_alloc _ _) (grows_trans (grows_alloc _ _) (grows_alloc _ _))))
    rw [attachments_grows hg (by simp; unfold Handle at *; omega)]
    unfold Device.attachments
    rw [object_allocs_new _ r.2 i (.framebuffer (framebufferInfo r.1.window r.1.renderPass
      (r.1.window.swapViews.getD i 0) r.1.depthBufferView))]
    · rfl
    · simp [List.get?_eq_getElem?, hi]
  · simp only [initSlots, nextHandle_alloc, nextHandle_allocs, List.length_map, List.length_range']
    unfold Handle
    omega
  · simp [initSlots]

theorem initWiring_wired (r : MainVars × Device) :
    ((initWiring r).1.backFramebuffer = r.2.nextHandle ∧
      (initWiring r).1.temp_framebuffer = r.2.nextHandle + 1 ∧
      (initWiring r).1.temp_framebuffer_horizontal = r.2.nextHandle + 2 ∧
      (initWiring r).1.temp_framebuffer_vertical = r.2.nextHandle + 3 ∧
      (initWiring r).1.sceneDescriptor = r.2.nextHandle + 5 ∧
      (initWiring r).1.backFrameBufferDescriptor = r.2.nextHandle + 7 ∧
      (initWiring r).1.backBufferDescriptor = r.2.nextHandle + 8 ∧
      (initWiring r).1.backBufferBrightHorizontal = r.2.nextHandle + 9 ∧
      (initWiring r).1.backBufferBrightVertical = r.2.nextHandle + 10 ∧
      (initWiring r).2.nextHandle = r.2.nextHandle + 11) ∧
    ((initWiring r).2.attachments r.2.nextHandle =
        some [r.1.backFrameBufferView, r.1.depthBufferView] ∧
      (initWiring r).2.attachments (r.2.nextHandle + 1) =
        some [r.1.backBufferView, r.1.depthBufferView] ∧
      (initWiring r).2.attachments (r.2.nextHandle + 2) =
        some [r.1.backBufferViewHorizontal, r.1.depthBufferView] ∧
      (initWiring r).2.attachments (r.2.nextHandle + 3) =
        some [r.1.backBufferViewVertical, r.1.depthBufferView]) ∧
    (initWiring r).2.descriptorWrites =
      [textureWrite (r.2.nextHandle + 10) r.1.backBufferViewVertical (r.2.nextHandle + 6),
       textureWrite (r.2.nextHandle + 9) r.1.backBufferViewHorizontal (r.2.nextHandle + 6),
       textureWrite (r.2.nextHandle + 8) r.1.backBufferView (r.2.nextHandle + 6),
       textureWrite (r.2.nextHandle + 7) r.1.backFrameBufferView (r.2.nextHandle + 6)] ++
      (uniformWrite (r.2.nextHandle + 5) (r.2.nextHandle + 4) :: r.2.descriptorWrites) ∧
    ((initWiring r).1.window = r.1.window ∧
      (initWiring r).1.framebuffers = r.1.framebuffers ∧
      (initWiring r).1.depthBufferView = r.1.depthBufferView ∧
      (initWiring r).1.backBufferView = r.1.backBufferView ∧
      (initWiring r).1.backFrameBufferView = r.1.backFrameBufferView ∧
      (initWiring r).1.backBufferViewHorizontal = r.1.backBufferViewHorizontal ∧
      (initWiring r).1.backBufferViewVertical = r.1.backBufferViewVertical) := by
  refine ⟨⟨rfl, ?_, ?_, ?_, ?_, ?_, ?_, ?_, ?_, ?_⟩, ⟨?_, ?_, ?_, ?_⟩, ?_,
    ⟨rfl, rfl, rfl, rfl, rfl, rfl, rfl⟩⟩
  iterate 9 simp [initWiring, Nat.add_assoc]
  iterate 4 simp [initWiring, Device.attachments, object_alloc, framebufferInfo, Nat.add_assoc]
  simp [initWiring, Device.write, Nat.add_assoc]

theorem afterMaterialDescriptors_writes (d : Device) (dpool layout : Handle) (ubos : List Handle)
    (n : Nat) :
    (afterMaterialDescriptors d dpool layout ubos n).descriptorWrites =
      ((List.range' 0 n).map (fun i => uniformWrite (d.nextHandle + i) (ubos.getD i 0))).reverse ++
        d.descriptorWrites := by
  simp [afterMaterialDescriptors, Device.write]

theorem initMaterials_writes (r : MainVars × Device) :
    ∃ ws, (initMaterials r).2.descriptorWrites = ws ++ r.2.descriptorWrites ∧
      (∀ wr ∈ ws, ∃ set buffer, wr = uniformWrite set buffer ∧ r.2.nextHandle ≤ set) ∧
      ∀ s ∈ (initMaterials r).1.materialDescriptors ++ (initMaterials r).1.materialPBRDescriptors,
        r.2.nextHandle ≤ s ∧ ∃ wr ∈ ws, wr.dstSet = s := by
  refine ⟨((List.range' 0 r.1.carModel.materials.length).map (fun i =>
      uniformWrite (r.2.nextHandle + r.1.carModel.materials.length +
        r.1.carModel.materials.length + r.1.carModel.materials.length + i)
        ((List.range' (r.2.nextHandle + r.1.carModel.materials.length +
          r.1.carModel.materials.length) r.1.carModel.materials.length).getD i 0))).reverse ++
    ((List.range' 0 r.1.carModel.materials.length).map (fun i =>
      uniformWrite (r.2.nextHandle + r.1.carModel.materials.length + i)
        ((List.range' r.2.nextHandle r.1.carModel.materials.length).getD i 0))).reverse, ?_, ?_, ?_⟩
  · simp only [initMaterials, afterMaterialDescriptors_writes, nextHandle_allocs,
      afterMaterialDescriptors_nextHandle, descriptorWrites_allocs, List.length_map,
      List.length_range', List.append_assoc]
  · intro wr hwr
    simp only [List.mem_append, List.mem_reverse, List.mem_map, List.mem_range'_1] at hwr
    rcases hwr with ⟨i, _, rfl⟩ | ⟨i, _, rfl⟩
    · exact ⟨_, _, rfl, by unfold Handle; omega⟩
    · exact ⟨_, _, rfl, by unfold Handle; omega⟩
  · intro s hs
    have hs2 : s ∈ List.range' (r.2.nextHandle + r.1.carModel.materials.length)
          r.1.carModel.materials.length ∨
        s ∈ List.range' (r.2.nextHandle + r.1.carModel.materials.length +
          r.1.carModel.materials.length + r.1.carModel.materials.length)
          r.1.carModel.materials.length := by
      simpa [initMaterials, Nat.add_assoc] using hs
    simp only [List.mem_range'_1] at hs2
    rcases hs2 with ⟨h1, h2⟩ | ⟨h1, h2⟩
    · obtain ⟨i, hi, rfl⟩ : ∃ i, i < r.1.carModel.materials.length ∧
          s = r.2.nextHandle + r.1.carModel.materials.length + i :=
        ⟨s - (r.2.nextHandle + r.1.carModel.materials.length), by unfold Handle at *; omega,
          by unfold Handle at *; omega⟩
      refine ⟨by unfold Handle at *; omega,
        uniformWrite (r.2.nextHandle + r.1.carModel.materials.length + i)
          ((List.range' r.2.nextHandle r.1.carModel.materials.length).getD i 0), ?_, rfl⟩
      refine List.mem_append_right _ (List.mem_reverse.2 (List.mem_map.2 ⟨i, ?_, rfl⟩))
      rw [List.mem_range'_1]
      omega
    · obtain ⟨i, hi, rfl⟩ : ∃ i, i < r.1.carModel.materials.length ∧
          s = r.2.nextHandle + r.1.carModel.materials.length + r.1.carModel.materials.length +
            r.1.carModel.materials.length + i :=
        ⟨s - (r.2.nextHandle + r.1.carModel.materials.length + r.1.carModel.materials.length +
          r.1.carModel.materials.length), by unfold Handle at *; omega,
          by unfold Handle at *; omega⟩
      refine ⟨by unfold Handle at *; omega,
        uniformWrite (r.2.nextHandle + r.1.carModel.materials.length +
          r.1.carModel.materials.length + r.1.carModel.materials.length + i)
          ((List.range' (r.2.nextHandle + r.1.carModel.materials.length +
            r.1.carModel.materials.length) r.1.carModel.materials.length).getD i 0), ?_, rfl⟩
      refine List.mem_append_left _ (List.mem_reverse.2 (List.mem_map.2 ⟨i, ?_, rfl⟩))
      rw [List.mem_range'_1]
      omega

theorem initMaterials_keeps (r : MainVars × Device) :
    (initMaterials r).1.window = r.1.window ∧
    (initMaterials r).1.framebuffers = r.1.framebuffers ∧
    (initMaterials r).1.depthBufferView = r.1.depthBufferView ∧
    (initMaterials r).1.backBufferView = r.1.backBufferView ∧
    (initMaterials r).1.backFrameBufferView = r.1.backFrameBufferView ∧
    (initMaterials r).1.backBufferViewHorizontal = r.1.backBufferViewHorizontal ∧
    (initMaterials r).1.backBufferViewVertical = r.1.backBufferViewVertical ∧
    (initMaterials r).1.backFramebuffer = r.1.backFramebuffer ∧
    (initMaterials r).1.temp_framebuffer = r.1.temp_framebuffer ∧
    (initMaterials r).1.temp_framebuffer_horizontal = r.1.temp_framebuffer_horizontal ∧
    (initMaterials r).1.temp_framebuffer_vertical = r.1.temp_framebuffer_vertical ∧
    (initMaterials r).1.sceneDescriptor = r.1.sceneDescriptor ∧
    (initMaterials r).1.backFrameBufferDescriptor = r.1.backFrameBufferDescriptor ∧
    (initMaterials r).1.backBufferDescriptor = r.1.backBufferDescriptor ∧
    (initMaterials r).1.backBufferBrightHorizontal = r.1.backBufferBrightHorizontal ∧
    (initMaterials r).1.backBufferBrightVertical = r.1.backBufferBrightVertical :=
  ⟨rfl, rfl, rfl, rfl, rfl, rfl, rfl, rfl, rfl, rfl, rfl, rfl, rfl, rfl, rfl, rfl⟩

theorem sampledView_of_writes_scene (d : Device) (s1 s2 s3 s4 v1 v2 v3 v4 sampler s buffer : Handle)
    (rest : List VkWriteDescriptorSet)
    (hw : d.descriptorWrites =
      [textureWrite s4 v4 sampler, textureWrite s3 v3 sampler, textureWrite s2 v2 sampler,
       textureWrite s1 v1 sampler] ++ (uniformWrite s buffer :: rest))
    (hs : s ∉ [s1, s2, s3, s4]) :
    d.sampledView s = none := by
  simp only [List.mem_cons, List.mem_singleton, List.not_mem_nil, or_false, not_or] at hs
  obtain ⟨h1, h2, h3, h4⟩ := hs
  have h1b : ¬ s1 = s := fun h => h1 h.symm
  have h2b : ¬ s2 = s := fun h => h2 h.symm
  have h3b : ¬ s3 = s := fun h => h3 h.symm
  have h4b : ¬ s4 = s := fun h => h4 h.symm
  unfold Device.sampledView
  rw [hw]
  simp [textureWrite, uniformWrite, List.find?, h1b, h2b, h3b, h4b]

theorem initWindow_swapViews (w : World) (r : MainVars × Device) :
    (initWindow w r).1.window.swapViews = List.range' (r.2.nextHandle + 5) w.swapImageCount ∧
    (initWindow w r).2.nextHandle = r.2.nextHandle + 5 + w.swapImageCount := by
  constructor
  · simp [initWindow, afterMakeWindow, Nat.add_assoc]
  · simp [initWindow, afterMakeWindow, Nat.add_assoc]

/-- Start-up leaves the wiring in place. -/
theorem afterMainInit_wiringKept (w : World) (boot : Boot) (d : Device) :
    (afterMainInit w boot d).1.WiringKept (afterMainInit w boot d).2 := by
  obtain ⟨sv, n0⟩ := initWindow_swapViews w (MainVars.blank boot, d)
  have g12 : (initWindow w (MainVars.blank boot, d)).2.nextHandle ≤
      (initPipelines w (initLayouts (initWindow w (MainVars.blank boot, d)))).2.nextHandle :=
    Nat.le_trans (initLayouts_grows _).1 (initPipelines_grows w _).1
  obtain ⟨t1, t2, t3, t4, t5, t6, t7, _⟩ :=
    initTargets_views (initPipelines w (initLayouts (initWindow w (MainVars.blank boot, d))))
  obtain ⟨s1, s2, s3, s4, s5, s6, s7, s8, s9, _⟩ := initSlots_wired
    (initTargets (initPipelines w (initLayouts (initWindow w (MainVars.blank boot, d)))))
  obtain ⟨⟨a1, a2, a3, a4, a5, a6, a7, a8, a9, a10⟩, ⟨b1, b2, b3, b4⟩, hw, c1, c2, c3, c4, c5, c6, c7⟩ :=
    initWiring_wired (initSlots
      (initTargets (initPipelines w (initLayouts (initWindow w (MainVars.blank boot, d))))))
  obtain ⟨ws, m1, m2, m3⟩ := initMaterials_writes (initWiring (initSlots
      (initTargets (initPipelines w (initLayouts (initWindow w (MainVars.blank boot, d)))))))
  obtain ⟨k1, k2, k3, k4, k5, k6, k7, k8, k9, k10, k11, k12, k13, k14, k15, k16⟩ :=
    initMaterials_keeps (initWiring (initSlots
      (initTargets (initPipelines w (initLayouts (initWindow w (MainVars.blank boot, d)))))))
  have hg := initMaterials_grows (initWiring (initSlots
      (initTargets (initPipelines w (initLayouts (initWindow w (MainVars.blank boot, d)))))))
  have hgw := initWiring_grows (initSlots
      (initTargets (initPipelines w (initLayouts (initWindow w (MainVars.blank boot, d))))))
  have hwin : (initPipelines w (initLayouts (initWindow w (MainVars.blank boot, d)))).1.window =
      (initWindow w (MainVars.blank boot, d)).1.window := rfl
  generalize hr2 : initPipelines w (initLayouts (initWindow w (MainVars.blank boot, d))) = r2 at *
  generalize hr3 : initTargets r2 = r3 at *
  generalize hr4 : initSlots r3 = r4 at *
  generalize hr5 : initWiring r4 = r5 at *
  have hfin : afterMainInit w boot d = initMaterials r5 := by
    rw [← hr5, ← hr4, ← hr3, ← hr2]
    rfl
  rw [hfin]
  generalize hr6 : initMaterials r5 = r6 at *
  clear hfin hr6 hr5 hr4 hr3 hr2
  have e10 : r5.2.nextHandle = r4.2.nextHandle + 11 := a10
  have e56 : r5.2.nextHandle ≤ r6.2.nextHandle := hg.1
  have e46 : r4.2.nextHandle ≤ r6.2.nextHandle := (grows_trans hgw hg).1
  have e23 : r3.2.nextHandle = r2.2.nextHandle + 10 := t6
  have e34 : r3.2.nextHandle + r3.1.window.swapViews.length ≤ r4.2.nextHandle := s3
  have e02 : d.nextHandle + 5 + w.swapImageCount ≤ r2.2.nextHandle := by
    rw [← n0]
    exact g12
  have hsw : r6.1.window.swapViews = List.range' (d.nextHandle + 5) w.swapImageCount := by
    rw [k1, c1, s4, t7, hwin, sv]
  have hlen : r3.1.window.swapViews.length = w.swapImageCount := by
    rw [t7, hwin, sv, List.length_range']
  clear n0 g12 sv hwin
  unfold Handle at e10 e56 e46 e23 e34 e02
  have hfresh : ∃ ws, r6.2.descriptorWrites = ws ++ r5.2.descriptorWrites ∧
      ∀ wr ∈ ws, r5.2.nextHandle ≤ wr.dstSet := by
    refine ⟨ws, m1, fun wr hwr => ?_⟩
    obtain ⟨set, buffer, rfl, hle⟩ := m2 wr hwr
    exact hle
  have hfour : [r4.2.nextHandle + 7, r4.2.nextHandle + 8, r4.2.nextHandle + 9,
      r4.2.nextHandle + 10].Nodup := by
    simp
  obtain ⟨q1, q2, q3, q4⟩ := sampledView_of_writes r5.2 _ _ _ _ _ _ _ _ _ _ hw hfour
  refine ⟨⟨?_, ?_, ?_, ?_, ?_, ?_, ?_, ?_, ?_, ?_, ?_, ?_⟩, ?_, ?_, ?_⟩
  · rw [k9, a2, k4, c4, k3, c3, attachments_grows hg (by show (_ : Nat) < _; omega)]
    exact b2
  · rw [k10, a3, k6, c6, k3, c3, attachments_grows hg (by show (_ : Nat) < _; omega)]
    exact b3
  · rw [k11, a4, k7, c7, k3, c3, attachments_grows hg (by show (_ : Nat) < _; omega)]
    exact b4
  · rw [k8, a1, k5, c5, k3, c3, attachments_grows hg (by show (_ : Nat) < _; omega)]
    exact b1
  · intro i hi
    rw [k2, c2, s1] at hi ⊢
    rw [List.length_range'] at hi
    rw [List.getD_eq_getElem _ _ (by rw [List.length_range']; exact hi), List.getElem_range'_1,
      k1, c1, s4, k3, c3, s5,
      attachments_grows (grows_trans hgw hg) (by show (_ : Nat) < _; omega)]
    exact s2 i hi
  · rw [k2, c2, s1, List.length_range', k1, c1, s4]
  · rw [k14, a7, k4, c4, sampledView_grows_fresh _ hfresh (by show (_ : Nat) < _; omega)]
    exact q2
  · rw [k15, a8, k6, c6, sampledView_grows_fresh _ hfresh (by show (_ : Nat) < _; omega)]
    exact q3
  · rw [k16, a9, k7, c7, sampledView_grows_fresh _ hfresh (by show (_ : Nat) < _; omega)]
    exact q4
  · rw [k13, a6, k5, c5, sampledView_grows_fresh _ hfresh (by show (_ : Nat) < _; omega)]
    exact q1
  · intro s hs
    rcases List.mem_cons.mp hs with rfl | hs
    · rw [k12, a5, sampledView_grows_fresh _ hfresh (by show (_ : Nat) < _; omega)]
      exact sampledView_of_writes_scene r5.2 _ _ _ _ _ _ _ _ _ _ _ _ hw (by simp)
    · exact sampledView_uniform ws _ s m1
        (fun wr hwr => by obtain ⟨set, buffer, e, _⟩ := m2 wr hwr; exact ⟨set, buffer, e⟩)
        (m3 s hs).2
  · rw [hsw, k4, c4, s6, t2, k6, c6, s8, t4, k7, c7, s9, t5, k5, c5, s7, t3]
    rw [List.nodup_append]
    refine ⟨by simp, List.nodup_range' _ _, fun x hx hy => ?_⟩
    rw [List.mem_range'_1] at hy
    obtain ⟨_, hy2⟩ := hy
    have hx2 : r2.2.nextHandle ≤ x := by
      simp only [List.mem_cons, List.mem_singleton, List.not_mem_nil, or_false] at hx
      rcases hx with rfl | rfl | rfl | rfl <;> exact Nat.le_add_right _ _
    exact absurd (Nat.lt_of_lt_of_le hy2 e02) (Nat.not_lt.2 hx2)
  · rw [k13, a6, k14, a7, k15, a8, k16, a9]
    exact hfour
  · intro s hs
    rw [k13, a6, k14, a7, k15, a8, k16, a9]
    rcases List.mem_cons.mp hs with rfl | hs
    · rw [k12, a5]
      simp
    · have h11 : r4.2.nextHandle + 11 ≤ s := by
        have := (m3 s hs).1
        rw [a10] at this
        exact this
      have hne : ∀ k : Nat, k < 11 → ¬ s = r4.2.nextHandle + k := by
        intro k hk hc
        rw [hc] at h11
        exact absurd (Nat.le_of_add_le_add_left h11) (Nat.not_le.2 hk)
      simp only [List.mem_cons, List.mem_singleton, List.not_mem_nil, or_false, not_or]
      exact ⟨hne 7 (by decide), hne 8 (by decide), hne 9 (by decide), hne 10 (by decide)⟩
  · intro x hx
    rw [k4, c4, s6, t2, k6, c6, s8, t4, k7, c7, s9, t5, k5, c5, s7, t3] at hx
    simp only [List.mem_cons, List.mem_singleton, List.not_mem_nil, or_false] at hx
    have h3 : r2.2.nextHandle + 10 ≤ r6.2.nextHandle := by
      rw [← e23]
      exact Nat.le_trans (Nat.le_trans (Nat.le_add_right _ _) e34) e46
    rcases hx with rfl | rfl | rfl | rfl
    · exact Nat.lt_of_lt_of_le (Nat.add_lt_add_left (by decide) _) h3
    · exact Nat.lt_of_lt_of_le (Nat.add_lt_add_left (by decide) _) h3
    · exact Nat.lt_of_lt_of_le (Nat.add_lt_add_left (by decide) _) h3
    · exact Nat.lt_of_lt_of_le (Nat.add_lt_add_left (by decide) _) h3

theorem afterRebuild_views_below (w : World) (v : MainVars) (d : Device)
    (hlt : ∀ x ∈ [v.backBufferView, v.backBufferViewHorizontal, v.backBufferViewVertical,
      v.backFrameBufferView], x < d.nextHandle) :
    ∀ x ∈ [(afterRebuild w v d).1.backBufferView, (afterRebuild w v d).1.backBufferViewHorizontal,
      (afterRebuild w v d).1.backBufferViewVertical, (afterRebuild w v d).1.backFrameBufferView],
      x < (afterRebuild w v d).2.nextHandle := by
  have hg := (afterRebuild_grows w v d).1
  by_cases hs : (reportedChanges w v).changedSize = true
  · obtain ⟨_, _, _, e3, _, e5, _, e7, _, e9, _⟩ := afterRebuild_changedSize_vars w v d hs
    have h1 := stageTargets_nextHandle w v d
    rw [hs, if_pos rfl] at h1
    have h2 : (stageTargets w v d).2.nextHandle ≤ (afterRebuild w v d).2.nextHandle :=
      (stageTargets_to_end w v d).1
    have h3 : (stageRenderPass w v d).2.nextHandle + 10 ≤ (afterRebuild w v d).2.nextHandle := by
      rw [← h1]
      exact h2
    intro x hx
    rw [e3, e5, e7, e9] at hx
    simp only [List.mem_cons, List.mem_singleton, List.not_mem_nil, or_false] at hx
    unfold Handle at *
    rcases hx with rfl | rfl | rfl | rfl <;> omega
  · have hs2 : (reportedChanges w v).changedSize = false := by simpa using hs
    have hu := afterRebuild_views_unchanged w v d hs2
    simp only [List.cons.injEq, and_true] at hu
    obtain ⟨_, u2, u3, u4, u5⟩ := hu
    intro x hx
    rw [u2, u3, u4, u5] at hx
    simp only [List.mem_cons, List.mem_singleton, List.not_mem_nil, or_false] at hx
    have hx2 : x < d.nextHandle := by
      apply hlt
      simp only [List.mem_cons, List.mem_singleton, List.not_mem_nil, or_false]
      tauto
    exact Nat.lt_of_lt_of_le hx2 hg

/-- A rebuild keeps the wiring. -/
theorem wiringKept_rebuild (w : World) (v : MainVars) (d : Device) (h : v.WiringKept d) :
    (afterRebuild w v d).1.WiringKept (afterRebuild w v d).2 := by
  obtain ⟨hwired, hfour, hother, hlt⟩ := h
  obtain ⟨_, _, _, _, _, _, _, _, _, _, hbuf, hnd⟩ := hwired
  have hviews : [v.backBufferView, v.backBufferViewHorizontal, v.backBufferViewVertical,
      v.backFrameBufferView].Nodup := (List.nodup_append.1 hnd).1
  obtain ⟨_, _, u1, u2, u3, u4, _⟩ := afterRebuild_untouched w v d
  obtain ⟨e1, e2, e3, _⟩ := afterRebuild_frame_vars w v d
  refine ⟨afterRebuild_establishes_wiring w v d hfour (fun s hs => ⟨hbuf s hs, hother s hs⟩)
    hviews hlt, ?_, ?_, afterRebuild_views_below w v d hlt⟩
  · rw [u1, u2, u3, u4]
    exact hfour
  · rw [u1, u2, u3, u4, e1, e2, e3]
    exact hother

/-- At every head of the loop of `main` the wiring done in `main` is in place. -/
theorem atLoopHead_wired {w0 : World} {boot : Boot} {d0 : Device}
    {bd : BufferBarrierDefaults} {v : MainVars} {d : Device}
    (h : AtLoopHead w0 boot d0 bd v d) : v.WiringKept d := by
  induction h with
  | start hs =>
    obtain ⟨rfl, rfl⟩ := main_init_post w0 boot d0 _ _ hs
    exact afterMainInit_wiringKept w0 boot d0
  | @next w v v1 d d1 _ hstep ih =>
    rcases mainLoopBody_post w bd v d v1 d1 hstep with ⟨_, rfl, rfl⟩ | ⟨rfl, rfl | rfl⟩
    · exact wiringKept_rebuild w v d ih
    · exact ih
    · exact ih

/-- C5: at every head of the loop of `main` (the state start-up leaves, and
the state after any number of iterations, rebuilds included), in an iteration
whose acquire succeeds and whose frame reaches recording, the wiring done in
`main` makes the command buffer hold five render pass instances such that: the first and the fourth sample no image view; the
second samples, at set 0, the view the first rendered into; the third samples,
at set 0, the view the second rendered into; the fifth samples, at set 0, the
view the third rendered into and, at set 1, the view the fourth rendered into;
and no instance samples the view it renders into (so every sampled view is the
colour view of an earlier instance of the same command buffer). -/
theorem frame_passes_sample_views_of_earlier_passes (w0 : World) (boot : Boot) (d0 : Device)
    (bd : BufferBarrierDefaults) (v : MainVars) (d : Device)
    (hat : AtLoopHead w0 boot d0 bd v d) (w : World)
    (hflag : v.recreateSwapchain = false)
    (hacq : w.result .vkAcquireNextImageKHR = VK_SUCCESS)
    (hin : v.FrameInBounds w.imageIndex)
    (hw : w.result .vkWaitForFences = VK_SUCCESS) (hr : w.result .vkResetFences = VK_SUCCESS)
    (hb : w.result .vkBeginCommandBuffer = VK_SUCCESS) :
    ∃ (cb : Handle) (p1 p2 p3 p4 p5 : PassInstance) (v1 v2 v3 v4 v5 : Handle),
      v.cbuffers.get? w.imageIndex = some cb ∧
      passInstances none (recorded cb (mainLoopBody w bd v d).1) = some [p1, p2, p3, p4, p5] ∧
      p1.colourView d = some v1 ∧ p2.colourView d = some v2 ∧ p3.colourView d = some v3 ∧
      p4.colourView d = some v4 ∧ p5.colourView d = some v5 ∧
      sampledBy d p1.body = [] ∧ sampledBy d p2.body = [(0, v1)] ∧
      sampledBy d p3.body = [(0, v2)] ∧ sampledBy d p4.body = [] ∧
      sampledBy d p5.body = [(0, v3), (1, v4)] ∧
      v1 ≠ v2 ∧ v2 ≠ v3 ∧ v3 ≠ v5 ∧ v4 ≠ v5 := by
  have hwired : v.Wired d := (atLoopHead_wired hat).1
  have ht : (mainLoopBody w bd v d).1 = iterationHead w v ++ frameEvents w bd v w.imageIndex := by
    rw [mainLoopBody_frame w bd v d hflag hacq, frame_apply w bd v _ d hin hw hr hb]
  have hrec : recorded (v.cbuffers.getD w.imageIndex 0) (mainLoopBody w bd v d).1 =
      expectedCmds bd (frameRecordArgs w v w.imageIndex) := by
    rw [ht, recorded_append, recorded_iterationHead, recorded_frameEvents, List.nil_append]
  have hargs := frameRecordArgs_inBounds w v w.imageIndex hin
  obtain ⟨a1, a2, a3, a4, a5, hlen, s1, s2, s3, s4, hbuf, hnd⟩ := hwired
  have hi3 : w.imageIndex < v.framebuffers.length := hin.2.2.1
  have hcb : v.cbuffers.get? w.imageIndex = some (v.cbuffers.getD w.imageIndex 0) := by
    rw [List.get?_eq_getElem?, List.getD_eq_getElem?_getD, List.getElem?_eq_getElem hin.2.1]
    rfl
  have hscene : d.sampledView (frameRecordArgs w v w.imageIndex).aSceneDesctipror = none :=
    hbuf _ (List.mem_cons_self _ _)
  have hmat : ∀ s ∈ (frameRecordArgs w v w.imageIndex).aMaterialDescriptor,
      d.sampledView s = none :=
    fun s hs => hbuf s (List.mem_cons_of_mem _ (List.mem_append_left _ hs))
  have hpbr : ∀ s ∈ (frameRecordArgs w v w.imageIndex).aMaterialPBRDescriptor,
      d.sampledView s = none :=
    fun s hs => hbuf s (List.mem_cons_of_mem _ (List.mem_append_right _ hs))
  have hview : v.window.swapViews.getD w.imageIndex 0 ∈ v.window.swapViews := by
    rw [List.getD_eq_getElem _ _ (by rw [← hlen]; exact hi3)]
    exact List.getElem_mem _
  rw [List.nodup_append] at hnd
  obtain ⟨hfour, _, hdisj⟩ := hnd
  simp only [List.nodup_cons, List.mem_cons, List.mem_singleton, List.not_mem_nil, or_false,
    not_or, List.nodup_nil, and_true, not_false_eq_true] at hfour
  refine ⟨v.cbuffers.getD w.imageIndex 0,
    { renderPass := (frameRecordArgs w v w.imageIndex).aBackRenderPass,
      framebuffer := (frameRecordArgs w v w.imageIndex).aBackbuffer,
      body := meshPassBody (frameRecordArgs w v w.imageIndex)
        (frameRecordArgs w v w.imageIndex).aFilterPipe },
    { renderPass := (frameRecordArgs w v w.imageIndex).aBackRenderPass,
      framebuffer := (frameRecordArgs w v w.imageIndex).aFilterHorizontalBuffer,
      body := blurPassBody (frameRecordArgs w v w.imageIndex)
        (frameRecordArgs w v w.imageIndex).aHorizontalPipe
        (frameRecordArgs w v w.imageIndex).aBackBufferDescriptor },
    { renderPass := (frameRecordArgs w v w.imageIndex).aBackRenderPass,
      framebuffer := (frameRecordArgs w v w.imageIndex).aFilterVerticalBuffer,
      body := blurPassBody (frameRecordArgs w v w.imageIndex)
        (frameRecordArgs w v w.imageIndex).aVerticalPipe
        (frameRecordArgs w v w.imageIndex).aFilterHorizontalDescriptor },
    { renderPass := (frameRecordArgs w v w.imageIndex).aBackRenderPass,
      framebuffer := (frameRecordArgs w v w.imageIndex).aFrameBackBuffer,
      body := meshPassBody (frameRecordArgs w v w.imageIndex)
        (frameRecordArgs w v w.imageIndex).aGraphicsPipe },
    { renderPass := (frameRecordArgs w v w.imageIndex).aRenderPass,
      framebuffer := (frameRecordArgs w v w.imageIndex).aFramebuffer,
      body := compositePassBody (frameRecordArgs w v w.imageIndex) }, v.backBufferView,
    v.backBufferViewHorizontal, v.backBufferViewVertical, v.backFrameBufferView,
    v.window.swapViews.getD w.imageIndex 0, hcb, ?_, ?_, ?_, ?_, ?_, ?_,
    sampledBy_meshPassBody d _ _ hargs hscene hmat hpbr,
    sampledBy_blurPassBody d _ _ _ _ s1, sampledBy_blurPassBody d _ _ _ _ s2,
    sampledBy_meshPassBody d _ _ hargs hscene hmat hpbr,
    sampledBy_compositePassBody d _ _ _ s3 s4, hfour.1.1, hfour.2.1.1, ?_, ?_⟩
  · rw [hrec]
    exact passInstances_expectedCmds _ _
  · simp only [PassInstance.colourView, frameRecordArgs, recordArgs, a1]
  · simp only [PassInstance.colourView, frameRecordArgs, recordArgs, a2]
  · simp only [PassInstance.colourView, frameRecordArgs, recordArgs, a3]
  · simp only [PassInstance.colourView, frameRecordArgs, recordArgs, a4]
  · simp only [PassInstance.colourView, frameRecordArgs, recordArgs, a5 _ hi3]
  · intro h
    exact hdisj (by simp) (h ▸ hview)
  · intro h
    exact hdisj (by simp) (h ▸ hview)

theorem frame_passes_sample_views_of_earlier_passes_witness :
    AtLoopHead World.allOk sampleBoot Device.initial sampleDefaults
      (afterMainInit World.allOk sampleBoot Device.initial).1
      (afterMainInit World.allOk sampleBoot Device.initial).2 ∧
    (afterMainInit World.allOk sampleBoot Device.initial).1.FrameInBounds World.allOk.imageIndex ∧
    ∃ (cb : Handle) (p1 p2 p3 p4 p5 : PassInstance) (v1 v2 v3 v4 v5 : Handle),
      (afterMainInit World.allOk sampleBoot Device.initial).1.cbuffers.get?
        World.allOk.imageIndex = some cb ∧
      passInstances none (recorded cb (mainLoopBody World.allOk sampleDefaults
        (afterMainInit World.allOk sampleBoot Device.initial).1
        (afterMainInit World.allOk sampleBoot Device.initial).2).1) =
          some [p1, p2, p3, p4, p5] ∧
      p1.colourView (afterMainInit World.allOk sampleBoot Device.initial).2 = some v1 ∧
      p2.colourView (afterMainInit World.allOk sampleBoot Device.initial).2 = some v2 ∧
      p3.colourView (afterMainInit World.allOk sampleBoot Device.initial).2 = some v3 ∧
      p4.colourView (afterMainInit World.allOk sampleBoot Device.initial).2 = some v4 ∧
      p5.colourView (afterMainInit World.allOk sampleBoot Device.initial).2 = some v5 ∧
      sampledBy (afterMainInit World.allOk sampleBoot Device.initial).2 p1.body = [] ∧
      sampledBy (afterMainInit World.allOk sampleBoot Device.initial).2 p2.body = [(0, v1)] ∧
      sampledBy (afterMainInit World.allOk sampleBoot Device.initial).2 p3.body = [(0, v2)] ∧
      sampledBy (afterMainInit World.allOk sampleBoot Device.initial).2 p4.body = [] ∧
      sampledBy (afterMainInit World.allOk sampleBoot Device.initial).2 p5.body =
        [(0, v3), (1, v4)] ∧
      v1 ≠ v2 ∧ v2 ≠ v3 ∧ v3 ≠ v5 ∧ v4 ≠ v5 := by
  have hat : AtLoopHead World.allOk sampleBoot Device.initial sampleDefaults
      (afterMainInit World.allOk sampleBoot Device.initial).1
      (afterMainInit World.allOk sampleBoot Device.initial).2 :=
    AtLoopHead.start (main_init_done World.allOk allOk_creationSucceeds sampleBoot Device.initial)
  have hin : (afterMainInit World.allOk sampleBoot Device.initial).1.FrameInBounds
      World.allOk.imageIndex :=
    afterMainInit_frameInBounds World.allOk sampleBoot Device.initial _ sampleBoot_meshInBounds
      (by decide)
  exact ⟨hat, hin,
    frame_passes_sample_views_of_earlier_passes World.allOk sampleBoot Device.initial
      sampleDefaults _ _ hat World.allOk
      (afterMainInit_materials World.allOk sampleBoot Device.initial).2.2.1 rfl hin rfl rfl rfl⟩

/-- C23, where it fails: a file of one triangle of material 0 whose vertices
have no normal has only triangles and no negative material id, and
`load_obj_model` stops at `assert( objIdx.normal_index >= 0 )` on its first
index: it returns no model, so no `MeshInfo` records that tile anything. -/
theorem load_obj_model_asserts_without_normals :
    (∀ s ∈ triangleNoNormals,
      (∀ faceVerts ∈ s.mesh.num_face_vertices, faceVerts = 3) ∧
      s.mesh.indices.length = 3 * s.mesh.num_face_vertices.length ∧
      ∀ id ∈ s.mesh.material_ids, 0 ≤ id ∧ id < sampleMaterials.length) ∧
    (∀ s ∈ triangleNoNormals, ∀ objIdx ∈ s.mesh.indices, readVertex attribNoNormals objIdx = none) ∧
    load_obj_model attribNoNormals triangleNoNormals sampleMaterials = none := by
  refine ⟨by decide, by decide, by decide⟩

/-- C24, where it fails: a file of two triangles, of material 0 and of material
1, whose vertices have no normal has only triangles and no negative material
id; its material ids have two runs, and `load_obj_model` stops at
`assert( objIdx.normal_index >= 0 )` on its first index: it emits no `MeshInfo`. -/
theorem load_obj_model_emits_nothing_without_normals :
    (∀ s ∈ twoRunsNoNormals,
      (∀ faceVerts ∈ s.mesh.num_face_vertices, faceVerts = 3) ∧
      s.mesh.indices.length = 3 * s.mesh.num_face_vertices.length ∧
      ∀ id ∈ s.mesh.material_ids, 0 ≤ id ∧ id < sampleMaterials.length) ∧
    twoRunsNoNormals.map (fun s => runs s.mesh.material_ids) = [[(0, 1), (1, 1)]] ∧
    load_obj_model attribNoNormals twoRunsNoNormals sampleMaterials = none := by
  refine ⟨by decide, by decide, by decide⟩

end Cw2
